import Mathlib

/-!
# PocketBeagle gateway: the application-server protocol client

A shallow embedding of `example/gateway/appClient/appclient.js`,
`appClient/devices/device.js` and `appClient/nwkinfo/nwkinfo.js`.

Conventions of the embedding

* a Node `Buffer` is a `List Byte`; a `ByteBuffer` (npm package `bytebuffer`,
  little endian, assertions on) is a byte list with a read cursor and a mark;
* a JavaScript exception is a value of `JsError`; a handler returns the client
  state it leaves behind together with the exception it raised, if any, since
  mutations made before a `throw` stay in place;
* `emit` appends to the list `emitted`, `appClient.write` appends to `written`;
* `console.log` and the promise callbacks that feed the telemetry sink
  (`getUserId().then(...)`) run outside the synchronous handler and are not
  part of the model.
-/

namespace Gateway

/-! ## Constants of appclient.js -/

abbrev Byte := Fin 256

def PKT_HEADER_SIZE : Nat := 4
def PKT_HEADER_LEN_FIELD : Nat := 0
def PKT_HEADER_SUBSYS_FIELD : Nat := 2
def PKT_HEADER_CMDID_FIELD : Nat := 3
def APPSRV_SYS_ID_RPC : Nat := 10
def NTW_NOT_STARTED : Nat := 1
def ADDTYPE_SHORT : Nat := 2
def ADDTYPE_EXT : Nat := 3
def STATUS_SUCCESS : Nat := 0

namespace cmdIds
def DEVICE_JOINED_IND : Nat := 0
def DEVICE_LEFT_IND : Nat := 1
def NWK_INFO_IND : Nat := 2
def GET_NWK_INFO_REQ : Nat := 3
def GET_NWK_INFO_RSP : Nat := 4
def GET_NWK_INFO_CNF : Nat := 5
def GET_DEVICE_ARRAY_REQ : Nat := 6
def GET_DEVICE_ARRAY_CNF : Nat := 7
def DEVICE_NOTACTIVE_UPDATE_IND : Nat := 8
def DEVICE_DATA_RX_IND : Nat := 9
def COLLECTOR_STATE_CNG_IND : Nat := 10
def SET_JOIN_PERMIT_REQ : Nat := 11
def SET_JOIN_PERMIT_CNF : Nat := 12
def TX_DATA_REQ : Nat := 13
def TX_DATA_CNF : Nat := 14
def RMV_DEVICE_REQ : Nat := 15
def RMV_DEVICE_RSP : Nat := 16
def DEV_MOVED_IND : Nat := 17
end cmdIds

namespace Smsgs_dataFields
def tempSensor : Nat := 0x0001
def lightSensor : Nat := 0x0002
def humiditySensor : Nat := 0x0004
def msgStats : Nat := 0x0008
def configSettings : Nat := 0x0010
def hallEffectSensor : Nat := 0x0020
def accelSensor : Nat := 0x0040
end Smsgs_dataFields

namespace smgsCmdIds
def CONFIG_REQ : Nat := 1
def CONFIG_RSP : Nat := 2
def TRACKING_REQ : Nat := 3
def TRACKING_RSP : Nat := 4
def SENSOR_DATA : Nat := 5
def TOGGLE_REQ : Nat := 6
def TOGGLE_RSP : Nat := 7
end smgsCmdIds

/-- The JavaScript exceptions the client can raise: `RangeError` comes from a
`ByteBuffer` access outside the buffer, `TypeError` from a property access on
`undefined` or from writing a value that is not an integer. -/
inductive JsError
  | RangeError
  | TypeError
  deriving DecidableEq, Repr

/-! ## The values read from the wire -/

/-- The 32-bit two's complement reading `n | 0` of a natural number. -/
def toInt32 (n : Nat) : Int :=
  if n % 4294967296 < 2147483648 then ((n % 4294967296 : Nat) : Int)
  else ((n % 4294967296 : Nat) : Int) - 4294967296

/-- A `Long` of long.js: the constructor stores `low | 0` and `high | 0`, two
signed 32-bit words. -/
structure Long where
  low : Int
  high : Int
  unsigned : Bool
  deriving DecidableEq, Repr

/-- The string `x.high.toString() + x.low.toString()` that appclient.js
compares to decide whether two extended addresses are the same. -/
def Long.key (x : Long) : String :=
  toString x.high ++ toString x.low

/-- A byte buffer of the `bytebuffer` package: the backing bytes, the read
cursor `offset` and `markedOffset` (`none` stands for -1). -/
structure ByteBuffer where
  buffer : List Byte
  offset : Nat
  markedOffset : Option Nat
  deriving DecidableEq, Repr

namespace ByteBuffer

/-- Allocation `new ByteBuffer(capacity, LITTLE_ENDIAN)`: `capacity` zero bytes. -/
def alloc (capacity : Nat) : ByteBuffer :=
  ⟨List.replicate capacity 0, 0, none⟩

/-- The value of the byte at index `i` (callers check the bound first). -/
def byteAt (bb : ByteBuffer) (i : Nat) : Nat :=
  (bb.buffer.getD i 0).val

/-- Growth of the backing store before a write that ends at `need`:
`resize((capacity *= 2) > need ? capacity : need)` when `need > capacity`. -/
def ensure (buf : List Byte) (need : Nat) : List Byte :=
  if need > buf.length then
    buf ++ List.replicate ((if buf.length * 2 > need then buf.length * 2 else need) - buf.length) 0
  else buf

/-- Overwrite of the bytes at `off ..` by `bs`, after growing the store. -/
def setBytes (buf : List Byte) (off : Nat) (bs : List Byte) : List Byte :=
  let b := ensure buf (off + bs.length)
  b.take off ++ bs ++ b.drop (off + bs.length)

/-- Absolute `append(source, "hex", offset)` with a Node buffer as source: the
encoding is only used for string sources; the bytes are copied to `offset` and
the cursor stays where it is. -/
def append (bb : ByteBuffer) (source : List Byte) (offset : Nat) :
    Except JsError ByteBuffer :=
  if offset > bb.buffer.length then .error .RangeError
  else if source.length = 0 then .ok bb
  else .ok { bb with buffer := setBytes bb.buffer offset source }

/-- Call `mark(offset)`. -/
def mark (bb : ByteBuffer) (offset : Nat) : Except JsError ByteBuffer :=
  if offset > bb.buffer.length then .error .RangeError
  else .ok { bb with markedOffset := some offset }

/-- Call `reset()`: back to the marked offset, or to 0 without a mark. -/
def reset (bb : ByteBuffer) : ByteBuffer :=
  match bb.markedOffset with
  | some m => { bb with offset := m, markedOffset := none }
  | none => { bb with offset := 0 }

/-- Absolute `readUint8(offset)`. -/
def readUint8At (bb : ByteBuffer) (offset : Nat) : Except JsError Nat :=
  if offset + 1 > bb.buffer.length then .error .RangeError
  else .ok (bb.byteAt offset)

/-- Absolute `readUint16(offset)`, little endian. -/
def readUint16At (bb : ByteBuffer) (offset : Nat) : Except JsError Nat :=
  if offset + 2 > bb.buffer.length then .error .RangeError
  else .ok (bb.byteAt offset + 256 * bb.byteAt (offset + 1))

/-- Absolute `readUint32(offset)`, little endian. -/
def readUint32At (bb : ByteBuffer) (offset : Nat) : Except JsError Nat :=
  if offset + 4 > bb.buffer.length then .error .RangeError
  else .ok (bb.byteAt offset + 256 * bb.byteAt (offset + 1)
    + 65536 * bb.byteAt (offset + 2) + 16777216 * bb.byteAt (offset + 3))

/-- Relative `readUint8()`. -/
def readUint8 (bb : ByteBuffer) : Except JsError (Nat × ByteBuffer) :=
  match bb.readUint8At bb.offset with
  | .error e => .error e
  | .ok v => .ok (v, { bb with offset := bb.offset + 1 })

/-- Relative `readInt8()`: a byte with the top bit set is `-(0xFF - value + 1)`. -/
def readInt8 (bb : ByteBuffer) : Except JsError (Int × ByteBuffer) :=
  match bb.readUint8At bb.offset with
  | .error e => .error e
  | .ok v =>
    .ok (if 128 ≤ v then -(((255 - v + 1 : Nat) : Int)) else (v : Int),
      { bb with offset := bb.offset + 1 })

/-- Relative `readUint16()`. -/
def readUint16 (bb : ByteBuffer) : Except JsError (Nat × ByteBuffer) :=
  match bb.readUint16At bb.offset with
  | .error e => .error e
  | .ok v => .ok (v, { bb with offset := bb.offset + 2 })

/-- Relative `readUint32()`. -/
def readUint32 (bb : ByteBuffer) : Except JsError (Nat × ByteBuffer) :=
  match bb.readUint32At bb.offset with
  | .error e => .error e
  | .ok v => .ok (v, { bb with offset := bb.offset + 4 })

/-- Relative `readUint64()`: two little-endian 32-bit words handed to
`new Long(lo, hi, true)`. -/
def readUint64 (bb : ByteBuffer) : Except JsError (Long × ByteBuffer) :=
  if bb.offset + 8 > bb.buffer.length then .error .RangeError
  else
    let lo := bb.byteAt bb.offset + 256 * bb.byteAt (bb.offset + 1)
      + 65536 * bb.byteAt (bb.offset + 2) + 16777216 * bb.byteAt (bb.offset + 3)
    let hi := bb.byteAt (bb.offset + 4) + 256 * bb.byteAt (bb.offset + 5)
      + 65536 * bb.byteAt (bb.offset + 6) + 16777216 * bb.byteAt (bb.offset + 7)
    .ok (⟨toInt32 lo, toInt32 hi, true⟩, { bb with offset := bb.offset + 8 })

/-- Relative `readFloat()`: the four bytes of an IEEE 754 single; the model
keeps the bit pattern (little endian) instead of the floating point value. -/
def readFloat (bb : ByteBuffer) : Except JsError (Nat × ByteBuffer) :=
  match bb.readUint32At bb.offset with
  | .error e => .error e
  | .ok v => .ok (v, { bb with offset := bb.offset + 4 })

/-- The byte `n mod 256`. -/
def toByte (n : Nat) : Byte := ⟨n % 256, Nat.mod_lt _ (by decide)⟩

/-- The unsigned 32-bit reading `value >>> 0` of an integer. -/
def toUint32 (value : Int) : Nat := (value % 4294967296).toNat

/-- Absolute `writeUint8(value, offset)`; the cursor does not move. -/
def writeUint8At (bb : ByteBuffer) (value : Int) (offset : Nat) : Except JsError ByteBuffer :=
  if offset > bb.buffer.length then .error .RangeError
  else .ok { bb with buffer := setBytes bb.buffer offset [toByte (toUint32 value)] }

/-- Absolute `writeShort(value, offset)` (an alias of `writeInt16`): the two low
bytes of `value | 0`, little endian. -/
def writeShortAt (bb : ByteBuffer) (value : Int) (offset : Nat) : Except JsError ByteBuffer :=
  if offset > bb.buffer.length then .error .RangeError
  else .ok { bb with buffer := setBytes bb.buffer offset (
    [toByte (toUint32 value), toByte (toUint32 value / 256)]) }

/-- Absolute `writeUint32(value, offset)`, little endian. -/
def writeUint32At (bb : ByteBuffer) (value : Int) (offset : Nat) : Except JsError ByteBuffer :=
  if offset > bb.buffer.length then .error .RangeError
  else .ok { bb with buffer := setBytes bb.buffer offset (
    [toByte (toUint32 value), toByte (toUint32 value / 256),
     toByte (toUint32 value / 65536), toByte (toUint32 value / 16777216)]) }

/-- Relative `writeUint8(value)`. -/
def writeUint8 (bb : ByteBuffer) (value : Int) : Except JsError ByteBuffer :=
  match bb.writeUint8At value bb.offset with
  | .error e => .error e
  | .ok b => .ok { b with offset := bb.offset + 1 }

/-- Relative `writeUint16(value)`; `none` stands for a value that is not an
integer (`NaN` out of `parseInt`), which the assertion rejects with a
`TypeError`. -/
def writeUint16 (bb : ByteBuffer) (value : Option Int) : Except JsError ByteBuffer :=
  match value with
  | none => .error .TypeError
  | some v =>
    if bb.offset > bb.buffer.length then .error .RangeError
    else .ok { bb with
      buffer := setBytes bb.buffer bb.offset [toByte (toUint32 v), toByte (toUint32 v / 256)],
      offset := bb.offset + 2 }

end ByteBuffer

/-! ## device.js -/

/-- The object `capInfo` built by the handlers from six `readUint8` calls. -/
structure CapInfo where
  panCoord : Nat
  ffd : Nat
  mainsPower : Nat
  rxOnWhenIdle : Nat
  security : Nat
  allocAddr : Nat
  deriving DecidableEq, Repr

/-- What the property `capabilityInfo` of a device can hold: the `capInfo`
object given to the constructor, or the `Long` that `devUpdateInfo` receives
in its second parameter. -/
inductive CapabilityValue
  | capInfo (c : CapInfo)
  | long (x : Long)
  deriving DecidableEq, Repr

structure TemperatureSensor where
  ambienceTemp : Nat
  objectTemp : Nat
  deriving DecidableEq, Repr

structure LightSensor where
  rawData : Nat
  deriving DecidableEq, Repr

structure HumiditySensor where
  temp : Nat
  humidity : Nat
  deriving DecidableEq, Repr

/-- The hall-effect reading; `flux` is the bit pattern of the single. -/
structure HallEffectSensor where
  flux : Nat
  deriving DecidableEq, Repr

/-- A property that holds a number or a string (`pollingInterval`). -/
inductive NumOrStr
  | num (n : Nat)
  | str (s : String)
  deriving DecidableEq, Repr

/-- A device object of device.js; a property that was never assigned is `none`. -/
structure Device where
  shortAddress : Nat
  extAddress : Long
  capabilityInfo : CapabilityValue
  active : String
  temperaturesensor : Option TemperatureSensor
  lightsensor : Option LightSensor
  humiditysensor : Option HumiditySensor
  halleffectsensor : Option HallEffectSensor
  rssi : Option Int
  reportingInterval : Option Nat
  pollingInterval : Option NumOrStr
  deriving DecidableEq, Repr

/-- The object `deviceData` that `appC_processDeviceDataRxIndMsg` fills while
it reads a DEVICE_DATA_RX_IND frame. `msgStats` holds the twenty counters in
the order they are read (joinAttempts, joinFails, ..., interimDelay) and
`configSettings` the pair (reportingInterval, pollingInterval). -/
structure DeviceData where
  addrMode : Nat
  shortAddr : Option Nat
  rssi : Int
  cmdId : Nat
  extAddr : Option Long
  frameControl : Option Nat
  tempSensor : Option TemperatureSensor
  lightSensor : Option LightSensor
  humiditySensor : Option HumiditySensor
  hallEffectSensor : Option HallEffectSensor
  msgStats : Option (List Nat)
  configSettings : Option (Nat × Nat)
  status : Option Nat
  reportingInterval : Option Nat
  pollingInterval : Option Nat
  deriving DecidableEq, Repr

/-- The test `x & bit` of JavaScript, with `undefined & bit = 0`. -/
def hasField (frameControl : Option Nat) (bit : Nat) : Bool :=
  match frameControl with
  | some fc => fc &&& bit != 0
  | none => false

namespace Device

/-- The constructor `Device(shortAddress, extAddress, capabilityInfo)`. -/
def new (shortAddress : Nat) (extAddress : Long) (capabilityInfo : CapInfo) : Device :=
  { shortAddress := shortAddress, extAddress := extAddress,
    capabilityInfo := .capInfo capabilityInfo, active := "true",
    temperaturesensor := none, lightsensor := none, humiditysensor := none,
    halleffectsensor := none, rssi := none, reportingInterval := none,
    pollingInterval := none }

/-- Method `rxSensorData`. A sensor group whose bit is set but whose object
is missing makes the property access throw; the device then keeps what was
assigned so far. -/
def rxSensorData (d : Device) (sensorData : DeviceData) : Except (Device × JsError) Device := do
  let d := { d with active := "true" }
  let d ← if hasField sensorData.frameControl Smsgs_dataFields.tempSensor then
      match sensorData.tempSensor with
      | some t => pure { d with temperaturesensor := some ⟨t.ambienceTemp, t.objectTemp⟩ }
      | none => throw (d, JsError.TypeError)
    else pure d
  let d ← if hasField sensorData.frameControl Smsgs_dataFields.lightSensor then
      match sensorData.lightSensor with
      | some l => pure { d with lightsensor := some ⟨l.rawData⟩ }
      | none => throw (d, JsError.TypeError)
    else pure d
  let d ← if hasField sensorData.frameControl Smsgs_dataFields.humiditySensor then
      match sensorData.humiditySensor with
      | some h => pure { d with humiditysensor := some ⟨h.temp, h.humidity⟩ }
      | none => throw (d, JsError.TypeError)
    else pure d
  let d ← if hasField sensorData.frameControl Smsgs_dataFields.hallEffectSensor then
      match sensorData.hallEffectSensor with
      | some h => pure { d with halleffectsensor := some ⟨h.flux⟩ }
      | none => throw (d, JsError.TypeError)
    else pure d
  pure { d with rssi := some sensorData.rssi }

/-- Method `rxConfigRspInd`. -/
def rxConfigRspInd (device : Device) (devConfigData : DeviceData) : Device :=
  if devConfigData.status = some STATUS_SUCCESS then
    let device := { device with active := "true" }
    let device := if hasField devConfigData.frameControl Smsgs_dataFields.tempSensor then
      { device with temperaturesensor := some ⟨0, 0⟩ } else device
    let device := if hasField devConfigData.frameControl Smsgs_dataFields.lightSensor then
      { device with lightsensor := some ⟨0⟩ } else device
    let device := if hasField devConfigData.frameControl Smsgs_dataFields.humiditySensor then
      { device with humiditysensor := some ⟨0, 0⟩ } else device
    let device := if hasField devConfigData.frameControl Smsgs_dataFields.hallEffectSensor then
      { device with halleffectsensor := some ⟨0⟩ } else device
    let device := { device with reportingInterval := devConfigData.reportingInterval }
    match device.capabilityInfo with
    | .capInfo c =>
      if c.rxOnWhenIdle = 1 then
        { device with pollingInterval := devConfigData.pollingInterval.map NumOrStr.num }
      else { device with pollingInterval := some (.str "always on device") }
    | .long _ => { device with pollingInterval := some (.str "always on device") }
  else device

/-- Method `deviceNotActive`. -/
def deviceNotActive (d : Device) : Device :=
  { d with active := "false" }

/-- Method `devUpdateInfo(shortAddr, capInfo)`: it has two parameters. -/
def devUpdateInfo (d : Device) (shortAddr : Nat) (capInfo : CapabilityValue) : Device :=
  { d with shortAddress := shortAddr, capabilityInfo := capInfo, active := "true" }

end Device

/-! ## nwkinfo.js -/

namespace cllc_states
def initWaiting : Nat := 0
def startingCoordinator : Nat := 1
def initRestoringCoordinator : Nat := 2
def started : Nat := 3
def restored : Nat := 4
def joiningAllowed : Nat := 5
def joiningNotAllowed : Nat := 6
end cllc_states

namespace nwkModes
def BEACON_ENABLED : Nat := 1
def NON_BEACON : Nat := 2
def FREQUENCY_HOPPING : Nat := 3
end nwkModes

structure DevInfo where
  panID : Nat
  shortAddress : Nat
  extAddress : Long
  deriving DecidableEq, Repr

/-- The object `nInfo` that the two network-information handlers build;
`status` is only set by the confirmation handler. -/
structure NetworkInfoMsg where
  status : Option Nat
  devInfo : DevInfo
  channel : Nat
  fh : Nat
  securityEnabled : Nat
  networkMode : Nat
  state : Nat
  deriving DecidableEq, Repr

structure PanCoord where
  panId : Nat
  shortAddress : Nat
  extAddress : Long
  deriving DecidableEq, Repr

/-- What the property `networkMode` can hold: a label (constructor) or the raw
code (`updateNwkInfo`). -/
inductive NetworkModeValue
  | label (s : String)
  | raw (n : Nat)
  deriving DecidableEq, Repr

structure NwkInfo where
  fh : Nat
  channel : Nat
  panCoord : PanCoord
  securityEnabled : Nat
  networkMode : NetworkModeValue
  state : String
  deriving DecidableEq, Repr

namespace NwkInfo

/-- The constructor `NwkInfo(networkInfo)`. -/
def new (networkInfo : NetworkInfoMsg) : NwkInfo :=
  { fh := networkInfo.fh
    channel := networkInfo.channel
    panCoord := ⟨networkInfo.devInfo.panID, networkInfo.devInfo.shortAddress,
      networkInfo.devInfo.extAddress⟩
    securityEnabled := networkInfo.securityEnabled
    networkMode :=
      if networkInfo.networkMode = nwkModes.BEACON_ENABLED then .label "Beacon Enabled"
      else if networkInfo.networkMode = nwkModes.NON_BEACON then .label "Non Beacon"
      else if networkInfo.networkMode = nwkModes.FREQUENCY_HOPPING then .label "Freq Hopping"
      else .label "Unknown Mode"
    state :=
      if networkInfo.state = cllc_states.initWaiting then "waiting"
      else if networkInfo.state = cllc_states.startingCoordinator then "starting"
      else if networkInfo.state = cllc_states.initRestoringCoordinator then "restoring"
      else if networkInfo.state = cllc_states.started
        ∨ networkInfo.state = cllc_states.restored then "started"
      else if networkInfo.state = cllc_states.joiningAllowed then "open"
      else if networkInfo.state = cllc_states.joiningNotAllowed then "close"
      else "unknown" }

/-- Method `updateNwkInfo`. -/
def updateNwkInfo (self : NwkInfo) (networkInfo : NetworkInfoMsg) : NwkInfo :=
  { self with
    fh := networkInfo.fh
    channel := networkInfo.channel
    panCoord := ⟨networkInfo.devInfo.panID, networkInfo.devInfo.shortAddress,
      networkInfo.devInfo.extAddress⟩
    securityEnabled := networkInfo.securityEnabled
    networkMode := .raw networkInfo.networkMode
    state :=
      if networkInfo.state = cllc_states.initWaiting then "waiting"
      else if networkInfo.state = cllc_states.startingCoordinator then "starting"
      else if networkInfo.state = cllc_states.initRestoringCoordinator then "restoring"
      else if networkInfo.state = cllc_states.started
        ∨ networkInfo.state = cllc_states.restored then "started"
      else if networkInfo.state = cllc_states.joiningAllowed then "open"
      else if networkInfo.state = cllc_states.joiningNotAllowed then "close"
      else "unknown" }

/-- Method `updateNwkState`. -/
def updateNwkState (self : NwkInfo) (nState : Nat) : NwkInfo :=
  { self with
    state :=
      if nState = cllc_states.initWaiting then "waiting"
      else if nState = cllc_states.startingCoordinator then "starting"
      else if nState = cllc_states.initRestoringCoordinator then "restoring"
      else if nState = cllc_states.started ∨ nState = cllc_states.restored then "started"
      else if nState = cllc_states.joiningAllowed then "open"
      else if nState = cllc_states.joiningNotAllowed then "close"
      else "unknown" }

end NwkInfo

/-! ## appclient.js: state -/

/-- The events the client emits, with the argument handed to the listeners
(the value of the object at the time of the call). -/
inductive Event
  | nwkInfo
  | connDevInfoUpdate (device : Device)
  | getdevArrayRsp (list : List Device)
  | permitJoinCnf (status : Nat)
  deriving DecidableEq, Repr

/-- The mutable state of the client instance: `self.connectedDeviceList`,
`self.nwkInfo` (`none` is `undefined`), the events emitted so far and the
buffers written to the socket so far. -/
structure AppClient where
  connectedDeviceList : List Device
  nwkInfo : Option NwkInfo
  emitted : List Event
  written : List (List Byte)
  deriving DecidableEq, Repr

/-- The client right after the constructor ran. -/
def AppClient.init : AppClient := ⟨[], none, [], []⟩

/-- How a call ends: the state left behind and the exception raised, if any. -/
structure Outcome where
  st : AppClient
  thrown : Option JsError
  deriving DecidableEq, Repr

def AppClient.emit (self : AppClient) (e : Event) : AppClient :=
  { self with emitted := self.emitted ++ [e] }

def AppClient.write (self : AppClient) (buffer : List Byte) : AppClient :=
  { self with written := self.written ++ [buffer] }

/-! ## appclient.js: device list utility -/

/-- An address argument of `findDeviceIndexFromAddr`: a number or a string;
`.num n` is the Number that the integer `n` denotes (the double nearest to
`n`). -/
inductive JsAddr
  | num (n : Int)
  | str (s : String)
  deriving DecidableEq, Repr

/-- The value of a run of decimal digits. -/
def digitsValue : List Char → Nat → Option Nat
  | [], acc => some acc
  | c :: cs, acc => if c.isDigit then digitsValue cs (acc * 10 + (c.toNat - 48)) else none

/-- The integer that a string made of an optional sign and decimal digits
denotes (the empty string denotes 0); `none` for any other string. It tells
what a serialized extended address reads as; the conversion that `==` applies
to a string is `stringToNumber` below. -/
def stringToInteger (s : String) : Option Int :=
  match s.data with
  | [] => some 0
  | '-' :: c :: cs => (digitsValue (c :: cs) 0).map fun n => -(n : Int)
  | '+' :: c :: cs => (digitsValue (c :: cs) 0).map fun n => (n : Int)
  | cs => (digitsValue cs 0).map fun n => (n : Int)

/-- A Number value as `==` sees it: `NaN`, an infinity, or the finite double
`± mant * 2 ^ exp`. -/
inductive JsNumber
  | nan
  | inf (neg : Bool)
  | fin (neg : Bool) (mant : Nat) (exp : Int)
  deriving DecidableEq, Repr

/-- The comparison `x == y` of two Numbers: `NaN` equals nothing, `+0` equals
`-0`, otherwise the values are compared. -/
def JsNumber.equal : JsNumber → JsNumber → Bool
  | .inf a, .inf b => a == b
  | .fin s m x, .fin t n y =>
    m * 2 ^ (x - min x y).toNat == n * 2 ^ (y - min x y).toNat && (s == t || m == 0)
  | _, _ => false

/-- The position of the highest set bit of `n`, found by halving. -/
def floorLog2Fuel : Nat → Nat → Nat
  | 0, _ => 0
  | fuel + 1, n => if n < 2 then 0 else floorLog2Fuel fuel (n / 2) + 1

/-- The floor of the binary logarithm of `n` (0 for `n = 0`). -/
def floorLog2 (n : Nat) : Nat := floorLog2Fuel n n

/-- The floor of the binary logarithm of `p / q`, for `p` and `q` positive. -/
def floorLog2Ratio (p q : Nat) : Int :=
  if q * 2 ^ ((floorLog2 p : Int) - (floorLog2 q : Int)).toNat
      ≤ p * 2 ^ (-((floorLog2 p : Int) - (floorLog2 q : Int))).toNat then
    (floorLog2 p : Int) - (floorLog2 q : Int)
  else (floorLog2 p : Int) - (floorLog2 q : Int) - 1

/-- The multiple of `2 ^ x` nearest to `p / q`, ties going to the even
multiple; an infinity when that is `2 ^ 1024` or more (the largest finite
double is `(2 ^ 53 - 1) * 2 ^ 971`). -/
def roundAt (neg : Bool) (p q : Nat) (x : Int) : JsNumber :=
  let num := p * 2 ^ (-x).toNat
  let den := q * 2 ^ x.toNat
  let a := if den < 2 * (num % den) ∨ (den = 2 * (num % den) ∧ num / den % 2 = 1) then
    num / den + 1 else num / den
  if 971 < x ∨ (x = 971 ∧ 2 ^ 53 ≤ a) then .inf neg else .fin neg a x

/-- The Number value for the real number `± p / q` (IEEE 754 binary64, round
to nearest, ties to even): 53 significant bits, the unit in the last place
never below `2 ^ -1074`. -/
def roundToDouble (neg : Bool) (p q : Nat) : JsNumber :=
  if p = 0 then .fin neg 0 0
  else roundAt neg p q (max (floorLog2Ratio p q - 52) (-1074))

/-- The Number an integer literal denotes. -/
def numberOf (n : Int) : JsNumber := roundToDouble (decide (n < 0)) n.natAbs 1

/-- The characters `StrWhiteSpaceChar` of ECMAScript: white space and line
terminators. -/
def isStrWhiteSpaceChar (c : Char) : Bool :=
  c.toNat ∈ [0x09, 0x0A, 0x0B, 0x0C, 0x0D, 0x20, 0xA0, 0x1680, 0x2028, 0x2029, 0x202F, 0x205F,
    0x3000, 0xFEFF] || (0x2000 ≤ c.toNat && c.toNat ≤ 0x200A)

/-- The text without its leading and trailing `StrWhiteSpace`. -/
def trimStrWhiteSpace (cs : List Char) : List Char :=
  ((cs.dropWhile isStrWhiteSpaceChar).reverse.dropWhile isStrWhiteSpaceChar).reverse

/-- The value of a hexadecimal digit, `none` for any other character. -/
def radixDigit (c : Char) : Option Nat :=
  if c.isDigit then some (c.toNat - 48)
  else if 97 ≤ c.toNat ∧ c.toNat ≤ 102 then some (c.toNat - 87)
  else if 65 ≤ c.toNat ∧ c.toNat ≤ 70 then some (c.toNat - 55)
  else none

/-- The value of a run of digits of the given radix. -/
def radixDigitsValue (radix : Nat) : List Char → Nat → Option Nat
  | [], acc => some acc
  | c :: cs, acc =>
    match radixDigit c with
    | some d => if d < radix then radixDigitsValue radix cs (acc * radix + d) else none
    | none => none

/-- `NonDecimalIntegerLiteral` after its prefix `0x`, `0o` or `0b`: at least
one digit of the radix. -/
def nonDecimalIntegerLiteral (radix : Nat) (digits : List Char) : JsNumber :=
  if digits = [] then .nan
  else
    match radixDigitsValue radix digits 0 with
    | some m => roundToDouble false m 1
    | none => .nan

/-- `ExponentPart` if present: `e` or `E`, an optional sign and at least one
digit; the empty text is the exponent 0; `none` for any other text. -/
def exponentPart : List Char → Option Int
  | [] => some 0
  | c :: cs =>
    if c = 'e' ∨ c = 'E' then
      match cs with
      | [] => none
      | '+' :: ds => if ds = [] then none else (digitsValue ds 0).map (fun n => (n : Int))
      | '-' :: ds => if ds = [] then none else (digitsValue ds 0).map (fun n => -(n : Int))
      | ds => (digitsValue ds 0).map (fun n => (n : Int))
    else none

/-- The digits after a decimal point, if the text starts with one, and the
text that follows them. -/
def fractionPart : List Char → List Char × List Char
  | '.' :: cs => (cs.takeWhile Char.isDigit, cs.dropWhile Char.isDigit)
  | cs => ([], cs)

/-- `StrUnsignedDecimalLiteral`: `Infinity`, or digits with an optional
fraction and an optional exponent, at least one digit before or after the
point. -/
def strUnsignedDecimalLiteral (neg : Bool) (cs : List Char) : JsNumber :=
  if cs = ['I', 'n', 'f', 'i', 'n', 'i', 't', 'y'] then .inf neg
  else if cs.takeWhile Char.isDigit = [] ∧ (fractionPart (cs.dropWhile Char.isDigit)).1 = [] then
    .nan
  else
    match digitsValue (cs.takeWhile Char.isDigit ++ (fractionPart (cs.dropWhile Char.isDigit)).1) 0,
      exponentPart (fractionPart (cs.dropWhile Char.isDigit)).2 with
    | some m, some e =>
      roundToDouble neg
        (m * 10 ^ (e - ((fractionPart (cs.dropWhile Char.isDigit)).1.length : Int)).toNat)
        (10 ^ (((fractionPart (cs.dropWhile Char.isDigit)).1.length : Int) - e).toNat)
    | _, _ => .nan

/-- `StrDecimalLiteral`: an optional sign and an unsigned decimal literal. -/
def strDecimalLiteral : List Char → JsNumber
  | '+' :: cs => strUnsignedDecimalLiteral false cs
  | '-' :: cs => strUnsignedDecimalLiteral true cs
  | cs => strUnsignedDecimalLiteral false cs

/-- `StrNumericLiteral`: a hexadecimal, octal or binary integer literal
(without sign) or a decimal literal. -/
def strNumericLiteral : List Char → JsNumber
  | '0' :: r :: ds =>
    if r = 'x' ∨ r = 'X' then nonDecimalIntegerLiteral 16 ds
    else if r = 'o' ∨ r = 'O' then nonDecimalIntegerLiteral 8 ds
    else if r = 'b' ∨ r = 'B' then nonDecimalIntegerLiteral 2 ds
    else strDecimalLiteral ('0' :: r :: ds)
  | cs => strDecimalLiteral cs

/-- The conversion `ToNumber` of a string, which `==` applies before it
compares a string with a number: white space around the text is dropped, the
empty text is 0, a `StrNumericLiteral` is its value rounded to a double, and
any other text is `NaN`. -/
def stringToNumber (s : String) : JsNumber :=
  if trimStrWhiteSpace s.data = [] then .fin false 0 0
  else strNumericLiteral (trimStrWhiteSpace s.data)

/-- The comparison `shortAddress == srcAddr`: two Numbers are compared as
Numbers, a string is converted to a Number first. -/
def shortAddrEq (shortAddress : Nat) (srcAddr : JsAddr) : Bool :=
  match srcAddr with
  | .num n => (numberOf shortAddress).equal (numberOf n)
  | .str s => (numberOf shortAddress).equal (stringToNumber s)

/-- The comparison `inarrayExtAdd == srcAddr`: the key string is converted to
a Number when the address is a number, and compared as a string when the
address is a string. -/
def extKeyEq (inarrayExtAdd : String) (srcAddr : JsAddr) : Bool :=
  match srcAddr with
  | .num n => (stringToNumber inarrayExtAdd).equal (numberOf n)
  | .str s => inarrayExtAdd == s

/-- The scan of `findDeviceIndexFromAddr` from index `i` on. -/
def findDeviceIndexFrom (srcAddr : JsAddr) : List Device → Nat → Option Nat
  | [], _ => none
  | d :: ds, i =>
    if shortAddrEq d.shortAddress srcAddr || extKeyEq d.extAddress.key srcAddr then some i
    else findDeviceIndexFrom srcAddr ds (i + 1)

/-- Function `findDeviceIndexFromAddr`; `none` is the result -1. -/
def findDeviceIndexFromAddr (self : AppClient) (srcAddr : JsAddr) : Option Nat :=
  findDeviceIndexFrom srcAddr self.connectedDeviceList 0

/-! ## appclient.js: requests to the app server -/

/-- The header writes shared by the five builders: `writeShort(len, 0)`,
`writeUint8(APPSRV_SYS_ID_RPC, 2)`, `writeUint8(cmd, 3)` on a fresh buffer of
`PKT_HEADER_SIZE + len` bytes. -/
def writeHeader (len : Nat) (cmd : Nat) : Except JsError ByteBuffer := do
  let msg_buf := ByteBuffer.alloc (PKT_HEADER_SIZE + len)
  let msg_buf ← msg_buf.writeShortAt len PKT_HEADER_LEN_FIELD
  let msg_buf ← msg_buf.writeUint8At APPSRV_SYS_ID_RPC PKT_HEADER_SUBSYS_FIELD
  msg_buf.writeUint8At cmd PKT_HEADER_CMDID_FIELD

/-- The call `appClient.write(msg_buf.buffer)` at the end of a builder, or
the exception raised while the buffer was filled. -/
def sendBuilt (self : AppClient) (built : Except JsError ByteBuffer) : Outcome :=
  match built with
  | .ok msg_buf => ⟨self.write msg_buf.buffer, none⟩
  | .error e => ⟨self, some e⟩

/-- The buffer of `appC_getNwkInfoFromAppServer`. -/
def getNwkInfoFrame : Except JsError ByteBuffer :=
  writeHeader 0 cmdIds.GET_NWK_INFO_REQ

def appC_getNwkInfoFromAppServer (self : AppClient) : Outcome :=
  sendBuilt self getNwkInfoFrame

/-- The buffer of `appC_getDevArrayFromAppServer`. -/
def getDevArrayFrame : Except JsError ByteBuffer :=
  writeHeader 0 cmdIds.GET_DEVICE_ARRAY_REQ

def appC_getDevArrayFromAppServer (self : AppClient) : Outcome :=
  sendBuilt self getDevArrayFrame

/-- The buffer of `appC_setJoinPermitAtAppServer`; `action` is `data.action`
when it is a string (`none` for any other value, which is not `"open"`). -/
def setJoinPermitFrame (action : Option String) : Except JsError ByteBuffer := do
  let duration : Int := if action = some "open" then 0xFFFFFFFF else 0x0
  let msg_buf ← writeHeader 4 cmdIds.SET_JOIN_PERMIT_REQ
  msg_buf.writeUint32At duration PKT_HEADER_SIZE

def appC_setJoinPermitAtAppServer (self : AppClient) (action : Option String) : Outcome :=
  sendBuilt self (setJoinPermitFrame action)

/-- The argument of `appC_sendConfigReqToAppServer` and of
`appC_sendToggleLedMsgToAppServer`: `dstAddr` (`none` when the property is
missing) and the results of the three `parseInt` calls (`none` is `NaN`). -/
structure TxRequest where
  dstAddr : Option JsAddr
  pollingInterval : Option Int
  reportingInterval : Option Int
  framecontrol : Option Int
  deriving DecidableEq, Repr

/-- The test `!data.dstAddr`: a missing property, the number 0 and the empty
string are falsy. -/
def dstAddrMissing (dstAddr : Option JsAddr) : Bool :=
  match dstAddr with
  | none => true
  | some (.num n) => n == 0
  | some (.str s) => s == ""

/-- The buffer of `appC_sendConfigReqToAppServer` for the device found. -/
def configReqFrame (shortAddress : Nat) (data : TxRequest) : Except JsError ByteBuffer := do
  let msg_buf ← writeHeader 9 cmdIds.TX_DATA_REQ
  let msg_buf ← msg_buf.mark PKT_HEADER_SIZE
  let msg_buf := msg_buf.reset
  let msg_buf ← msg_buf.writeUint8 smgsCmdIds.CONFIG_REQ
  let msg_buf ← msg_buf.writeUint16 (some shortAddress)
  let msg_buf ← msg_buf.writeUint16 data.pollingInterval
  let msg_buf ← msg_buf.writeUint16 data.reportingInterval
  msg_buf.writeUint16 data.framecontrol

def appC_sendConfigReqToAppServer (self : AppClient) (data : TxRequest) : Outcome :=
  if dstAddrMissing data.dstAddr then ⟨self, none⟩
  else
    match data.dstAddr.bind (findDeviceIndexFromAddr self) with
    | some deviceIdx =>
      match self.connectedDeviceList.get? deviceIdx with
      | some dev => sendBuilt self (configReqFrame dev.shortAddress data)
      | none => ⟨self, some .TypeError⟩
    | none => ⟨self, none⟩

/-- The buffer of `appC_sendToggleLedMsgToAppServer` for the device found. -/
def toggleReqFrame (shortAddress : Nat) : Except JsError ByteBuffer := do
  let msg_buf ← writeHeader 5 cmdIds.TX_DATA_REQ
  let msg_buf ← msg_buf.mark PKT_HEADER_SIZE
  let msg_buf := msg_buf.reset
  let msg_buf ← msg_buf.writeUint8 smgsCmdIds.TOGGLE_REQ
  msg_buf.writeUint16 (some shortAddress)

def appC_sendToggleLedMsgToAppServer (self : AppClient) (data : TxRequest) : Outcome :=
  if dstAddrMissing data.dstAddr then ⟨self, none⟩
  else
    match data.dstAddr.bind (findDeviceIndexFromAddr self) with
    | some deviceIdx =>
      match self.connectedDeviceList.get? deviceIdx with
      | some dev => sendBuilt self (toggleReqFrame dev.shortAddress)
      | none => ⟨self, some .TypeError⟩
    | none => ⟨self, none⟩

/-! ## appclient.js: handlers of incoming messages -/

/-- The opening `data.mark(PKT_HEADER_SIZE); data.reset();` of a handler. -/
def skipHeader (data : ByteBuffer) : Except JsError ByteBuffer := do
  let data ← data.mark PKT_HEADER_SIZE
  pure data.reset

/-- The six capability bytes, read in the order of the source. -/
def readCapInfo (data : ByteBuffer) : Except JsError (CapInfo × ByteBuffer) := do
  let (panCoord, data) ← data.readUint8
  let (ffd, data) ← data.readUint8
  let (mainsPower, data) ← data.readUint8
  let (rxOnWhenIdle, data) ← data.readUint8
  let (security, data) ← data.readUint8
  let (allocAddr, data) ← data.readUint8
  pure (⟨panCoord, ffd, mainsPower, rxOnWhenIdle, security, allocAddr⟩, data)

/-- The reads of `appC_processGetNwkInfoCnf`. -/
def readGetNwkInfoCnf (data : ByteBuffer) : Except JsError NetworkInfoMsg := do
  let data ← skipHeader data
  let (status, data) ← data.readUint8
  let (panID, data) ← data.readUint16
  let (shortAddress, data) ← data.readUint16
  let (extAddress, data) ← data.readUint64
  let (channel, data) ← data.readUint8
  let (fh, data) ← data.readUint8
  let (securityEnabled, data) ← data.readUint8
  let (networkMode, data) ← data.readUint8
  let (state, _) ← data.readUint8
  pure ⟨some status, ⟨panID, shortAddress, extAddress⟩, channel, fh, securityEnabled,
    networkMode, state⟩

/-- The create-or-update step shared by the two network-information handlers,
followed by `emit('nwkInfo')`. -/
def storeNwkInfo (self : AppClient) (nInfo : NetworkInfoMsg) : AppClient :=
  let self :=
    match self.nwkInfo with
    | none => { self with nwkInfo := some (NwkInfo.new nInfo) }
    | some n => { self with nwkInfo := some (n.updateNwkInfo nInfo) }
  self.emit .nwkInfo

def appC_processGetNwkInfoCnf (self : AppClient) (data : ByteBuffer) : Outcome :=
  match readGetNwkInfoCnf data with
  | .error e => ⟨self, some e⟩
  | .ok nInfo =>
    if nInfo.status ≠ some NTW_NOT_STARTED then ⟨self, none⟩
    else appC_getDevArrayFromAppServer (storeNwkInfo self nInfo)

/-- One pass of the loop body of `appC_processGetDevArrayCnf`: the reads and
the constructor call. -/
def readDevArrayEntry (data : ByteBuffer) : Except JsError (Device × ByteBuffer) := do
  let (_, data) ← data.readUint16
  let (shortAddress, data) ← data.readUint16
  let (extendedAddress, data) ← data.readUint64
  let (capInfo, data) ← readCapInfo data
  pure (Device.new shortAddress extendedAddress capInfo, data)

/-- The `for` loop of `appC_processGetDevArrayCnf` with `n` passes left. -/
def devArrayLoop : Nat → ByteBuffer → AppClient → Outcome
  | 0, _, self => ⟨self, none⟩
  | n + 1, data, self =>
    match readDevArrayEntry data with
    | .error e => ⟨self, some e⟩
    | .ok (newDev, data) =>
      devArrayLoop n data
        { self with connectedDeviceList := self.connectedDeviceList ++ [newDev] }

/-- The reads of `appC_processGetDevArrayCnf` before its loop: `status`, `n`. -/
def readDevArrayHead (data : ByteBuffer) : Except JsError (Nat × Nat × ByteBuffer) := do
  let data ← skipHeader data
  let (status, data) ← data.readUint8
  let (n, data) ← data.readUint16
  pure (status, n, data)

def appC_processGetDevArrayCnf (self : AppClient) (data : ByteBuffer) : Outcome :=
  let self := { self with connectedDeviceList := [] }
  match readDevArrayHead data with
  | .error e => ⟨self, some e⟩
  | .ok (_, n, data) =>
    match devArrayLoop n data self with
    | ⟨self, some e⟩ => ⟨self, some e⟩
    | ⟨self, none⟩ => ⟨self.emit (.getdevArrayRsp self.connectedDeviceList), none⟩

/-- The reads of `appC_processNetworkUpdateIndMsg`. -/
def readNetworkUpdateInd (data : ByteBuffer) : Except JsError NetworkInfoMsg := do
  let data ← skipHeader data
  let (panID, data) ← data.readUint16
  let (shortAddress, data) ← data.readUint16
  let (extAddress, data) ← data.readUint64
  let (channel, data) ← data.readUint8
  let (fh, data) ← data.readUint8
  let (securityEnabled, data) ← data.readUint8
  let (networkMode, data) ← data.readUint8
  let (state, _) ← data.readUint8
  pure ⟨none, ⟨panID, shortAddress, extAddress⟩, channel, fh, securityEnabled,
    networkMode, state⟩

def appC_processNetworkUpdateIndMsg (self : AppClient) (data : ByteBuffer) : Outcome :=
  match readNetworkUpdateInd data with
  | .error e => ⟨self, some e⟩
  | .ok nInfo => ⟨storeNwkInfo self nInfo, none⟩

/-- What `appC_processDeviceJoinedIndMsg` reads from its frame. -/
structure DeviceJoinedInd where
  panID : Nat
  shortAddress : Nat
  extendedAddress : Long
  capInfo : CapInfo
  deriving DecidableEq, Repr

/-- The reads of `appC_processDeviceJoinedIndMsg`. -/
def readDeviceJoinedInd (data : ByteBuffer) : Except JsError DeviceJoinedInd := do
  let data ← skipHeader data
  let (panID, data) ← data.readUint16
  let (shortAddress, data) ← data.readUint16
  let (extendedAddress, data) ← data.readUint64
  let (capInfo, _) ← readCapInfo data
  pure ⟨panID, shortAddress, extendedAddress, capInfo⟩

/-- The loop "check if the device already exists": at the first device whose
key string equals that of the new address, the call
`devUpdateInfo(shortAddress, extendedAddress, capInfo)` binds the two
parameters of the method to `shortAddress` and `extendedAddress`. The result
is the new list and the device emitted, or `none` when the loop runs out. -/
def joinScan (shortAddress : Nat) (extendedAddress : Long) :
    List Device → Option (List Device × Device)
  | [] => none
  | d :: ds =>
    if d.extAddress.key = extendedAddress.key then
      some (d.devUpdateInfo shortAddress (.long extendedAddress) :: ds,
        d.devUpdateInfo shortAddress (.long extendedAddress))
    else
      match joinScan shortAddress extendedAddress ds with
      | some (l, u) => some (d :: l, u)
      | none => none

/-- The part of `appC_processDeviceJoinedIndMsg` after the reads. -/
def applyDeviceJoinedInd (self : AppClient) (m : DeviceJoinedInd) : AppClient :=
  match joinScan m.shortAddress m.extendedAddress self.connectedDeviceList with
  | some (l, u) => ({ self with connectedDeviceList := l }).emit (.connDevInfoUpdate u)
  | none =>
    let newDev := Device.new m.shortAddress m.extendedAddress m.capInfo
    ({ self with connectedDeviceList := self.connectedDeviceList ++ [newDev] }).emit
      (.connDevInfoUpdate newDev)

def appC_processDeviceJoinedIndMsg (self : AppClient) (data : ByteBuffer) : Outcome :=
  match readDeviceJoinedInd data with
  | .error e => ⟨self, some e⟩
  | .ok m => ⟨applyDeviceJoinedInd self m, none⟩

/-- What `appC_processDeviceNotActiveIndMsg` reads from its frame. -/
structure InactiveDeviceInfo where
  panID : Nat
  shortAddress : Nat
  extAddress : Long
  timeout : Nat
  deriving DecidableEq, Repr

/-- The reads of `appC_processDeviceNotActiveIndMsg`. -/
def readDeviceNotActiveInd (data : ByteBuffer) : Except JsError InactiveDeviceInfo := do
  let data ← skipHeader data
  let (panID, data) ← data.readUint16
  let (shortAddress, data) ← data.readUint16
  let (extAddress, data) ← data.readUint64
  let (timeout, _) ← data.readUint8
  pure ⟨panID, shortAddress, extAddress, timeout⟩

/-- In-place update of the device at `deviceIdx`, then
`emit('connDevInfoUpdate', self.connectedDeviceList[deviceIdx])`. An index
outside the list would be a property access on `undefined`. -/
def updateDeviceAt (self : AppClient) (deviceIdx : Nat) (f : Device → Device) : Outcome :=
  match self.connectedDeviceList.get? deviceIdx with
  | some dev =>
    ⟨({ self with connectedDeviceList := self.connectedDeviceList.set deviceIdx (f dev) }).emit
      (.connDevInfoUpdate (f dev)), none⟩
  | none => ⟨self, some .TypeError⟩

def appC_processDeviceNotActiveIndMsg (self : AppClient) (data : ByteBuffer) : Outcome :=
  match readDeviceNotActiveInd data with
  | .error e => ⟨self, some e⟩
  | .ok inactivedeviceInfo =>
    match findDeviceIndexFromAddr self (.num inactivedeviceInfo.shortAddress) with
    | some deviceIdx => updateDeviceAt self deviceIdx Device.deviceNotActive
    | none => ⟨self, none⟩

/-- A run of `n` consecutive `readUint16()` calls. -/
def readUint16s : Nat → ByteBuffer → Except JsError (List Nat × ByteBuffer)
  | 0, data => pure ([], data)
  | n + 1, data => do
    let (v, data) ← data.readUint16
    let (vs, data) ← readUint16s n data
    pure (v :: vs, data)

/-- The block "temperature sensor data received". -/
def readTempSensor (frameControl : Nat) (deviceData : DeviceData) (data : ByteBuffer) :
    Except JsError (DeviceData × ByteBuffer) :=
  if frameControl &&& Smsgs_dataFields.tempSensor ≠ 0 then do
    let (ambienceTemp, data) ← data.readUint16
    let (objectTemp, data) ← data.readUint16
    pure ({ deviceData with tempSensor := some ⟨ambienceTemp, objectTemp⟩ }, data)
  else pure (deviceData, data)

/-- The block "light sensor data received". -/
def readLightSensor (frameControl : Nat) (deviceData : DeviceData) (data : ByteBuffer) :
    Except JsError (DeviceData × ByteBuffer) :=
  if frameControl &&& Smsgs_dataFields.lightSensor ≠ 0 then do
    let (rawData, data) ← data.readUint16
    pure ({ deviceData with lightSensor := some ⟨rawData⟩ }, data)
  else pure (deviceData, data)

/-- The block "humidity sensor data received". -/
def readHumiditySensor (frameControl : Nat) (deviceData : DeviceData) (data : ByteBuffer) :
    Except JsError (DeviceData × ByteBuffer) :=
  if frameControl &&& Smsgs_dataFields.humiditySensor ≠ 0 then do
    let (temp, data) ← data.readUint16
    let (humidity, data) ← data.readUint16
    pure ({ deviceData with humiditySensor := some ⟨temp, humidity⟩ }, data)
  else pure (deviceData, data)

/-- The hall-effect block. -/
def readHallEffectSensor (frameControl : Nat) (deviceData : DeviceData) (data : ByteBuffer) :
    Except JsError (DeviceData × ByteBuffer) :=
  if frameControl &&& Smsgs_dataFields.hallEffectSensor ≠ 0 then do
    let (flux, data) ← data.readFloat
    pure ({ deviceData with hallEffectSensor := some ⟨flux⟩ }, data)
  else pure (deviceData, data)

/-- The block "msg stats received". -/
def readMsgStats (frameControl : Nat) (deviceData : DeviceData) (data : ByteBuffer) :
    Except JsError (DeviceData × ByteBuffer) :=
  if frameControl &&& Smsgs_dataFields.msgStats ≠ 0 then do
    let (stats, data) ← readUint16s 20 data
    pure ({ deviceData with msgStats := some stats }, data)
  else pure (deviceData, data)

/-- The block "config settings received". -/
def readConfigSettings (frameControl : Nat) (deviceData : DeviceData) (data : ByteBuffer) :
    Except JsError (DeviceData × ByteBuffer) :=
  if frameControl &&& Smsgs_dataFields.configSettings ≠ 0 then do
    let (reportingInterval, data) ← data.readUint32
    let (pollingInterval, data) ← data.readUint32
    pure ({ deviceData with configSettings := some (reportingInterval, pollingInterval) }, data)
  else pure (deviceData, data)

/-- The reads of the SENSOR_DATA branch of `appC_processDeviceDataRxIndMsg`,
in the order of the source: extAddr, frameControl, then the groups
temperature, light, humidity, hall effect, message statistics, configuration
settings, each only when its bit is set. -/
def readSensorData (data : ByteBuffer) (deviceData : DeviceData) :
    Except JsError (DeviceData × ByteBuffer) := do
  let (extAddr, data) ← data.readUint64
  let (frameControl, data) ← data.readUint16
  let deviceData := { deviceData with extAddr := some extAddr, frameControl := some frameControl }
  let (deviceData, data) ← readTempSensor frameControl deviceData data
  let (deviceData, data) ← readLightSensor frameControl deviceData data
  let (deviceData, data) ← readHumiditySensor frameControl deviceData data
  let (deviceData, data) ← readHallEffectSensor frameControl deviceData data
  let (deviceData, data) ← readMsgStats frameControl deviceData data
  readConfigSettings frameControl deviceData data

/-- The reads of the CONFIG_RSP branch of `appC_processDeviceDataRxIndMsg`. -/
def readConfigRsp (data : ByteBuffer) (deviceData : DeviceData) :
    Except JsError (DeviceData × ByteBuffer) := do
  let (status, data) ← data.readUint16
  let (frameControl, data) ← data.readUint16
  let (reportingInterval, data) ← data.readUint32
  let (pollingInterval, data) ← data.readUint32
  pure ({ deviceData with
    status := some status
    frameControl := some frameControl
    reportingInterval := some reportingInterval
    pollingInterval := some pollingInterval }, data)

/-- The end of the SENSOR_DATA branch: "check to see if device is known",
`rxSensorData` on the device at `deviceIdx` and the device-update event. -/
def deliverSensorData (self : AppClient) (deviceIdx : Option Nat) (deviceData : DeviceData) :
    Outcome :=
  match deviceIdx with
  | some idx =>
    match self.connectedDeviceList.get? idx with
    | some dev =>
      match dev.rxSensorData deviceData with
      | .ok dev' =>
        ⟨({ self with connectedDeviceList := self.connectedDeviceList.set idx dev' }).emit
          (.connDevInfoUpdate dev'), none⟩
      | .error (dev', e) =>
        ⟨{ self with connectedDeviceList := self.connectedDeviceList.set idx dev' }, some e⟩
    | none => ⟨self, some .TypeError⟩
  | none => ⟨self, none⟩

/-- The end of the CONFIG_RSP branch: `rxConfigRspInd` on the device at
`deviceIdx` and the device-update event. -/
def deliverConfigRsp (self : AppClient) (deviceIdx : Option Nat) (deviceData : DeviceData) :
    Outcome :=
  match deviceIdx with
  | some idx => updateDeviceAt self idx (fun dev => dev.rxConfigRspInd deviceData)
  | none => ⟨self, none⟩

/-- The object `deviceData` once `rssi` and `cmdId` are read. -/
def DeviceData.start (addrMode : Nat) (shortAddr : Option Nat) (rssi : Int) (cmdId : Nat) :
    DeviceData :=
  { addrMode := addrMode, shortAddr := shortAddr, rssi := rssi, cmdId := cmdId,
    extAddr := none, frameControl := none, tempSensor := none, lightSensor := none,
    humiditySensor := none, hallEffectSensor := none, msgStats := none,
    configSettings := none, status := none, reportingInterval := none,
    pollingInterval := none }

/-- The part of `appC_processDeviceDataRxIndMsg` after the source address has
been resolved to `deviceIdx` (`none` is -1). -/
def dataRxAfterAddr (self : AppClient) (data : ByteBuffer) (addrMode : Nat)
    (shortAddr : Option Nat) (deviceIdx : Option Nat) : Outcome :=
  match data.readInt8 with
  | .error e => ⟨self, some e⟩
  | .ok (rssi, data) =>
  match data.readUint8 with
  | .error e => ⟨self, some e⟩
  | .ok (cmdId, data) =>
    if cmdId = smgsCmdIds.SENSOR_DATA then
      match readSensorData data (DeviceData.start addrMode shortAddr rssi cmdId) with
      | .error e => ⟨self, some e⟩
      | .ok (deviceData, _) => deliverSensorData self deviceIdx deviceData
    else if cmdId = smgsCmdIds.CONFIG_RSP then
      match readConfigRsp data (DeviceData.start addrMode shortAddr rssi cmdId) with
      | .error e => ⟨self, some e⟩
      | .ok (deviceData, _) => deliverConfigRsp self deviceIdx deviceData
    else ⟨self, none⟩

/-- Handler `appC_processDeviceDataRxIndMsg`. In the extended address mode the
expression `deviceData.srcAddr.extAddr.extAddress.high` reads `high` of the
undefined property `extAddress` of a `Long`, a `TypeError`. -/
def appC_processDeviceDataRxIndMsg (self : AppClient) (data : ByteBuffer) : Outcome :=
  match skipHeader data with
  | .error e => ⟨self, some e⟩
  | .ok data =>
  match data.readUint8 with
  | .error e => ⟨self, some e⟩
  | .ok (addrMode, data) =>
    if addrMode = ADDTYPE_EXT then
      match data.readUint64 with
      | .error e => ⟨self, some e⟩
      | .ok _ => ⟨self, some .TypeError⟩
    else if addrMode = ADDTYPE_SHORT then
      match data.readUint16 with
      | .error e => ⟨self, some e⟩
      | .ok (shortAddr, data) =>
        dataRxAfterAddr self data addrMode (some shortAddr)
          (findDeviceIndexFromAddr self (.num shortAddr))
    else ⟨self, none⟩

/-- Handler `appC_processStateChangeUpdate`: `self.nwkInfo.updateNwkState` is
a property access on `undefined` while no network information exists. -/
def appC_processStateChangeUpdate (self : AppClient) (data : ByteBuffer) : Outcome :=
  match data.readUint8At 4 with
  | .error e => ⟨self, some e⟩
  | .ok nState =>
    match self.nwkInfo with
    | none => ⟨self, some .TypeError⟩
    | some n => ⟨({ self with nwkInfo := some (n.updateNwkState nState) }).emit .nwkInfo, none⟩

def appC_processSetJoinPermitCnf (self : AppClient) (data : ByteBuffer) : Outcome :=
  match data.readUint32At PKT_HEADER_SIZE with
  | .error e => ⟨self, some e⟩
  | .ok cnfStatus => ⟨self.emit (.permitJoinCnf cnfStatus), none⟩

/-! ## appclient.js: the frame loop -/

/-- The `switch (rx_cmd_id)` of `appC_processIncoming`. -/
def dispatch (self : AppClient) (rx_cmd_id : Nat) (rx_pkt_buf : ByteBuffer) : Outcome :=
  if rx_cmd_id = cmdIds.DEVICE_JOINED_IND then appC_processDeviceJoinedIndMsg self rx_pkt_buf
  else if rx_cmd_id = cmdIds.NWK_INFO_IND then appC_processNetworkUpdateIndMsg self rx_pkt_buf
  else if rx_cmd_id = cmdIds.GET_NWK_INFO_CNF then appC_processGetNwkInfoCnf self rx_pkt_buf
  else if rx_cmd_id = cmdIds.GET_DEVICE_ARRAY_CNF then appC_processGetDevArrayCnf self rx_pkt_buf
  else if rx_cmd_id = cmdIds.DEVICE_NOTACTIVE_UPDATE_IND then
    appC_processDeviceNotActiveIndMsg self rx_pkt_buf
  else if rx_cmd_id = cmdIds.DEVICE_DATA_RX_IND then appC_processDeviceDataRxIndMsg self rx_pkt_buf
  else if rx_cmd_id = cmdIds.COLLECTOR_STATE_CNG_IND then
    appC_processStateChangeUpdate self rx_pkt_buf
  else if rx_cmd_id = cmdIds.SET_JOIN_PERMIT_CNF then appC_processSetJoinPermitCnf self rx_pkt_buf
  else if rx_cmd_id = cmdIds.TX_DATA_CNF then ⟨self, none⟩
  else ⟨self, none⟩

/-- The value of `rx_pkt_len` at cursor `dataIdx`: a byte past the end of the
buffer reads as `undefined`, and `undefined << 8` is 0. -/
def rxPktLen (data : List Byte) (dataIdx : Nat) : Nat :=
  (data.getD (dataIdx + PKT_HEADER_LEN_FIELD) 0).val
    + 256 * (data.getD (dataIdx + PKT_HEADER_LEN_FIELD + 1) 0).val + PKT_HEADER_SIZE

/-- The buffer `rx_pkt_buf` built at cursor `dataIdx`: `rx_pkt_len` zero bytes
overwritten from offset 0 by `data.slice(dataIdx, dataIdx + rx_pkt_len)`. -/
def rxPktBuf (data : List Byte) (dataIdx : Nat) : Except JsError ByteBuffer :=
  (ByteBuffer.alloc (rxPktLen data dataIdx)).append
    ((data.drop dataIdx).take (rxPktLen data dataIdx)) 0

/-- The result of a call of `appC_processIncoming`: the state left behind, the
exception that ended the call (if any), the pairs (`rx_cmd_id`, bytes of
`rx_pkt_buf`) that reached the `switch`, in order, and whether the loop ran to
its exit test within the number of steps granted. -/
structure RunResult where
  st : AppClient
  thrown : Option JsError
  dispatched : List (Nat × List Byte)
  finished : Bool
  deriving DecidableEq, Repr

/-- The `while (dataIdx < data.length)` loop with at most `fuel` passes. -/
def processIncomingLoop :
    Nat → List Byte → Nat → AppClient → List (Nat × List Byte) → RunResult
  | 0, data, dataIdx, self, tr => ⟨self, none, tr, decide (¬ dataIdx < data.length)⟩
  | fuel + 1, data, dataIdx, self, tr =>
    if dataIdx < data.length then
      match rxPktBuf data dataIdx with
      | .error e => ⟨self, some e, tr, true⟩
      | .ok rx_pkt_buf =>
        match rx_pkt_buf.readUint8At PKT_HEADER_CMDID_FIELD with
        | .error e => ⟨self, some e, tr, true⟩
        | .ok rx_cmd_id =>
          match dispatch self rx_cmd_id rx_pkt_buf with
          | ⟨self, some e⟩ => ⟨self, some e, tr ++ [(rx_cmd_id, rx_pkt_buf.buffer)], true⟩
          | ⟨self, none⟩ =>
            processIncomingLoop fuel data (dataIdx + rxPktLen data dataIdx) self
              (tr ++ [(rx_cmd_id, rx_pkt_buf.buffer)])
    else ⟨self, none, tr, true⟩

/-- Function `appC_processIncoming`: every pass moves the cursor forward by
at least four, so `data.length` passes are never used up. -/
def appC_processIncoming (self : AppClient) (data : List Byte) : RunResult :=
  processIncomingLoop data.length data 0 self []

/-! ## Notions used to state the properties -/

/-- A well-formed frame: a two-byte little-endian payload length, a subsystem
byte, a command byte, then exactly that many payload bytes. -/
def WellFormedFrame (f : List Byte) : Prop :=
  ∃ (lo hi subsys cmd : Byte) (payload : List Byte),
    f = lo :: hi :: subsys :: cmd :: payload ∧ payload.length = lo.val + 256 * hi.val

/-- The command id of a frame: the byte at offset 3. -/
def frameCmd (f : List Byte) : Nat := (f.getD 3 0).val

/-- Frame-by-frame dispatch of a list of frames, each handed to the `switch`
as a buffer of its own with the command id found at its offset 3; the run ends
at the first handler that raises. -/
def dispatchFrames : AppClient → List (List Byte) → List (Nat × List Byte) → RunResult
  | self, [], tr => ⟨self, none, tr, true⟩
  | self, f :: fs, tr =>
    match dispatch self (frameCmd f) ⟨f, 0, none⟩ with
    | ⟨self, some e⟩ => ⟨self, some e, tr ++ [(frameCmd f, f)], true⟩
    | ⟨self, none⟩ => dispatchFrames self fs (tr ++ [(frameCmd f, f)])

/-- The command ids that have a handler in the `switch` of
`appC_processIncoming` (TX_DATA_CNF has a `case` with an empty body). -/
def handledCmdIds : List Nat :=
  [cmdIds.DEVICE_JOINED_IND, cmdIds.NWK_INFO_IND, cmdIds.GET_NWK_INFO_CNF,
   cmdIds.GET_DEVICE_ARRAY_CNF, cmdIds.DEVICE_NOTACTIVE_UPDATE_IND, cmdIds.DEVICE_DATA_RX_IND,
   cmdIds.COLLECTOR_STATE_CNG_IND, cmdIds.SET_JOIN_PERMIT_CNF]

/-- What the round trip asks of a buffer `w` written by a builder whose
payload length is `len` and whose command id is `cmd`: the frame loop finds
exactly one frame in `w`, the whole of `w`, with that command id; the length
field holds `len`, the subsystem byte is 10 and `w` has `len + 4` bytes. -/
def HeaderRoundTrip (len cmd : Nat) (w : List Byte) : Prop :=
  (∀ self : AppClient, appC_processIncoming self w = ⟨self, none, [(cmd, w)], true⟩)
  ∧ rxPktLen w 0 - PKT_HEADER_SIZE = len
  ∧ (w.getD PKT_HEADER_SUBSYS_FIELD 0).val = APPSRV_SYS_ID_RPC
  ∧ (w.getD PKT_HEADER_CMDID_FIELD 0).val = cmd
  ∧ w.length = len + PKT_HEADER_SIZE

/-- A DEVICE_JOINED_IND frame for the extended address 0x1122334455667788 with
PAN id 0xABCD, the given short address byte and capability byte (used for all
six flags). -/
def joinFrame (short cap : Byte) : List Byte :=
  [18, 0, 10, 0, 0xCD, 0xAB, short, 0, 0x88, 0x77, 0x66, 0x55, 0x44, 0x33, 0x22, 0x11,
   cap, cap, cap, cap, cap, cap]

/-- A DEVICE_JOINED_IND frame whose extended address has the given low bytes
of its low and high words (all other address bytes 0). -/
def joinFrameWords (short low high : Byte) : List Byte :=
  [18, 0, 10, 0, 0xCD, 0xAB, short, 0, low, 0, 0, 0, high, 0, 0, 0, 0, 0, 0, 0, 0, 0]

/-- A GET_DEVICE_ARRAY_CNF frame listing the extended address
0x1122334455667788 twice, with short addresses 5 and 6. -/
def snapshotTwice : List Byte :=
  [39, 0, 10, 7, 0, 2, 0,
   0xCD, 0xAB, 5, 0, 0x88, 0x77, 0x66, 0x55, 0x44, 0x33, 0x22, 0x11, 0, 0, 0, 0, 0, 0,
   0xCD, 0xAB, 6, 0, 0x88, 0x77, 0x66, 0x55, 0x44, 0x33, 0x22, 0x11, 0, 0, 0, 0, 0, 0]

/-- The extended addresses of the registry, in registry order. -/
def AppClient.addrs (self : AppClient) : List Long :=
  self.connectedDeviceList.map (·.extAddress)

/-- What a frame other than the roster snapshot does to the addresses of the
registry: nothing, or one address that was not registered is appended. -/
def AddrsKept (self r : AppClient) : Prop :=
  r.addrs = self.addrs ∨ ∃ e, e ∉ self.addrs ∧ r.addrs = self.addrs ++ [e]

/-- The devices a GET_DEVICE_ARRAY_CNF frame lists, as its handler reads them
(the handler starts from the empty list whatever the registry was). -/
def snapshotDevices (bytes : List Byte) : List Device :=
  (appC_processGetDevArrayCnf AppClient.init ⟨bytes, 0, none⟩).st.connectedDeviceList

/-- A roster snapshot whose entries carry pairwise distinct extended
addresses. -/
def SnapshotDistinct (bytes : List Byte) : Prop :=
  ((snapshotDevices bytes).map (·.extAddress)).Nodup

/-- The successive calls of the `data` callback on the chunks delivered by
the socket: the state after the last chunk and all the pairs (command id,
frame bytes) that reached the `switch`. The run goes on after a call that
raised, which covers every state the client can be in. -/
def processChunks : AppClient → List (List Byte) → AppClient × List (Nat × List Byte)
  | self, [] => (self, [])
  | self, c :: cs =>
    ((processChunks (appC_processIncoming self c).st cs).1,
      (appC_processIncoming self c).dispatched
        ++ (processChunks (appC_processIncoming self c).st cs).2)

instance (bytes : List Byte) : Decidable (SnapshotDistinct bytes) := by
  unfold SnapshotDistinct; infer_instance

/-- A GET_DEVICE_ARRAY_CNF frame listing two devices: short address 5 with
extended address 0x0000000C00000003 and short address 6 with extended address
0x1122334455667788. -/
def snapshotPair : List Byte :=
  [39, 0, 10, 7, 0, 2, 0,
   0xCD, 0xAB, 5, 0, 3, 0, 0, 0, 12, 0, 0, 0, 0, 0, 0, 0, 0, 0,
   0xCD, 0xAB, 6, 0, 0x88, 0x77, 0x66, 0x55, 0x44, 0x33, 0x22, 0x11, 1, 1, 1, 1, 1, 1]

/-- A GET_DEVICE_ARRAY_CNF frame with status 0 and count 0. -/
def snapshotEmpty : List Byte := [3, 0, 10, 7, 0, 0, 0]

/-- The two bytes of a 16-bit value, low byte first. -/
def le16 (n : Nat) : List Byte :=
  [ByteBuffer.toByte n, ByteBuffer.toByte (n / 256)]

/-- The four bytes of a 32-bit value, low byte first. -/
def le32 (n : Nat) : List Byte :=
  [ByteBuffer.toByte n, ByteBuffer.toByte (n / 256), ByteBuffer.toByte (n / 65536),
   ByteBuffer.toByte (n / 16777216)]

/-- The eight bytes of a 64-bit address on the wire: low word, then high
word. -/
def encodeLong (x : Long) : List Byte :=
  le32 (ByteBuffer.toUint32 x.low) ++ le32 (ByteBuffer.toUint32 x.high)

/-- A frame as the wire protocol builds it: payload length, subsystem id,
command id, payload. -/
def encodeFrame (subsys cmd : Byte) (payload : List Byte) : List Byte :=
  le16 payload.length ++ [subsys, cmd] ++ payload

/-- One entry of a roster snapshot as the handler reads it. -/
structure SnapshotEntry where
  panId : Nat
  shortAddress : Nat
  extAddress : Long
  capInfo : CapInfo
  deriving DecidableEq, Repr

/-- The eighteen bytes of a snapshot entry. -/
def SnapshotEntry.encode (e : SnapshotEntry) : List Byte :=
  le16 e.panId ++ le16 e.shortAddress ++ encodeLong e.extAddress
    ++ [ByteBuffer.toByte e.capInfo.panCoord, ByteBuffer.toByte e.capInfo.ffd,
        ByteBuffer.toByte e.capInfo.mainsPower, ByteBuffer.toByte e.capInfo.rxOnWhenIdle,
        ByteBuffer.toByte e.capInfo.security, ByteBuffer.toByte e.capInfo.allocAddr]

/-- A 64-bit unsigned address as `readUint64` returns it: two signed 32-bit
words. -/
def Long.IsUint64 (x : Long) : Prop :=
  -2147483648 ≤ x.low ∧ x.low < 2147483648 ∧ -2147483648 ≤ x.high ∧ x.high < 2147483648
    ∧ x.unsigned = true

/-- The fields of a snapshot entry fit their wire width. -/
def SnapshotEntry.InRange (e : SnapshotEntry) : Prop :=
  e.shortAddress < 65536 ∧ e.extAddress.IsUint64
    ∧ e.capInfo.panCoord < 256 ∧ e.capInfo.ffd < 256 ∧ e.capInfo.mainsPower < 256
    ∧ e.capInfo.rxOnWhenIdle < 256 ∧ e.capInfo.security < 256 ∧ e.capInfo.allocAddr < 256

/-- The payload of a GET_DEVICE_ARRAY_CNF frame: status, count, entries. -/
def snapshotPayload (status : Byte) (entries : List SnapshotEntry) : List Byte :=
  status :: (le16 entries.length ++ (entries.map SnapshotEntry.encode).flatten)

/-- The bytes from the cursor of `bb` on are `r`. -/
def Reads (bb : ByteBuffer) (r : List Byte) : Prop :=
  bb.buffer.drop bb.offset = r

/-- A well-formed GET_DEVICE_ARRAY_CNF frame announcing `entries.length`
devices followed by that many complete entries. -/
def snapshotFrame (subsys status : Byte) (entries : List SnapshotEntry) : List Byte :=
  encodeFrame subsys (ByteBuffer.toByte cmdIds.GET_DEVICE_ARRAY_CNF)
    (snapshotPayload status entries)

/-- The registry a list of snapshot entries stands for. -/
def snapshotRegistry (entries : List SnapshotEntry) : List Device :=
  entries.map (fun e => Device.new e.shortAddress e.extAddress e.capInfo)

/-- The number of bytes the optional groups of a SENSOR_DATA message take
for a given frame control: temperature 4, light 2, humidity 4, hall effect 4,
message statistics 40, configuration settings 8. -/
def sensorGroupsSize (frameControl : Nat) : Nat :=
  (if frameControl &&& Smsgs_dataFields.tempSensor ≠ 0 then 4 else 0)
  + (if frameControl &&& Smsgs_dataFields.lightSensor ≠ 0 then 2 else 0)
  + (if frameControl &&& Smsgs_dataFields.humiditySensor ≠ 0 then 4 else 0)
  + (if frameControl &&& Smsgs_dataFields.hallEffectSensor ≠ 0 then 4 else 0)
  + (if frameControl &&& Smsgs_dataFields.msgStats ≠ 0 then 40 else 0)
  + (if frameControl &&& Smsgs_dataFields.configSettings ≠ 0 then 8 else 0)

/-- The value of the byte at offset `i` of a frame. -/
def frameByte (f : List Byte) (i : Nat) : Nat := (f.getD i 0).val

/-- The number of bytes, counted from the start of the frame, that the
handler of command `rx_cmd_id` reads from the frame `f`. -/
def bytesRead (rx_cmd_id : Nat) (f : List Byte) : Nat :=
  if rx_cmd_id = cmdIds.DEVICE_JOINED_IND then 22
  else if rx_cmd_id = cmdIds.NWK_INFO_IND then 21
  else if rx_cmd_id = cmdIds.GET_NWK_INFO_CNF then 22
  else if rx_cmd_id = cmdIds.GET_DEVICE_ARRAY_CNF then
    7 + 18 * (frameByte f 5 + 256 * frameByte f 6)
  else if rx_cmd_id = cmdIds.DEVICE_NOTACTIVE_UPDATE_IND then 17
  else if rx_cmd_id = cmdIds.DEVICE_DATA_RX_IND then
    if frameByte f 4 = ADDTYPE_SHORT then
      if frameByte f 8 = smgsCmdIds.SENSOR_DATA then
        19 + sensorGroupsSize (frameByte f 17 + 256 * frameByte f 18)
      else if frameByte f 8 = smgsCmdIds.CONFIG_RSP then 21
      else 9
    else 5
  else if rx_cmd_id = cmdIds.COLLECTOR_STATE_CNG_IND then 5
  else if rx_cmd_id = cmdIds.SET_JOIN_PERMIT_CNF then 8
  else 0

/-- A frame that its handler can process: it holds all the bytes the handler
reads; set aside are a COLLECTOR_STATE_CNG_IND while no network information
exists and a DEVICE_DATA_RX_IND in the extended address mode. -/
def FrameSafe (hasNwkInfo : Bool) (rx_cmd_id : Nat) (f : List Byte) : Prop :=
  bytesRead rx_cmd_id f ≤ f.length
  ∧ (rx_cmd_id = cmdIds.COLLECTOR_STATE_CNG_IND → hasNwkInfo = true)
  ∧ (rx_cmd_id = cmdIds.DEVICE_DATA_RX_IND → frameByte f 4 ≠ ADDTYPE_EXT)

instance (hasNwkInfo : Bool) (rx_cmd_id : Nat) (f : List Byte) :
    Decidable (FrameSafe hasNwkInfo rx_cmd_id f) := by
  unfold FrameSafe; infer_instance

/-- A decoded sensor message carries the object of every sensor group whose
bit is set in its frame control. -/
def SensorConsistent (sd : DeviceData) : Prop :=
  (hasField sd.frameControl Smsgs_dataFields.tempSensor = true → sd.tempSensor.isSome = true)
  ∧ (hasField sd.frameControl Smsgs_dataFields.lightSensor = true → sd.lightSensor.isSome = true)
  ∧ (hasField sd.frameControl Smsgs_dataFields.humiditySensor = true
      → sd.humiditySensor.isSome = true)
  ∧ (hasField sd.frameControl Smsgs_dataFields.hallEffectSensor = true
      → sd.hallEffectSensor.isSome = true)

/-- A DEVICE_DATA_RX_IND frame in the short address mode from short address
6: rssi -10, SENSOR_DATA with only the humidity bit set in the frame control
(temperature 16, humidity 55). -/
def humidityFrame : List Byte :=
  [19, 0, 10, 9, 2, 6, 0, 0xF6, 5, 0x88, 0x77, 0x66, 0x55, 0x44, 0x33, 0x22, 0x11, 4, 0,
   0x10, 0x00, 0x37, 0x00]

/-- A DEVICE_DATA_RX_IND frame in the extended address mode with a complete
SENSOR_DATA message (frame control 0). -/
def extModeFrame : List Byte :=
  [21, 0, 10, 9, 3, 0x88, 0x77, 0x66, 0x55, 0x44, 0x33, 0x22, 0x11, 0xF6, 5,
   0x88, 0x77, 0x66, 0x55, 0x44, 0x33, 0x22, 0x11, 0, 0]

/-- The label of a raw collector state code, as the specification lists it. -/
def stateLabel (s : Nat) : String :=
  match s with
  | 0 => "waiting"
  | 1 => "starting"
  | 2 => "restoring"
  | 3 => "started"
  | 4 => "started"
  | 5 => "open"
  | 6 => "close"
  | _ => "unknown"

/-- The seven state labels. -/
def stateLabels : List String :=
  ["waiting", "starting", "restoring", "started", "open", "close", "unknown"]

/-- The label of a raw network mode code, as the specification lists it. -/
def modeLabel (m : Nat) : String :=
  match m with
  | 1 => "Beacon Enabled"
  | 2 => "Non Beacon"
  | 3 => "Freq Hopping"
  | _ => "Unknown Mode"

/-- The little-endian 16-bit value at offset `o` of a frame. -/
def u16At (f : List Byte) (o : Nat) : Nat :=
  frameByte f o + 256 * frameByte f (o + 1)

/-- The 64-bit address at offset `o` of a frame, low word first. -/
def longAt (f : List Byte) (o : Nat) : Long :=
  ⟨toInt32 (frameByte f o + 256 * frameByte f (o + 1) + 65536 * frameByte f (o + 2)
      + 16777216 * frameByte f (o + 3)),
   toInt32 (frameByte f (o + 4) + 256 * frameByte f (o + 5) + 65536 * frameByte f (o + 6)
      + 16777216 * frameByte f (o + 7)), true⟩

/-- A NWK_INFO_IND frame with PAN id 0xABCD, short address 0xAABB, extended
address 0x1122334455667788, channel 11, fh 0, security 1 and the given network
mode and state bytes. -/
def nwkInfoIndFrame (mode state : Byte) : List Byte :=
  [17, 0, 10, 2, 0xCD, 0xAB, 0xBB, 0xAA, 0x88, 0x77, 0x66, 0x55, 0x44, 0x33, 0x22, 0x11,
   11, 0, 1, mode, state]

/-- A GET_NWK_INFO_CNF frame with the given status byte, PAN id 0xABCD, short
address 0xAABB, extended address 0x1122334455667788, channel 11, fh 0,
security 1, network mode 2 and state 3. -/
def nwkInfoCnfFrame (status : Byte) : List Byte :=
  [18, 0, 10, 5, status, 0xCD, 0xAB, 0xBB, 0xAA, 0x88, 0x77, 0x66, 0x55, 0x44, 0x33, 0x22,
   0x11, 11, 0, 1, 2, 3]

/-- The test of `findDeviceIndexFromAddr` on one device: its short address
`==` the address, or its serialized extended address `==` the address. -/
def Device.matchesAddr (d : Device) (a : JsAddr) : Bool :=
  shortAddrEq d.shortAddress a || extKeyEq d.extAddress.key a

/-- A GET_DEVICE_ARRAY_CNF frame listing one device with short address 9 and
extended address 0x0000000000000005 (high word 0, low word 5). -/
def snapshotLowFive : List Byte :=
  [21, 0, 10, 7, 0, 1, 0, 0xCD, 0xAB, 9, 0, 5, 0, 0, 0, 0, 0, 0, 0, 0, 0, 0, 0, 0, 0]

/-- A DEVICE_NOTACTIVE_UPDATE_IND frame for the given short address byte, with
extended address 0 and timeout 30. -/
def notActiveFrame (short : Byte) : List Byte :=
  [13, 0, 10, 8, 0xCD, 0xAB, short, 0, 0, 0, 0, 0, 0, 0, 0, 0, 30]

/-- The device that one pass of the loop of `appC_processGetDevArrayCnf`
builds from the 18 bytes at offset `o` of a frame: two bytes of PAN id, which
it drops, then the short address, the extended address and the six capability
bytes. -/
def snapshotEntryAt (f : List Byte) (o : Nat) : Device :=
  Device.new (u16At f (o + 2)) (longAt f (o + 4))
    ⟨frameByte f (o + 12), frameByte f (o + 13), frameByte f (o + 14), frameByte f (o + 15),
      frameByte f (o + 16), frameByte f (o + 17)⟩

/-- A GET_DEVICE_ARRAY_CNF frame whose single entry is laid out in 16 bytes,
without a PAN id: short address 5, extended address 0x1122334455667788, six
capability bytes. -/
def snapshotSixteen : List Byte :=
  [19, 0, 10, 7, 0, 1, 0, 5, 0, 0x88, 0x77, 0x66, 0x55, 0x44, 0x33, 0x22, 0x11, 0, 0, 0, 0, 0, 0]

/-- The little-endian 32-bit value at offset `o` of a frame. -/
def u32At (f : List Byte) (o : Nat) : Nat :=
  frameByte f o + 256 * frameByte f (o + 1) + 65536 * frameByte f (o + 2)
    + 16777216 * frameByte f (o + 3)

/-- The signed 8-bit value at offset `o` of a frame. -/
def int8At (f : List Byte) (o : Nat) : Int :=
  if 128 ≤ frameByte f o then -(((255 - frameByte f o + 1 : Nat) : Int))
  else (frameByte f o : Int)

/-- The number of bytes a sensor group of `size` bytes takes in a message
with the given frame control: `size` when the bit of the group is set, 0
otherwise. -/
def groupSize (frameControl bit size : Nat) : Nat :=
  if frameControl &&& bit ≠ 0 then size else 0

/-- The object `deviceData` after the SENSOR_DATA branch has read a message
that starts at offset `o` of the frame `f` (extended address at `o`, frame
control at `o + 8`), written out field by field: the groups lie one after
the other from offset `o + 10` on in the order temperature, light, humidity,
hall effect, message statistics, configuration settings, each present only
when its bit is set. -/
def sensorDataAt (f : List Byte) (o : Nat) (dd : DeviceData) : DeviceData :=
  let fc := u16At f (o + 8)
  let oTemp := o + 10
  let oLight := oTemp + groupSize fc Smsgs_dataFields.tempSensor 4
  let oHumidity := oLight + groupSize fc Smsgs_dataFields.lightSensor 2
  let oHall := oHumidity + groupSize fc Smsgs_dataFields.humiditySensor 4
  let oStats := oHall + groupSize fc Smsgs_dataFields.hallEffectSensor 4
  let oConfig := oStats + groupSize fc Smsgs_dataFields.msgStats 40
  { dd with
    extAddr := some (longAt f o)
    frameControl := some fc
    tempSensor :=
      if fc &&& Smsgs_dataFields.tempSensor ≠ 0 then some ⟨u16At f oTemp, u16At f (oTemp + 2)⟩
      else dd.tempSensor
    lightSensor :=
      if fc &&& Smsgs_dataFields.lightSensor ≠ 0 then some ⟨u16At f oLight⟩ else dd.lightSensor
    humiditySensor :=
      if fc &&& Smsgs_dataFields.humiditySensor ≠ 0 then
        some ⟨u16At f oHumidity, u16At f (oHumidity + 2)⟩
      else dd.humiditySensor
    hallEffectSensor :=
      if fc &&& Smsgs_dataFields.hallEffectSensor ≠ 0 then some ⟨u32At f oHall⟩
      else dd.hallEffectSensor
    msgStats :=
      if fc &&& Smsgs_dataFields.msgStats ≠ 0 then
        some ((List.range 20).map (fun i => u16At f (oStats + 2 * i)))
      else dd.msgStats
    configSettings :=
      if fc &&& Smsgs_dataFields.configSettings ≠ 0 then
        some (u32At f oConfig, u32At f (oConfig + 4))
      else dd.configSettings }

/-- The object `deviceData` after the CONFIG_RSP branch has read a message
that starts at offset `o` of the frame `f`: status (16 bits), frame control
(16 bits), reporting interval (32 bits), polling interval (32 bits). -/
def configRspAt (f : List Byte) (o : Nat) (dd : DeviceData) : DeviceData :=
  { dd with
    status := some (u16At f o)
    frameControl := some (u16At f (o + 2))
    reportingInterval := some (u32At f (o + 4))
    pollingInterval := some (u32At f (o + 8)) }

/-- The object `deviceData` of a frame in the short address mode once `rssi`
and `cmdId` are read: address mode at offset 4, short address at 5, rssi at
7, inner command at 8. -/
def dataStartAt (f : List Byte) : DeviceData :=
  DeviceData.start (frameByte f 4) (some (u16At f 5)) (int8At f 7) (frameByte f 8)

/-- A DEVICE_DATA_RX_IND frame in the short address mode from short address
6: rssi -10, SENSOR_DATA with the hall-effect and message-statistics bits set
in the frame control (0x0028), followed by 44 bytes: 1, 0, 0, 0 and then
twenty times 7, 0. -/
def hallStatsFrame : List Byte :=
  [59, 0, 10, 9, 2, 6, 0, 0xF6, 5, 0x88, 0x77, 0x66, 0x55, 0x44, 0x33, 0x22, 0x11, 0x28, 0,
   1, 0, 0, 0,
   7, 0, 7, 0, 7, 0, 7, 0, 7, 0, 7, 0, 7, 0, 7, 0, 7, 0, 7, 0,
   7, 0, 7, 0, 7, 0, 7, 0, 7, 0, 7, 0, 7, 0, 7, 0, 7, 0, 7, 0]

/-- A DEVICE_DATA_RX_IND frame in the short address mode from short address
6: SENSOR_DATA with the humidity and accelerometer bits set in the frame
control (0x0044), followed by the humidity group (16, 55) and six more
bytes. -/
def accelFrame : List Byte :=
  [25, 0, 10, 9, 2, 6, 0, 0xF6, 5, 0x88, 0x77, 0x66, 0x55, 0x44, 0x33, 0x22, 0x11, 0x44, 0,
   0x10, 0x00, 0x37, 0x00, 1, 0, 2, 0, 3, 0]

/-- A DEVICE_DATA_RX_IND frame in the short address mode from the given short
address: rssi -10, CONFIG_RSP with the given status, frame control 0x0005
(temperature and humidity), reporting interval 10000 and polling interval
2000. -/
def configRspFrame (short status : Byte) : List Byte :=
  [17, 0, 10, 9, 2, short, 0, 0xF6, 2, status, 0, 5, 0, 0x10, 0x27, 0, 0, 0xD0, 0x07, 0, 0]

/-- The two bytes `writeUint16` stores for an integer: the low 16 bits of
`value >>> 0`, low byte first. -/
def u16Bytes (value : Int) : List Byte :=
  [ByteBuffer.toByte (ByteBuffer.toUint32 value), ByteBuffer.toByte (ByteBuffer.toUint32 value / 256)]

/-- A request for the device with short address 6 with polling interval 2000,
reporting interval 1000 and frame control 1. -/
def configRequestSix : TxRequest := ⟨some (.num 6), some 2000, some 1000, some 1⟩

/-- A request for the device with short address 6 whose `pollingInterval`
does not parse (`parseInt` gives `NaN`). -/
def configRequestNaN : TxRequest := ⟨some (.num 6), none, some 1000, some 1⟩

/-- Timeout in ms to attempt to reconnect to the app server. -/
def APP_CLIENT_RECONNECT_TIMEOUT : Nat := 5000

/-- The callback handed to `appClient.connect` by the constructor: it
requests the network information. -/
def connectCallback (self : AppClient) : Outcome :=
  appC_getNwkInfoFromAppServer self

/-- The callback handed to `appClient.connect` by the reconnect timer: it
requests the network information again. -/
def reconnectCallback (self : AppClient) : Outcome :=
  appC_getNwkInfoFromAppServer self

/-- The part of the instance the reconnect logic works on: the property
`clientReconnectTimer` (`none` is `undefined`, `some id` the handle returned
by `setTimeout`), the timers waiting in the timer queue with their delay, the
handle the next `setTimeout` returns, and the number of calls of
`appClient.connect` made by timer callbacks so far. -/
structure Connection where
  clientReconnectTimer : Option Nat
  timers : List (Nat × Nat)
  nextTimerId : Nat
  reconnectAttempts : Nat
  deriving DecidableEq, Repr

/-- The connection right after the constructor ran: no timer. -/
def Connection.init : Connection := ⟨none, [], 0, 0⟩

/-- Function `appClientReconnect`: a timer is started only while
`clientReconnectTimer` is undefined. -/
def appClientReconnect (c : Connection) : Connection :=
  match c.clientReconnectTimer with
  | none =>
    { c with
      clientReconnectTimer := some c.nextTimerId
      timers := c.timers ++ [(c.nextTimerId, APP_CLIENT_RECONNECT_TIMEOUT)]
      nextTimerId := c.nextTimerId + 1 }
  | some _ => c

/-- The function handed to `setTimeout`: `appClient.destroy()`, one call of
`appClient.connect`, `clearTimeout(clientReconnectTimer)` (a timer with that
handle leaves the queue) and `delete clientReconnectTimer`. -/
def reconnectTimerCallback (c : Connection) : Connection :=
  { c with
    reconnectAttempts := c.reconnectAttempts + 1
    timers := c.timers.filter (fun t => some t.1 != c.clientReconnectTimer)
    clientReconnectTimer := none }

/-- What happens to the connection: the socket emits `error`, or the timer
with the given handle fires. -/
inductive ConnEvent
  | error
  | timerFires (id : Nat)
  deriving DecidableEq, Repr

/-- One step. The `error` listener calls `appClientReconnect`. A timer fires
only if it waits in the queue; it leaves the queue and its callback runs. -/
def Connection.step (c : Connection) : ConnEvent → Option Connection
  | .error => some (appClientReconnect c)
  | .timerFires id =>
    if c.timers.any (fun t => t.1 == id) then
      some (reconnectTimerCallback { c with timers := c.timers.filter (fun t => t.1 != id) })
    else none

/-- A run of events from a state; `none` when an event cannot happen. -/
def Connection.run : Connection → List ConnEvent → Option Connection
  | c, [] => some c
  | c, e :: es =>
    match c.step e with
    | some c' => c'.run es
    | none => none

/-- What every reachable connection satisfies: no timer at all, or exactly
the one timer `clientReconnectTimer` refers to, started with 5000 ms. -/
def Connection.Inv (c : Connection) : Prop :=
  (c.clientReconnectTimer = none ∧ c.timers = [])
  ∨ ∃ id, c.clientReconnectTimer = some id ∧ c.timers = [(id, APP_CLIENT_RECONNECT_TIMEOUT)]

/-- A SET_JOIN_PERMIT_CNF frame with status 0x04030201. -/
def permitJoinCnfFrame : List Byte := [4, 0, 10, 12, 1, 2, 3, 4]

/-- A GET_DEVICE_ARRAY_CNF frame listing one device with short address 0 and
extended address 0x0000000000000007. -/
def snapshotZero : List Byte :=
  [21, 0, 10, 7, 0, 1, 0, 0xCD, 0xAB, 0, 0, 7, 0, 0, 0, 0, 0, 0, 0, 0, 0, 0, 0, 0, 0]

/-- Two byte sequences that are identical except, possibly, for the byte at
offset `k`. -/
def SameExceptAt (k : Nat) (f g : List Byte) : Prop :=
  f.length = g.length ∧ ∀ i, i ≠ k → f.getD i 0 = g.getD i 0

/-- Two buffers with the same cursor and mark whose bytes are identical
except, possibly, at offset `k`, with the cursor past `k`. -/
def BufSim (k : Nat) (a b : ByteBuffer) : Prop :=
  a.offset = b.offset ∧ a.markedOffset = b.markedOffset
  ∧ SameExceptAt k a.buffer b.buffer ∧ k < a.offset

/-- Two results of a read that agree: the same exception, or the same value
with buffers that are again identical except at offset `k`. -/
def ResSim {α : Type} (k : Nat) (r1 r2 : Except JsError (α × ByteBuffer)) : Prop :=
  match r1, r2 with
  | .ok (v, a), .ok (w, b) => v = w ∧ BufSim k a b
  | .error e1, .error e2 => e1 = e2
  | _, _ => False

/-- Two buffers that are identical except for the subsystem-id byte (offset
2) of their frames, the frames being the pieces the frame loop cuts: from the
cursor, `rx_pkt_len` bytes (or what is left) form a frame, and the same holds
for what follows it. -/
inductive SameExceptSubsys : List Byte → List Byte → Prop
  | nil : SameExceptSubsys [] []
  | frame (d1 d2 : List Byte) (hne : d1 ≠ [])
      (hhead : SameExceptAt PKT_HEADER_SUBSYS_FIELD (d1.take (rxPktLen d1 0))
        (d2.take (rxPktLen d1 0)))
      (hrest : SameExceptSubsys (d1.drop (rxPktLen d1 0)) (d2.drop (rxPktLen d1 0))) :
      SameExceptSubsys d1 d2

/-! ## The frame loop -/

theorem getD_drop (data : List Byte) (i k : Nat) :
    (data.drop i).getD k 0 = data.getD (i + k) 0 := by
  simp [List.getD_eq_getElem?_getD, List.getElem?_drop]

theorem rxPktLen_drop (data : List Byte) (i : Nat) :
    rxPktLen (data.drop i) 0 = rxPktLen data i := by
  simp [rxPktLen, getD_drop, PKT_HEADER_LEN_FIELD]

theorem rxPktBuf_drop (data : List Byte) (i : Nat) :
    rxPktBuf (data.drop i) 0 = rxPktBuf data i := by
  simp [rxPktBuf, rxPktLen_drop]

theorem rxPktLen_pos (data : List Byte) (i : Nat) : 4 ≤ rxPktLen data i := by
  simp [rxPktLen, PKT_HEADER_SIZE]

/-- The loop at cursor `i` only looks at the bytes from `i` on. -/
theorem loop_drop (fuel : Nat) : ∀ (data : List Byte) (i : Nat) (self : AppClient)
    (tr : List (Nat × List Byte)),
    processIncomingLoop fuel data i self tr
      = processIncomingLoop fuel (data.drop i) 0 self tr := by
  induction fuel with
  | zero => intro data i self tr; simp [processIncomingLoop]
  | succ n ih =>
    intro data i self tr
    rw [processIncomingLoop, processIncomingLoop]
    simp only [rxPktBuf_drop, rxPktLen_drop, List.length_drop, Nat.zero_add]
    have h1 : (0 < data.length - i) ↔ (i < data.length) := by omega
    simp only [h1]
    have e : ∀ s t, processIncomingLoop n data (i + rxPktLen data i) s t
        = processIncomingLoop n (data.drop i) (rxPktLen data i) s t := by
      intro s t
      rw [ih data (i + rxPktLen data i), ih (data.drop i) (rxPktLen data i)]
      simp [List.drop_drop, Nat.add_comm]
    simp only [e]

/-- One more pass than the bytes left changes nothing. -/
theorem loop_fuel_succ (fuel : Nat) : ∀ (data : List Byte) (i : Nat) (self : AppClient)
    (tr : List (Nat × List Byte)), data.length ≤ i + fuel →
    processIncomingLoop (fuel + 1) data i self tr = processIncomingLoop fuel data i self tr := by
  induction fuel with
  | zero =>
    intro data i self tr h
    have : ¬ i < data.length := by omega
    simp [processIncomingLoop, this]
  | succ n ih =>
    intro data i self tr h
    rw [processIncomingLoop, processIncomingLoop.eq_def (n + 1)]
    have e : ∀ s t, processIncomingLoop (n + 1) data (i + rxPktLen data i) s t
        = processIncomingLoop n data (i + rxPktLen data i) s t := by
      intro s t
      apply ih
      have := rxPktLen_pos data i
      omega
    simp only [e]

/-- With as many passes as bytes left, the loop reaches its exit test. -/
theorem loop_finished (fuel : Nat) : ∀ (data : List Byte) (i : Nat) (self : AppClient)
    (tr : List (Nat × List Byte)), data.length ≤ i + fuel →
    (processIncomingLoop fuel data i self tr).finished = true := by
  induction fuel with
  | zero =>
    intro data i self tr h
    have : ¬ i < data.length := by omega
    simp [processIncomingLoop, this]
  | succ n ih =>
    intro data i self tr h
    rw [processIncomingLoop]
    split
    · split
      · rfl
      · split
        · rfl
        · split
          · rfl
          · apply ih
            have := rxPktLen_pos data i
            omega
    · rfl

theorem wf_length {f : List Byte} (h : WellFormedFrame f) : 4 ≤ f.length := by
  obtain ⟨lo, hi, subsys, cmd, payload, rfl, _⟩ := h
  simp

theorem rxPktLen_frame {f : List Byte} (h : WellFormedFrame f) (rest : List Byte) :
    rxPktLen (f ++ rest) 0 = f.length := by
  obtain ⟨lo, hi, subsys, cmd, payload, rfl, hp⟩ := h
  simp [rxPktLen, PKT_HEADER_LEN_FIELD, PKT_HEADER_SIZE, hp]

theorem rxPktBuf_frame {f : List Byte} (h : WellFormedFrame f) (rest : List Byte) :
    rxPktBuf (f ++ rest) 0 = .ok ⟨f, 0, none⟩ := by
  have hl := rxPktLen_frame h rest
  obtain ⟨lo, hi, subsys, cmd, payload, rfl, hp⟩ := h
  rw [rxPktBuf, hl]
  simp only [List.drop_zero, List.take_left', ByteBuffer.alloc, ByteBuffer.append]
  simp [ByteBuffer.setBytes, ByteBuffer.ensure]

theorem readCmd_frame {f : List Byte} (h : WellFormedFrame f) :
    (ByteBuffer.mk f 0 none).readUint8At PKT_HEADER_CMDID_FIELD = .ok (frameCmd f) := by
  obtain ⟨lo, hi, subsys, cmd, payload, rfl, hp⟩ := h
  simp [ByteBuffer.readUint8At, PKT_HEADER_CMDID_FIELD, ByteBuffer.byteAt, frameCmd]

/-- On a concatenation of well-formed frames the loop is the frame-by-frame
dispatch. -/
theorem loop_frames (frames : List (List Byte)) : ∀ (self : AppClient)
    (tr : List (Nat × List Byte)) (fuel : Nat), (∀ f ∈ frames, WellFormedFrame f) →
    frames.flatten.length ≤ fuel →
    processIncomingLoop fuel frames.flatten 0 self tr = dispatchFrames self frames tr := by
  induction frames with
  | nil =>
    intro self tr fuel _ _
    cases fuel <;> simp [processIncomingLoop, dispatchFrames]
  | cons f fs ih =>
    intro self tr fuel hwf hfuel
    have hf : WellFormedFrame f := hwf f (List.mem_cons_self _ _)
    have h4 := wf_length hf
    simp only [List.flatten_cons, List.length_append] at hfuel ⊢
    obtain ⟨k, rfl⟩ : ∃ k, fuel = k + 1 := ⟨fuel - 1, by omega⟩
    rw [processIncomingLoop, dispatchFrames]
    have hlt : 0 < (f ++ fs.flatten).length := by simp; omega
    simp only [hlt, if_true, rxPktBuf_frame hf, readCmd_frame hf, rxPktLen_frame hf, Nat.zero_add]
    have e : ∀ s t, processIncomingLoop k (f ++ fs.flatten) f.length s t
        = dispatchFrames s fs t := by
      intro s t
      rw [loop_drop, List.drop_left']
      · exact ih s t k (fun g hg => hwf g (List.mem_cons_of_mem _ hg)) (by omega)
      · rfl
    simp only [e]

/-- The frames dispatched are the first `k` frames, all of them when no
handler raises and at least one when a handler raises. -/
theorem dispatchFrames_trace (frames : List (List Byte)) : ∀ (self : AppClient)
    (tr : List (Nat × List Byte)),
    ∃ k, k ≤ frames.length
      ∧ (dispatchFrames self frames tr).dispatched
          = tr ++ (frames.take k).map (fun f => (frameCmd f, f))
      ∧ ((dispatchFrames self frames tr).thrown = none → k = frames.length)
      ∧ ((dispatchFrames self frames tr).thrown ≠ none → 0 < k) := by
  induction frames with
  | nil => intro self tr; exact ⟨0, by simp [dispatchFrames]⟩
  | cons f fs ih =>
    intro self tr
    rw [dispatchFrames]
    rcases hd : dispatch self (frameCmd f) ⟨f, 0, none⟩ with ⟨s, _ | e⟩
    · obtain ⟨k, hk, h1, h2, _⟩ := ih s (tr ++ [(frameCmd f, f)])
      refine ⟨k + 1, by simpa using hk, ?_, ?_, fun _ => Nat.succ_pos k⟩
      · simpa using h1
      · intro h; simpa using h2 h
    · exact ⟨1, by simp, by simp, by simp, fun _ => Nat.one_pos⟩

/-- A buffer that is one well-formed frame with a command id outside the
handled ones is dispatched once and changes nothing. -/
theorem single_frame_unhandled (self : AppClient) {w : List Byte} (hw : WellFormedFrame w)
    (hc : frameCmd w ∉ handledCmdIds) :
    appC_processIncoming self w = ⟨self, none, [(frameCmd w, w)], true⟩ := by
  have h := loop_frames [w] self [] w.length (by simpa using hw) (by simp)
  simp only [List.flatten_cons, List.flatten_nil, List.append_nil] at h
  rw [appC_processIncoming, h]
  simp only [handledCmdIds, List.mem_cons, List.mem_singleton, List.not_mem_nil, or_false,
    not_or] at hc
  simp [dispatchFrames, dispatch, hc]

/-! ## Outbound builders and framing -/

theorem headerRoundTrip_of_frame (len cmd : Nat) (lo hi : Byte) (payload : List Byte)
    (hlen : payload.length = lo.val + 256 * hi.val) (hl : lo.val + 256 * hi.val = len)
    (hc : cmd < 256) (hcmd : cmd ∉ handledCmdIds) :
    HeaderRoundTrip len cmd (lo :: hi :: 10 :: ByteBuffer.toByte cmd :: payload) := by
  have hw : WellFormedFrame (lo :: hi :: 10 :: ByteBuffer.toByte cmd :: payload) :=
    ⟨lo, hi, 10, ByteBuffer.toByte cmd, payload, rfl, hlen⟩
  have hfc : frameCmd (lo :: hi :: 10 :: ByteBuffer.toByte cmd :: payload) = cmd := by
    simp [frameCmd, ByteBuffer.toByte, Nat.mod_eq_of_lt hc]
  refine ⟨fun self => ?_, ?_, ?_, ?_, ?_⟩
  · have := single_frame_unhandled self hw (by rw [hfc]; exact hcmd)
    rw [hfc] at this
    exact this
  · simp [rxPktLen, PKT_HEADER_LEN_FIELD, PKT_HEADER_SIZE, hl]
  · simp [PKT_HEADER_SUBSYS_FIELD, APPSRV_SYS_ID_RPC]; rfl
  · simpa [frameCmd, PKT_HEADER_CMDID_FIELD] using hfc
  · simp [PKT_HEADER_SIZE, hlen, hl]


theorem writeHeader_config : writeHeader 9 cmdIds.TX_DATA_REQ
    = .ok ⟨[9, 0, 10, 13, 0, 0, 0, 0, 0, 0, 0, 0, 0], 0, none⟩ := by rfl

theorem writeHeader_toggle : writeHeader 5 cmdIds.TX_DATA_REQ
    = .ok ⟨[5, 0, 10, 13, 0, 0, 0, 0, 0], 0, none⟩ := by rfl


theorem configReqFrame_eq (sa : Nat) (d : TxRequest) (p r fc : Int)
    (hp : d.pollingInterval = some p) (hr : d.reportingInterval = some r)
    (hf : d.framecontrol = some fc) :
    configReqFrame sa d
      = .ok ⟨[9, 0, 10, 13, 1,
          ByteBuffer.toByte (ByteBuffer.toUint32 sa), ByteBuffer.toByte (ByteBuffer.toUint32 sa / 256),
          ByteBuffer.toByte (ByteBuffer.toUint32 p), ByteBuffer.toByte (ByteBuffer.toUint32 p / 256),
          ByteBuffer.toByte (ByteBuffer.toUint32 r), ByteBuffer.toByte (ByteBuffer.toUint32 r / 256),
          ByteBuffer.toByte (ByteBuffer.toUint32 fc), ByteBuffer.toByte (ByteBuffer.toUint32 fc / 256)],
          13, none⟩ := by
  rw [configReqFrame, writeHeader_config, hp, hr, hf]
  simp [ByteBuffer.setBytes, ByteBuffer.ensure, bind, Except.bind,
      ByteBuffer.mark, ByteBuffer.reset, ByteBuffer.writeUint8, ByteBuffer.writeUint16, ByteBuffer.writeUint8At,
      PKT_HEADER_SIZE, smgsCmdIds.CONFIG_REQ]
  rfl

theorem configReqFrame_buffer (sa : Nat) (d : TxRequest) (b : ByteBuffer)
    (h : configReqFrame sa d = .ok b) :
    ∃ payload : List Byte, payload.length = 9 ∧ b.buffer = 9 :: 0 :: 10 :: 13 :: payload := by
  rcases hp : d.pollingInterval with _ | p
  · simp [configReqFrame, writeHeader_config, hp, ByteBuffer.setBytes, ByteBuffer.ensure, bind, Except.bind,
      ByteBuffer.mark, ByteBuffer.reset, ByteBuffer.writeUint8, ByteBuffer.writeUint16, ByteBuffer.writeUint8At,
      PKT_HEADER_SIZE, smgsCmdIds.CONFIG_REQ] at h
  rcases hr : d.reportingInterval with _ | r
  · simp [configReqFrame, writeHeader_config, hp, hr, ByteBuffer.setBytes, ByteBuffer.ensure, bind, Except.bind,
      ByteBuffer.mark, ByteBuffer.reset, ByteBuffer.writeUint8, ByteBuffer.writeUint16, ByteBuffer.writeUint8At,
      PKT_HEADER_SIZE, smgsCmdIds.CONFIG_REQ] at h
  rcases hf : d.framecontrol with _ | fc
  · simp [configReqFrame, writeHeader_config, hp, hr, hf, ByteBuffer.setBytes, ByteBuffer.ensure, bind, Except.bind,
      ByteBuffer.mark, ByteBuffer.reset, ByteBuffer.writeUint8, ByteBuffer.writeUint16, ByteBuffer.writeUint8At,
      PKT_HEADER_SIZE, smgsCmdIds.CONFIG_REQ] at h
  rw [configReqFrame_eq sa d p r fc hp hr hf] at h
  cases h
  refine ⟨_, ?_, rfl⟩
  rfl

theorem toggleReqFrame_eq (sa : Nat) :
    toggleReqFrame sa
      = .ok ⟨[5, 0, 10, 13, 6,
          ByteBuffer.toByte (ByteBuffer.toUint32 sa), ByteBuffer.toByte (ByteBuffer.toUint32 sa / 256),
          0, 0], 7, none⟩ := by
  rw [toggleReqFrame, writeHeader_toggle]
  simp [ByteBuffer.setBytes, ByteBuffer.ensure, bind, Except.bind,
      ByteBuffer.mark, ByteBuffer.reset, ByteBuffer.writeUint8, ByteBuffer.writeUint16, ByteBuffer.writeUint8At,
      PKT_HEADER_SIZE, smgsCmdIds.TOGGLE_REQ]
  rfl

theorem setJoinPermitFrame_eq (action : Option String) :
    setJoinPermitFrame action
      = .ok ⟨if action = some "open" then [4, 0, 10, 11, 255, 255, 255, 255]
          else [4, 0, 10, 11, 0, 0, 0, 0], 0, none⟩ := by
  by_cases h : action = some "open"
  · simp only [setJoinPermitFrame, h, if_true]; rfl
  · simp only [setJoinPermitFrame, h, if_false]; rfl


theorem headerRoundTrip_config (payload : List Byte) (h : payload.length = 9) :
    HeaderRoundTrip 9 cmdIds.TX_DATA_REQ (9 :: 0 :: 10 :: 13 :: payload) :=
  headerRoundTrip_of_frame 9 13 9 0 payload (by simpa using h) (by decide)
    (by decide) (by decide)

/-- C1: every buffer written by one of the five builders is one frame for the
header logic of the frame loop, with the builder's payload length, its command
id, subsystem id 10 and a size of payload length + 4. -/
theorem builders_round_trip :
    (∀ self : AppClient, ∃ w, appC_getNwkInfoFromAppServer self = ⟨self.write w, none⟩
      ∧ HeaderRoundTrip 0 cmdIds.GET_NWK_INFO_REQ w)
    ∧ (∀ self : AppClient, ∃ w, appC_getDevArrayFromAppServer self = ⟨self.write w, none⟩
      ∧ HeaderRoundTrip 0 cmdIds.GET_DEVICE_ARRAY_REQ w)
    ∧ (∀ (self : AppClient) (action : Option String), ∃ w,
      appC_setJoinPermitAtAppServer self action = ⟨self.write w, none⟩
      ∧ HeaderRoundTrip 4 cmdIds.SET_JOIN_PERMIT_REQ w)
    ∧ (∀ (self : AppClient) (data : TxRequest),
      (appC_sendConfigReqToAppServer self data).st = self
      ∨ ∃ w, appC_sendConfigReqToAppServer self data = ⟨self.write w, none⟩
        ∧ HeaderRoundTrip 9 cmdIds.TX_DATA_REQ w)
    ∧ (∀ (self : AppClient) (data : TxRequest),
      (appC_sendToggleLedMsgToAppServer self data).st = self
      ∨ ∃ w, appC_sendToggleLedMsgToAppServer self data = ⟨self.write w, none⟩
        ∧ HeaderRoundTrip 5 cmdIds.TX_DATA_REQ w) := by
  refine ⟨fun self => ⟨[0, 0, 10, 3], rfl, ?_⟩, fun self => ⟨[0, 0, 10, 6], rfl, ?_⟩,
    fun self action => ?_, fun self data => ?_, fun self data => ?_⟩
  · exact headerRoundTrip_of_frame 0 3 0 0 [] rfl rfl
      (by decide) (by decide)
  · exact headerRoundTrip_of_frame 0 6 0 0 [] rfl rfl
      (by decide) (by decide)
  · by_cases h : action = some "open"
    · refine ⟨[4, 0, 10, 11, 255, 255, 255, 255], ?_, ?_⟩
      · simp [appC_setJoinPermitAtAppServer, setJoinPermitFrame_eq, h, sendBuilt]
      · exact headerRoundTrip_of_frame 4 11 4 0 [255, 255, 255, 255] rfl rfl (by decide) (by decide)
    · refine ⟨[4, 0, 10, 11, 0, 0, 0, 0], ?_, ?_⟩
      · simp [appC_setJoinPermitAtAppServer, setJoinPermitFrame_eq, h, sendBuilt]
      · exact headerRoundTrip_of_frame 4 11 4 0 [0, 0, 0, 0] rfl rfl (by decide) (by decide)
  · unfold appC_sendConfigReqToAppServer
    split
    · exact Or.inl rfl
    · split
      · split
        · rename_i dev _
          rcases hb : configReqFrame dev.shortAddress data with e | b
          · exact Or.inl (by simp [sendBuilt])
          · obtain ⟨payload, hl, hbuf⟩ := configReqFrame_buffer _ _ _ hb
            exact Or.inr ⟨b.buffer, by simp [sendBuilt], hbuf ▸ headerRoundTrip_config payload hl⟩
        · exact Or.inl rfl
      · exact Or.inl rfl
  · unfold appC_sendToggleLedMsgToAppServer
    split
    · exact Or.inl rfl
    · split
      · split
        · rename_i dev _
          refine Or.inr ⟨_, by rw [toggleReqFrame_eq]; rfl, ?_⟩
          exact headerRoundTrip_of_frame 5 13 5 0 _ rfl rfl
            (by decide) (by decide)
        · exact Or.inl rfl
      · exact Or.inl rfl


/-- C2 (amended): on a buffer that is the concatenation of well-formed frames
the frame loop is the frame-by-frame dispatch: it hands the frames to the
`switch` in buffer order, each with exactly its bytes and the command id at its
offset 3, up to and including the first frame whose handler raises; all the
frames are dispatched when no handler raises. -/
theorem processIncoming_frames (frames : List (List Byte)) (self : AppClient)
    (h : ∀ f ∈ frames, WellFormedFrame f) :
    appC_processIncoming self frames.flatten = dispatchFrames self frames []
    ∧ (appC_processIncoming self frames.flatten).finished = true
    ∧ ∃ k, k ≤ frames.length
      ∧ (appC_processIncoming self frames.flatten).dispatched
          = (frames.take k).map (fun f => (frameCmd f, f))
      ∧ ((appC_processIncoming self frames.flatten).thrown = none → k = frames.length)
      ∧ ((appC_processIncoming self frames.flatten).thrown ≠ none → 0 < k) := by
  have e : appC_processIncoming self frames.flatten = dispatchFrames self frames [] :=
    loop_frames frames self [] _ h (Nat.le_refl _)
  refine ⟨e, loop_finished _ _ _ _ _ (by simp), ?_⟩
  rw [e]
  simpa using dispatchFrames_trace frames self []

theorem processIncoming_frames_witness :
    (∀ f ∈ [[0, 0, 10, 14], [0, 0, 10, 3]], WellFormedFrame f)
    ∧ appC_processIncoming AppClient.init [[0, 0, 10, 14], [0, 0, 10, 3]].flatten
        = dispatchFrames AppClient.init [[0, 0, 10, 14], [0, 0, 10, 3]] [] :=
  have hw : ∀ f ∈ [[0, 0, 10, 14], [0, 0, 10, 3]], WellFormedFrame f := by
    intro f hf
    simp only [List.mem_cons, List.mem_singleton, List.not_mem_nil, or_false] at hf
    rcases hf with rfl | rfl
    · exact ⟨0, 0, 10, 14, [], rfl, rfl⟩
    · exact ⟨0, 0, 10, 3, [], rfl, rfl⟩
  ⟨hw, (processIncoming_frames _ AppClient.init hw).1⟩

/-- C2 as stated fails: the buffer below is two well-formed frames, a
DEVICE_JOINED_IND with an empty payload and a TX_DATA_CNF; the handler of the
first raises a RangeError and the second frame is never dispatched. -/
theorem processIncoming_stops_at_exception :
    WellFormedFrame [0, 0, 10, 0] ∧ WellFormedFrame [0, 0, 10, 14]
    ∧ (appC_processIncoming AppClient.init ([0, 0, 10, 0] ++ [0, 0, 10, 14])).dispatched
        = [(0, [0, 0, 10, 0])]
    ∧ (appC_processIncoming AppClient.init ([0, 0, 10, 0] ++ [0, 0, 10, 14])).thrown
        = some JsError.RangeError :=
  ⟨⟨0, 0, 10, 0, [], rfl, rfl⟩, ⟨0, 0, 10, 14, [], rfl, rfl⟩, by decide, by decide⟩

/-- C4: a frame whose command id is none of DEVICE_JOINED_IND, NWK_INFO_IND,
GET_NWK_INFO_CNF, GET_DEVICE_ARRAY_CNF, DEVICE_NOTACTIVE_UPDATE_IND,
DEVICE_DATA_RX_IND, COLLECTOR_STATE_CNG_IND, SET_JOIN_PERMIT_CNF leaves the
whole client state as it was (registry, network information, events emitted,
bytes written) and raises nothing, both in the `switch` and in a call of
`appC_processIncoming` on that frame. -/
theorem unhandled_frame_no_effect (self : AppClient) (f : List Byte) (hw : WellFormedFrame f)
    (hc : frameCmd f ∉ handledCmdIds) :
    dispatch self (frameCmd f) ⟨f, 0, none⟩ = ⟨self, none⟩
    ∧ appC_processIncoming self f = ⟨self, none, [(frameCmd f, f)], true⟩ := by
  refine ⟨?_, single_frame_unhandled self hw hc⟩
  simp only [handledCmdIds, List.mem_cons, List.mem_singleton, List.not_mem_nil, or_false,
    not_or] at hc
  simp [dispatch, hc]

theorem unhandled_frame_no_effect_witness :
    WellFormedFrame [2, 0, 10, 14, 7, 7] ∧ frameCmd [2, 0, 10, 14, 7, 7] ∉ handledCmdIds
    ∧ dispatch AppClient.init (frameCmd [2, 0, 10, 14, 7, 7]) ⟨[2, 0, 10, 14, 7, 7], 0, none⟩
        = ⟨AppClient.init, none⟩
    ∧ appC_processIncoming AppClient.init [2, 0, 10, 14, 7, 7]
        = ⟨AppClient.init, none, [(frameCmd [2, 0, 10, 14, 7, 7], [2, 0, 10, 14, 7, 7])], true⟩ :=
  ⟨⟨2, 0, 10, 14, [7, 7], rfl, rfl⟩, by decide,
    unhandled_frame_no_effect AppClient.init [2, 0, 10, 14, 7, 7]
      ⟨2, 0, 10, 14, [7, 7], rfl, rfl⟩ (by decide)⟩

/-! ## Device joins -/

theorem joinScan_none (s : Nat) (e : Long) (l : List Device)
    (h : ∀ d ∈ l, d.extAddress.key ≠ e.key) : joinScan s e l = none := by
  induction l with
  | nil => rfl
  | cons d ds ih =>
    have hd := h d (List.mem_cons_self _ _)
    simp [joinScan, hd, ih (fun x hx => h x (List.mem_cons_of_mem _ hx))]

theorem joinScan_some (s : Nat) (e : Long) (pre post : List Device) (d : Device)
    (hpre : ∀ x ∈ pre, x.extAddress.key ≠ e.key) (hd : d.extAddress.key = e.key) :
    joinScan s e (pre ++ d :: post)
      = some (pre ++ d.devUpdateInfo s (.long e) :: post, d.devUpdateInfo s (.long e)) := by
  induction pre with
  | nil => simp [joinScan, hd]
  | cons x xs ih =>
    have hx := hpre x (List.mem_cons_self _ _)
    simp [joinScan, hx, ih (fun y hy => hpre y (List.mem_cons_of_mem _ hy))]

/-- Shape of what the scan returns: same length, same addresses. -/
theorem joinScan_shape (s : Nat) (e : Long) : ∀ (l l' : List Device) (u : Device),
    joinScan s e l = some (l', u) →
    l'.map (·.extAddress) = l.map (·.extAddress) := by
  intro l
  induction l with
  | nil => intro l' u h; simp [joinScan] at h
  | cons d ds ih =>
    intro l' u h
    rw [joinScan] at h
    split at h
    · cases h; simp [Device.devUpdateInfo]
    · split at h
      · rename_i l2 u2 h2
        cases h
        simp [ih _ _ h2]
      · cases h


/-- C5 (amended): when the first registered device whose address key matches
that of the joining address E is a device with extended address E, the join
updates that device in place: the registry keeps its length, that device has
the short address of the message, is active and still has address E, every
other device is untouched, one device-update event is emitted for it, and the
number of devices with address E is what it was (a registry that held E once
still holds it once). In particular two joins for 0x1122334455667788 with short
addresses 1 then 2 on the empty registry leave one device, with short address
2. -/
theorem join_existing_updates_in_place (self : AppClient) (data : ByteBuffer)
    (m : DeviceJoinedInd) (pre post : List Device) (d : Device)
    (hread : readDeviceJoinedInd data = .ok m)
    (hlist : self.connectedDeviceList = pre ++ d :: post)
    (hpre : ∀ x ∈ pre, x.extAddress.key ≠ m.extendedAddress.key)
    (hd : d.extAddress = m.extendedAddress) :
    (∃ d', appC_processDeviceJoinedIndMsg self data
        = ⟨{ self with connectedDeviceList := pre ++ d' :: post,
                       emitted := self.emitted ++ [.connDevInfoUpdate d'] }, none⟩
      ∧ d'.shortAddress = m.shortAddress ∧ d'.active = "true"
      ∧ d'.extAddress = m.extendedAddress
      ∧ (pre ++ d' :: post).length = self.connectedDeviceList.length
      ∧ (pre ++ d' :: post).countP (fun x => decide (x.extAddress = m.extendedAddress))
          = self.connectedDeviceList.countP (fun x => decide (x.extAddress = m.extendedAddress)))
    ∧ (appC_processIncoming AppClient.init (joinFrame 1 0 ++ joinFrame 2 0)).st.connectedDeviceList.map
        (fun x => (x.extAddress, x.shortAddress, x.active))
        = [(⟨0x55667788, 0x11223344, true⟩, 2, "true")] := by
  refine ⟨⟨d.devUpdateInfo m.shortAddress (.long m.extendedAddress), ?_, rfl, rfl, hd, ?_, ?_⟩,
    by decide⟩
  · simp [appC_processDeviceJoinedIndMsg, hread, applyDeviceJoinedInd, hlist,
      joinScan_some m.shortAddress m.extendedAddress pre post d hpre (by rw [hd]),
      AppClient.emit]
  · simp [hlist]
  · simp [hlist, List.countP_append, List.countP_cons, Device.devUpdateInfo]

theorem join_existing_updates_in_place_witness :
    readDeviceJoinedInd ⟨joinFrame 2 0, 0, none⟩
      = .ok ⟨0xABCD, 2, ⟨0x55667788, 0x11223344, true⟩, ⟨0, 0, 0, 0, 0, 0⟩⟩
    ∧ (∃ d', appC_processDeviceJoinedIndMsg
          ⟨[Device.new 1 ⟨0x55667788, 0x11223344, true⟩ ⟨0, 0, 0, 0, 0, 0⟩], none, [], []⟩
          ⟨joinFrame 2 0, 0, none⟩
        = ⟨⟨[d'], none, [.connDevInfoUpdate d'], []⟩, none⟩ ∧ d'.shortAddress = 2) := by
  refine ⟨rfl, ?_⟩
  obtain ⟨⟨d', h1, h2, _⟩, _⟩ := join_existing_updates_in_place
    ⟨[Device.new 1 ⟨0x55667788, 0x11223344, true⟩ ⟨0, 0, 0, 0, 0, 0⟩], none, [], []⟩
    ⟨joinFrame 2 0, 0, none⟩ ⟨0xABCD, 2, ⟨0x55667788, 0x11223344, true⟩, ⟨0, 0, 0, 0, 0, 0⟩⟩
    [] [] (Device.new 1 ⟨0x55667788, 0x11223344, true⟩ ⟨0, 0, 0, 0, 0, 0⟩) rfl rfl
    (by simp) rfl
  exact ⟨d', h1, h2⟩

/-- C5 as stated fails: a roster snapshot that lists the address
0x1122334455667788 twice (short addresses 5 and 6) followed by a join for that
address with short address 9 leaves two devices with that address, the second
of them still with short address 6. -/
theorem join_leaves_listed_duplicate :
    (appC_processIncoming AppClient.init (snapshotTwice ++ joinFrame 9 0)).thrown = none
    ∧ (appC_processIncoming AppClient.init (snapshotTwice ++ joinFrame 9 0)).st.connectedDeviceList.map
        (fun x => (x.extAddress, x.shortAddress))
        = [(⟨0x55667788, 0x11223344, true⟩, 9), (⟨0x55667788, 0x11223344, true⟩, 6)] := by
  decide

/-- C6, the code at the failing input: after a join for 0x1122334455667788
with all capability flags 0 and a second join for the same address with all
six flags 1, the property `capabilityInfo` of the device is the extended
address of the message, not the six flags. -/
theorem join_update_stores_address_as_capability :
    (appC_processIncoming AppClient.init (joinFrame 1 0 ++ joinFrame 2 1)).st.connectedDeviceList.map
        (fun x => x.capabilityInfo)
      = [CapabilityValue.long ⟨0x55667788, 0x11223344, true⟩]
    ∧ (appC_processIncoming AppClient.init (joinFrame 1 0 ++ joinFrame 2 1)).st.connectedDeviceList.map
        (fun x => x.capabilityInfo)
      ≠ [CapabilityValue.capInfo ⟨1, 1, 1, 1, 1, 1⟩] := by
  decide

/-- C7, the code at the failing input: with one registered device whose
extended address has high word 12 and low word 3, a join for the different
address with high word 1 and low word 23 (both keys are "123") appends
nothing: the registry keeps its length 1 and the short address of the
registered device is overwritten. -/
theorem join_new_address_with_colliding_key :
    (appC_processIncoming AppClient.init (joinFrameWords 1 3 12)).st.connectedDeviceList.map
        (fun x => (x.extAddress, x.shortAddress)) = [(⟨3, 12, true⟩, 1)]
    ∧ readDeviceJoinedInd ⟨joinFrameWords 2 23 1, 0, none⟩
        = .ok ⟨0xABCD, 2, ⟨23, 1, true⟩, ⟨0, 0, 0, 0, 0, 0⟩⟩
    ∧ (⟨23, 1, true⟩ : Long) ≠ ⟨3, 12, true⟩
    ∧ (⟨23, 1, true⟩ : Long).key = (⟨3, 12, true⟩ : Long).key
    ∧ (appC_processIncoming (appC_processIncoming AppClient.init (joinFrameWords 1 3 12)).st
          (joinFrameWords 2 23 1)).st.connectedDeviceList.length = 1
    ∧ (appC_processIncoming (appC_processIncoming AppClient.init (joinFrameWords 1 3 12)).st
          (joinFrameWords 2 23 1)).st.connectedDeviceList.map
        (fun x => (x.extAddress, x.shortAddress)) = [(⟨3, 12, true⟩, 2)] := by
  refine ⟨by decide, rfl, by decide, by decide, by decide, by decide⟩


/-! ## The registry: addresses kept, addresses distinct -/

theorem rxSensorData_extAddress (d : Device) (sd : DeviceData) :
    match d.rxSensorData sd with
    | .ok d' => d'.extAddress = d.extAddress
    | .error (d', _) => d'.extAddress = d.extAddress := by
  unfold Device.rxSensorData
  simp only [bind, Except.bind, pure, Except.pure, throw, throwThe, MonadExceptOf.throw]
  generalize hasField sd.frameControl Smsgs_dataFields.tempSensor = b1
  generalize hasField sd.frameControl Smsgs_dataFields.lightSensor = b2
  generalize hasField sd.frameControl Smsgs_dataFields.humiditySensor = b3
  generalize hasField sd.frameControl Smsgs_dataFields.hallEffectSensor = b4
  generalize sd.tempSensor = o1
  generalize sd.lightSensor = o2
  generalize sd.humiditySensor = o3
  generalize sd.hallEffectSensor = o4
  cases b1 <;> cases b2 <;> cases b3 <;> cases b4 <;> cases o1 <;> cases o2 <;> cases o3 <;>
    cases o4 <;> rfl

theorem rxConfigRspInd_extAddress (d : Device) (sd : DeviceData) :
    (d.rxConfigRspInd sd).extAddress = d.extAddress := by
  unfold Device.rxConfigRspInd
  generalize hasField sd.frameControl Smsgs_dataFields.tempSensor = b1
  generalize hasField sd.frameControl Smsgs_dataFields.lightSensor = b2
  generalize hasField sd.frameControl Smsgs_dataFields.humiditySensor = b3
  generalize hasField sd.frameControl Smsgs_dataFields.hallEffectSensor = b4
  split
  · cases b1 <;> cases b2 <;> cases b3 <;> cases b4 <;> simp only [if_true, if_false] <;>
      (split <;> [split; skip]) <;> rfl
  · rfl

theorem map_set_same {α β : Type} (g : α → β) : ∀ (l : List α) (i : Nat) (d x : α),
    l.get? i = some d → g x = g d → (l.set i x).map g = l.map g := by
  intro l
  induction l with
  | nil => intro i d x h; simp at h
  | cons a as ih =>
    intro i d x h hg
    cases i with
    | zero => simp at h; subst h; simp [hg]
    | succ j => simp at h; simp [ih j d x (by simpa using h) hg]

theorem updateDeviceAt_addrs (self : AppClient) (i : Nat) (f : Device → Device)
    (hf : ∀ d, (f d).extAddress = d.extAddress) :
    (updateDeviceAt self i f).st.addrs = self.addrs := by
  unfold updateDeviceAt
  split
  · rename_i dev h
    simp only [AppClient.addrs, AppClient.emit]
    exact map_set_same _ _ _ dev _ h (hf dev)
  · rfl

theorem joinScan_eq_none (s : Nat) (e : Long) (l : List Device) (h : joinScan s e l = none) :
    ∀ d ∈ l, d.extAddress.key ≠ e.key := by
  induction l with
  | nil => intro d hd; simp at hd
  | cons a as ih =>
    rw [joinScan] at h
    split at h
    · cases h
    · rename_i hk
      split at h
      · cases h
      · rename_i hn
        intro d hd
        rcases List.mem_cons.mp hd with rfl | hd
        · exact hk
        · exact ih hn d hd

theorem applyDeviceJoinedInd_addrs (self : AppClient) (m : DeviceJoinedInd) :
    AddrsKept self (applyDeviceJoinedInd self m) := by
  unfold applyDeviceJoinedInd
  split
  · rename_i l u h
    exact Or.inl (joinScan_shape _ _ _ _ _ h)
  · rename_i h
    refine Or.inr ⟨m.extendedAddress, ?_, by simp [AppClient.addrs, AppClient.emit, Device.new]⟩
    intro hmem
    simp only [AppClient.addrs, List.mem_map] at hmem
    obtain ⟨d, hd, he⟩ := hmem
    exact joinScan_eq_none _ _ _ h d hd (by rw [he])

theorem joined_addrs (self : AppClient) (data : ByteBuffer) :
    AddrsKept self (appC_processDeviceJoinedIndMsg self data).st := by
  unfold appC_processDeviceJoinedIndMsg
  split
  · exact Or.inl rfl
  · exact applyDeviceJoinedInd_addrs self _

theorem sendBuilt_list (self : AppClient) (b : Except JsError ByteBuffer) :
    (sendBuilt self b).st.connectedDeviceList = self.connectedDeviceList := by
  unfold sendBuilt; split <;> rfl

theorem storeNwkInfo_list (self : AppClient) (n : NetworkInfoMsg) :
    (storeNwkInfo self n).connectedDeviceList = self.connectedDeviceList := by
  unfold storeNwkInfo; split <;> rfl

theorem nwkInfoCnf_list (self : AppClient) (data : ByteBuffer) :
    (appC_processGetNwkInfoCnf self data).st.connectedDeviceList = self.connectedDeviceList := by
  unfold appC_processGetNwkInfoCnf
  split
  · rfl
  · split
    · rfl
    · rw [appC_getDevArrayFromAppServer, sendBuilt_list, storeNwkInfo_list]

theorem nwkUpdateInd_list (self : AppClient) (data : ByteBuffer) :
    (appC_processNetworkUpdateIndMsg self data).st.connectedDeviceList
      = self.connectedDeviceList := by
  unfold appC_processNetworkUpdateIndMsg
  split
  · rfl
  · exact storeNwkInfo_list self _

theorem notActive_addrs (self : AppClient) (data : ByteBuffer) :
    (appC_processDeviceNotActiveIndMsg self data).st.addrs = self.addrs := by
  unfold appC_processDeviceNotActiveIndMsg
  split
  · rfl
  · split
    · exact updateDeviceAt_addrs self _ _ (fun _ => rfl)
    · rfl

theorem deliverSensorData_addrs (self : AppClient) (i : Option Nat) (sd : DeviceData) :
    (deliverSensorData self i sd).st.addrs = self.addrs := by
  unfold deliverSensorData
  split
  · split
    · rename_i dev hdev
      have h := rxSensorData_extAddress dev sd
      split
      · rename_i dev' hr
        rw [hr] at h
        simp only [AppClient.addrs, AppClient.emit]
        exact map_set_same _ _ _ dev _ hdev h
      · rename_i dev' e hr
        rw [hr] at h
        simp only [AppClient.addrs]
        exact map_set_same _ _ _ dev _ hdev h
    · rfl
  · rfl

theorem deliverConfigRsp_addrs (self : AppClient) (i : Option Nat) (sd : DeviceData) :
    (deliverConfigRsp self i sd).st.addrs = self.addrs := by
  unfold deliverConfigRsp
  split
  · exact updateDeviceAt_addrs self _ _ (fun d => rxConfigRspInd_extAddress d _)
  · rfl

theorem dataRxAfterAddr_addrs (self : AppClient) (data : ByteBuffer) (a : Nat)
    (s : Option Nat) (i : Option Nat) :
    (dataRxAfterAddr self data a s i).st.addrs = self.addrs := by
  unfold dataRxAfterAddr
  repeat' split
  all_goals first
    | rfl
    | exact deliverSensorData_addrs self _ _
    | exact deliverConfigRsp_addrs self _ _

theorem dataRx_addrs (self : AppClient) (data : ByteBuffer) :
    (appC_processDeviceDataRxIndMsg self data).st.addrs = self.addrs := by
  unfold appC_processDeviceDataRxIndMsg
  split
  · rfl
  · split
    · rfl
    · split
      · split <;> rfl
      · split
        · split
          · rfl
          · exact dataRxAfterAddr_addrs self _ _ _ _
        · rfl

theorem stateChange_list (self : AppClient) (data : ByteBuffer) :
    (appC_processStateChangeUpdate self data).st.connectedDeviceList
      = self.connectedDeviceList := by
  unfold appC_processStateChangeUpdate
  split
  · rfl
  · split <;> rfl

theorem setJoinPermitCnf_list (self : AppClient) (data : ByteBuffer) :
    (appC_processSetJoinPermitCnf self data).st.connectedDeviceList
      = self.connectedDeviceList := by
  unfold appC_processSetJoinPermitCnf
  split <;> rfl

theorem dispatch_addrs (self : AppClient) (c : Nat) (b : ByteBuffer)
    (h : c ≠ cmdIds.GET_DEVICE_ARRAY_CNF) : AddrsKept self (dispatch self c b).st := by
  unfold dispatch
  repeat' split
  all_goals first
    | exact joined_addrs self b
    | exact absurd (by assumption) h
    | exact Or.inl (notActive_addrs self b)
    | exact Or.inl (dataRx_addrs self b)
    | exact Or.inl (by rw [AppClient.addrs, nwkUpdateInd_list]; rfl)
    | exact Or.inl (by rw [AppClient.addrs, nwkInfoCnf_list]; rfl)
    | exact Or.inl (by rw [AppClient.addrs, stateChange_list]; rfl)
    | exact Or.inl (by rw [AppClient.addrs, setJoinPermitCnf_list]; rfl)
    | exact Or.inl rfl

theorem devArrayLoop_list (n : Nat) : ∀ (data : ByteBuffer) (self : AppClient),
    (devArrayLoop n data self).st.connectedDeviceList
      = self.connectedDeviceList ++ (devArrayLoop n data AppClient.init).st.connectedDeviceList := by
  induction n with
  | zero => intro data self; simp [devArrayLoop, AppClient.init]
  | succ k ih =>
    intro data self
    rw [devArrayLoop, devArrayLoop]
    split
    · simp [AppClient.init]
    · rename_i newDev data' _
      have h1 := ih data' { self with connectedDeviceList := self.connectedDeviceList ++ [newDev] }
      have h2 := ih data'
        { AppClient.init with
          connectedDeviceList := AppClient.init.connectedDeviceList ++ [newDev] }
      rw [h1, h2]
      simp [AppClient.init]

theorem snapshot_list (self : AppClient) (bytes : List Byte) :
    (appC_processGetDevArrayCnf self ⟨bytes, 0, none⟩).st.connectedDeviceList
      = snapshotDevices bytes := by
  unfold snapshotDevices appC_processGetDevArrayCnf
  simp only
  split
  · rfl
  · rename_i n data _
    have h1 := devArrayLoop_list n data { self with connectedDeviceList := [] }
    have h2 := devArrayLoop_list n data { AppClient.init with connectedDeviceList := [] }
    rcases ha : devArrayLoop n data { self with connectedDeviceList := [] } with ⟨s1, _ | e1⟩ <;>
    rcases hb : devArrayLoop n data { AppClient.init with connectedDeviceList := [] }
      with ⟨s2, _ | e2⟩ <;>
    simp only [ha, hb, AppClient.emit] at h1 h2 ⊢ <;>
    simp [h1, h2]

theorem loop_trace (fuel : Nat) : ∀ (data : List Byte) (i : Nat) (self : AppClient)
    (tr : List (Nat × List Byte)),
    processIncomingLoop fuel data i self tr
      = ⟨(processIncomingLoop fuel data i self []).st,
         (processIncomingLoop fuel data i self []).thrown,
         tr ++ (processIncomingLoop fuel data i self []).dispatched,
         (processIncomingLoop fuel data i self []).finished⟩ := by
  induction fuel with
  | zero => intro data i self tr; simp [processIncomingLoop]
  | succ n ih =>
    intro data i self tr
    rw [processIncomingLoop, processIncomingLoop.eq_def (n + 1) data i self []]
    by_cases hlt : i < data.length
    · simp only [hlt, if_true]
      rcases hb : rxPktBuf data i with e | b
      · simp
      · simp only
        rcases hc : b.readUint8At PKT_HEADER_CMDID_FIELD with e | c
        · simp
        · simp only
          rcases hd : dispatch self c b with ⟨s, _ | e⟩
          · simp only
            rw [ih data _ s (tr ++ _), ih data _ s ([] ++ _)]
            simp
          · simp
    · simp [hlt]

theorem rxPktBuf_shape (data : List Byte) (i : Nat) (b : ByteBuffer)
    (h : rxPktBuf data i = .ok b) : b = ⟨b.buffer, 0, none⟩ := by
  unfold rxPktBuf ByteBuffer.append ByteBuffer.alloc at h
  split at h
  · cases h
  · split at h <;> cases h <;> rfl

/-- A property of the client state that every dispatch keeps, for the frames
that satisfy `Q`, holds after the frame loop when the frames dispatched
satisfy `Q`. -/
theorem loop_invariant (P : AppClient → Prop) (Q : Nat → List Byte → Prop)
    (hstep : ∀ s c bytes, P s → Q c bytes → P (dispatch s c ⟨bytes, 0, none⟩).st)
    (fuel : Nat) : ∀ (data : List Byte) (i : Nat) (self : AppClient), P self →
    (∀ p ∈ (processIncomingLoop fuel data i self []).dispatched, Q p.1 p.2) →
    P (processIncomingLoop fuel data i self []).st := by
  induction fuel with
  | zero => intro data i self hP _; simpa [processIncomingLoop] using hP
  | succ n ih =>
    intro data i self hP hQ
    rw [processIncomingLoop] at hQ ⊢
    by_cases hlt : i < data.length
    · simp only [hlt, if_true] at hQ ⊢
      rcases hb : rxPktBuf data i with e | b
      · simpa [hb] using hP
      · simp only [hb] at hQ ⊢
        have hshape := rxPktBuf_shape _ _ _ hb
        rcases hc : b.readUint8At PKT_HEADER_CMDID_FIELD with e | c
        · simpa [hc] using hP
        · simp only [hc] at hQ ⊢
          have hd := hstep self c b.buffer hP
          rw [← hshape] at hd
          rcases heq : dispatch self c b with ⟨s, _ | e⟩
          · simp only [heq] at hd hQ ⊢
            rw [loop_trace] at hQ ⊢
            simp only [List.nil_append, List.singleton_append, List.mem_cons,
              forall_eq_or_imp] at hQ
            exact ih data _ s (hd hQ.1) hQ.2
          · simp only [heq] at hd hQ ⊢
            exact hd (hQ (c, b.buffer) (by simp))
    · simpa [hlt] using hP

theorem nodup_of_addrsKept {self r : AppClient} (h : AddrsKept self r)
    (hn : self.addrs.Nodup) : r.addrs.Nodup := by
  rcases h with h | ⟨e, he, h⟩
  · rw [h]; exact hn
  · rw [h]
    exact List.Nodup.append hn (List.nodup_singleton e) (by simpa using he)

theorem dispatch_nodup (s : AppClient) (c : Nat) (bytes : List Byte) (hn : s.addrs.Nodup)
    (hq : c = cmdIds.GET_DEVICE_ARRAY_CNF → SnapshotDistinct bytes) :
    (dispatch s c ⟨bytes, 0, none⟩).st.addrs.Nodup := by
  by_cases hc : c = cmdIds.GET_DEVICE_ARRAY_CNF
  · subst hc
    have : dispatch s cmdIds.GET_DEVICE_ARRAY_CNF ⟨bytes, 0, none⟩
        = appC_processGetDevArrayCnf s ⟨bytes, 0, none⟩ := by
      simp [dispatch, cmdIds.GET_DEVICE_ARRAY_CNF, cmdIds.DEVICE_JOINED_IND, cmdIds.NWK_INFO_IND,
        cmdIds.GET_NWK_INFO_CNF]
    rw [this, AppClient.addrs, snapshot_list]
    exact hq rfl
  · exact nodup_of_addrsKept (dispatch_addrs s c _ hc) hn

theorem processIncoming_nodup (self : AppClient) (data : List Byte) (hn : self.addrs.Nodup)
    (hq : ∀ p ∈ (appC_processIncoming self data).dispatched,
      p.1 = cmdIds.GET_DEVICE_ARRAY_CNF → SnapshotDistinct p.2) :
    (appC_processIncoming self data).st.addrs.Nodup :=
  loop_invariant (fun s => s.addrs.Nodup)
    (fun c bytes => c = cmdIds.GET_DEVICE_ARRAY_CNF → SnapshotDistinct bytes)
    (fun s c bytes hP hQ => dispatch_nodup s c bytes hP hQ) _ data 0 self hn hq

theorem processChunks_nodup (chunks : List (List Byte)) : ∀ (self : AppClient),
    self.addrs.Nodup →
    (∀ p ∈ (processChunks self chunks).2,
      p.1 = cmdIds.GET_DEVICE_ARRAY_CNF → SnapshotDistinct p.2) →
    (processChunks self chunks).1.addrs.Nodup := by
  induction chunks with
  | nil => intro self hn _; exact hn
  | cons c cs ih =>
    intro self hn hq
    simp only [processChunks, List.mem_append] at hq ⊢
    exact ih _ (processIncoming_nodup self c hn (fun p hp => hq p (Or.inl hp)))
      (fun p hp => hq p (Or.inr hp))

/-- C8 (amended): starting from the empty registry, after any sequence of
chunks handed to `appC_processIncoming` in which every roster snapshot that is
dispatched lists pairwise distinct extended addresses, no two devices of
`connectedDeviceList` have the same extended address. -/
theorem registry_addresses_distinct (chunks : List (List Byte))
    (h : ∀ p ∈ (processChunks AppClient.init chunks).2,
      p.1 = cmdIds.GET_DEVICE_ARRAY_CNF → SnapshotDistinct p.2) :
    ((processChunks AppClient.init chunks).1.connectedDeviceList.map (·.extAddress)).Nodup :=
  processChunks_nodup chunks AppClient.init List.nodup_nil h

theorem registry_addresses_distinct_witness :
    (∀ p ∈ (processChunks AppClient.init [snapshotPair ++ joinFrame 9 0, joinFrameWords 2 23 1]).2,
      p.1 = cmdIds.GET_DEVICE_ARRAY_CNF → SnapshotDistinct p.2)
    ∧ ((processChunks AppClient.init
          [snapshotPair ++ joinFrame 9 0, joinFrameWords 2 23 1]).1.connectedDeviceList.map
        (·.extAddress)).Nodup :=
  ⟨by decide, registry_addresses_distinct _ (by decide)⟩

/-- C8 as stated fails: from the empty registry, one roster snapshot that
lists the address 0x1122334455667788 twice leaves two devices with that
address. -/
theorem snapshot_can_list_an_address_twice :
    (appC_processIncoming AppClient.init snapshotTwice).thrown = none
    ∧ (appC_processIncoming AppClient.init snapshotTwice).st.connectedDeviceList.map
        (·.extAddress)
      = [⟨0x55667788, 0x11223344, true⟩, ⟨0x55667788, 0x11223344, true⟩] := by
  decide

theorem prefix_of_addrsKept {self r : AppClient} (h : AddrsKept self r) :
    self.addrs <+: r.addrs := by
  rcases h with h | ⟨e, _, h⟩
  · rw [h]
  · rw [h]; exact List.prefix_append _ _

theorem notActive_list (self : AppClient) (data : ByteBuffer) :
    (appC_processDeviceNotActiveIndMsg self data).st.connectedDeviceList
        = self.connectedDeviceList
    ∨ ∃ i d, self.connectedDeviceList.get? i = some d
      ∧ (appC_processDeviceNotActiveIndMsg self data).st.connectedDeviceList
          = self.connectedDeviceList.set i { d with active := "false" } := by
  unfold appC_processDeviceNotActiveIndMsg
  split
  · exact Or.inl rfl
  · split
    · rename_i i _
      unfold updateDeviceAt
      split
      · rename_i dev hdev
        exact Or.inr ⟨i, dev, hdev, rfl⟩
      · exact Or.inl rfl
    · exact Or.inl rfl

/-- C9 (amended): a frame other than GET_DEVICE_ARRAY_CNF removes no device:
every device registered before the frame is dispatched is registered
afterwards at the same index with the same extended address, whether the
handler raises or not, and the same holds for a whole call of
`appC_processIncoming` in which no roster snapshot is dispatched; an inactive
indication changes nothing or sets `active` of one device to 'false', every
other property and device being kept. (GET_DEVICE_ARRAY_CNF erases the
registry before it reads its entries.) -/
theorem devices_kept_unless_snapshot (self : AppClient) (rx_cmd_id : Nat)
    (rx_pkt_buf : ByteBuffer) (data : List Byte)
    (h : rx_cmd_id ≠ cmdIds.GET_DEVICE_ARRAY_CNF)
    (hd : ∀ p ∈ (appC_processIncoming self data).dispatched,
      p.1 ≠ cmdIds.GET_DEVICE_ARRAY_CNF) :
    self.connectedDeviceList.map (·.extAddress)
        <+: (dispatch self rx_cmd_id rx_pkt_buf).st.connectedDeviceList.map (·.extAddress)
    ∧ self.connectedDeviceList.map (·.extAddress)
        <+: (appC_processIncoming self data).st.connectedDeviceList.map (·.extAddress)
    ∧ ((appC_processDeviceNotActiveIndMsg self rx_pkt_buf).st.connectedDeviceList
          = self.connectedDeviceList
      ∨ ∃ i d, self.connectedDeviceList.get? i = some d
        ∧ (appC_processDeviceNotActiveIndMsg self rx_pkt_buf).st.connectedDeviceList
            = self.connectedDeviceList.set i { d with active := "false" }) := by
  refine ⟨prefix_of_addrsKept (dispatch_addrs self rx_cmd_id rx_pkt_buf h), ?_,
    notActive_list self rx_pkt_buf⟩
  exact loop_invariant (fun s => self.addrs <+: s.addrs)
    (fun c _ => c ≠ cmdIds.GET_DEVICE_ARRAY_CNF)
    (fun s c bytes hP hQ => List.IsPrefix.trans hP (prefix_of_addrsKept (dispatch_addrs s c _ hQ)))
    _ data 0 self (List.prefix_refl _) hd

theorem devices_kept_unless_snapshot_witness :
    (8 : Nat) ≠ cmdIds.GET_DEVICE_ARRAY_CNF
    ∧ (∀ p ∈ (appC_processIncoming (appC_processIncoming AppClient.init snapshotPair).st
          (joinFrame 9 0)).dispatched, p.1 ≠ cmdIds.GET_DEVICE_ARRAY_CNF)
    ∧ (appC_processIncoming AppClient.init snapshotPair).st.connectedDeviceList.map (·.extAddress)
        <+: (appC_processIncoming (appC_processIncoming AppClient.init snapshotPair).st
              (joinFrame 9 0)).st.connectedDeviceList.map (·.extAddress) :=
  ⟨by decide, by decide,
    (devices_kept_unless_snapshot (appC_processIncoming AppClient.init snapshotPair).st 8
      ⟨[13, 0, 10, 8, 0xCD, 0xAB, 5, 0, 3, 0, 0, 0, 12, 0, 0, 0, 30], 0, none⟩ (joinFrame 9 0)
      (by decide) (by decide)).2.1⟩

/-- C9 as stated fails: after a join the registry holds one device; a
GET_DEVICE_ARRAY_CNF frame with count 0 then leaves the registry empty. -/
theorem snapshot_removes_devices :
    (appC_processIncoming AppClient.init (joinFrame 1 0)).st.connectedDeviceList.map
        (·.extAddress) = [⟨0x55667788, 0x11223344, true⟩]
    ∧ (appC_processIncoming (appC_processIncoming AppClient.init (joinFrame 1 0)).st
        snapshotEmpty).st.connectedDeviceList = []
    ∧ (appC_processIncoming (appC_processIncoming AppClient.init (joinFrame 1 0)).st
        snapshotEmpty).thrown = none := by
  decide

/-! ## The roster snapshot -/

theorem drop_cons_info {l : List Byte} {o : Nat} {b : Byte} {r : List Byte}
    (h : l.drop o = b :: r) : o < l.length ∧ l.getD o 0 = b ∧ l.drop (o + 1) = r := by
  have hlt : o < l.length := by
    by_contra hc
    rw [List.drop_eq_nil_of_le (by omega)] at h
    cases h
  have e := List.drop_eq_getElem_cons hlt
  rw [h] at e
  simp only [List.cons.injEq] at e
  exact ⟨hlt, by simp [List.getD_eq_getElem?_getD, List.getElem?_eq_getElem hlt, e.1], e.2.symm⟩

theorem toInt32_toUint32 (x : Int) (h1 : -2147483648 ≤ x) (h2 : x < 2147483648) :
    toInt32 (ByteBuffer.toUint32 x) = x := by
  unfold toInt32 ByteBuffer.toUint32
  split <;> omega

theorem le32_sum (u : Nat) (h : u < 4294967296) :
    (ByteBuffer.toByte u).val + 256 * (ByteBuffer.toByte (u / 256)).val
      + 65536 * (ByteBuffer.toByte (u / 65536)).val
      + 16777216 * (ByteBuffer.toByte (u / 16777216)).val = u := by
  simp only [ByteBuffer.toByte]
  omega

theorem toUint32_lt (x : Int) : ByteBuffer.toUint32 x < 4294967296 := by
  unfold ByteBuffer.toUint32
  omega

theorem byteAt_of_drop {bb : ByteBuffer} {k : Nat} {b : Byte} {r : List Byte}
    (h : bb.buffer.drop (bb.offset + k) = b :: r) :
    bb.offset + k < bb.buffer.length ∧ bb.byteAt (bb.offset + k) = b.val
      ∧ bb.buffer.drop (bb.offset + (k + 1)) = r := by
  obtain ⟨h1, h2, h3⟩ := drop_cons_info h
  exact ⟨h1, by simp only [ByteBuffer.byteAt, h2], by rw [← Nat.add_assoc]; exact h3⟩

theorem readUint8_reads {bb : ByteBuffer} {b : Byte} {r : List Byte} (h : Reads bb (b :: r)) :
    ∃ bb', bb.readUint8 = .ok (b.val, bb') ∧ Reads bb' r := by
  have h' : bb.buffer.drop (bb.offset + 0) = b :: r := h
  obtain ⟨h1, h2, h3⟩ := byteAt_of_drop h'
  refine ⟨{ bb with offset := bb.offset + 1 }, ?_, h3⟩
  have : ¬ bb.offset + 1 > bb.buffer.length := by omega
  simp only [Nat.add_zero] at h2
  simp only [ByteBuffer.readUint8, ByteBuffer.readUint8At, this, if_false, h2]

theorem readUint16_reads {bb : ByteBuffer} {b0 b1 : Byte} {r : List Byte}
    (h : Reads bb (b0 :: b1 :: r)) :
    ∃ bb', bb.readUint16 = .ok (b0.val + 256 * b1.val, bb') ∧ Reads bb' r := by
  have h' : bb.buffer.drop (bb.offset + 0) = b0 :: b1 :: r := h
  obtain ⟨h1, h2, h3⟩ := byteAt_of_drop h'
  obtain ⟨h4, h5, h6⟩ := byteAt_of_drop h3
  refine ⟨{ bb with offset := bb.offset + 2 }, ?_, h6⟩
  have : ¬ bb.offset + 2 > bb.buffer.length := by omega
  simp only [Nat.add_zero, Nat.zero_add] at h2 h5
  simp only [ByteBuffer.readUint16, ByteBuffer.readUint16At, this, if_false, h2, h5]

theorem readUint32_reads {bb : ByteBuffer} {b0 b1 b2 b3 : Byte} {r : List Byte}
    (h : Reads bb (b0 :: b1 :: b2 :: b3 :: r)) :
    ∃ bb', bb.readUint32
        = .ok (b0.val + 256 * b1.val + 65536 * b2.val + 16777216 * b3.val, bb')
      ∧ Reads bb' r := by
  have h' : bb.buffer.drop (bb.offset + 0) = b0 :: b1 :: b2 :: b3 :: r := h
  obtain ⟨h0, g0, h⟩ := byteAt_of_drop h'
  obtain ⟨h1, g1, h⟩ := byteAt_of_drop h
  obtain ⟨h2, g2, h⟩ := byteAt_of_drop h
  obtain ⟨h3, g3, h⟩ := byteAt_of_drop h
  refine ⟨{ bb with offset := bb.offset + 4 }, ?_, h⟩
  have : ¬ bb.offset + 4 > bb.buffer.length := by omega
  simp only [Nat.add_zero, Nat.zero_add, Nat.reduceAdd] at g0 g1 g2 g3
  simp only [ByteBuffer.readUint32, ByteBuffer.readUint32At, this, if_false, g0, g1, g2, g3]

theorem readUint64_reads {bb : ByteBuffer} {b0 b1 b2 b3 b4 b5 b6 b7 : Byte} {r : List Byte}
    (h : Reads bb (b0 :: b1 :: b2 :: b3 :: b4 :: b5 :: b6 :: b7 :: r)) :
    ∃ bb', bb.readUint64
        = .ok (⟨toInt32 (b0.val + 256 * b1.val + 65536 * b2.val + 16777216 * b3.val),
                toInt32 (b4.val + 256 * b5.val + 65536 * b6.val + 16777216 * b7.val), true⟩, bb')
      ∧ Reads bb' r := by
  have h' : bb.buffer.drop (bb.offset + 0)
      = b0 :: b1 :: b2 :: b3 :: b4 :: b5 :: b6 :: b7 :: r := h
  obtain ⟨h0, g0, h⟩ := byteAt_of_drop h'
  obtain ⟨h1, g1, h⟩ := byteAt_of_drop h
  obtain ⟨h2, g2, h⟩ := byteAt_of_drop h
  obtain ⟨h3, g3, h⟩ := byteAt_of_drop h
  obtain ⟨h4, g4, h⟩ := byteAt_of_drop h
  obtain ⟨h5, g5, h⟩ := byteAt_of_drop h
  obtain ⟨h6, g6, h⟩ := byteAt_of_drop h
  obtain ⟨h7, g7, h⟩ := byteAt_of_drop h
  refine ⟨{ bb with offset := bb.offset + 8 }, ?_, h⟩
  have : ¬ bb.offset + 8 > bb.buffer.length := by omega
  simp only [Nat.add_zero, Nat.zero_add, Nat.reduceAdd] at g0 g1 g2 g3 g4 g5 g6 g7
  simp only [ByteBuffer.readUint64, this, if_false, g0, g1, g2, g3, g4, g5, g6, g7]

theorem toByte_val_of_lt (n : Nat) (h : n < 256) : (ByteBuffer.toByte n).val = n := by
  simp [ByteBuffer.toByte, Nat.mod_eq_of_lt h]

theorem le16_sum (n : Nat) (h : n < 65536) :
    (ByteBuffer.toByte n).val + 256 * (ByteBuffer.toByte (n / 256)).val = n := by
  simp only [ByteBuffer.toByte]
  omega

theorem readDevArrayEntry_reads {bb : ByteBuffer} {e : SnapshotEntry} {r : List Byte}
    (h : Reads bb (e.encode ++ r)) (he : e.InRange) :
    ∃ bb', readDevArrayEntry bb = .ok (Device.new e.shortAddress e.extAddress e.capInfo, bb')
      ∧ Reads bb' r := by
  obtain ⟨hs, ⟨hl1, hl2, hh1, hh2, hu⟩, c1, c2, c3, c4, c5, c6⟩ := he
  simp only [SnapshotEntry.encode, le16, encodeLong, le32, List.cons_append, List.nil_append,
    List.append_assoc] at h
  obtain ⟨bb1, e1, h⟩ := readUint16_reads h
  obtain ⟨bb2, e2, h⟩ := readUint16_reads h
  obtain ⟨bb3, e3, h⟩ := readUint64_reads h
  obtain ⟨bb4, e4, h⟩ := readUint8_reads h
  obtain ⟨bb5, e5, h⟩ := readUint8_reads h
  obtain ⟨bb6, e6, h⟩ := readUint8_reads h
  obtain ⟨bb7, e7, h⟩ := readUint8_reads h
  obtain ⟨bb8, e8, h⟩ := readUint8_reads h
  obtain ⟨bb9, e9, h⟩ := readUint8_reads h
  refine ⟨bb9, ?_, h⟩
  rw [le32_sum _ (toUint32_lt _), le32_sum _ (toUint32_lt _), toInt32_toUint32 _ hl1 hl2,
    toInt32_toUint32 _ hh1 hh2] at e3
  rw [le16_sum _ hs] at e2
  rw [toByte_val_of_lt _ c1] at e4
  rw [toByte_val_of_lt _ c2] at e5
  rw [toByte_val_of_lt _ c3] at e6
  rw [toByte_val_of_lt _ c4] at e7
  rw [toByte_val_of_lt _ c5] at e8
  rw [toByte_val_of_lt _ c6] at e9
  simp only [readDevArrayEntry, readCapInfo, bind, Except.bind, e1, e2, e3, e4, e5, e6, e7, e8, e9,
    pure, Except.pure]
  rcases e with ⟨p, sa, ⟨lo, hi, u⟩, ci⟩
  simp only at hu
  subst hu
  rfl

theorem devArrayLoop_reads (entries : List SnapshotEntry) : ∀ (bb : ByteBuffer)
    (self : AppClient), Reads bb (entries.map SnapshotEntry.encode).flatten →
    (∀ e ∈ entries, e.InRange) →
    devArrayLoop entries.length bb self
      = ⟨{ self with connectedDeviceList := self.connectedDeviceList
            ++ entries.map (fun e => Device.new e.shortAddress e.extAddress e.capInfo) }, none⟩ := by
  induction entries with
  | nil => intro bb self _ _; simp [devArrayLoop]
  | cons e es ih =>
    intro bb self h hr
    simp only [List.map_cons, List.flatten_cons] at h
    obtain ⟨bb', e1, h'⟩ := readDevArrayEntry_reads h (hr e (List.mem_cons_self _ _))
    simp only [List.length_cons, devArrayLoop, e1]
    rw [ih bb' _ h' (fun x hx => hr x (List.mem_cons_of_mem _ hx))]
    simp

theorem encode_length (e : SnapshotEntry) : e.encode.length = 18 := by
  simp [SnapshotEntry.encode, le16, encodeLong, le32]

theorem flatten_encode_length (entries : List SnapshotEntry) :
    (entries.map SnapshotEntry.encode).flatten.length = 18 * entries.length := by
  induction entries with
  | nil => rfl
  | cons e es ih =>
    rw [List.map_cons, List.flatten_cons, List.length_append, ih, encode_length,
      List.length_cons]
    omega

theorem snapshotPayload_length (status : Byte) (entries : List SnapshotEntry) :
    (snapshotPayload status entries).length = 3 + 18 * entries.length := by
  simp only [snapshotPayload, le16, List.length_cons, List.length_append, List.length_nil,
    flatten_encode_length]
  omega

theorem snapshotFrame_wf (subsys status : Byte) (entries : List SnapshotEntry)
    (hn : 3 + 18 * entries.length < 65536) :
    WellFormedFrame (snapshotFrame subsys status entries) := by
  refine ⟨_, _, subsys, ByteBuffer.toByte cmdIds.GET_DEVICE_ARRAY_CNF,
    snapshotPayload status entries, rfl, ?_⟩
  have h := snapshotPayload_length status entries
  rw [le16_sum _ (by omega)]

theorem snapshot_handler (self : AppClient) (subsys status : Byte)
    (entries : List SnapshotEntry) (hr : ∀ e ∈ entries, e.InRange)
    (hn : 3 + 18 * entries.length < 65536) :
    appC_processGetDevArrayCnf self ⟨snapshotFrame subsys status entries, 0, none⟩
      = ⟨{ self with
            connectedDeviceList := snapshotRegistry entries
            emitted := self.emitted ++ [.getdevArrayRsp (snapshotRegistry entries)] }, none⟩ := by
  have hlen : 4 ≤ (snapshotFrame subsys status entries).length := by
    simp [snapshotFrame, encodeFrame, le16]
  have h0 : Reads ⟨snapshotFrame subsys status entries, 4, none⟩
      (status :: (le16 entries.length ++ (entries.map SnapshotEntry.encode).flatten)) := by
    simp [Reads, snapshotFrame, encodeFrame, le16, snapshotPayload]
  obtain ⟨bb1, e1, h1⟩ := readUint8_reads h0
  simp only [le16, List.cons_append, List.nil_append] at h1
  obtain ⟨bb2, e2, h2⟩ := readUint16_reads h1
  rw [le16_sum _ (by omega)] at e2
  have hk : ¬ PKT_HEADER_SIZE > (snapshotFrame subsys status entries).length := by
    simp only [PKT_HEADER_SIZE]; omega
  have hhead : readDevArrayHead ⟨snapshotFrame subsys status entries, 0, none⟩
      = .ok (status.val, entries.length, bb2) := by
    simp only [readDevArrayHead, skipHeader, ByteBuffer.mark, hk, if_false, bind, Except.bind,
      pure, Except.pure, ByteBuffer.reset]
    simp only [PKT_HEADER_SIZE, e1, e2]
  simp only [appC_processGetDevArrayCnf, hhead]
  rw [devArrayLoop_reads entries bb2 _ h2 hr]
  simp [AppClient.emit, snapshotRegistry]

/-- C10: for every prior registry and every well-formed GET_DEVICE_ARRAY_CNF
frame that announces N devices and carries N complete entries (each PAN id,
short address, extended address, six capability bytes), the handler leaves a
registry of exactly N devices, the i-th built from the short address,
extended address and capability flags of the i-th entry and active; nothing
of the prior registry is kept; exactly one device-array event is emitted,
carrying the new list; the same holds when the frame goes through
`appC_processIncoming`. -/
theorem snapshot_replaces_registry (self : AppClient) (subsys status : Byte)
    (entries : List SnapshotEntry) (hr : ∀ e ∈ entries, e.InRange)
    (hn : 3 + 18 * entries.length < 65536) :
    WellFormedFrame (snapshotFrame subsys status entries)
    ∧ appC_processGetDevArrayCnf self ⟨snapshotFrame subsys status entries, 0, none⟩
      = ⟨{ self with
            connectedDeviceList := snapshotRegistry entries
            emitted := self.emitted ++ [.getdevArrayRsp (snapshotRegistry entries)] }, none⟩
    ∧ appC_processIncoming self (snapshotFrame subsys status entries)
      = ⟨{ self with
            connectedDeviceList := snapshotRegistry entries
            emitted := self.emitted ++ [.getdevArrayRsp (snapshotRegistry entries)] }, none,
          [(cmdIds.GET_DEVICE_ARRAY_CNF, snapshotFrame subsys status entries)], true⟩
    ∧ (snapshotRegistry entries).length = entries.length
    ∧ (∀ (i : Nat) (e : SnapshotEntry), entries[i]? = some e →
        ∃ d : Device, (snapshotRegistry entries)[i]? = some d
        ∧ d.shortAddress = e.shortAddress ∧ d.extAddress = e.extAddress
        ∧ d.capabilityInfo = .capInfo e.capInfo ∧ d.active = "true") := by
  have hw := snapshotFrame_wf subsys status entries hn
  have hh := snapshot_handler self subsys status entries hr hn
  refine ⟨hw, hh, ?_, by simp [snapshotRegistry], ?_⟩
  · have h := loop_frames [snapshotFrame subsys status entries] self []
      (snapshotFrame subsys status entries).length (by simpa using hw) (by simp)
    simp only [List.flatten_cons, List.flatten_nil, List.append_nil] at h
    have hc : frameCmd (snapshotFrame subsys status entries) = cmdIds.GET_DEVICE_ARRAY_CNF := by
      simp [frameCmd, snapshotFrame, encodeFrame, le16, ByteBuffer.toByte,
        cmdIds.GET_DEVICE_ARRAY_CNF]
      rfl
    have hd : dispatch self cmdIds.GET_DEVICE_ARRAY_CNF ⟨snapshotFrame subsys status entries, 0, none⟩
        = appC_processGetDevArrayCnf self ⟨snapshotFrame subsys status entries, 0, none⟩ := by
      simp [dispatch, cmdIds.GET_DEVICE_ARRAY_CNF, cmdIds.DEVICE_JOINED_IND, cmdIds.NWK_INFO_IND,
        cmdIds.GET_NWK_INFO_CNF]
    rw [appC_processIncoming, h]
    simp only [dispatchFrames, hc, hd, hh, List.nil_append]
  · intro i e hi
    exact ⟨Device.new e.shortAddress e.extAddress e.capInfo, by simp [snapshotRegistry, hi],
      rfl, rfl, rfl, rfl⟩

theorem snapshot_replaces_registry_witness :
    (∀ e ∈ [(⟨0xABCD, 5, ⟨3, 12, true⟩, ⟨0, 0, 0, 0, 0, 0⟩⟩ : SnapshotEntry),
        ⟨0xABCD, 6, ⟨0x55667788, 0x11223344, true⟩, ⟨1, 1, 1, 1, 1, 1⟩⟩], e.InRange)
    ∧ snapshotFrame 10 0 [⟨0xABCD, 5, ⟨3, 12, true⟩, ⟨0, 0, 0, 0, 0, 0⟩⟩,
        ⟨0xABCD, 6, ⟨0x55667788, 0x11223344, true⟩, ⟨1, 1, 1, 1, 1, 1⟩⟩] = snapshotPair
    ∧ (appC_processGetDevArrayCnf (appC_processIncoming AppClient.init (joinFrame 1 0)).st
        ⟨snapshotPair, 0, none⟩).st.connectedDeviceList
      = snapshotRegistry [⟨0xABCD, 5, ⟨3, 12, true⟩, ⟨0, 0, 0, 0, 0, 0⟩⟩,
        ⟨0xABCD, 6, ⟨0x55667788, 0x11223344, true⟩, ⟨1, 1, 1, 1, 1, 1⟩⟩] := by
  have hr : ∀ e ∈ [(⟨0xABCD, 5, ⟨3, 12, true⟩, ⟨0, 0, 0, 0, 0, 0⟩⟩ : SnapshotEntry),
      ⟨0xABCD, 6, ⟨0x55667788, 0x11223344, true⟩, ⟨1, 1, 1, 1, 1, 1⟩⟩], e.InRange := by
    intro e he
    simp only [List.mem_cons, List.mem_singleton, List.not_mem_nil, or_false] at he
    rcases he with rfl | rfl <;>
      simp [SnapshotEntry.InRange, Long.IsUint64]
  have hf : snapshotFrame 10 0 [⟨0xABCD, 5, ⟨3, 12, true⟩, ⟨0, 0, 0, 0, 0, 0⟩⟩,
      ⟨0xABCD, 6, ⟨0x55667788, 0x11223344, true⟩, ⟨1, 1, 1, 1, 1, 1⟩⟩] = snapshotPair := by
    decide
  refine ⟨hr, hf, ?_⟩
  have h := (snapshot_replaces_registry (appC_processIncoming AppClient.init (joinFrame 1 0)).st
    10 0 _ hr (by decide)).2.1
  rw [hf] at h
  rw [h]

/-! ## Exceptions -/

theorem skipHeader_ok (f : List Byte) (h : 4 ≤ f.length) :
    skipHeader ⟨f, 0, none⟩ = .ok ⟨f, 4, none⟩ := by
  have : ¬ 4 > f.length := by omega
  simp only [skipHeader, ByteBuffer.mark, PKT_HEADER_SIZE, this, if_false, bind, Except.bind,
    pure, Except.pure, ByteBuffer.reset]

theorem readUint8_ok (buf : List Byte) (o : Nat) (m : Option Nat) (h : o + 1 ≤ buf.length) :
    (ByteBuffer.mk buf o m).readUint8 = .ok ((buf.getD o 0).val, ⟨buf, o + 1, m⟩) := by
  have : ¬ o + 1 > buf.length := by omega
  simp only [ByteBuffer.readUint8, ByteBuffer.readUint8At, this, if_false, ByteBuffer.byteAt]

theorem readInt8_ok (buf : List Byte) (o : Nat) (m : Option Nat) (h : o + 1 ≤ buf.length) :
    ∃ v, (ByteBuffer.mk buf o m).readInt8 = .ok (v, ⟨buf, o + 1, m⟩) := by
  have : ¬ o + 1 > buf.length := by omega
  simp only [ByteBuffer.readInt8, ByteBuffer.readUint8At, this, if_false]
  exact ⟨_, rfl⟩

theorem readUint16_ok (buf : List Byte) (o : Nat) (m : Option Nat) (h : o + 2 ≤ buf.length) :
    (ByteBuffer.mk buf o m).readUint16
      = .ok ((buf.getD o 0).val + 256 * (buf.getD (o + 1) 0).val, ⟨buf, o + 2, m⟩) := by
  have : ¬ o + 2 > buf.length := by omega
  simp only [ByteBuffer.readUint16, ByteBuffer.readUint16At, this, if_false, ByteBuffer.byteAt]

theorem readUint32_ok (buf : List Byte) (o : Nat) (m : Option Nat) (h : o + 4 ≤ buf.length) :
    ∃ v, (ByteBuffer.mk buf o m).readUint32 = .ok (v, ⟨buf, o + 4, m⟩) := by
  have : ¬ o + 4 > buf.length := by omega
  simp only [ByteBuffer.readUint32, ByteBuffer.readUint32At, this, if_false]
  exact ⟨_, rfl⟩

theorem readFloat_ok (buf : List Byte) (o : Nat) (m : Option Nat) (h : o + 4 ≤ buf.length) :
    ∃ v, (ByteBuffer.mk buf o m).readFloat = .ok (v, ⟨buf, o + 4, m⟩) := by
  have : ¬ o + 4 > buf.length := by omega
  simp only [ByteBuffer.readFloat, ByteBuffer.readUint32At, this, if_false]
  exact ⟨_, rfl⟩

theorem readUint64_ok (buf : List Byte) (o : Nat) (m : Option Nat) (h : o + 8 ≤ buf.length) :
    ∃ v, (ByteBuffer.mk buf o m).readUint64 = .ok (v, ⟨buf, o + 8, m⟩) := by
  have : ¬ o + 8 > buf.length := by omega
  simp only [ByteBuffer.readUint64, this, if_false]
  exact ⟨_, rfl⟩

theorem readCapInfo_ok (buf : List Byte) (o : Nat) (m : Option Nat) (h : o + 6 ≤ buf.length) :
    ∃ v, readCapInfo ⟨buf, o, m⟩ = .ok (v, ⟨buf, o + 6, m⟩) := by
  simp only [readCapInfo, bind, Except.bind, pure, Except.pure,
    readUint8_ok buf o m (by omega), readUint8_ok buf (o + 1) m (by omega),
    readUint8_ok buf (o + 1 + 1) m (by omega), readUint8_ok buf (o + 1 + 1 + 1) m (by omega),
    readUint8_ok buf (o + 1 + 1 + 1 + 1) m (by omega),
    readUint8_ok buf (o + 1 + 1 + 1 + 1 + 1) m (by omega)]
  exact ⟨_, rfl⟩

theorem readUint16s_ok (n : Nat) : ∀ (buf : List Byte) (o : Nat) (m : Option Nat),
    o + 2 * n ≤ buf.length → ∃ v, readUint16s n ⟨buf, o, m⟩ = .ok (v, ⟨buf, o + 2 * n, m⟩) := by
  induction n with
  | zero => intro buf o m _; exact ⟨[], rfl⟩
  | succ k ih =>
    intro buf o m h
    obtain ⟨v, hv⟩ := ih buf (o + 2) m (by omega)
    simp only [readUint16s, bind, Except.bind, pure, Except.pure, readUint16_ok buf o m (by omega),
      hv]
    have : o + 2 + 2 * k = o + 2 * (k + 1) := by omega
    rw [this]
    exact ⟨_, rfl⟩

theorem joined_no_throw (self : AppClient) (f : List Byte) (h : 22 ≤ f.length) :
    (appC_processDeviceJoinedIndMsg self ⟨f, 0, none⟩).thrown = none := by
  obtain ⟨v3, e3⟩ := readUint64_ok f (4 + 2 + 2) none (by omega)
  obtain ⟨v4, e4⟩ := readCapInfo_ok f (4 + 2 + 2 + 8) none (by omega)
  simp only [appC_processDeviceJoinedIndMsg, readDeviceJoinedInd, bind, Except.bind, pure,
    Except.pure, skipHeader_ok f (by omega), readUint16_ok f 4 none (by omega),
    readUint16_ok f (4 + 2) none (by omega), e3, e4]

theorem readNetworkUpdateInd_ok (f : List Byte) (h : 21 ≤ f.length) :
    ∃ n, readNetworkUpdateInd ⟨f, 0, none⟩ = .ok n := by
  obtain ⟨v3, e3⟩ := readUint64_ok f (4 + 2 + 2) none (by omega)
  simp only [readNetworkUpdateInd, bind, Except.bind, pure,
    Except.pure, skipHeader_ok f (by omega), readUint16_ok f 4 none (by omega),
    readUint16_ok f (4 + 2) none (by omega), e3,
    readUint8_ok f (4 + 2 + 2 + 8) none (by omega),
    readUint8_ok f (4 + 2 + 2 + 8 + 1) none (by omega),
    readUint8_ok f (4 + 2 + 2 + 8 + 1 + 1) none (by omega),
    readUint8_ok f (4 + 2 + 2 + 8 + 1 + 1 + 1) none (by omega),
    readUint8_ok f (4 + 2 + 2 + 8 + 1 + 1 + 1 + 1) none (by omega)]
  exact ⟨_, rfl⟩

theorem nwkUpdateInd_no_throw (self : AppClient) (f : List Byte) (h : 21 ≤ f.length) :
    (appC_processNetworkUpdateIndMsg self ⟨f, 0, none⟩).thrown = none := by
  obtain ⟨n, e⟩ := readNetworkUpdateInd_ok f h
  simp only [appC_processNetworkUpdateIndMsg, e]

theorem readGetNwkInfoCnf_ok (f : List Byte) (h : 22 ≤ f.length) :
    ∃ n, readGetNwkInfoCnf ⟨f, 0, none⟩ = .ok n := by
  obtain ⟨v3, e3⟩ := readUint64_ok f (4 + 1 + 2 + 2) none (by omega)
  simp only [readGetNwkInfoCnf, bind, Except.bind, pure,
    Except.pure, skipHeader_ok f (by omega), readUint8_ok f 4 none (by omega),
    readUint16_ok f (4 + 1) none (by omega),
    readUint16_ok f (4 + 1 + 2) none (by omega), e3,
    readUint8_ok f (4 + 1 + 2 + 2 + 8) none (by omega),
    readUint8_ok f (4 + 1 + 2 + 2 + 8 + 1) none (by omega),
    readUint8_ok f (4 + 1 + 2 + 2 + 8 + 1 + 1) none (by omega),
    readUint8_ok f (4 + 1 + 2 + 2 + 8 + 1 + 1 + 1) none (by omega),
    readUint8_ok f (4 + 1 + 2 + 2 + 8 + 1 + 1 + 1 + 1) none (by omega)]
  exact ⟨_, rfl⟩

theorem nwkInfoCnf_no_throw (self : AppClient) (f : List Byte) (h : 22 ≤ f.length) :
    (appC_processGetNwkInfoCnf self ⟨f, 0, none⟩).thrown = none := by
  obtain ⟨n, e⟩ := readGetNwkInfoCnf_ok f h
  simp only [appC_processGetNwkInfoCnf, e]
  split
  · rfl
  · rfl

theorem devArrayLoop_no_throw (n : Nat) : ∀ (f : List Byte) (o : Nat) (self : AppClient),
    o + 18 * n ≤ f.length → (devArrayLoop n ⟨f, o, none⟩ self).thrown = none := by
  induction n with
  | zero => intro f o self _; rfl
  | succ k ih =>
    intro f o self h
    obtain ⟨v3, e3⟩ := readUint64_ok f (o + 2 + 2) none (by omega)
    obtain ⟨v4, e4⟩ := readCapInfo_ok f (o + 2 + 2 + 8) none (by omega)
    simp only [devArrayLoop, readDevArrayEntry, bind, Except.bind, pure, Except.pure,
      readUint16_ok f o none (by omega), readUint16_ok f (o + 2) none (by omega), e3, e4]
    exact ih f _ _ (by omega)

theorem snapshot_no_throw (self : AppClient) (f : List Byte)
    (h : 7 + 18 * (frameByte f 5 + 256 * frameByte f 6) ≤ f.length) :
    (appC_processGetDevArrayCnf self ⟨f, 0, none⟩).thrown = none := by
  have hl := devArrayLoop_no_throw (frameByte f 5 + 256 * frameByte f 6) f 7
    { self with connectedDeviceList := [] } h
  simp only [appC_processGetDevArrayCnf, readDevArrayHead, bind, Except.bind, pure, Except.pure,
    skipHeader_ok f (by omega), readUint8_ok f 4 none (by omega),
    readUint16_ok f (4 + 1) none (by omega)]
  simp only [frameByte] at hl
  rcases hd : devArrayLoop ((f.getD (4 + 1) 0).val + 256 * (f.getD (4 + 1 + 1) 0).val)
    ⟨f, 4 + 1 + 2, none⟩ { self with connectedDeviceList := [] } with ⟨s, _ | e⟩
  · rfl
  · rw [hd] at hl; cases hl

theorem findDeviceIndexFrom_lt (a : JsAddr) : ∀ (l : List Device) (i k : Nat),
    findDeviceIndexFrom a l i = some k → i ≤ k ∧ k < i + l.length := by
  intro l
  induction l with
  | nil => intro i k h; simp [findDeviceIndexFrom] at h
  | cons d ds ih =>
    intro i k h
    rw [findDeviceIndexFrom] at h
    split at h
    · cases h; simp
    · have := ih _ _ h
      simp only [List.length_cons]
      omega

theorem findDeviceIndex_get (self : AppClient) (a : JsAddr) (k : Nat)
    (h : findDeviceIndexFromAddr self a = some k) :
    ∃ d, self.connectedDeviceList.get? k = some d := by
  have := findDeviceIndexFrom_lt a _ _ _ h
  have hk : k < self.connectedDeviceList.length := by omega
  exact ⟨self.connectedDeviceList[k], by simp [List.getElem?_eq_getElem hk]⟩

theorem updateDeviceAt_no_throw (self : AppClient) (k : Nat) (f : Device → Device) (d : Device)
    (h : self.connectedDeviceList.get? k = some d) : (updateDeviceAt self k f).thrown = none := by
  simp only [updateDeviceAt, h]

theorem notActive_no_throw (self : AppClient) (f : List Byte) (h : 17 ≤ f.length) :
    (appC_processDeviceNotActiveIndMsg self ⟨f, 0, none⟩).thrown = none := by
  obtain ⟨v3, e3⟩ := readUint64_ok f (4 + 2 + 2) none (by omega)
  simp only [appC_processDeviceNotActiveIndMsg, readDeviceNotActiveInd, bind, Except.bind, pure,
    Except.pure, skipHeader_ok f (by omega), readUint16_ok f 4 none (by omega),
    readUint16_ok f (4 + 2) none (by omega), e3, readUint8_ok f (4 + 2 + 2 + 8) none (by omega)]
  split
  · rename_i k hk
    obtain ⟨d, hd⟩ := findDeviceIndex_get self _ k hk
    exact updateDeviceAt_no_throw self k _ d hd
  · rfl

theorem stateChange_no_throw (self : AppClient) (f : List Byte) (h : 5 ≤ f.length)
    (hn : self.nwkInfo.isSome = true) :
    (appC_processStateChangeUpdate self ⟨f, 0, none⟩).thrown = none := by
  have : ¬ 4 + 1 > f.length := by omega
  obtain ⟨n, hn'⟩ := Option.isSome_iff_exists.mp hn
  simp only [appC_processStateChangeUpdate, ByteBuffer.readUint8At, this, if_false, hn']

theorem setJoinPermitCnf_no_throw (self : AppClient) (f : List Byte) (h : 8 ≤ f.length) :
    (appC_processSetJoinPermitCnf self ⟨f, 0, none⟩).thrown = none := by
  have : ¬ 4 + 4 > f.length := by omega
  simp only [appC_processSetJoinPermitCnf, ByteBuffer.readUint32At, PKT_HEADER_SIZE, this,
    if_false]

theorem readTempSensor_ok (fc : Nat) (dd : DeviceData) (f : List Byte) (o : Nat)
    (h : fc &&& Smsgs_dataFields.tempSensor ≠ 0 → o + 4 ≤ f.length) :
    ∃ v, readTempSensor fc dd ⟨f, o, none⟩
      = .ok (if fc &&& Smsgs_dataFields.tempSensor ≠ 0 then { dd with tempSensor := some v }
             else dd,
            ⟨f, o + (if fc &&& Smsgs_dataFields.tempSensor ≠ 0 then 4 else 0), none⟩) := by
  by_cases c : fc &&& Smsgs_dataFields.tempSensor ≠ 0
  · have := h c
    simp only [readTempSensor, if_pos c, bind, Except.bind, pure, Except.pure,
      readUint16_ok f o none (by omega), readUint16_ok f (o + 2) none (by omega)]
    exact ⟨_, rfl⟩
  · simp only [readTempSensor, if_neg c, pure, Except.pure, Nat.add_zero]
    exact ⟨⟨0, 0⟩, trivial⟩

theorem readLightSensor_ok (fc : Nat) (dd : DeviceData) (f : List Byte) (o : Nat)
    (h : fc &&& Smsgs_dataFields.lightSensor ≠ 0 → o + 2 ≤ f.length) :
    ∃ v, readLightSensor fc dd ⟨f, o, none⟩
      = .ok (if fc &&& Smsgs_dataFields.lightSensor ≠ 0 then { dd with lightSensor := some v }
             else dd,
            ⟨f, o + (if fc &&& Smsgs_dataFields.lightSensor ≠ 0 then 2 else 0), none⟩) := by
  by_cases c : fc &&& Smsgs_dataFields.lightSensor ≠ 0
  · have := h c
    simp only [readLightSensor, if_pos c, bind, Except.bind, pure, Except.pure,
      readUint16_ok f o none (by omega)]
    exact ⟨_, rfl⟩
  · simp only [readLightSensor, if_neg c, pure, Except.pure, Nat.add_zero]
    exact ⟨⟨0⟩, trivial⟩

theorem readHumiditySensor_ok (fc : Nat) (dd : DeviceData) (f : List Byte) (o : Nat)
    (h : fc &&& Smsgs_dataFields.humiditySensor ≠ 0 → o + 4 ≤ f.length) :
    ∃ v, readHumiditySensor fc dd ⟨f, o, none⟩
      = .ok (if fc &&& Smsgs_dataFields.humiditySensor ≠ 0 then
               { dd with humiditySensor := some v }
             else dd,
            ⟨f, o + (if fc &&& Smsgs_dataFields.humiditySensor ≠ 0 then 4 else 0), none⟩) := by
  by_cases c : fc &&& Smsgs_dataFields.humiditySensor ≠ 0
  · have := h c
    simp only [readHumiditySensor, if_pos c, bind, Except.bind, pure, Except.pure,
      readUint16_ok f o none (by omega), readUint16_ok f (o + 2) none (by omega)]
    exact ⟨_, rfl⟩
  · simp only [readHumiditySensor, if_neg c, pure, Except.pure, Nat.add_zero]
    exact ⟨⟨0, 0⟩, trivial⟩

theorem readHallEffectSensor_ok (fc : Nat) (dd : DeviceData) (f : List Byte) (o : Nat)
    (h : fc &&& Smsgs_dataFields.hallEffectSensor ≠ 0 → o + 4 ≤ f.length) :
    ∃ v, readHallEffectSensor fc dd ⟨f, o, none⟩
      = .ok (if fc &&& Smsgs_dataFields.hallEffectSensor ≠ 0 then
               { dd with hallEffectSensor := some v }
             else dd,
            ⟨f, o + (if fc &&& Smsgs_dataFields.hallEffectSensor ≠ 0 then 4 else 0), none⟩) := by
  by_cases c : fc &&& Smsgs_dataFields.hallEffectSensor ≠ 0
  · obtain ⟨v, e⟩ := readFloat_ok f o none (h c)
    simp only [readHallEffectSensor, if_pos c, bind, Except.bind, pure, Except.pure, e]
    exact ⟨_, rfl⟩
  · simp only [readHallEffectSensor, if_neg c, pure, Except.pure, Nat.add_zero]
    exact ⟨⟨0⟩, trivial⟩

theorem readMsgStats_ok (fc : Nat) (dd : DeviceData) (f : List Byte) (o : Nat)
    (h : fc &&& Smsgs_dataFields.msgStats ≠ 0 → o + 40 ≤ f.length) :
    ∃ v, readMsgStats fc dd ⟨f, o, none⟩
      = .ok (if fc &&& Smsgs_dataFields.msgStats ≠ 0 then { dd with msgStats := some v }
             else dd,
            ⟨f, o + (if fc &&& Smsgs_dataFields.msgStats ≠ 0 then 40 else 0), none⟩) := by
  by_cases c : fc &&& Smsgs_dataFields.msgStats ≠ 0
  · obtain ⟨v, e⟩ := readUint16s_ok 20 f o none (h c)
    simp only [readMsgStats, if_pos c, bind, Except.bind, pure, Except.pure, e]
    exact ⟨_, rfl⟩
  · simp only [readMsgStats, if_neg c, pure, Except.pure, Nat.add_zero]
    exact ⟨[], trivial⟩

theorem readConfigSettings_ok (fc : Nat) (dd : DeviceData) (f : List Byte) (o : Nat)
    (h : fc &&& Smsgs_dataFields.configSettings ≠ 0 → o + 8 ≤ f.length) :
    ∃ v, readConfigSettings fc dd ⟨f, o, none⟩
      = .ok (if fc &&& Smsgs_dataFields.configSettings ≠ 0 then
               { dd with configSettings := some v }
             else dd,
            ⟨f, o + (if fc &&& Smsgs_dataFields.configSettings ≠ 0 then 8 else 0), none⟩) := by
  by_cases c : fc &&& Smsgs_dataFields.configSettings ≠ 0
  · have := h c
    obtain ⟨v1, e1⟩ := readUint32_ok f o none (by omega)
    obtain ⟨v2, e2⟩ := readUint32_ok f (o + 4) none (by omega)
    simp only [readConfigSettings, if_pos c, bind, Except.bind, pure, Except.pure, e1, e2]
    exact ⟨_, rfl⟩
  · simp only [readConfigSettings, if_neg c, pure, Except.pure, Nat.add_zero]
    exact ⟨(0, 0), trivial⟩

theorem rxSensorData_ok (d : Device) (sd : DeviceData) (h : SensorConsistent sd) :
    ∃ d', d.rxSensorData sd = .ok d' := by
  obtain ⟨h1, h2, h3, h4⟩ := h
  unfold Device.rxSensorData
  simp only [bind, Except.bind, pure, Except.pure, throw, throwThe, MonadExceptOf.throw]
  generalize hasField sd.frameControl Smsgs_dataFields.tempSensor = b1 at h1 ⊢
  generalize hasField sd.frameControl Smsgs_dataFields.lightSensor = b2 at h2 ⊢
  generalize hasField sd.frameControl Smsgs_dataFields.humiditySensor = b3 at h3 ⊢
  generalize hasField sd.frameControl Smsgs_dataFields.hallEffectSensor = b4 at h4 ⊢
  generalize sd.tempSensor = o1 at h1 ⊢
  generalize sd.lightSensor = o2 at h2 ⊢
  generalize sd.humiditySensor = o3 at h3 ⊢
  generalize sd.hallEffectSensor = o4 at h4 ⊢
  cases b1 <;> cases b2 <;> cases b3 <;> cases b4 <;> cases o1 <;> cases o2 <;> cases o3 <;>
    cases o4 <;> simp_all

theorem readSensorData_ok (f : List Byte) (o : Nat) (dd : DeviceData)
    (h : o + 10 + sensorGroupsSize ((f.getD (o + 8) 0).val + 256 * (f.getD (o + 8 + 1) 0).val)
      ≤ f.length) :
    ∃ dd' bb', readSensorData ⟨f, o, none⟩ dd = .ok (dd', bb') ∧ SensorConsistent dd' := by
  obtain ⟨v0, e0⟩ := readUint64_ok f o none (by omega)
  have e1 := readUint16_ok f (o + 8) none (by omega)
  generalize (f.getD (o + 8) 0).val + 256 * (f.getD (o + 8 + 1) 0).val = fc at h e1
  unfold sensorGroupsSize at h
  obtain ⟨t1, g1⟩ := readTempSensor_ok fc
    { dd with extAddr := some v0, frameControl := some fc } f (o + 8 + 2)
    (by intro c; simp only [if_pos c] at h; omega)
  obtain ⟨t2, g2⟩ := readLightSensor_ok fc
    (if fc &&& Smsgs_dataFields.tempSensor ≠ 0 then
      { { dd with extAddr := some v0, frameControl := some fc } with tempSensor := some t1 }
     else { dd with extAddr := some v0, frameControl := some fc }) f
    (o + 8 + 2 + (if fc &&& Smsgs_dataFields.tempSensor ≠ 0 then 4 else 0))
    (by intro c; simp only [if_pos c] at h; omega)
  generalize hd2 : (if fc &&& Smsgs_dataFields.tempSensor ≠ 0 then
      { { dd with extAddr := some v0, frameControl := some fc } with tempSensor := some t1 }
     else { dd with extAddr := some v0, frameControl := some fc }) = d2 at g1 g2
  generalize ho2 : (o + 8 + 2 + (if fc &&& Smsgs_dataFields.tempSensor ≠ 0 then 4 else 0))
    = o2 at g1 g2
  obtain ⟨t3, g3⟩ := readHumiditySensor_ok fc
    (if fc &&& Smsgs_dataFields.lightSensor ≠ 0 then { d2 with lightSensor := some t2 } else d2) f
    (o2 + (if fc &&& Smsgs_dataFields.lightSensor ≠ 0 then 2 else 0))
    (by intro c; simp only [if_pos c] at h; omega)
  generalize hd3 : (if fc &&& Smsgs_dataFields.lightSensor ≠ 0 then
      { d2 with lightSensor := some t2 } else d2) = d3 at g2 g3
  generalize ho3 : (o2 + (if fc &&& Smsgs_dataFields.lightSensor ≠ 0 then 2 else 0)) = o3 at g2 g3
  obtain ⟨t4, g4⟩ := readHallEffectSensor_ok fc
    (if fc &&& Smsgs_dataFields.humiditySensor ≠ 0 then { d3 with humiditySensor := some t3 }
     else d3) f
    (o3 + (if fc &&& Smsgs_dataFields.humiditySensor ≠ 0 then 4 else 0))
    (by intro c; simp only [if_pos c] at h; omega)
  generalize hd4 : (if fc &&& Smsgs_dataFields.humiditySensor ≠ 0 then
      { d3 with humiditySensor := some t3 } else d3) = d4 at g3 g4
  generalize ho4 : (o3 + (if fc &&& Smsgs_dataFields.humiditySensor ≠ 0 then 4 else 0))
    = o4 at g3 g4
  obtain ⟨t5, g5⟩ := readMsgStats_ok fc
    (if fc &&& Smsgs_dataFields.hallEffectSensor ≠ 0 then { d4 with hallEffectSensor := some t4 }
     else d4) f
    (o4 + (if fc &&& Smsgs_dataFields.hallEffectSensor ≠ 0 then 4 else 0))
    (by intro c; simp only [if_pos c] at h; omega)
  generalize hd5 : (if fc &&& Smsgs_dataFields.hallEffectSensor ≠ 0 then
      { d4 with hallEffectSensor := some t4 } else d4) = d5 at g4 g5
  generalize ho5 : (o4 + (if fc &&& Smsgs_dataFields.hallEffectSensor ≠ 0 then 4 else 0))
    = o5 at g4 g5
  obtain ⟨t6, g6⟩ := readConfigSettings_ok fc
    (if fc &&& Smsgs_dataFields.msgStats ≠ 0 then { d5 with msgStats := some t5 } else d5) f
    (o5 + (if fc &&& Smsgs_dataFields.msgStats ≠ 0 then 40 else 0))
    (by intro c; simp only [if_pos c] at h; omega)
  generalize hd6 : (if fc &&& Smsgs_dataFields.msgStats ≠ 0 then
      { d5 with msgStats := some t5 } else d5) = d6 at g5 g6
  generalize ho6 : (o5 + (if fc &&& Smsgs_dataFields.msgStats ≠ 0 then 40 else 0)) = o6 at g5 g6
  have hfin : readSensorData ⟨f, o, none⟩ dd
      = .ok (if fc &&& Smsgs_dataFields.configSettings ≠ 0 then
               { d6 with configSettings := some t6 }
             else d6,
            ⟨f, o6 + (if fc &&& Smsgs_dataFields.configSettings ≠ 0 then 8 else 0), none⟩) := by
    simp only [readSensorData, bind, Except.bind, e0, e1, g1, g2, g3, g4, g5]
    exact g6
  refine ⟨_, _, hfin, ?_⟩
  · subst hd6 hd5 hd4 hd3 hd2
    simp only [SensorConsistent, hasField]
    by_cases c1 : fc &&& Smsgs_dataFields.tempSensor ≠ 0 <;>
    by_cases c2 : fc &&& Smsgs_dataFields.lightSensor ≠ 0 <;>
    by_cases c3 : fc &&& Smsgs_dataFields.humiditySensor ≠ 0 <;>
    by_cases c4 : fc &&& Smsgs_dataFields.hallEffectSensor ≠ 0 <;>
    by_cases c5 : fc &&& Smsgs_dataFields.msgStats ≠ 0 <;>
    by_cases c6 : fc &&& Smsgs_dataFields.configSettings ≠ 0 <;>
    simp [c1, c2, c3, c4, c5, c6]

theorem deliverSensorData_no_throw (self : AppClient) (a : JsAddr) (sd : DeviceData)
    (h : SensorConsistent sd) :
    (deliverSensorData self (findDeviceIndexFromAddr self a) sd).thrown = none := by
  unfold deliverSensorData
  split
  · rename_i k hk
    obtain ⟨d, hd⟩ := findDeviceIndex_get self a k hk
    obtain ⟨d', hd'⟩ := rxSensorData_ok d sd h
    simp only [hd, hd']
  · rfl

theorem deliverConfigRsp_no_throw (self : AppClient) (a : JsAddr) (sd : DeviceData) :
    (deliverConfigRsp self (findDeviceIndexFromAddr self a) sd).thrown = none := by
  unfold deliverConfigRsp
  split
  · rename_i k hk
    obtain ⟨d, hd⟩ := findDeviceIndex_get self a k hk
    exact updateDeviceAt_no_throw self k _ d hd
  · rfl

theorem readConfigRsp_ok (f : List Byte) (o : Nat) (dd : DeviceData) (h : o + 12 ≤ f.length) :
    ∃ r, readConfigRsp ⟨f, o, none⟩ dd = .ok r := by
  obtain ⟨v1, e1⟩ := readUint32_ok f (o + 2 + 2) none (by omega)
  obtain ⟨v2, e2⟩ := readUint32_ok f (o + 2 + 2 + 4) none (by omega)
  simp only [readConfigRsp, bind, Except.bind, pure, Except.pure,
    readUint16_ok f o none (by omega), readUint16_ok f (o + 2) none (by omega), e1, e2]
  exact ⟨_, rfl⟩

theorem dataRx_no_throw (self : AppClient) (f : List Byte)
    (h : bytesRead cmdIds.DEVICE_DATA_RX_IND f ≤ f.length)
    (hm : frameByte f 4 ≠ ADDTYPE_EXT) :
    (appC_processDeviceDataRxIndMsg self ⟨f, 0, none⟩).thrown = none := by
  have hb : bytesRead cmdIds.DEVICE_DATA_RX_IND f
      = if frameByte f 4 = ADDTYPE_SHORT then
          if frameByte f 8 = smgsCmdIds.SENSOR_DATA then
            19 + sensorGroupsSize (frameByte f 17 + 256 * frameByte f 18)
          else if frameByte f 8 = smgsCmdIds.CONFIG_RSP then 21
          else 9
        else 5 := by
    simp [bytesRead, cmdIds.DEVICE_DATA_RX_IND, cmdIds.DEVICE_JOINED_IND, cmdIds.NWK_INFO_IND,
      cmdIds.GET_NWK_INFO_CNF, cmdIds.GET_DEVICE_ARRAY_CNF, cmdIds.DEVICE_NOTACTIVE_UPDATE_IND]
  rw [hb] at h
  simp only [frameByte] at h hm
  by_cases hs : (f.getD 4 0).val = ADDTYPE_SHORT
  · rw [if_pos hs] at h
    have h9 : 9 ≤ f.length := by
      split at h
      · omega
      · split at h <;> omega
    obtain ⟨v1, e1⟩ := readInt8_ok f (4 + 1 + 2) none (by omega)
    have hne : ¬ (ADDTYPE_SHORT = ADDTYPE_EXT) := by decide
    simp only [appC_processDeviceDataRxIndMsg, skipHeader_ok f (by omega),
      readUint8_ok f 4 none (by omega), hs, hne, if_false, if_true,
      readUint16_ok f (4 + 1) none (by omega), dataRxAfterAddr, e1,
      readUint8_ok f (4 + 1 + 2 + 1) none (by omega)]
    by_cases h5 : (f.getD 8 0).val = smgsCmdIds.SENSOR_DATA
    · rw [if_pos h5] at h
      obtain ⟨dd', bb', er, hc⟩ := readSensorData_ok f 9
        (DeviceData.start ADDTYPE_SHORT
          (some ((f.getD 5 0).val + 256 * (f.getD 6 0).val)) v1
          smgsCmdIds.SENSOR_DATA) (by simpa using (by omega : 9 + 10 +
            sensorGroupsSize ((f.getD 17 0).val + 256 * (f.getD 18 0).val) ≤ f.length))
      simp only [Nat.reduceAdd] at er ⊢
      simp only [h5, if_true, er]
      exact deliverSensorData_no_throw self _ _ hc
    · rw [if_neg h5] at h
      simp only [Nat.reduceAdd, h5, if_false]
      by_cases h2 : (f.getD 8 0).val = smgsCmdIds.CONFIG_RSP
      · rw [if_pos h2] at h
        obtain ⟨r, er⟩ := readConfigRsp_ok f 9
          (DeviceData.start ADDTYPE_SHORT
            (some ((f.getD 5 0).val + 256 * (f.getD 6 0).val)) v1
            smgsCmdIds.CONFIG_RSP) (by omega)
        simp only [h2, if_true, er]
        exact deliverConfigRsp_no_throw self _ _
      · simp only [h2, if_false]
  · rw [if_neg hs] at h
    simp only [appC_processDeviceDataRxIndMsg, skipHeader_ok f (by omega),
      readUint8_ok f 4 none (by omega), hm, if_false, hs]

theorem dispatch_no_throw (self : AppClient) (hasNwkInfo : Bool) (c : Nat) (f : List Byte)
    (hs : FrameSafe hasNwkInfo c f) (hn : hasNwkInfo = true → self.nwkInfo.isSome = true) :
    (dispatch self c ⟨f, 0, none⟩).thrown = none := by
  obtain ⟨h1, h2, h3⟩ := hs
  unfold dispatch
  repeat' split
  all_goals subst_vars
  all_goals first
    | rfl
    | exact joined_no_throw self f (by simpa [bytesRead] using h1)
    | exact nwkUpdateInd_no_throw self f (by simpa [bytesRead, cmdIds.NWK_INFO_IND,
        cmdIds.DEVICE_JOINED_IND] using h1)
    | exact nwkInfoCnf_no_throw self f (by simpa [bytesRead, cmdIds.NWK_INFO_IND,
        cmdIds.DEVICE_JOINED_IND, cmdIds.GET_NWK_INFO_CNF] using h1)
    | exact snapshot_no_throw self f (by simpa [bytesRead, cmdIds.NWK_INFO_IND,
        cmdIds.DEVICE_JOINED_IND, cmdIds.GET_NWK_INFO_CNF, cmdIds.GET_DEVICE_ARRAY_CNF] using h1)
    | exact notActive_no_throw self f (by simpa [bytesRead, cmdIds.NWK_INFO_IND,
        cmdIds.DEVICE_JOINED_IND, cmdIds.GET_NWK_INFO_CNF, cmdIds.GET_DEVICE_ARRAY_CNF,
        cmdIds.DEVICE_NOTACTIVE_UPDATE_IND] using h1)
    | exact dataRx_no_throw self f h1 (h3 rfl)
    | exact stateChange_no_throw self f (by simpa [bytesRead, cmdIds.NWK_INFO_IND,
        cmdIds.DEVICE_JOINED_IND, cmdIds.GET_NWK_INFO_CNF, cmdIds.GET_DEVICE_ARRAY_CNF,
        cmdIds.DEVICE_NOTACTIVE_UPDATE_IND, cmdIds.DEVICE_DATA_RX_IND,
        cmdIds.COLLECTOR_STATE_CNG_IND] using h1) (hn (h2 rfl))
    | exact setJoinPermitCnf_no_throw self f (by simpa [bytesRead, cmdIds.NWK_INFO_IND,
        cmdIds.DEVICE_JOINED_IND, cmdIds.GET_NWK_INFO_CNF, cmdIds.GET_DEVICE_ARRAY_CNF,
        cmdIds.DEVICE_NOTACTIVE_UPDATE_IND, cmdIds.DEVICE_DATA_RX_IND,
        cmdIds.COLLECTOR_STATE_CNG_IND, cmdIds.SET_JOIN_PERMIT_CNF] using h1)

theorem storeNwkInfo_isSome (self : AppClient) (n : NetworkInfoMsg) :
    (storeNwkInfo self n).nwkInfo.isSome = true := by
  unfold storeNwkInfo; split <;> rfl

theorem updateDeviceAt_nwkInfo (self : AppClient) (k : Nat) (f : Device → Device) :
    (updateDeviceAt self k f).st.nwkInfo = self.nwkInfo := by
  unfold updateDeviceAt; split <;> rfl

theorem devArrayLoop_nwkInfo (n : Nat) : ∀ (data : ByteBuffer) (self : AppClient),
    (devArrayLoop n data self).st.nwkInfo = self.nwkInfo := by
  induction n with
  | zero => intro data self; rfl
  | succ k ih =>
    intro data self
    rw [devArrayLoop]
    split
    · rfl
    · rw [ih]

theorem dispatch_nwkInfo (self : AppClient) (c : Nat) (b : ByteBuffer)
    (h : self.nwkInfo.isSome = true) : (dispatch self c b).st.nwkInfo.isSome = true := by
  unfold dispatch
  repeat' split
  · unfold appC_processDeviceJoinedIndMsg applyDeviceJoinedInd
    repeat' split
    all_goals exact h
  · unfold appC_processNetworkUpdateIndMsg
    split
    · exact h
    · exact storeNwkInfo_isSome self _
  · unfold appC_processGetNwkInfoCnf
    split
    · exact h
    · split
      · exact h
      · exact storeNwkInfo_isSome self _
  · unfold appC_processGetDevArrayCnf
    simp only
    split
    · exact h
    · rename_i n data _
      have hl := devArrayLoop_nwkInfo n data { self with connectedDeviceList := [] }
      split
      · rename_i s e he
        rw [he] at hl
        simp only at hl
        rw [hl]; exact h
      · rename_i s he
        rw [he] at hl
        simp only [AppClient.emit] at hl ⊢
        rw [hl]; exact h
  · unfold appC_processDeviceNotActiveIndMsg
    repeat' split
    all_goals first
      | exact h
      | (rw [updateDeviceAt_nwkInfo]; exact h)
  · unfold appC_processDeviceDataRxIndMsg dataRxAfterAddr deliverSensorData deliverConfigRsp
    repeat' split
    all_goals first
      | exact h
      | (rw [updateDeviceAt_nwkInfo]; exact h)
  · unfold appC_processStateChangeUpdate
    repeat' split
    all_goals first
      | exact h
      | rfl
  · unfold appC_processSetJoinPermitCnf
    split <;> exact h
  · exact h
  · exact h

theorem rxPktBuf_ok (data : List Byte) (i : Nat) :
    ∃ b, rxPktBuf data i = .ok b ∧ 4 ≤ b.buffer.length := by
  have h4 := rxPktLen_pos data i
  unfold rxPktBuf ByteBuffer.append ByteBuffer.alloc
  simp only [List.length_replicate, Nat.not_lt_zero, gt_iff_lt, if_false]
  split
  · exact ⟨_, rfl, by simpa using h4⟩
  · refine ⟨_, rfl, ?_⟩
    simp only [ByteBuffer.setBytes, ByteBuffer.ensure, List.length_replicate, Nat.zero_add,
      List.take_zero, List.nil_append, List.length_append, List.length_take, List.length_drop]
    split <;> simp <;> omega

/-- When every frame dispatched is one that `dispatch` handles without
raising, from a state in `P`, and `dispatch` keeps `P`, the frame loop does
not raise. -/
theorem loop_no_throw (P : AppClient → Prop) (Q : Nat → List Byte → Prop)
    (hstep : ∀ s c bytes, P s → Q c bytes →
      (dispatch s c ⟨bytes, 0, none⟩).thrown = none ∧ P (dispatch s c ⟨bytes, 0, none⟩).st)
    (fuel : Nat) : ∀ (data : List Byte) (i : Nat) (self : AppClient), P self →
    (∀ p ∈ (processIncomingLoop fuel data i self []).dispatched, Q p.1 p.2) →
    (processIncomingLoop fuel data i self []).thrown = none := by
  induction fuel with
  | zero => intro data i self _ _; simp [processIncomingLoop]
  | succ n ih =>
    intro data i self hP hQ
    rw [processIncomingLoop] at hQ ⊢
    by_cases hlt : i < data.length
    · simp only [hlt, if_true] at hQ ⊢
      obtain ⟨b, hb, hb4⟩ := rxPktBuf_ok data i
      simp only [hb] at hQ ⊢
      have hshape := rxPktBuf_shape _ _ _ hb
      have hc : b.readUint8At PKT_HEADER_CMDID_FIELD = .ok (b.byteAt 3) := by
        have : ¬ 3 + 1 > b.buffer.length := by omega
        simp only [ByteBuffer.readUint8At, PKT_HEADER_CMDID_FIELD, this, if_false]
      simp only [hc] at hQ ⊢
      have hd := hstep self (b.byteAt 3) b.buffer hP
      rw [← hshape] at hd
      rcases heq : dispatch self (b.byteAt 3) b with ⟨s, _ | e⟩
      · simp only [heq] at hd hQ ⊢
        rw [loop_trace] at hQ ⊢
        simp only [List.nil_append, List.singleton_append, List.mem_cons,
          forall_eq_or_imp] at hQ
        exact ih data _ s (hd hQ.1).2 hQ.2
      · simp only [heq] at hd hQ ⊢
        have := (hd (hQ (b.byteAt 3, b.buffer) (by simp))).1
        cases this
    · simp [hlt]

/-- C3 (amended): a call of `appC_processIncoming` always runs to the end of
its loop, and it raises nothing when every frame it dispatches holds all the
bytes its handler reads (22 for DEVICE_JOINED_IND and GET_NWK_INFO_CNF, 21 for
NWK_INFO_IND, 7 + 18 * count for GET_DEVICE_ARRAY_CNF, 17 for
DEVICE_NOTACTIVE_UPDATE_IND, 5 for COLLECTOR_STATE_CNG_IND, 8 for
SET_JOIN_PERMIT_CNF, and for DEVICE_DATA_RX_IND what its address mode, inner
command and frame control call for), where a COLLECTOR_STATE_CNG_IND comes
only when network information existed before the call and no
DEVICE_DATA_RX_IND uses the extended address mode. -/
theorem processIncoming_no_exception (self : AppClient) (data : List Byte)
    (h : ∀ p ∈ (appC_processIncoming self data).dispatched,
      FrameSafe self.nwkInfo.isSome p.1 p.2) :
    (appC_processIncoming self data).thrown = none
    ∧ (appC_processIncoming self data).finished = true := by
  refine ⟨?_, loop_finished _ _ _ _ _ (by simp)⟩
  exact loop_no_throw (fun s => self.nwkInfo.isSome = true → s.nwkInfo.isSome = true)
    (fun c bytes => FrameSafe self.nwkInfo.isSome c bytes)
    (fun s c bytes hP hQ => ⟨dispatch_no_throw s _ c bytes hQ hP,
      fun hh => dispatch_nwkInfo s c _ (hP hh)⟩)
    _ data 0 self (fun hh => hh) h

theorem processIncoming_no_exception_witness :
    (∀ p ∈ (appC_processIncoming AppClient.init
        (joinFrame 1 0 ++ snapshotPair ++ humidityFrame ++ [0, 0, 10, 14])).dispatched,
      FrameSafe AppClient.init.nwkInfo.isSome p.1 p.2)
    ∧ (appC_processIncoming AppClient.init
        (joinFrame 1 0 ++ snapshotPair ++ humidityFrame ++ [0, 0, 10, 14])).thrown = none
    ∧ (appC_processIncoming AppClient.init
        (joinFrame 1 0 ++ snapshotPair ++ humidityFrame ++ [0, 0, 10, 14])).finished = true :=
  ⟨by decide, processIncoming_no_exception AppClient.init _ (by decide)⟩

/-- C3 as stated fails: on the client as constructed, a DEVICE_JOINED_IND
frame with an empty payload raises a RangeError, a COLLECTOR_STATE_CNG_IND
frame raises a TypeError (no network information yet), and a complete
DEVICE_DATA_RX_IND frame in the extended address mode raises a TypeError. -/
theorem processIncoming_can_raise :
    (appC_processIncoming AppClient.init [0, 0, 10, 0]).thrown = some JsError.RangeError
    ∧ (appC_processIncoming AppClient.init [1, 0, 10, 10, 3]).thrown = some JsError.TypeError
    ∧ (appC_processIncoming AppClient.init extModeFrame).thrown = some JsError.TypeError := by
  decide

/-! ## Network information -/

theorem stateLabel_mem (s : Nat) : stateLabel s ∈ stateLabels := by
  rcases s with _ | _ | _ | _ | _ | _ | _ | k <;> simp [stateLabel, stateLabels]

theorem new_state (info : NetworkInfoMsg) : (NwkInfo.new info).state = stateLabel info.state := by
  rcases info with ⟨st, dev, ch, fh, sec, mode, s⟩
  simp only [NwkInfo.new, cllc_states.initWaiting, cllc_states.startingCoordinator,
    cllc_states.initRestoringCoordinator, cllc_states.started, cllc_states.restored,
    cllc_states.joiningAllowed, cllc_states.joiningNotAllowed]
  rcases s with _ | _ | _ | _ | _ | _ | _ | k <;> simp [stateLabel]

theorem updateNwkInfo_state (n : NwkInfo) (info : NetworkInfoMsg) :
    (n.updateNwkInfo info).state = stateLabel info.state := by
  rcases info with ⟨st, dev, ch, fh, sec, mode, s⟩
  simp only [NwkInfo.updateNwkInfo, cllc_states.initWaiting, cllc_states.startingCoordinator,
    cllc_states.initRestoringCoordinator, cllc_states.started, cllc_states.restored,
    cllc_states.joiningAllowed, cllc_states.joiningNotAllowed]
  rcases s with _ | _ | _ | _ | _ | _ | _ | k <;> simp [stateLabel]

theorem updateNwkState_eq (n : NwkInfo) (s : Nat) :
    n.updateNwkState s = { n with state := stateLabel s } := by
  simp only [NwkInfo.updateNwkState, cllc_states.initWaiting, cllc_states.startingCoordinator,
    cllc_states.initRestoringCoordinator, cllc_states.started, cllc_states.restored,
    cllc_states.joiningAllowed, cllc_states.joiningNotAllowed]
  rcases s with _ | _ | _ | _ | _ | _ | _ | k <;> simp [stateLabel]

theorem new_networkMode (info : NetworkInfoMsg) :
    (NwkInfo.new info).networkMode = .label (modeLabel info.networkMode) := by
  rcases info with ⟨st, dev, ch, fh, sec, mode, s⟩
  simp only [NwkInfo.new, nwkModes.BEACON_ENABLED, nwkModes.NON_BEACON,
    nwkModes.FREQUENCY_HOPPING]
  rcases mode with _ | _ | _ | _ | k <;> simp [modeLabel]

/-- C16: the constructor, `updateNwkInfo` and `updateNwkState` all map a raw
state code to its label by 0 "waiting", 1 "starting", 2 "restoring", 3 and 4
"started", 5 "open", 6 "close" and anything else "unknown"; the three compute
the same label for every code, and the label is one of the seven listed. -/
theorem state_label_mapping (n : NwkInfo) (info : NetworkInfoMsg) (s : Nat) :
    (NwkInfo.new info).state = stateLabel info.state
    ∧ (n.updateNwkInfo info).state = stateLabel info.state
    ∧ (n.updateNwkState s).state = stateLabel s
    ∧ (n.updateNwkInfo info).state = (NwkInfo.new info).state
    ∧ (n.updateNwkState info.state).state = (NwkInfo.new info).state
    ∧ stateLabel s ∈ stateLabels
    ∧ stateLabel 0 = "waiting" ∧ stateLabel 1 = "starting" ∧ stateLabel 2 = "restoring"
    ∧ stateLabel 3 = "started" ∧ stateLabel 4 = "started" ∧ stateLabel 5 = "open"
    ∧ stateLabel 6 = "close" ∧ (∀ k, 7 ≤ k → stateLabel k = "unknown") := by
  refine ⟨new_state info, updateNwkInfo_state n info, by rw [updateNwkState_eq],
    by rw [updateNwkInfo_state, new_state], by rw [updateNwkState_eq, new_state],
    stateLabel_mem s, rfl, rfl, rfl, rfl, rfl, rfl, rfl, ?_⟩
  intro k hk
  obtain ⟨j, rfl⟩ : ∃ j, k = j + 7 := ⟨k - 7, by omega⟩
  rfl

/-- C17: the network information built by the constructor has the network
mode "Beacon Enabled" for the raw value 1, "Non Beacon" for 2, "Freq Hopping"
for 3 and "Unknown Mode" for every other value. -/
theorem constructor_network_mode (info : NetworkInfoMsg) :
    (NwkInfo.new info).networkMode = .label (modeLabel info.networkMode)
    ∧ modeLabel 1 = "Beacon Enabled" ∧ modeLabel 2 = "Non Beacon"
    ∧ modeLabel 3 = "Freq Hopping"
    ∧ (∀ m, m ≠ 1 → m ≠ 2 → m ≠ 3 → modeLabel m = "Unknown Mode") := by
  refine ⟨new_networkMode info, rfl, rfl, rfl, ?_⟩
  intro m h1 h2 h3
  rcases m with _ | _ | _ | _ | k
  · rfl
  · exact absurd rfl h1
  · exact absurd rfl h2
  · exact absurd rfl h3
  · rfl

/-- C18, what the code does: `updateNwkInfo` and the constructor agree on fh,
channel, panCoord, securityEnabled and state, but `updateNwkInfo` stores the
raw network mode where the constructor stores its label, so the two never
agree on networkMode; a first NWK_INFO_IND frame with mode 1 leaves the label
"Beacon Enabled", a second one leaves the number 1. -/
theorem update_keeps_raw_network_mode (n : NwkInfo) (info : NetworkInfoMsg) :
    (n.updateNwkInfo info).fh = (NwkInfo.new info).fh
    ∧ (n.updateNwkInfo info).channel = (NwkInfo.new info).channel
    ∧ (n.updateNwkInfo info).panCoord = (NwkInfo.new info).panCoord
    ∧ (n.updateNwkInfo info).securityEnabled = (NwkInfo.new info).securityEnabled
    ∧ (n.updateNwkInfo info).state = (NwkInfo.new info).state
    ∧ (n.updateNwkInfo info).networkMode = .raw info.networkMode
    ∧ (NwkInfo.new info).networkMode = .label (modeLabel info.networkMode)
    ∧ (n.updateNwkInfo info).networkMode ≠ (NwkInfo.new info).networkMode
    ∧ (appC_processIncoming AppClient.init (nwkInfoIndFrame 1 3)).st.nwkInfo.map (·.networkMode)
        = some (.label "Beacon Enabled")
    ∧ (appC_processIncoming AppClient.init
          (nwkInfoIndFrame 1 3 ++ nwkInfoIndFrame 1 3)).st.nwkInfo.map (·.networkMode)
        = some (.raw 1) := by
  refine ⟨rfl, rfl, rfl, rfl, by rw [updateNwkInfo_state, new_state], rfl, new_networkMode info,
    ?_, by decide, by decide⟩
  rw [new_networkMode]
  simp [NwkInfo.updateNwkInfo]

theorem stateChange_eq (self : AppClient) (n : NwkInfo) (f : List Byte)
    (hn : self.nwkInfo = some n) (hf : 5 ≤ f.length) :
    appC_processStateChangeUpdate self ⟨f, 0, none⟩
      = ⟨{ self with
            nwkInfo := some { n with state := stateLabel (frameByte f 4) }
            emitted := self.emitted ++ [.nwkInfo] }, none⟩ := by
  have : ¬ 4 + 1 > f.length := by omega
  simp only [appC_processStateChangeUpdate, ByteBuffer.readUint8At, this, if_false, hn,
    updateNwkState_eq, AppClient.emit, ByteBuffer.byteAt, frameByte]

/-- C19: when network information `n` exists, a COLLECTOR_STATE_CNG_IND frame
with raw state byte s (the byte at offset 4) leaves fh, channel, panCoord,
securityEnabled and networkMode of `n` as they were, sets the state to the
label of s, leaves the registry and the bytes written as they were and emits
exactly one network-info event; `updateNwkState` itself changes nothing but
the state. -/
theorem state_change_touches_only_state (self : AppClient) (n : NwkInfo) (f : List Byte)
    (s : Nat) (hn : self.nwkInfo = some n) (hf : 5 ≤ f.length) :
    appC_processStateChangeUpdate self ⟨f, 0, none⟩
      = ⟨{ self with
            nwkInfo := some { n with state := stateLabel (frameByte f 4) }
            emitted := self.emitted ++ [.nwkInfo] }, none⟩
    ∧ dispatch self cmdIds.COLLECTOR_STATE_CNG_IND ⟨f, 0, none⟩
      = ⟨{ self with
            nwkInfo := some { n with state := stateLabel (frameByte f 4) }
            emitted := self.emitted ++ [.nwkInfo] }, none⟩
    ∧ n.updateNwkState s = { n with state := stateLabel s } := by
  refine ⟨stateChange_eq self n f hn hf, ?_, updateNwkState_eq n s⟩
  rw [← stateChange_eq self n f hn hf]
  simp [dispatch, cmdIds.COLLECTOR_STATE_CNG_IND, cmdIds.DEVICE_JOINED_IND, cmdIds.NWK_INFO_IND,
    cmdIds.GET_NWK_INFO_CNF, cmdIds.GET_DEVICE_ARRAY_CNF, cmdIds.DEVICE_NOTACTIVE_UPDATE_IND,
    cmdIds.DEVICE_DATA_RX_IND]

theorem state_change_touches_only_state_witness :
    (appC_processIncoming AppClient.init (nwkInfoIndFrame 2 3)).st.nwkInfo
      = some ⟨0, 11, ⟨0xABCD, 0xAABB, ⟨0x55667788, 0x11223344, true⟩⟩, 1,
          .label "Non Beacon", "started"⟩
    ∧ appC_processStateChangeUpdate (appC_processIncoming AppClient.init (nwkInfoIndFrame 2 3)).st
        ⟨[1, 0, 10, 10, 5], 0, none⟩
      = ⟨{ (appC_processIncoming AppClient.init (nwkInfoIndFrame 2 3)).st with
            nwkInfo := some ⟨0, 11, ⟨0xABCD, 0xAABB, ⟨0x55667788, 0x11223344, true⟩⟩, 1,
              .label "Non Beacon", "open"⟩
            emitted := (appC_processIncoming AppClient.init (nwkInfoIndFrame 2 3)).st.emitted
              ++ [.nwkInfo] }, none⟩ :=
  ⟨by decide,
    (state_change_touches_only_state (appC_processIncoming AppClient.init (nwkInfoIndFrame 2 3)).st
      ⟨0, 11, ⟨0xABCD, 0xAABB, ⟨0x55667788, 0x11223344, true⟩⟩, 1, .label "Non Beacon", "started"⟩
      [1, 0, 10, 10, 5] 0 (by decide) (by decide)).1⟩

theorem readUint64_val (f : List Byte) (o : Nat) (m : Option Nat) (h : o + 8 ≤ f.length) :
    (ByteBuffer.mk f o m).readUint64 = .ok (longAt f o, ⟨f, o + 8, m⟩) := by
  have : ¬ o + 8 > f.length := by omega
  simp only [ByteBuffer.readUint64, this, if_false, ByteBuffer.byteAt, longAt, frameByte]

theorem readGetNwkInfoCnf_val (f : List Byte) (h : 22 ≤ f.length) :
    readGetNwkInfoCnf ⟨f, 0, none⟩
      = .ok ⟨some (frameByte f 4), ⟨u16At f 5, u16At f 7, longAt f 9⟩, frameByte f 17,
          frameByte f 18, frameByte f 19, frameByte f 20, frameByte f 21⟩ := by
  simp only [readGetNwkInfoCnf, bind, Except.bind, pure,
    Except.pure, skipHeader_ok f (by omega), readUint8_ok f 4 none (by omega),
    readUint16_ok f (4 + 1) none (by omega),
    readUint16_ok f (4 + 1 + 2) none (by omega),
    readUint64_val f (4 + 1 + 2 + 2) none (by omega),
    readUint8_ok f (4 + 1 + 2 + 2 + 8) none (by omega),
    readUint8_ok f (4 + 1 + 2 + 2 + 8 + 1) none (by omega),
    readUint8_ok f (4 + 1 + 2 + 2 + 8 + 1 + 1) none (by omega),
    readUint8_ok f (4 + 1 + 2 + 2 + 8 + 1 + 1 + 1) none (by omega),
    readUint8_ok f (4 + 1 + 2 + 2 + 8 + 1 + 1 + 1 + 1) none (by omega)]
  rfl

theorem storeNwkInfo_fields (self : AppClient) (info : NetworkInfoMsg) :
    ∃ n, storeNwkInfo self info
        = { self with nwkInfo := some n, emitted := self.emitted ++ [.nwkInfo] }
      ∧ n.channel = info.channel ∧ n.fh = info.fh ∧ n.securityEnabled = info.securityEnabled
      ∧ n.panCoord = ⟨info.devInfo.panID, info.devInfo.shortAddress, info.devInfo.extAddress⟩
      ∧ n.state = stateLabel info.state := by
  unfold storeNwkInfo
  split
  · exact ⟨NwkInfo.new info, rfl, rfl, rfl, rfl, rfl, new_state info⟩
  · rename_i n _
    exact ⟨n.updateNwkInfo info, rfl, rfl, rfl, rfl, rfl, updateNwkInfo_state n info⟩

/-- C20: for every GET_NWK_INFO_CNF frame that holds its 18 payload bytes:
when the status byte (offset 4) differs from the sentinel the handler tests
(the constant NTW_NOT_STARTED, 1) the client state is left as it was (no
network information created or changed, no event, nothing written); when it
equals the sentinel, network information exists afterwards with channel, fh,
securityEnabled, panCoord and state taken from the payload, exactly one
network-info event is emitted and then exactly one GET_DEVICE_ARRAY_REQ frame
([0, 0, 10, 6]) is written. The scenario: status 0 changes nothing; status 1
with channel 11 and fh 0 creates the network information and issues the
request. -/
theorem nwk_info_cnf_gating (self : AppClient) (f : List Byte) (h : 22 ≤ f.length) :
    (frameByte f 4 ≠ NTW_NOT_STARTED → appC_processGetNwkInfoCnf self ⟨f, 0, none⟩ = ⟨self, none⟩)
    ∧ (frameByte f 4 = NTW_NOT_STARTED → ∃ n,
        appC_processGetNwkInfoCnf self ⟨f, 0, none⟩
          = ⟨{ self with
                nwkInfo := some n
                emitted := self.emitted ++ [.nwkInfo]
                written := self.written ++ [[0, 0, 10, 6]] }, none⟩
        ∧ appC_processGetNwkInfoCnf self ⟨f, 0, none⟩
          = appC_getDevArrayFromAppServer
              { self with nwkInfo := some n, emitted := self.emitted ++ [.nwkInfo] }
        ∧ n.channel = frameByte f 17 ∧ n.fh = frameByte f 18
        ∧ n.securityEnabled = frameByte f 19
        ∧ n.panCoord = ⟨u16At f 5, u16At f 7, longAt f 9⟩
        ∧ n.state = stateLabel (frameByte f 21))
    ∧ appC_processIncoming AppClient.init (nwkInfoCnfFrame 0)
        = ⟨AppClient.init, none, [(5, nwkInfoCnfFrame 0)], true⟩
    ∧ (appC_processIncoming AppClient.init (nwkInfoCnfFrame 0 ++ nwkInfoCnfFrame 1)).st
        = ⟨[], some ⟨0, 11, ⟨0xABCD, 0xAABB, ⟨0x55667788, 0x11223344, true⟩⟩, 1,
              .label "Non Beacon", "started"⟩, [.nwkInfo], [[0, 0, 10, 6]]⟩ := by
  have hr := readGetNwkInfoCnf_val f h
  refine ⟨?_, ?_, by decide, by decide⟩
  · intro hs
    have : (some (frameByte f 4) : Option Nat) ≠ some NTW_NOT_STARTED := by
      intro hc; exact hs (Option.some.inj hc)
    simp only [appC_processGetNwkInfoCnf, hr, this, ne_eq, not_false_eq_true, if_true]
  · intro hs
    rw [hs] at hr
    obtain ⟨n, hn, h1, h2, h3, h4, h5⟩ := storeNwkInfo_fields self
      ⟨some NTW_NOT_STARTED, ⟨u16At f 5, u16At f 7, longAt f 9⟩, frameByte f 17,
          frameByte f 18, frameByte f 19, frameByte f 20, frameByte f 21⟩
    have e : appC_processGetNwkInfoCnf self ⟨f, 0, none⟩
        = appC_getDevArrayFromAppServer
            { self with nwkInfo := some n, emitted := self.emitted ++ [.nwkInfo] } := by
      simp only [appC_processGetNwkInfoCnf, hr, ne_eq, not_true_eq_false, if_false, hn]
    refine ⟨n, ?_, e, h1, h2, h3, h4, h5⟩
    rw [e]
    rfl

theorem nwk_info_cnf_gating_witness :
    22 ≤ (nwkInfoCnfFrame 1).length
    ∧ frameByte (nwkInfoCnfFrame 1) 4 = NTW_NOT_STARTED
    ∧ ∃ n, appC_processGetNwkInfoCnf AppClient.init ⟨nwkInfoCnfFrame 1, 0, none⟩
          = ⟨{ AppClient.init with
                nwkInfo := some n
                emitted := AppClient.init.emitted ++ [.nwkInfo]
                written := AppClient.init.written ++ [[0, 0, 10, 6]] }, none⟩
        ∧ n.channel = 11 ∧ n.fh = 0 := by
  refine ⟨by decide, by decide, ?_⟩
  obtain ⟨n, h1, _, h2, h3, _⟩ :=
    (nwk_info_cnf_gating AppClient.init (nwkInfoCnfFrame 1) (by decide)).2.1 (by decide)
  exact ⟨n, h1, h2, h3⟩

/-! ## Device lookup and inactive indications -/

theorem findFrom_some (a : JsAddr) : ∀ (l : List Device) (i k : Nat),
    findDeviceIndexFrom a l i = some k →
    ∃ j, k = i + j ∧ (∃ d, l.get? j = some d ∧ d.matchesAddr a = true)
      ∧ ∀ j' d, j' < j → l.get? j' = some d → d.matchesAddr a = false := by
  intro l
  induction l with
  | nil => intro i k h; simp [findDeviceIndexFrom] at h
  | cons x xs ih =>
    intro i k h
    rw [findDeviceIndexFrom] at h
    split at h
    · rename_i hm
      cases h
      exact ⟨0, rfl, ⟨x, rfl, hm⟩, fun j' d hj => absurd hj (Nat.not_lt_zero _)⟩
    · rename_i hm
      obtain ⟨j, hk, ⟨d, hd, hdm⟩, hlt⟩ := ih (i + 1) k h
      refine ⟨j + 1, by omega, ⟨d, by simpa using hd, hdm⟩, ?_⟩
      intro j' d' hj' hd'
      cases j' with
      | zero =>
        simp only [List.get?_cons_zero, Option.some.injEq] at hd'
        subst hd'
        simpa [Device.matchesAddr] using hm
      | succ j'' => exact hlt j'' d' (by omega) (by simpa using hd')

theorem findFrom_none (a : JsAddr) : ∀ (l : List Device) (i : Nat),
    findDeviceIndexFrom a l i = none ↔ ∀ d ∈ l, d.matchesAddr a = false := by
  intro l
  induction l with
  | nil => intro i; simp [findDeviceIndexFrom]
  | cons x xs ih =>
    intro i
    rw [findDeviceIndexFrom]
    by_cases hm : (shortAddrEq x.shortAddress a || extKeyEq x.extAddress.key a) = true
    · simp only [hm, if_true, List.mem_cons, forall_eq_or_imp, Device.matchesAddr]
      simp
    · have hm' : (shortAddrEq x.shortAddress a || extKeyEq x.extAddress.key a) = false := by
        simpa using hm
      rw [if_neg hm, ih (i + 1)]
      constructor
      · intro h d hd
        rcases List.mem_cons.mp hd with rfl | hd
        · exact hm'
        · exact h d hd
      · intro h d hd
        exact h d (List.mem_cons_of_mem _ hd)

theorem findFrom_first (a : JsAddr) : ∀ (l : List Device) (i j : Nat) (d : Device),
    l.get? j = some d → d.matchesAddr a = true →
    (∀ j' d', j' < j → l.get? j' = some d' → d'.matchesAddr a = false) →
    findDeviceIndexFrom a l i = some (i + j) := by
  intro l
  induction l with
  | nil => intro i j d h; simp at h
  | cons x xs ih =>
    intro i j d hd hm hlt
    rw [findDeviceIndexFrom]
    cases j with
    | zero =>
      simp only [List.get?_cons_zero, Option.some.injEq] at hd
      subst hd
      simp only [Device.matchesAddr] at hm
      simp [hm]
    | succ j' =>
      have hx := hlt 0 x (by omega) rfl
      simp only [Device.matchesAddr] at hx
      simp only [hx, Bool.false_eq_true, if_false]
      have := ih (i + 1) j' d (by simpa using hd) hm
        (fun k d' hk hd' => hlt (k + 1) d' (by omega) (by simpa using hd'))
      rw [this]
      congr 1
      omega

theorem readDeviceNotActiveInd_val (f : List Byte) (h : 17 ≤ f.length) :
    readDeviceNotActiveInd ⟨f, 0, none⟩
      = .ok ⟨u16At f 4, u16At f 6, longAt f 8, frameByte f 16⟩ := by
  simp only [readDeviceNotActiveInd, bind, Except.bind, pure, Except.pure,
    skipHeader_ok f (by omega), readUint16_ok f 4 none (by omega),
    readUint16_ok f (4 + 2) none (by omega), readUint64_val f (4 + 2 + 2) none (by omega),
    readUint8_ok f (4 + 2 + 2 + 8) none (by omega), u16At, frameByte]

theorem notActive_absent (self : AppClient) (data : ByteBuffer)
    (m : InactiveDeviceInfo) (hread : readDeviceNotActiveInd data = .ok m)
    (hfind : findDeviceIndexFromAddr self (.num m.shortAddress) = none) :
    appC_processDeviceNotActiveIndMsg self data = ⟨self, none⟩ := by
  simp only [appC_processDeviceNotActiveIndMsg, hread, hfind]

theorem notActive_found (self : AppClient) (data : ByteBuffer) (m : InactiveDeviceInfo) (i : Nat)
    (hread : readDeviceNotActiveInd data = .ok m)
    (hfind : findDeviceIndexFromAddr self (.num m.shortAddress) = some i) :
    ∃ d, self.connectedDeviceList.get? i = some d
      ∧ appC_processDeviceNotActiveIndMsg self data
        = ⟨{ self with
              connectedDeviceList := self.connectedDeviceList.set i { d with active := "false" }
              emitted := self.emitted ++ [.connDevInfoUpdate { d with active := "false" }] },
            none⟩ := by
  obtain ⟨d, hd⟩ := findDeviceIndex_get self _ i hfind
  refine ⟨d, hd, ?_⟩
  simp only [appC_processDeviceNotActiveIndMsg, hread, hfind, updateDeviceAt, hd, AppClient.emit,
    Device.deviceNotActive]

theorem notActive_changed (self : AppClient) (data : ByteBuffer)
    (m : InactiveDeviceInfo) (hread : readDeviceNotActiveInd data = .ok m) :
    ∀ j d d', self.connectedDeviceList.get? j = some d →
      (appC_processDeviceNotActiveIndMsg self data).st.connectedDeviceList.get? j = some d' →
      d' ≠ d →
      findDeviceIndexFromAddr self (.num m.shortAddress) = some j
      ∧ d' = { d with active := "false" } := by
  intro j d d' hd hd' hne
  rcases hf : findDeviceIndexFromAddr self (.num m.shortAddress) with _ | i
  · have h := notActive_absent self data m hread hf
    rw [h, hd] at hd'
    exact absurd (Option.some.inj hd').symm hne
  · obtain ⟨e, he, h⟩ := notActive_found self data m i hread hf
    rw [h] at hd'
    simp only at hd'
    by_cases hij : i = j
    · subst hij
      rw [hd] at he
      cases he
      have hlt : i < self.connectedDeviceList.length := by
        have := findDeviceIndexFrom_lt _ _ _ _ hf
        omega
      simp only [List.get?_eq_getElem?, List.getElem?_set, hlt, if_true] at hd'
      exact ⟨rfl, (Option.some.inj hd').symm⟩
    · simp only [List.get?_eq_getElem?, List.getElem?_set, hij, if_false] at hd' hd
      rw [hd] at hd'
      exact absurd (Option.some.inj hd').symm hne

theorem floorLog2Fuel_spec : ∀ (fuel n : Nat), n ≤ fuel → n ≠ 0 →
    2 ^ floorLog2Fuel fuel n ≤ n ∧ n < 2 ^ (floorLog2Fuel fuel n + 1) := by
  intro fuel
  induction fuel with
  | zero => intro n h h0; omega
  | succ f ih =>
    intro n h h0
    rw [floorLog2Fuel]
    split
    · simp
      omega
    · obtain ⟨h1, h2⟩ := ih (n / 2) (by omega) (by omega)
      simp only [pow_succ] at h2 ⊢
      constructor <;> omega

/-- The result of `floorLog2` is the floor of the binary logarithm. -/
theorem floorLog2_spec (n : Nat) (h : n ≠ 0) : 2 ^ floorLog2 n ≤ n ∧ n < 2 ^ (floorLog2 n + 1) :=
  floorLog2Fuel_spec n n (Nat.le_refl _) h

theorem floorLog2_lt {n k : Nat} (h0 : n ≠ 0) (h : n < 2 ^ k) : floorLog2 n < k := by
  by_contra hc
  have h1 := (floorLog2_spec n h0).1
  have : 2 ^ k ≤ 2 ^ floorLog2 n := Nat.pow_le_pow_right (by decide) (by omega)
  omega

theorem le_floorLog2 {n k : Nat} (h : 2 ^ k ≤ n) : k ≤ floorLog2 n := by
  have h0 : n ≠ 0 := by
    have := Nat.pos_pow_of_pos k (by decide : 0 < 2)
    omega
  by_contra hc
  have h1 := (floorLog2_spec n h0).2
  have : 2 ^ (floorLog2 n + 1) ≤ 2 ^ k := Nat.pow_le_pow_right (by decide) (by omega)
  omega

theorem floorLog2Ratio_one (p : Nat) (h : p ≠ 0) : floorLog2Ratio p 1 = (floorLog2 p : Int) := by
  have h1 : floorLog2 1 = 0 := rfl
  have h2 := (floorLog2_spec p h).1
  simp [floorLog2Ratio, h1, h2]

theorem roundAt_one_nonpos (neg : Bool) (p : Nat) (x : Int) (hx : x ≤ 0) :
    roundAt neg p 1 x = .fin neg (p * 2 ^ (-x).toNat) x := by
  have h1 : x.toNat = 0 := by omega
  have h2 : ¬ (971 < x ∨ (x = 971 ∧ 2 ^ 53 ≤ p * 2 ^ (-x).toNat)) := by omega
  simp only [roundAt, h1, pow_zero, Nat.mul_one, Nat.mod_one, Nat.div_one]
  simp
  omega

theorem roundToDouble_small (neg : Bool) (p : Nat) (h0 : p ≠ 0) (h : p < 2 ^ 53) :
    roundToDouble neg p 1 = .fin neg (p * 2 ^ (52 - floorLog2 p)) ((floorLog2 p : Int) - 52) := by
  have hl := floorLog2_lt h0 h
  have hm : max ((floorLog2 p : Int) - 52) (-1074) = (floorLog2 p : Int) - 52 := by omega
  have he : (-((floorLog2 p : Int) - 52)).toNat = 52 - floorLog2 p := by omega
  rw [roundToDouble, if_neg h0, floorLog2Ratio_one p h0, hm, roundAt_one_nonpos _ _ _ (by omega),
    he]

theorem roundAt_one_pos (neg : Bool) (p : Nat) (x : Int) (hx : 0 < x) :
    roundAt neg p 1 x = .inf neg
      ∨ ∃ a, roundAt neg p 1 x = .fin neg a x ∧ p / 2 ^ x.toNat ≤ a := by
  have h1 : (-x).toNat = 0 := by omega
  simp only [roundAt, h1, pow_zero, Nat.mul_one, Nat.one_mul]
  have hle : p / 2 ^ x.toNat
      ≤ (if 2 ^ x.toNat < 2 * (p % 2 ^ x.toNat)
            ∨ (2 ^ x.toNat = 2 * (p % 2 ^ x.toNat) ∧ p / 2 ^ x.toNat % 2 = 1) then
          p / 2 ^ x.toNat + 1 else p / 2 ^ x.toNat) := by
    split <;> omega
  generalize (if 2 ^ x.toNat < 2 * (p % 2 ^ x.toNat)
            ∨ (2 ^ x.toNat = 2 * (p % 2 ^ x.toNat) ∧ p / 2 ^ x.toNat % 2 = 1) then
          p / 2 ^ x.toNat + 1 else p / 2 ^ x.toNat) = a at hle ⊢
  split
  · exact Or.inl rfl
  · exact Or.inr ⟨a, rfl, hle⟩

theorem roundToDouble_large (neg : Bool) (p : Nat) (h : 2 ^ 53 ≤ p) :
    roundToDouble neg p 1 = .inf neg
      ∨ ∃ a x, roundToDouble neg p 1 = .fin neg a x ∧ 0 < x ∧ 2 ^ 52 ≤ a := by
  have h0 : p ≠ 0 := by
    intro h0
    rw [h0] at h
    exact absurd h (by decide)
  have hl := le_floorLog2 h
  have hm : max ((floorLog2 p : Int) - 52) (-1074) = (floorLog2 p : Int) - 52 := by omega
  rw [roundToDouble, if_neg h0, floorLog2Ratio_one p h0, hm]
  rcases roundAt_one_pos neg p ((floorLog2 p : Int) - 52) (by omega) with h1 | ⟨a, h1, h2⟩
  · exact Or.inl h1
  · right
    refine ⟨a, _, h1, by omega, ?_⟩
    have he : ((floorLog2 p : Int) - 52).toNat = floorLog2 p - 52 := by omega
    rw [he] at h2
    refine Nat.le_trans ?_ h2
    rw [Nat.le_div_iff_mul_le (Nat.pos_pow_of_pos _ (by decide)), ← pow_add]
    have : 52 + (floorLog2 p - 52) = floorLog2 p := by omega
    rw [this]
    exact (floorLog2_spec p h0).1

theorem equal_fin_iff (s t : Bool) (m n : Nat) (x y c : Int) (hx : c ≤ x) (hy : c ≤ y) :
    (JsNumber.fin s m x).equal (.fin t n y) = true
      ↔ m * 2 ^ (x - c).toNat = n * 2 ^ (y - c).toNat ∧ (s = t ∨ m = 0) := by
  have e1 : (x - c).toNat = (x - min x y).toNat + (min x y - c).toNat := by omega
  have e2 : (y - c).toNat = (y - min x y).toNat + (min x y - c).toNat := by omega
  have hpos : 0 < 2 ^ (min x y - c).toNat := Nat.pos_pow_of_pos _ (by decide)
  rw [e1, e2, pow_add, pow_add, ← Nat.mul_assoc, ← Nat.mul_assoc,
    Nat.mul_left_inj (Nat.pos_iff_ne_zero.mp hpos)]
  simp [JsNumber.equal]

theorem roundToDouble_exact (neg : Bool) (p : Nat) (h : p < 2 ^ 53) :
    ∃ m x, roundToDouble neg p 1 = .fin neg m x ∧ -52 ≤ x
      ∧ m * 2 ^ (x - (-52)).toNat = p * 2 ^ 52 := by
  by_cases h0 : p = 0
  · subst h0
    exact ⟨0, 0, rfl, by decide, by simp⟩
  · have hl := floorLog2_lt h0 h
    refine ⟨_, _, roundToDouble_small neg p h0 h, by omega, ?_⟩
    have he : ((floorLog2 p : Int) - 52 - (-52)).toNat = floorLog2 p := by omega
    rw [he, Nat.mul_assoc, ← pow_add]
    congr 2
    omega

/-- Integers below 2 ^ 53 are doubles: a rounded integer equals one of them
only if it is that integer. -/
theorem roundToDouble_equal_iff (s t : Bool) (k n : Nat) (hn : n < 2 ^ 53) :
    (roundToDouble s k 1).equal (roundToDouble t n 1) = true ↔ k = n ∧ (s = t ∨ k = 0) := by
  obtain ⟨m, x, hr, hx, hv⟩ := roundToDouble_exact t n hn
  have hpos : (0 : Nat) < 2 ^ 52 := by decide
  rw [hr]
  by_cases hk : k < 2 ^ 53
  · obtain ⟨m', x', hr', hx', hv'⟩ := roundToDouble_exact s k hk
    rw [hr', equal_fin_iff s t m' m x' x (-52) hx' hx, hv', hv,
      Nat.mul_left_inj (Nat.pos_iff_ne_zero.mp hpos)]
    have hm : m' = 0 ↔ k = 0 := by
      constructor
      · intro h
        rw [h, Nat.zero_mul] at hv'
        rcases Nat.mul_eq_zero.mp hv'.symm with h1 | h1
        · exact h1
        · omega
      · intro h
        rw [h, Nat.zero_mul] at hv'
        rcases Nat.mul_eq_zero.mp hv' with h1 | h1
        · exact h1
        · exact absurd h1 (Nat.pos_iff_ne_zero.mp (Nat.pos_pow_of_pos _ (by decide)))
    rw [hm]
  · have hk' : 2 ^ 53 ≤ k := by omega
    have hne : ¬ (k = n ∧ (s = t ∨ k = 0)) := by
      intro h
      omega
    rcases roundToDouble_large s k hk' with h1 | ⟨a, x', h1, hx', ha⟩
    · rw [h1]
      simp only [JsNumber.equal, hne]
      simp
    · rw [h1, equal_fin_iff s t a m x' x (-52) (by omega) hx, hv]
      have he : (x' - (-52)).toNat = 53 + (x' - 1).toNat := by omega
      have h2 : 2 ^ 52 * 2 ^ 53 ≤ a * 2 ^ (x' - (-52)).toNat := by
        rw [he, pow_add]
        refine Nat.mul_le_mul ha ?_
        have := Nat.pos_pow_of_pos (x' - 1).toNat (by decide : 0 < 2)
        calc 2 ^ 53 = 2 ^ 53 * 1 := by simp
          _ ≤ 2 ^ 53 * 2 ^ (x' - 1).toNat := Nat.mul_le_mul_left _ this
      have h3 : n * 2 ^ 52 < 2 ^ 52 * 2 ^ 53 := by
        rw [Nat.mul_comm]
        exact Nat.mul_lt_mul_of_pos_left hn hpos
      constructor
      · intro h
        omega
      · intro h
        exact absurd h hne

theorem numberOf_equal_iff (k n : Int) (hn : n.natAbs < 2 ^ 53) :
    (numberOf k).equal (numberOf n) = true ↔ k = n := by
  rw [numberOf, numberOf, roundToDouble_equal_iff _ _ _ _ hn]
  constructor
  · rintro ⟨h1, h2⟩
    rcases h2 with h2 | h2
    · have : (k < 0) ↔ (n < 0) := by simpa using h2
      omega
    · omega
  · intro h
    subst h
    exact ⟨rfl, Or.inl rfl⟩

theorem digitChar_isDigit (d : Nat) (h : d < 10) : (Nat.digitChar d).isDigit = true := by
  interval_cases d <;> rfl

theorem toDigitsCore_isDigit : ∀ (fuel n : Nat) (ds : List Char),
    (∀ c ∈ ds, c.isDigit = true) → ∀ c ∈ Nat.toDigitsCore 10 fuel n ds, c.isDigit = true := by
  intro fuel
  induction fuel with
  | zero => intro n ds h; simpa [Nat.toDigitsCore] using h
  | succ f ih =>
    intro n ds h
    have hd : ∀ c ∈ Nat.digitChar (n % 10) :: ds, c.isDigit = true := by
      intro c hc
      rcases List.mem_cons.mp hc with rfl | hc
      · exact digitChar_isDigit _ (Nat.mod_lt _ (by decide))
      · exact h c hc
    rw [Nat.toDigitsCore]
    split
    · exact hd
    · exact ih _ _ hd

theorem toString_nat_isDigit (n : Nat) : ∀ c ∈ (toString n).data, c.isDigit = true := by
  show ∀ c ∈ (Nat.repr n).data, c.isDigit = true
  rw [Nat.repr]
  exact toDigitsCore_isDigit _ _ _ (by simp)

theorem toString_int_chars (i : Int) :
    ∀ c ∈ (toString i).data, c.isDigit = true ∨ c = '-' := by
  intro c hc
  cases i with
  | ofNat m => exact Or.inl (toString_nat_isDigit m c hc)
  | negSucc m =>
    have : (toString (Int.negSucc m)).data = '-' :: (toString (m + 1)).data := rfl
    rw [this] at hc
    rcases List.mem_cons.mp hc with rfl | hc
    · exact Or.inr rfl
    · exact Or.inl (toString_nat_isDigit _ c hc)

/-- A serialized extended address consists of decimal digits and minus signs. -/
theorem key_chars (l : Long) : ∀ c ∈ l.key.data, c.isDigit = true ∨ c = '-' := by
  intro c hc
  rw [Long.key, String.data_append] at hc
  rcases List.mem_append.mp hc with h | h
  · exact toString_int_chars _ c h
  · exact toString_int_chars _ c h

theorem isDigit_toNat (c : Char) (h : c.isDigit = true) : 48 ≤ c.toNat ∧ c.toNat ≤ 57 := by
  simp only [Char.isDigit, Bool.and_eq_true, decide_eq_true_eq] at h
  obtain ⟨h1, h2⟩ := h
  rw [ge_iff_le, UInt32.le_def, BitVec.le_def] at h1
  rw [UInt32.le_def, BitVec.le_def] at h2
  exact ⟨h1, h2⟩

theorem keyChar_toNat (c : Char) (h : c.isDigit = true ∨ c = '-') :
    c.toNat = 45 ∨ (48 ≤ c.toNat ∧ c.toNat ≤ 57) := by
  rcases h with h | rfl
  · exact Or.inr (isDigit_toNat c h)
  · exact Or.inl rfl

theorem keyChar_not_whiteSpace (c : Char) (h : c.isDigit = true ∨ c = '-') :
    isStrWhiteSpaceChar c = false := by
  have := keyChar_toNat c h
  simp only [isStrWhiteSpaceChar, Bool.or_eq_false_iff, Bool.and_eq_false_iff,
    decide_eq_false_iff_not, List.mem_cons, List.mem_singleton, List.not_mem_nil, or_false]
  omega

theorem keyChar_ne (c : Char) (h : c.isDigit = true ∨ c = '-') (x : Char)
    (hx : x.toNat ≠ 45 ∧ ¬ (48 ≤ x.toNat ∧ x.toNat ≤ 57)) : c ≠ x := by
  rintro rfl
  have := keyChar_toNat c h
  omega

theorem dropWhile_of_head {α : Type} (p : α → Bool) (l : List α) (h : ∀ a ∈ l, p a = false) :
    l.dropWhile p = l := by
  cases l with
  | nil => rfl
  | cons a l => simp [List.dropWhile, h a (List.mem_cons_self _ _)]

theorem trim_keyChars (cs : List Char) (h : ∀ c ∈ cs, c.isDigit = true ∨ c = '-') :
    trimStrWhiteSpace cs = cs := by
  rw [trimStrWhiteSpace, dropWhile_of_head _ cs (fun c hc => keyChar_not_whiteSpace c (h c hc)),
    dropWhile_of_head _ cs.reverse
      (fun c hc => keyChar_not_whiteSpace c (h c (List.mem_reverse.mp hc))),
    List.reverse_reverse]

theorem digitsValue_isSome : ∀ (cs : List Char) (acc : Nat), (∀ c ∈ cs, c.isDigit = true) →
    ∃ m, digitsValue cs acc = some m := by
  intro cs
  induction cs with
  | nil => intro acc _; exact ⟨acc, rfl⟩
  | cons c cs ih =>
    intro acc h
    rw [digitsValue, if_pos (h c (List.mem_cons_self _ _))]
    exact ih _ (fun d hd => h d (List.mem_cons_of_mem _ hd))

theorem digitsValue_none : ∀ (cs : List Char) (acc : Nat), (∃ c ∈ cs, c.isDigit = false) →
    digitsValue cs acc = none := by
  intro cs
  induction cs with
  | nil => intro acc h; simp at h
  | cons c cs ih =>
    intro acc h
    rw [digitsValue]
    split
    · rename_i hc
      obtain ⟨d, hd, hdd⟩ := h
      rcases List.mem_cons.mp hd with rfl | hd
      · rw [hc] at hdd
        cases hdd
      · exact ih _ ⟨d, hd, hdd⟩
    · rfl

theorem unsigned_keyChars (neg : Bool) (cs : List Char)
    (h : ∀ c ∈ cs, c.isDigit = true ∨ c = '-') :
    strUnsignedDecimalLiteral neg cs
      = match (if cs = [] then none else digitsValue cs 0) with
        | some m => roundToDouble neg m 1
        | none => .nan := by
  have hinf : cs ≠ ['I', 'n', 'f', 'i', 'n', 'i', 't', 'y'] := by
    intro hc
    have := keyChar_toNat 'I' (h 'I' (by rw [hc]; simp))
    revert this
    decide
  rw [strUnsignedDecimalLiteral, if_neg hinf]
  by_cases hall : ∀ c ∈ cs, c.isDigit = true
  · have ht : cs.takeWhile Char.isDigit = cs := List.takeWhile_eq_self_iff.mpr hall
    have hd : cs.dropWhile Char.isDigit = [] := List.dropWhile_eq_nil_iff.mpr hall
    rw [ht, hd]
    by_cases hnil : cs = []
    · subst hnil
      simp [fractionPart]
    · obtain ⟨m, hm⟩ := digitsValue_isSome cs 0 hall
      simp [fractionPart, hnil, hm, exponentPart]
  · have hex : ∃ c ∈ cs, c.isDigit = false := by
      by_contra hc
      apply hall
      intro c hcm
      by_contra hcd
      exact hc ⟨c, hcm, by simpa using hcd⟩
    have hne : cs ≠ [] := by
      rintro rfl
      simp at hex
    rw [if_neg hne, digitsValue_none cs 0 hex]
    have hdrop : ∃ rest, cs.dropWhile Char.isDigit = '-' :: rest := by
      rcases hd : cs.dropWhile Char.isDigit with _ | ⟨c, rest⟩
      · exact absurd (List.dropWhile_eq_nil_iff.mp hd) hall
      · have hmem : c ∈ cs := by
          have : c ∈ cs.dropWhile Char.isDigit := by rw [hd]; simp
          exact (List.dropWhile_sublist _).subset this
        have hnd : ¬ (Char.isDigit c = true) := by
          have := List.head_dropWhile_not Char.isDigit cs (by rw [hd]; simp)
          simpa [hd] using this
        rcases h c hmem with h1 | h1
        · exact absurd h1 hnd
        · exact ⟨rest, by rw [h1]⟩
    obtain ⟨rest, hrest⟩ := hdrop
    rw [hrest]
    have hf : fractionPart ('-' :: rest) = ([], '-' :: rest) := rfl
    have he : exponentPart ('-' :: rest) = none := rfl
    rw [hf]
    simp only [he, List.append_nil]
    split
    · rfl
    · split
      · rename_i h1 h2
        cases h2
      · rfl

theorem numeric_keyChars (cs : List Char) (h : ∀ c ∈ cs, c.isDigit = true ∨ c = '-') :
    strNumericLiteral cs = strDecimalLiteral cs := by
  unfold strNumericLiteral
  split
  · rename_i r ds
    have hr := h r (by simp)
    have h1 := keyChar_ne r hr 'x' (by decide)
    have h2 := keyChar_ne r hr 'X' (by decide)
    have h3 := keyChar_ne r hr 'o' (by decide)
    have h4 := keyChar_ne r hr 'O' (by decide)
    have h5 := keyChar_ne r hr 'b' (by decide)
    have h6 := keyChar_ne r hr 'B' (by decide)
    simp [h1, h2, h3, h4, h5, h6]
  · rfl

theorem rounded_equal_numberOf (neg : Bool) (m : Nat) (n : Int) (hn : n.natAbs < 2 ^ 53) :
    (roundToDouble neg m 1).equal (numberOf n) = true
      ↔ (if neg = true then -(m : Int) else (m : Int)) = n := by
  rw [numberOf, roundToDouble_equal_iff _ _ _ _ hn]
  cases neg <;> simp <;> omega

theorem nan_equal (y : JsNumber) : JsNumber.nan.equal y = false := by
  cases y <;> rfl

/-- On a text of digits and minus signs, as a serialized extended address is,
the conversion to a Number reads an optional minus sign and decimal digits;
so `==` with a number below 2 ^ 53 holds exactly when the text denotes it. -/
theorem key_equal_number (s : String) (h : ∀ c ∈ s.data, c.isDigit = true ∨ c = '-') (n : Int)
    (hn : n.natAbs < 2 ^ 53) :
    (stringToNumber s).equal (numberOf n) = true ↔ stringToInteger s = some n := by
  rw [stringToNumber, trim_keyChars _ h]
  rcases hd : s.data with _ | ⟨c, rest⟩
  · have h0 : JsNumber.fin false 0 0 = roundToDouble false 0 1 := rfl
    rw [if_pos rfl, h0, rounded_equal_numberOf _ _ _ hn]
    simp [stringToInteger, hd]
  · rw [hd] at h
    rw [if_neg (by simp), numeric_keyChars _ h]
    by_cases hc : c = '-'
    · subst hc
      have hu : strDecimalLiteral ('-' :: rest) = strUnsignedDecimalLiteral true rest := rfl
      rw [hu, unsigned_keyChars true rest (fun d hd => h d (List.mem_cons_of_mem _ hd))]
      rcases rest with _ | ⟨c', rest'⟩
      · simp [stringToInteger, hd, digitsValue, nan_equal]
      · rcases hv : digitsValue (c' :: rest') 0 with _ | m
        · simp [stringToInteger, hd, hv, nan_equal]
        · simp only [stringToInteger, hd, hv, if_neg (List.cons_ne_nil _ _), Option.map_some']
          rw [rounded_equal_numberOf _ _ _ hn]
          simp
    · have hcd : c.isDigit = true := by
        rcases h c (List.mem_cons_self _ _) with h1 | h1
        · exact h1
        · exact absurd h1 hc
      have hp : c ≠ '+' := keyChar_ne c (Or.inl hcd) '+' (by decide)
      have hu : strDecimalLiteral (c :: rest) = strUnsignedDecimalLiteral false (c :: rest) := by
        unfold strDecimalLiteral
        split
        · rename_i heq
          exact absurd (List.cons.inj heq).1 hp
        · rename_i heq
          exact absurd (List.cons.inj heq).1 hc
        · rfl
      have hi : stringToInteger s = (digitsValue (c :: rest) 0).map (fun n => (n : Int)) := by
        unfold stringToInteger
        rw [hd]
        split
        · rename_i heq
          cases heq
        · rename_i heq
          exact absurd (List.cons.inj heq).1 hc
        · rename_i heq
          exact absurd (List.cons.inj heq).1 hp
        · rfl
      rw [hu, unsigned_keyChars false _ h, hi, if_neg (List.cons_ne_nil _ _)]
      rcases hv : digitsValue (c :: rest) 0 with _ | m
      · simp [nan_equal]
      · simp only [Option.map_some']
        rw [rounded_equal_numberOf _ _ _ hn]
        simp

/-- The test of the lookup for a numeric address below 2 ^ 53. -/
theorem matches_num_iff (d : Device) (n : Int) (hn : n.natAbs < 2 ^ 53) :
    d.matchesAddr (.num n) = true
      ↔ (d.shortAddress : Int) = n ∨ stringToInteger d.extAddress.key = some n := by
  simp only [Device.matchesAddr, shortAddrEq, extKeyEq, Bool.or_eq_true,
    numberOf_equal_iff _ _ hn, key_equal_number _ (key_chars d.extAddress) n hn]

theorem u16At_lt (f : List Byte) (o : Nat) : u16At f o < 65536 := by
  have h1 := (f.getD o 0).isLt
  have h2 := (f.getD (o + 1) 0).isLt
  simp only [u16At, frameByte]
  omega

theorem find_num_first (self : AppClient) (n : Nat) (hn : n < 2 ^ 53) :
    ∀ j d, findDeviceIndexFromAddr self (.num n) = some j →
      self.connectedDeviceList.get? j = some d →
      (d.shortAddress = n ∨ stringToInteger d.extAddress.key = some (n : Int))
      ∧ ∀ k e, k < j → self.connectedDeviceList.get? k = some e →
          e.shortAddress ≠ n ∧ stringToInteger e.extAddress.key ≠ some (n : Int) := by
  intro j d hf hd
  obtain ⟨k, hk, ⟨e, he, hm⟩, hlt⟩ := findFrom_some _ _ 0 j hf
  have : j = k := by omega
  subst this
  rw [hd] at he
  cases he
  have hn' : (n : Int).natAbs < 2 ^ 53 := by simpa using hn
  constructor
  · have := (matches_num_iff d n hn').mp hm
    simpa using this
  · intro k e hk he
    have h1 := hlt k e hk he
    have h2 : ¬ ((e.shortAddress : Int) = n ∨ stringToInteger e.extAddress.key = some (n : Int)) := by
      rw [← matches_num_iff e n hn', h1]
      simp
    simpa [not_or] using h2

theorem dispatch_notActive (self : AppClient) (data : ByteBuffer) :
    dispatch self cmdIds.DEVICE_NOTACTIVE_UPDATE_IND data
      = appC_processDeviceNotActiveIndMsg self data := by
  simp [dispatch, cmdIds.DEVICE_NOTACTIVE_UPDATE_IND, cmdIds.DEVICE_JOINED_IND,
    cmdIds.NWK_INFO_IND, cmdIds.GET_NWK_INFO_CNF, cmdIds.GET_DEVICE_ARRAY_CNF]

/-- C15: `findDeviceIndexFromAddr` returns the least index whose device has a
short address equal to the address or a serialized extended address (the
decimal string of the high word followed by that of the low word) equal to
it, equality being the `==` of the source: two numbers are compared as
doubles, a string is converted to a Number before it is compared with a
number (white space trimmed, decimal digits with fraction and exponent or a
`0x`, `0o`, `0b` literal, rounded to a double; `NaN` for any other text), two
strings are compared as strings. It returns -1 (`none`) exactly when no
device matches. It only computes an index: the client state is not among its
results. For a number below 2 ^ 53 in absolute value a device matches when its
short address is that number or its key is a decimal string that denotes it.
The addresses "0x6", " 6", "6.0" and "60e-1" find the device with short
address 6, and the number 2874540201432778752 finds the device whose key is
"2874540201432778632", which the string "2874540201432778752" does not. -/
theorem findDeviceIndex_first_match (self : AppClient) (a : JsAddr) :
    (∀ i, findDeviceIndexFromAddr self a = some i ↔
        (∃ d, self.connectedDeviceList.get? i = some d ∧ d.matchesAddr a = true)
        ∧ ∀ j d, j < i → self.connectedDeviceList.get? j = some d → d.matchesAddr a = false)
    ∧ (findDeviceIndexFromAddr self a = none ↔
        ∀ d ∈ self.connectedDeviceList, d.matchesAddr a = false)
    ∧ (∀ (d : Device) (n : Int), d.matchesAddr (.num n) = true ↔
        (numberOf d.shortAddress).equal (numberOf n) = true
        ∨ (stringToNumber d.extAddress.key).equal (numberOf n) = true)
    ∧ (∀ (d : Device) (s : String), d.matchesAddr (.str s) = true ↔
        (numberOf d.shortAddress).equal (stringToNumber s) = true ∨ d.extAddress.key = s)
    ∧ (∀ (d : Device) (n : Int), n.natAbs < 2 ^ 53 →
        (d.matchesAddr (.num n) = true ↔
          (d.shortAddress : Int) = n ∨ stringToInteger d.extAddress.key = some n))
    ∧ (appC_processIncoming AppClient.init snapshotPair).st.connectedDeviceList.map
        (fun d => (d.shortAddress, d.extAddress.key)) = [(5, "123"), (6, "2874540201432778632")]
    ∧ [JsAddr.str "0x6", .str " 6", .str "6.0", .str "60e-1", .str "0b110", .num 6].map
        (findDeviceIndexFromAddr (appC_processIncoming AppClient.init snapshotPair).st)
      = [some 1, some 1, some 1, some 1, some 1, some 1]
    ∧ [JsAddr.num 2874540201432778752, .num 2874540201432778632,
        .str "2874540201432778632", .str "2874540201432778752", .str "0x7", .str "six"].map
        (findDeviceIndexFromAddr (appC_processIncoming AppClient.init snapshotPair).st)
      = [some 1, some 1, some 1, none, none, none] := by
  refine ⟨fun i => ⟨fun h => ?_, fun h => ?_⟩, findFrom_none a _ 0, ?_, ?_,
    fun d n hn => matches_num_iff d n hn, by decide, by decide, by decide⟩
  · obtain ⟨j, hj, hd, hlt⟩ := findFrom_some a _ 0 i h
    have : i = j := by omega
    subst this
    exact ⟨hd, hlt⟩
  · obtain ⟨⟨d, hd, hm⟩, hlt⟩ := h
    have := findFrom_first a _ 0 i d hd hm hlt
    simpa [findDeviceIndexFromAddr] using this
  · intro d n
    simp [Device.matchesAddr, shortAddrEq, extKeyEq]
  · intro d s
    simp [Device.matchesAddr, shortAddrEq, extKeyEq]

/-- C12: for every registry and every DEVICE_NOTACTIVE_UPDATE_IND frame that
carries its four fields (17 bytes or more), when the short address of the
frame, the little-endian 16-bit value at offset 6, is matched by no device
(`findDeviceIndexFromAddr` returns -1), the handler leaves the whole client
state, the registry included, as it was, emits no event and raises nothing;
the same holds through the `switch`. -/
theorem not_active_absent_is_noop (self : AppClient) (f : List Byte) (h : 17 ≤ f.length)
    (hfind : findDeviceIndexFromAddr self (.num (u16At f 6)) = none) :
    readDeviceNotActiveInd ⟨f, 0, none⟩
      = .ok ⟨u16At f 4, u16At f 6, longAt f 8, frameByte f 16⟩
    ∧ appC_processDeviceNotActiveIndMsg self ⟨f, 0, none⟩ = ⟨self, none⟩
    ∧ dispatch self cmdIds.DEVICE_NOTACTIVE_UPDATE_IND ⟨f, 0, none⟩ = ⟨self, none⟩ := by
  have hread := readDeviceNotActiveInd_val f h
  have hh := notActive_absent self ⟨f, 0, none⟩ _ hread hfind
  exact ⟨hread, hh, by rw [dispatch_notActive, hh]⟩

theorem not_active_absent_is_noop_witness :
    17 ≤ (notActiveFrame 7).length
    ∧ findDeviceIndexFromAddr (appC_processIncoming AppClient.init snapshotLowFive).st
        (.num (u16At (notActiveFrame 7) 6)) = none
    ∧ appC_processDeviceNotActiveIndMsg (appC_processIncoming AppClient.init snapshotLowFive).st
        ⟨notActiveFrame 7, 0, none⟩
      = ⟨(appC_processIncoming AppClient.init snapshotLowFive).st, none⟩ :=
  ⟨by decide, by decide,
    (not_active_absent_is_noop (appC_processIncoming AppClient.init snapshotLowFive).st
      (notActiveFrame 7) (by decide) (by decide)).2.1⟩

/-- C13: for every registry and every DEVICE_NOTACTIVE_UPDATE_IND frame that
carries its four fields, when the short address of the frame resolves to
index i, the handler sets `active` of device i to the string 'false' and keeps
every other property of it, keeps every other device and the length of the
registry, leaves the network information and the bytes written as they were,
raises nothing, and appends exactly one event, a device update carrying
device i as updated. -/
theorem not_active_marks_one_device (self : AppClient) (f : List Byte) (i : Nat)
    (h : 17 ≤ f.length) (hfind : findDeviceIndexFromAddr self (.num (u16At f 6)) = some i) :
    ∃ d, self.connectedDeviceList.get? i = some d
      ∧ appC_processDeviceNotActiveIndMsg self ⟨f, 0, none⟩
        = ⟨{ self with
              connectedDeviceList := self.connectedDeviceList.set i { d with active := "false" }
              emitted := self.emitted ++ [.connDevInfoUpdate { d with active := "false" }] },
            none⟩
      ∧ (self.connectedDeviceList.set i { d with active := "false" }).length
          = self.connectedDeviceList.length
      ∧ (self.connectedDeviceList.set i { d with active := "false" }).get? i
          = some { d with active := "false" }
      ∧ ∀ j, j ≠ i → (self.connectedDeviceList.set i { d with active := "false" }).get? j
          = self.connectedDeviceList.get? j := by
  obtain ⟨d, hd, hh⟩ := notActive_found self ⟨f, 0, none⟩ _ i (readDeviceNotActiveInd_val f h) hfind
  have hlt : i < self.connectedDeviceList.length := by
    have := findDeviceIndexFrom_lt _ _ _ _ hfind
    omega
  refine ⟨d, hd, hh, by simp, by simp [hlt], ?_⟩
  intro j hj
  simp [List.getElem?_set, Ne.symm hj]

theorem not_active_marks_one_device_witness :
    17 ≤ (notActiveFrame 6).length
    ∧ findDeviceIndexFromAddr (appC_processIncoming AppClient.init snapshotPair).st
        (.num (u16At (notActiveFrame 6) 6)) = some 1
    ∧ ∃ d, (appC_processIncoming AppClient.init snapshotPair).st.connectedDeviceList.get? 1 = some d
      ∧ appC_processDeviceNotActiveIndMsg (appC_processIncoming AppClient.init snapshotPair).st
          ⟨notActiveFrame 6, 0, none⟩
        = ⟨{ (appC_processIncoming AppClient.init snapshotPair).st with
              connectedDeviceList :=
                (appC_processIncoming AppClient.init snapshotPair).st.connectedDeviceList.set 1
                  { d with active := "false" }
              emitted := (appC_processIncoming AppClient.init snapshotPair).st.emitted
                ++ [.connDevInfoUpdate { d with active := "false" }] }, none⟩ := by
  refine ⟨by decide, by decide, ?_⟩
  obtain ⟨d, h1, h2, _⟩ := not_active_marks_one_device
    (appC_processIncoming AppClient.init snapshotPair).st (notActiveFrame 6) 1
    (by decide) (by decide)
  exact ⟨d, h1, h2⟩

/-- C14 (amended): for every registry and every DEVICE_NOTACTIVE_UPDATE_IND
frame that carries its four fields, a device is changed by the handler only
if it is the device `findDeviceIndexFromAddr` returns for the short address
of the frame, the change is that `active` becomes 'false', and that device is
the first of the registry whose short address equals the short address of the
frame or whose serialized extended address, read as a decimal number, equals
it. -/
theorem not_active_marks_first_match (self : AppClient) (f : List Byte) (h : 17 ≤ f.length) :
    (∀ j d d', self.connectedDeviceList.get? j = some d →
        (appC_processDeviceNotActiveIndMsg self ⟨f, 0, none⟩).st.connectedDeviceList.get? j
          = some d' →
        d' ≠ d →
        findDeviceIndexFromAddr self (.num (u16At f 6)) = some j
        ∧ d' = { d with active := "false" })
    ∧ (∀ j d, findDeviceIndexFromAddr self (.num (u16At f 6)) = some j →
        self.connectedDeviceList.get? j = some d →
        (d.shortAddress = u16At f 6
          ∨ stringToInteger d.extAddress.key = some (u16At f 6 : Int))
        ∧ ∀ k e, k < j → self.connectedDeviceList.get? k = some e →
            e.shortAddress ≠ u16At f 6
            ∧ stringToInteger e.extAddress.key ≠ some (u16At f 6 : Int)) :=
  ⟨notActive_changed self ⟨f, 0, none⟩ _ (readDeviceNotActiveInd_val f h),
    find_num_first self (u16At f 6) (Nat.lt_trans (u16At_lt f 6) (by decide))⟩

theorem not_active_marks_first_match_witness :
    17 ≤ (notActiveFrame 6).length
    ∧ ∀ j d, findDeviceIndexFromAddr (appC_processIncoming AppClient.init snapshotPair).st
          (.num (u16At (notActiveFrame 6) 6)) = some j →
        (appC_processIncoming AppClient.init snapshotPair).st.connectedDeviceList.get? j = some d →
        (d.shortAddress = u16At (notActiveFrame 6) 6
          ∨ stringToInteger d.extAddress.key = some (u16At (notActiveFrame 6) 6 : Int)) :=
  ⟨by decide, fun j d hf hd =>
    ((not_active_marks_first_match (appC_processIncoming AppClient.init snapshotPair).st
      (notActiveFrame 6) (by decide)).2 j d hf hd).1⟩

/-- C14 as stated fails: the registry holds one device with short address 9
and extended address 0x0000000000000005, whose serialized address is "05"; an
inactive indication whose short address field is 5 marks that device inactive
although its short address is not 5. -/
theorem not_active_marks_device_by_extended_key :
    (appC_processIncoming AppClient.init snapshotLowFive).st.connectedDeviceList.map
        (fun d => (d.shortAddress, d.extAddress.key, d.active)) = [(9, "05", "true")]
    ∧ readDeviceNotActiveInd ⟨notActiveFrame 5, 0, none⟩ = .ok ⟨0xABCD, 5, ⟨0, 0, true⟩, 30⟩
    ∧ (appC_processIncoming (appC_processIncoming AppClient.init snapshotLowFive).st
        (notActiveFrame 5)).thrown = none
    ∧ (appC_processIncoming (appC_processIncoming AppClient.init snapshotLowFive).st
        (notActiveFrame 5)).st.connectedDeviceList.map
        (fun d => (d.shortAddress, d.extAddress.key, d.active)) = [(9, "05", "false")] :=
  ⟨by decide, rfl, by decide, by decide⟩

/-! ## The roster snapshot: wire layout -/

theorem readCapInfo_val (f : List Byte) (o : Nat) (m : Option Nat) (h : o + 6 ≤ f.length) :
    readCapInfo ⟨f, o, m⟩
      = .ok (⟨frameByte f o, frameByte f (o + 1), frameByte f (o + 2), frameByte f (o + 3),
              frameByte f (o + 4), frameByte f (o + 5)⟩, ⟨f, o + 6, m⟩) := by
  simp only [readCapInfo, bind, Except.bind, pure, Except.pure,
    readUint8_ok f o m (by omega), readUint8_ok f (o + 1) m (by omega),
    readUint8_ok f (o + 1 + 1) m (by omega), readUint8_ok f (o + 1 + 1 + 1) m (by omega),
    readUint8_ok f (o + 1 + 1 + 1 + 1) m (by omega),
    readUint8_ok f (o + 1 + 1 + 1 + 1 + 1) m (by omega), frameByte]

theorem readDevArrayEntry_val (f : List Byte) (o : Nat) (h : o + 18 ≤ f.length) :
    readDevArrayEntry ⟨f, o, none⟩ = .ok (snapshotEntryAt f o, ⟨f, o + 18, none⟩) := by
  simp only [readDevArrayEntry, bind, Except.bind, pure, Except.pure,
    readUint16_ok f o none (by omega), readUint16_ok f (o + 2) none (by omega),
    readUint64_val f (o + 2 + 2) none (by omega), readCapInfo_val f (o + 2 + 2 + 8) none (by omega),
    snapshotEntryAt, u16At, frameByte]

theorem devArrayLoop_val (n : Nat) : ∀ (f : List Byte) (o : Nat) (self : AppClient),
    o + 18 * n ≤ f.length →
    devArrayLoop n ⟨f, o, none⟩ self
      = ⟨{ self with
            connectedDeviceList := self.connectedDeviceList
              ++ (List.range n).map (fun i => snapshotEntryAt f (o + 18 * i)) }, none⟩ := by
  induction n with
  | zero => intro f o self _; simp [devArrayLoop]
  | succ k ih =>
    intro f o self h
    simp only [devArrayLoop, readDevArrayEntry_val f o (by omega)]
    rw [ih f (o + 18) _ (by omega)]
    have e : (fun i => snapshotEntryAt f (o + 18 + 18 * i))
        = (fun i => snapshotEntryAt f (o + 18 * i)) ∘ Nat.succ := by
      funext i
      simp only [Function.comp]
      congr 1
      omega
    simp only [List.range_succ_eq_map, List.map_cons, List.map_map, e, List.append_assoc,
      List.singleton_append, Nat.mul_zero, Nat.add_zero]

theorem snapshot_val (self : AppClient) (f : List Byte) (h : 7 + 18 * u16At f 5 ≤ f.length) :
    appC_processGetDevArrayCnf self ⟨f, 0, none⟩
      = ⟨{ self with
            connectedDeviceList :=
              (List.range (u16At f 5)).map (fun i => snapshotEntryAt f (7 + 18 * i))
            emitted := self.emitted ++ [.getdevArrayRsp
              ((List.range (u16At f 5)).map (fun i => snapshotEntryAt f (7 + 18 * i)))] },
          none⟩ := by
  have hl := devArrayLoop_val (u16At f 5) f 7 { self with connectedDeviceList := [] } h
  simp only [u16At, frameByte] at hl
  simp only [appC_processGetDevArrayCnf, readDevArrayHead, bind, Except.bind, pure, Except.pure,
    skipHeader_ok f (by omega), readUint8_ok f 4 none (by omega),
    readUint16_ok f (4 + 1) none (by omega), hl, AppClient.emit, List.nil_append, u16At, frameByte]

/-- C11 (amended): the payload of GET_DEVICE_ARRAY_CNF is status (1 byte),
count (uint16, little endian), then count entries of 18 bytes each: PAN id
(uint16), shortAddr (uint16), extAddr (uint64), six capability bytes. For a
frame that carries its count entries the registry afterwards has count
devices, and the i-th has for short address the little-endian 16-bit value at
payload offset 5 + 18 * i (frame offset 9 + 18 * i), for extended address the
eight bytes after it and for capability flags the six bytes after those. -/
theorem snapshot_entry_layout (self : AppClient) (f : List Byte)
    (h : 7 + 18 * u16At f 5 ≤ f.length) :
    appC_processGetDevArrayCnf self ⟨f, 0, none⟩
      = ⟨{ self with
            connectedDeviceList :=
              (List.range (u16At f 5)).map (fun i => snapshotEntryAt f (7 + 18 * i))
            emitted := self.emitted ++ [.getdevArrayRsp
              ((List.range (u16At f 5)).map (fun i => snapshotEntryAt f (7 + 18 * i)))] },
          none⟩
    ∧ (appC_processGetDevArrayCnf self ⟨f, 0, none⟩).st.connectedDeviceList.length = u16At f 5
    ∧ ∀ i, i < u16At f 5 →
        ∃ d, (appC_processGetDevArrayCnf self ⟨f, 0, none⟩).st.connectedDeviceList.get? i = some d
          ∧ d.shortAddress = u16At f (4 + (5 + 18 * i))
          ∧ d.extAddress = longAt f (4 + (7 + 18 * i))
          ∧ d.capabilityInfo = .capInfo ⟨frameByte f (4 + (15 + 18 * i)),
              frameByte f (4 + (16 + 18 * i)), frameByte f (4 + (17 + 18 * i)),
              frameByte f (4 + (18 + 18 * i)), frameByte f (4 + (19 + 18 * i)),
              frameByte f (4 + (20 + 18 * i))⟩
          ∧ d.active = "true" := by
  have hv := snapshot_val self f h
  refine ⟨hv, by rw [hv]; simp, ?_⟩
  intro i hi
  refine ⟨snapshotEntryAt f (7 + 18 * i), by rw [hv]; simp [hi], ?_⟩
  have e1 : 4 + (5 + 18 * i) = 7 + 18 * i + 2 := by omega
  have e2 : 4 + (7 + 18 * i) = 7 + 18 * i + 4 := by omega
  have e3 : 4 + (15 + 18 * i) = 7 + 18 * i + 12 := by omega
  have e4 : 4 + (16 + 18 * i) = 7 + 18 * i + 13 := by omega
  have e5 : 4 + (17 + 18 * i) = 7 + 18 * i + 14 := by omega
  have e6 : 4 + (18 + 18 * i) = 7 + 18 * i + 15 := by omega
  have e7 : 4 + (19 + 18 * i) = 7 + 18 * i + 16 := by omega
  have e8 : 4 + (20 + 18 * i) = 7 + 18 * i + 17 := by omega
  rw [e1, e2, e3, e4, e5, e6, e7, e8]
  exact ⟨rfl, rfl, rfl, rfl⟩

theorem snapshot_entry_layout_witness :
    7 + 18 * u16At snapshotPair 5 ≤ snapshotPair.length
    ∧ u16At snapshotPair 5 = 2
    ∧ ∃ d, (appC_processGetDevArrayCnf AppClient.init
          ⟨snapshotPair, 0, none⟩).st.connectedDeviceList.get? 1 = some d
        ∧ d.shortAddress = u16At snapshotPair (4 + (5 + 18 * 1))
        ∧ u16At snapshotPair (4 + (5 + 18 * 1)) = 6 := by
  refine ⟨by decide, by decide, ?_⟩
  obtain ⟨d, h1, h2, _⟩ := (snapshot_entry_layout AppClient.init snapshotPair (by decide)).2.2 1
    (by decide)
  exact ⟨d, h1, h2, by decide⟩

/-- C11 as stated fails: on a frame listing the short addresses 5 and 6 the
16-bit values at payload offsets 3 and 3 + 16 are 0xABCD and 0, not 5 and 6;
and a frame whose single entry is laid out in 16 bytes, as the claim says,
makes the handler raise a RangeError and leaves the registry empty. -/
theorem snapshot_entries_are_eighteen_bytes :
    (appC_processIncoming AppClient.init snapshotPair).thrown = none
    ∧ (appC_processIncoming AppClient.init snapshotPair).st.connectedDeviceList.map
        (·.shortAddress) = [5, 6]
    ∧ u16At snapshotPair (4 + (3 + 16 * 0)) = 0xABCD
    ∧ u16At snapshotPair (4 + (3 + 16 * 1)) = 0
    ∧ snapshotSixteen.length = 4 + (3 + 16 * 1)
    ∧ WellFormedFrame snapshotSixteen
    ∧ u16At snapshotSixteen (4 + (3 + 16 * 0)) = 5
    ∧ (appC_processIncoming AppClient.init snapshotSixteen).thrown = some .RangeError
    ∧ (appC_processIncoming AppClient.init snapshotSixteen).st.connectedDeviceList = [] :=
  ⟨by decide, by decide, by decide, by decide, by decide,
    ⟨19, 0, 10, 7, [0, 1, 0, 5, 0, 0x88, 0x77, 0x66, 0x55, 0x44, 0x33, 0x22, 0x11, 0, 0, 0, 0, 0, 0],
      rfl, by decide⟩,
    by decide, by decide, by decide⟩

/-! ## Sensor data and config responses -/

theorem readUint16_val (f : List Byte) (o : Nat) (m : Option Nat) (h : o + 2 ≤ f.length) :
    (ByteBuffer.mk f o m).readUint16 = .ok (u16At f o, ⟨f, o + 2, m⟩) :=
  readUint16_ok f o m h

theorem readUint8_val (f : List Byte) (o : Nat) (m : Option Nat) (h : o + 1 ≤ f.length) :
    (ByteBuffer.mk f o m).readUint8 = .ok (frameByte f o, ⟨f, o + 1, m⟩) :=
  readUint8_ok f o m h

theorem readUint32_val (f : List Byte) (o : Nat) (m : Option Nat) (h : o + 4 ≤ f.length) :
    (ByteBuffer.mk f o m).readUint32 = .ok (u32At f o, ⟨f, o + 4, m⟩) := by
  have : ¬ o + 4 > f.length := by omega
  simp only [ByteBuffer.readUint32, ByteBuffer.readUint32At, this, if_false, ByteBuffer.byteAt,
    u32At, frameByte]

theorem readFloat_val (f : List Byte) (o : Nat) (m : Option Nat) (h : o + 4 ≤ f.length) :
    (ByteBuffer.mk f o m).readFloat = .ok (u32At f o, ⟨f, o + 4, m⟩) := by
  have : ¬ o + 4 > f.length := by omega
  simp only [ByteBuffer.readFloat, ByteBuffer.readUint32At, this, if_false, ByteBuffer.byteAt,
    u32At, frameByte]

theorem readInt8_val (f : List Byte) (o : Nat) (m : Option Nat) (h : o + 1 ≤ f.length) :
    (ByteBuffer.mk f o m).readInt8 = .ok (int8At f o, ⟨f, o + 1, m⟩) := by
  have : ¬ o + 1 > f.length := by omega
  simp only [ByteBuffer.readInt8, ByteBuffer.readUint8At, this, if_false, ByteBuffer.byteAt,
    int8At, frameByte]

theorem readUint16s_val (n : Nat) : ∀ (f : List Byte) (o : Nat) (m : Option Nat),
    o + 2 * n ≤ f.length →
    readUint16s n ⟨f, o, m⟩
      = .ok ((List.range n).map (fun i => u16At f (o + 2 * i)), ⟨f, o + 2 * n, m⟩) := by
  induction n with
  | zero => intro f o m _; rfl
  | succ k ih =>
    intro f o m h
    simp only [readUint16s, bind, Except.bind, pure, Except.pure, readUint16_val f o m (by omega),
      ih f (o + 2) m (by omega)]
    have e : (fun i => u16At f (o + 2 + 2 * i)) = (fun i => u16At f (o + 2 * i)) ∘ Nat.succ := by
      funext i
      simp only [Function.comp]
      congr 1
      omega
    have e2 : o + 2 + 2 * k = o + 2 * (k + 1) := by omega
    simp only [List.range_succ_eq_map, List.map_cons, List.map_map, e, e2, Nat.mul_zero,
      Nat.add_zero]

theorem readTempSensor_val (fc : Nat) (dd : DeviceData) (f : List Byte) (o : Nat)
    (m : Option Nat) (h : fc &&& Smsgs_dataFields.tempSensor ≠ 0 → o + 4 ≤ f.length) :
    readTempSensor fc dd ⟨f, o, m⟩
      = .ok ({ dd with
               tempSensor :=
                 if fc &&& Smsgs_dataFields.tempSensor ≠ 0 then some ⟨u16At f o, u16At f (o + 2)⟩
                 else dd.tempSensor },
            ⟨f, o + groupSize fc Smsgs_dataFields.tempSensor 4, m⟩) := by
  by_cases c : fc &&& Smsgs_dataFields.tempSensor ≠ 0
  · have := h c
    simp only [readTempSensor, groupSize, if_pos c, bind, Except.bind, pure, Except.pure,
      readUint16_val f o m (by omega), readUint16_val f (o + 2) m (by omega)]
  · simp only [readTempSensor, groupSize, if_neg c, pure, Except.pure, Nat.add_zero]

theorem readLightSensor_val (fc : Nat) (dd : DeviceData) (f : List Byte) (o : Nat)
    (m : Option Nat) (h : fc &&& Smsgs_dataFields.lightSensor ≠ 0 → o + 2 ≤ f.length) :
    readLightSensor fc dd ⟨f, o, m⟩
      = .ok ({ dd with
               lightSensor :=
                 if fc &&& Smsgs_dataFields.lightSensor ≠ 0 then some ⟨u16At f o⟩
                 else dd.lightSensor },
            ⟨f, o + groupSize fc Smsgs_dataFields.lightSensor 2, m⟩) := by
  by_cases c : fc &&& Smsgs_dataFields.lightSensor ≠ 0
  · have := h c
    simp only [readLightSensor, groupSize, if_pos c, bind, Except.bind, pure, Except.pure,
      readUint16_val f o m (by omega)]
  · simp only [readLightSensor, groupSize, if_neg c, pure, Except.pure, Nat.add_zero]

theorem readHumiditySensor_val (fc : Nat) (dd : DeviceData) (f : List Byte) (o : Nat)
    (m : Option Nat) (h : fc &&& Smsgs_dataFields.humiditySensor ≠ 0 → o + 4 ≤ f.length) :
    readHumiditySensor fc dd ⟨f, o, m⟩
      = .ok ({ dd with
               humiditySensor :=
                 if fc &&& Smsgs_dataFields.humiditySensor ≠ 0 then some ⟨u16At f o, u16At f (o + 2)⟩
                 else dd.humiditySensor },
            ⟨f, o + groupSize fc Smsgs_dataFields.humiditySensor 4, m⟩) := by
  by_cases c : fc &&& Smsgs_dataFields.humiditySensor ≠ 0
  · have := h c
    simp only [readHumiditySensor, groupSize, if_pos c, bind, Except.bind, pure, Except.pure,
      readUint16_val f o m (by omega), readUint16_val f (o + 2) m (by omega)]
  · simp only [readHumiditySensor, groupSize, if_neg c, pure, Except.pure, Nat.add_zero]

theorem readHallEffectSensor_val (fc : Nat) (dd : DeviceData) (f : List Byte) (o : Nat)
    (m : Option Nat) (h : fc &&& Smsgs_dataFields.hallEffectSensor ≠ 0 → o + 4 ≤ f.length) :
    readHallEffectSensor fc dd ⟨f, o, m⟩
      = .ok ({ dd with
               hallEffectSensor :=
                 if fc &&& Smsgs_dataFields.hallEffectSensor ≠ 0 then some ⟨u32At f o⟩
                 else dd.hallEffectSensor },
            ⟨f, o + groupSize fc Smsgs_dataFields.hallEffectSensor 4, m⟩) := by
  by_cases c : fc &&& Smsgs_dataFields.hallEffectSensor ≠ 0
  · have := h c
    simp only [readHallEffectSensor, groupSize, if_pos c, bind, Except.bind, pure, Except.pure,
      readFloat_val f o m (by omega)]
  · simp only [readHallEffectSensor, groupSize, if_neg c, pure, Except.pure, Nat.add_zero]

theorem readMsgStats_val (fc : Nat) (dd : DeviceData) (f : List Byte) (o : Nat)
    (m : Option Nat) (h : fc &&& Smsgs_dataFields.msgStats ≠ 0 → o + 40 ≤ f.length) :
    readMsgStats fc dd ⟨f, o, m⟩
      = .ok ({ dd with
               msgStats :=
                 if fc &&& Smsgs_dataFields.msgStats ≠ 0 then some ((List.range 20).map (fun i => u16At f (o + 2 * i)))
                 else dd.msgStats },
            ⟨f, o + groupSize fc Smsgs_dataFields.msgStats 40, m⟩) := by
  by_cases c : fc &&& Smsgs_dataFields.msgStats ≠ 0
  · have := h c
    simp only [readMsgStats, groupSize, if_pos c, bind, Except.bind, pure, Except.pure,
      readUint16s_val 20 f o m (by omega)]
  · simp only [readMsgStats, groupSize, if_neg c, pure, Except.pure, Nat.add_zero]

theorem readConfigSettings_val (fc : Nat) (dd : DeviceData) (f : List Byte) (o : Nat)
    (m : Option Nat) (h : fc &&& Smsgs_dataFields.configSettings ≠ 0 → o + 8 ≤ f.length) :
    readConfigSettings fc dd ⟨f, o, m⟩
      = .ok ({ dd with
               configSettings :=
                 if fc &&& Smsgs_dataFields.configSettings ≠ 0 then some (u32At f o, u32At f (o + 4))
                 else dd.configSettings },
            ⟨f, o + groupSize fc Smsgs_dataFields.configSettings 8, m⟩) := by
  by_cases c : fc &&& Smsgs_dataFields.configSettings ≠ 0
  · have := h c
    simp only [readConfigSettings, groupSize, if_pos c, bind, Except.bind, pure, Except.pure,
      readUint32_val f o m (by omega), readUint32_val f (o + 4) m (by omega)]
  · simp only [readConfigSettings, groupSize, if_neg c, pure, Except.pure, Nat.add_zero]

theorem sensorGroupsSize_eq (fc : Nat) :
    sensorGroupsSize fc
      = groupSize fc Smsgs_dataFields.tempSensor 4 + groupSize fc Smsgs_dataFields.lightSensor 2
        + groupSize fc Smsgs_dataFields.humiditySensor 4
        + groupSize fc Smsgs_dataFields.hallEffectSensor 4
        + groupSize fc Smsgs_dataFields.msgStats 40
        + groupSize fc Smsgs_dataFields.configSettings 8 := rfl

theorem groupSize_le (fc bit size : Nat) : groupSize fc bit size ≤ size := by
  unfold groupSize; split <;> omega

theorem groupSize_pos (fc bit size : Nat) (c : fc &&& bit ≠ 0) : groupSize fc bit size = size := by
  simp only [groupSize, if_pos c]

theorem readSensorData_val (f : List Byte) (o : Nat) (m : Option Nat) (dd : DeviceData)
    (h : o + 10 + sensorGroupsSize (u16At f (o + 8)) ≤ f.length) :
    readSensorData ⟨f, o, m⟩ dd
      = .ok (sensorDataAt f o dd, ⟨f, o + 10 + sensorGroupsSize (u16At f (o + 8)), m⟩) := by
  rw [sensorGroupsSize_eq] at h ⊢
  have e0 := readUint64_val f o m (by omega)
  have e1 := readUint16_val f (o + 8) m (by omega)
  have s1 := groupSize_le (u16At f (o + 8)) Smsgs_dataFields.tempSensor 4
  have s2 := groupSize_le (u16At f (o + 8)) Smsgs_dataFields.lightSensor 2
  have s3 := groupSize_le (u16At f (o + 8)) Smsgs_dataFields.humiditySensor 4
  have s4 := groupSize_le (u16At f (o + 8)) Smsgs_dataFields.hallEffectSensor 4
  have s5 := groupSize_le (u16At f (o + 8)) Smsgs_dataFields.msgStats 40
  have s6 := groupSize_le (u16At f (o + 8)) Smsgs_dataFields.configSettings 8
  simp only [readSensorData, bind, Except.bind, e0, e1]
  rw [readTempSensor_val _ _ _ _ _ (fun c => by have := groupSize_pos _ _ 4 c; omega)]
  dsimp only
  rw [readLightSensor_val _ _ _ _ _ (fun c => by have := groupSize_pos _ _ 2 c; omega)]
  dsimp only
  rw [readHumiditySensor_val _ _ _ _ _ (fun c => by have := groupSize_pos _ _ 4 c; omega)]
  dsimp only
  rw [readHallEffectSensor_val _ _ _ _ _ (fun c => by have := groupSize_pos _ _ 4 c; omega)]
  dsimp only
  rw [readMsgStats_val _ _ _ _ _ (fun c => by have := groupSize_pos _ _ 40 c; omega)]
  dsimp only
  rw [readConfigSettings_val _ _ _ _ _ (fun c => by have := groupSize_pos _ _ 8 c; omega)]
  refine congrArg Except.ok (Prod.ext ?_ ?_)
  · rfl
  · show ByteBuffer.mk f _ m = ByteBuffer.mk f _ m
    congr 1
    omega

theorem sensorDataAt_consistent (f : List Byte) (o : Nat) (dd : DeviceData) :
    SensorConsistent (sensorDataAt f o dd) := by
  refine ⟨fun h => ?_, fun h => ?_, fun h => ?_, fun h => ?_⟩ <;>
  · simp only [sensorDataAt, hasField, bne_iff_ne] at h
    simp only [sensorDataAt, if_pos h, Option.isSome]

theorem rxSensorData_val (d : Device) (sd : DeviceData) (h : SensorConsistent sd) :
    d.rxSensorData sd
      = .ok { d with
          active := "true"
          temperaturesensor :=
            if hasField sd.frameControl Smsgs_dataFields.tempSensor then sd.tempSensor
            else d.temperaturesensor
          lightsensor :=
            if hasField sd.frameControl Smsgs_dataFields.lightSensor then sd.lightSensor
            else d.lightsensor
          humiditysensor :=
            if hasField sd.frameControl Smsgs_dataFields.humiditySensor then sd.humiditySensor
            else d.humiditysensor
          halleffectsensor :=
            if hasField sd.frameControl Smsgs_dataFields.hallEffectSensor then sd.hallEffectSensor
            else d.halleffectsensor
          rssi := some sd.rssi } := by
  obtain ⟨h1, h2, h3, h4⟩ := h
  unfold Device.rxSensorData
  simp only [bind, Except.bind, pure, Except.pure, throw, throwThe, MonadExceptOf.throw]
  generalize hasField sd.frameControl Smsgs_dataFields.tempSensor = b1 at h1 ⊢
  generalize hasField sd.frameControl Smsgs_dataFields.lightSensor = b2 at h2 ⊢
  generalize hasField sd.frameControl Smsgs_dataFields.humiditySensor = b3 at h3 ⊢
  generalize hasField sd.frameControl Smsgs_dataFields.hallEffectSensor = b4 at h4 ⊢
  generalize sd.tempSensor = o1 at h1 ⊢
  generalize sd.lightSensor = o2 at h2 ⊢
  generalize sd.humiditySensor = o3 at h3 ⊢
  generalize sd.hallEffectSensor = o4 at h4 ⊢
  cases b1 <;> cases b2 <;> cases b3 <;> cases b4 <;> cases o1 <;> cases o2 <;> cases o3 <;>
    cases o4 <;> simp_all

theorem readConfigRsp_val (f : List Byte) (o : Nat) (m : Option Nat) (dd : DeviceData)
    (h : o + 12 ≤ f.length) :
    readConfigRsp ⟨f, o, m⟩ dd = .ok (configRspAt f o dd, ⟨f, o + 12, m⟩) := by
  simp only [readConfigRsp, bind, Except.bind, pure, Except.pure,
    readUint16_val f o m (by omega), readUint16_val f (o + 2) m (by omega),
    readUint32_val f (o + 2 + 2) m (by omega), readUint32_val f (o + 2 + 2 + 4) m (by omega),
    configRspAt]

theorem dataRx_short (self : AppClient) (f : List Byte) (h : 9 ≤ f.length)
    (hm : frameByte f 4 = ADDTYPE_SHORT) :
    appC_processDeviceDataRxIndMsg self ⟨f, 0, none⟩
      = if frameByte f 8 = smgsCmdIds.SENSOR_DATA then
          match readSensorData ⟨f, 9, none⟩ (dataStartAt f) with
          | .error e => ⟨self, some e⟩
          | .ok (deviceData, _) =>
            deliverSensorData self (findDeviceIndexFromAddr self (.num (u16At f 5))) deviceData
        else if frameByte f 8 = smgsCmdIds.CONFIG_RSP then
          match readConfigRsp ⟨f, 9, none⟩ (dataStartAt f) with
          | .error e => ⟨self, some e⟩
          | .ok (deviceData, _) =>
            deliverConfigRsp self (findDeviceIndexFromAddr self (.num (u16At f 5))) deviceData
        else ⟨self, none⟩ := by
  have hne : ¬ (ADDTYPE_SHORT = ADDTYPE_EXT) := by decide
  simp only [appC_processDeviceDataRxIndMsg, skipHeader_ok f (by omega),
    readUint8_val f 4 none (by omega), hm, hne, if_false, if_true,
    readUint16_val f (4 + 1) none (by omega), dataRxAfterAddr,
    readInt8_val f (4 + 1 + 2) none (by omega),
    readUint8_val f (4 + 1 + 2 + 1) none (by omega), dataStartAt]

theorem dataRx_sensor (self : AppClient) (f : List Byte)
    (h : 19 + sensorGroupsSize (u16At f 17) ≤ f.length)
    (hm : frameByte f 4 = ADDTYPE_SHORT) (hc : frameByte f 8 = smgsCmdIds.SENSOR_DATA) :
    appC_processDeviceDataRxIndMsg self ⟨f, 0, none⟩
      = deliverSensorData self (findDeviceIndexFromAddr self (.num (u16At f 5)))
          (sensorDataAt f 9 (dataStartAt f)) := by
  rw [dataRx_short self f (by omega) hm, if_pos hc,
    readSensorData_val f 9 none (dataStartAt f) (by simpa using (by omega :
      9 + 10 + sensorGroupsSize (u16At f 17) ≤ f.length))]

theorem dataRx_config (self : AppClient) (f : List Byte) (h : 21 ≤ f.length)
    (hm : frameByte f 4 = ADDTYPE_SHORT) (hc : frameByte f 8 = smgsCmdIds.CONFIG_RSP) :
    appC_processDeviceDataRxIndMsg self ⟨f, 0, none⟩
      = deliverConfigRsp self (findDeviceIndexFromAddr self (.num (u16At f 5)))
          (configRspAt f 9 (dataStartAt f)) := by
  have hne : ¬ (frameByte f 8 = smgsCmdIds.SENSOR_DATA) := by rw [hc]; decide
  rw [dataRx_short self f (by omega) hm, if_neg hne, if_pos hc,
    readConfigRsp_val f 9 none (dataStartAt f) (by omega)]

theorem dispatch_dataRx (self : AppClient) (data : ByteBuffer) :
    dispatch self cmdIds.DEVICE_DATA_RX_IND data = appC_processDeviceDataRxIndMsg self data := by
  simp [dispatch, cmdIds.DEVICE_DATA_RX_IND, cmdIds.DEVICE_NOTACTIVE_UPDATE_IND,
    cmdIds.DEVICE_JOINED_IND, cmdIds.NWK_INFO_IND, cmdIds.GET_NWK_INFO_CNF,
    cmdIds.GET_DEVICE_ARRAY_CNF]

theorem deliverSensorData_found (self : AppClient) (i : Nat) (d : Device) (sd : DeviceData)
    (hc : SensorConsistent sd) (hget : self.connectedDeviceList.get? i = some d) :
    deliverSensorData self (some i) sd
      = ⟨{ self with
            connectedDeviceList := self.connectedDeviceList.set i
              { d with
                active := "true"
                temperaturesensor :=
                  if hasField sd.frameControl Smsgs_dataFields.tempSensor then sd.tempSensor
                  else d.temperaturesensor
                lightsensor :=
                  if hasField sd.frameControl Smsgs_dataFields.lightSensor then sd.lightSensor
                  else d.lightsensor
                humiditysensor :=
                  if hasField sd.frameControl Smsgs_dataFields.humiditySensor then
                    sd.humiditySensor
                  else d.humiditysensor
                halleffectsensor :=
                  if hasField sd.frameControl Smsgs_dataFields.hallEffectSensor then
                    sd.hallEffectSensor
                  else d.halleffectsensor
                rssi := some sd.rssi }
            emitted := self.emitted ++ [.connDevInfoUpdate
              { d with
                active := "true"
                temperaturesensor :=
                  if hasField sd.frameControl Smsgs_dataFields.tempSensor then sd.tempSensor
                  else d.temperaturesensor
                lightsensor :=
                  if hasField sd.frameControl Smsgs_dataFields.lightSensor then sd.lightSensor
                  else d.lightsensor
                humiditysensor :=
                  if hasField sd.frameControl Smsgs_dataFields.humiditySensor then
                    sd.humiditySensor
                  else d.humiditysensor
                halleffectsensor :=
                  if hasField sd.frameControl Smsgs_dataFields.hallEffectSensor then
                    sd.hallEffectSensor
                  else d.halleffectsensor
                rssi := some sd.rssi }] }, none⟩ := by
  simp only [deliverSensorData, hget, rxSensorData_val d sd hc, AppClient.emit]

theorem deliverConfigRsp_found (self : AppClient) (i : Nat) (d : Device) (sd : DeviceData)
    (hget : self.connectedDeviceList.get? i = some d) :
    deliverConfigRsp self (some i) sd
      = ⟨{ self with
            connectedDeviceList := self.connectedDeviceList.set i (d.rxConfigRspInd sd)
            emitted := self.emitted ++ [.connDevInfoUpdate (d.rxConfigRspInd sd)] }, none⟩ := by
  simp only [deliverConfigRsp, updateDeviceAt, hget, AppClient.emit]

theorem skipHeader_inv {bb d : ByteBuffer} (h : skipHeader bb = .ok d) :
    d.buffer = bb.buffer ∧ d.offset = 4 := by
  simp only [skipHeader, ByteBuffer.mark, PKT_HEADER_SIZE, bind, Except.bind, pure,
    Except.pure] at h
  split at h
  · cases h
  · rename_i d' hd
    split at hd
    · cases hd
    · cases hd
      cases h
      exact ⟨rfl, rfl⟩

theorem readUint8_inv {bb d : ByteBuffer} {v : Nat} (h : bb.readUint8 = .ok (v, d)) :
    v = frameByte bb.buffer bb.offset ∧ d.buffer = bb.buffer ∧ d.offset = bb.offset + 1 := by
  simp only [ByteBuffer.readUint8, ByteBuffer.readUint8At] at h
  split at h
  · cases h
  · rename_i v' hv
    split at hv
    · cases hv
    · cases hv
      cases h
      exact ⟨rfl, rfl, rfl⟩

theorem readUint16_inv {bb d : ByteBuffer} {v : Nat} (h : bb.readUint16 = .ok (v, d)) :
    v = u16At bb.buffer bb.offset ∧ d.buffer = bb.buffer ∧ d.offset = bb.offset + 2 := by
  simp only [ByteBuffer.readUint16, ByteBuffer.readUint16At] at h
  split at h
  · cases h
  · rename_i v' hv
    split at hv
    · cases hv
    · cases hv
      cases h
      exact ⟨rfl, rfl, rfl⟩

theorem dataRxAfterAddr_none (self : AppClient) (data : ByteBuffer) (addrMode : Nat)
    (shortAddr : Option Nat) : (dataRxAfterAddr self data addrMode shortAddr none).st = self := by
  unfold dataRxAfterAddr
  repeat' split
  all_goals rfl

theorem dataRx_not_resolved (self : AppClient) (f : List Byte)
    (h : frameByte f 4 ≠ ADDTYPE_SHORT
      ∨ findDeviceIndexFromAddr self (.num (u16At f 5)) = none) :
    (appC_processDeviceDataRxIndMsg self ⟨f, 0, none⟩).st = self := by
  unfold appC_processDeviceDataRxIndMsg
  split
  · rfl
  · rename_i d0 h0
    obtain ⟨hb0, ho0⟩ := skipHeader_inv h0
    split
    · rfl
    · rename_i addrMode d1 h1
      obtain ⟨hv1, hb1, ho1⟩ := readUint8_inv h1
      rw [hb0, ho0] at hv1
      split
      · split <;> rfl
      · split
        · rename_i hs
          split
          · rfl
          · rename_i shortAddr d2 h2
            obtain ⟨hv2, _, _⟩ := readUint16_inv h2
            rw [hb1, ho1, hb0, ho0] at hv2
            rcases h with h | h
            · exact absurd (hv1 ▸ hs) h
            · rw [hv2, h]
              exact dataRxAfterAddr_none self _ _ _
        · rfl

theorem dataRx_ext (self : AppClient) (f : List Byte) (h : 13 ≤ f.length)
    (hm : frameByte f 4 = ADDTYPE_EXT) :
    appC_processDeviceDataRxIndMsg self ⟨f, 0, none⟩ = ⟨self, some .TypeError⟩ := by
  simp only [appC_processDeviceDataRxIndMsg, skipHeader_ok f (by omega),
    readUint8_val f 4 none (by omega), hm, if_true, readUint64_val f (4 + 1) none (by omega)]

theorem and_accel (fc b : Nat) (hb : Smsgs_dataFields.accelSensor &&& b = 0) :
    (fc ||| Smsgs_dataFields.accelSensor) &&& b = fc &&& b := by
  rw [Nat.and_distrib_right, hb, Nat.or_zero]

theorem sensorGroupsSize_accel (fc : Nat) :
    sensorGroupsSize (fc ||| Smsgs_dataFields.accelSensor) = sensorGroupsSize fc := by
  simp only [sensorGroupsSize, and_accel fc Smsgs_dataFields.tempSensor (by decide),
    and_accel fc Smsgs_dataFields.lightSensor (by decide),
    and_accel fc Smsgs_dataFields.humiditySensor (by decide),
    and_accel fc Smsgs_dataFields.hallEffectSensor (by decide),
    and_accel fc Smsgs_dataFields.msgStats (by decide),
    and_accel fc Smsgs_dataFields.configSettings (by decide)]

theorem two_frames (self : AppClient) (g1 g2 : List Byte) (h1 : WellFormedFrame g1)
    (h2 : WellFormedFrame g2)
    (hn : (dispatch self (frameCmd g1) ⟨g1, 0, none⟩).thrown = none) :
    appC_processIncoming self (g1 ++ g2)
      = ⟨(dispatch (dispatch self (frameCmd g1) ⟨g1, 0, none⟩).st (frameCmd g2) ⟨g2, 0, none⟩).st,
          (dispatch (dispatch self (frameCmd g1) ⟨g1, 0, none⟩).st (frameCmd g2)
            ⟨g2, 0, none⟩).thrown,
          [(frameCmd g1, g1), (frameCmd g2, g2)], true⟩ := by
  have h := loop_frames [g1, g2] self [] (g1 ++ g2).length
    (by
      intro g hg
      simp only [List.mem_cons, List.mem_singleton, List.not_mem_nil, or_false] at hg
      rcases hg with rfl | rfl
      · exact h1
      · exact h2)
    (by simp)
  simp only [List.flatten_cons, List.flatten_nil, List.append_nil] at h
  rw [appC_processIncoming, h]
  rcases hd1 : dispatch self (frameCmd g1) ⟨g1, 0, none⟩ with ⟨s1, _ | e1⟩
  · rcases hd2 : dispatch s1 (frameCmd g2) ⟨g2, 0, none⟩ with ⟨s2, _ | e2⟩
    · simp [dispatchFrames, hd1, hd2]
    · simp [dispatchFrames, hd1, hd2]
  · rw [hd1] at hn
    cases hn

/-- C22 (amended): for every SENSOR_DATA message in the short address mode
that holds the groups its frame control announces, the handler decodes the
optional groups that follow the frame control in the fixed order temperature
(0x0001), light (0x0002), humidity (0x0004), hall effect (0x0020), message
statistics (0x0008), configuration settings (0x0010), each group read from
the cursor only if its bit is set; the accelerometer bit (0x0040) has no
group and moves the cursor by nothing. In particular when both the
message-statistics and the hall-effect bits are set, the hall-effect field
is read from the four bytes that precede the message statistics. -/
theorem sensor_groups_read_in_source_order (self : AppClient) (f : List Byte)
    (h : 19 + sensorGroupsSize (u16At f 17) ≤ f.length)
    (hm : frameByte f 4 = ADDTYPE_SHORT) (hc : frameByte f 8 = smgsCmdIds.SENSOR_DATA) :
    readSensorData ⟨f, 9, none⟩ (dataStartAt f)
      = .ok (sensorDataAt f 9 (dataStartAt f), ⟨f, 19 + sensorGroupsSize (u16At f 17), none⟩)
    ∧ appC_processDeviceDataRxIndMsg self ⟨f, 0, none⟩
      = deliverSensorData self (findDeviceIndexFromAddr self (.num (u16At f 5)))
          (sensorDataAt f 9 (dataStartAt f))
    ∧ (sensorDataAt f 9 (dataStartAt f)).tempSensor
      = (if u16At f 17 &&& Smsgs_dataFields.tempSensor ≠ 0 then
          some ⟨u16At f 19, u16At f (19 + 2)⟩ else none)
    ∧ (sensorDataAt f 9 (dataStartAt f)).lightSensor
      = (if u16At f 17 &&& Smsgs_dataFields.lightSensor ≠ 0 then
          some ⟨u16At f (19 + groupSize (u16At f 17) Smsgs_dataFields.tempSensor 4)⟩ else none)
    ∧ (sensorDataAt f 9 (dataStartAt f)).humiditySensor
      = (if u16At f 17 &&& Smsgs_dataFields.humiditySensor ≠ 0 then
          some ⟨u16At f (19 + groupSize (u16At f 17) Smsgs_dataFields.tempSensor 4
                  + groupSize (u16At f 17) Smsgs_dataFields.lightSensor 2),
                u16At f (19 + groupSize (u16At f 17) Smsgs_dataFields.tempSensor 4
                  + groupSize (u16At f 17) Smsgs_dataFields.lightSensor 2 + 2)⟩
         else none)
    ∧ (sensorDataAt f 9 (dataStartAt f)).hallEffectSensor
      = (if u16At f 17 &&& Smsgs_dataFields.hallEffectSensor ≠ 0 then
          some ⟨u32At f (19 + groupSize (u16At f 17) Smsgs_dataFields.tempSensor 4
                  + groupSize (u16At f 17) Smsgs_dataFields.lightSensor 2
                  + groupSize (u16At f 17) Smsgs_dataFields.humiditySensor 4)⟩
         else none)
    ∧ (sensorDataAt f 9 (dataStartAt f)).msgStats
      = (if u16At f 17 &&& Smsgs_dataFields.msgStats ≠ 0 then
          some ((List.range 20).map (fun i =>
            u16At f (19 + groupSize (u16At f 17) Smsgs_dataFields.tempSensor 4
              + groupSize (u16At f 17) Smsgs_dataFields.lightSensor 2
              + groupSize (u16At f 17) Smsgs_dataFields.humiditySensor 4
              + groupSize (u16At f 17) Smsgs_dataFields.hallEffectSensor 4 + 2 * i)))
         else none)
    ∧ (sensorDataAt f 9 (dataStartAt f)).configSettings
      = (if u16At f 17 &&& Smsgs_dataFields.configSettings ≠ 0 then
          some (u32At f (19 + groupSize (u16At f 17) Smsgs_dataFields.tempSensor 4
                  + groupSize (u16At f 17) Smsgs_dataFields.lightSensor 2
                  + groupSize (u16At f 17) Smsgs_dataFields.humiditySensor 4
                  + groupSize (u16At f 17) Smsgs_dataFields.hallEffectSensor 4
                  + groupSize (u16At f 17) Smsgs_dataFields.msgStats 40),
                u32At f (19 + groupSize (u16At f 17) Smsgs_dataFields.tempSensor 4
                  + groupSize (u16At f 17) Smsgs_dataFields.lightSensor 2
                  + groupSize (u16At f 17) Smsgs_dataFields.humiditySensor 4
                  + groupSize (u16At f 17) Smsgs_dataFields.hallEffectSensor 4
                  + groupSize (u16At f 17) Smsgs_dataFields.msgStats 40 + 4))
         else none)
    ∧ sensorGroupsSize (u16At f 17 ||| Smsgs_dataFields.accelSensor)
      = sensorGroupsSize (u16At f 17) :=
  ⟨readSensorData_val f 9 none (dataStartAt f) (by simpa using (by omega :
      9 + 10 + sensorGroupsSize (u16At f 17) ≤ f.length)),
    dataRx_sensor self f h hm hc, rfl, rfl, rfl, rfl, rfl, rfl, sensorGroupsSize_accel _⟩

theorem sensor_groups_read_in_source_order_witness :
    19 + sensorGroupsSize (u16At hallStatsFrame 17) ≤ hallStatsFrame.length
    ∧ u16At hallStatsFrame 17 = Smsgs_dataFields.hallEffectSensor ||| Smsgs_dataFields.msgStats
    ∧ (sensorDataAt hallStatsFrame 9 (dataStartAt hallStatsFrame)).hallEffectSensor
      = (if u16At hallStatsFrame 17 &&& Smsgs_dataFields.hallEffectSensor ≠ 0 then
          some ⟨u32At hallStatsFrame
            (19 + groupSize (u16At hallStatsFrame 17) Smsgs_dataFields.tempSensor 4
              + groupSize (u16At hallStatsFrame 17) Smsgs_dataFields.lightSensor 2
              + groupSize (u16At hallStatsFrame 17) Smsgs_dataFields.humiditySensor 4)⟩
         else none)
    ∧ u32At hallStatsFrame
        (19 + groupSize (u16At hallStatsFrame 17) Smsgs_dataFields.tempSensor 4
          + groupSize (u16At hallStatsFrame 17) Smsgs_dataFields.lightSensor 2
          + groupSize (u16At hallStatsFrame 17) Smsgs_dataFields.humiditySensor 4) = 1 :=
  ⟨by decide, by decide,
    (sensor_groups_read_in_source_order AppClient.init hallStatsFrame (by decide) (by decide)
      (by decide)).2.2.2.2.2.1,
    by decide⟩

/-- C22 as stated fails: in a message with the hall-effect and
message-statistics bits set, whose 44 group bytes are 1, 0, 0, 0 followed by
twenty times 7, 0, the handler stores the hall-effect value 1, read from the
first four bytes, and takes the twenty counters from the forty bytes after
them; in the order of the claim the counters would start with 1 and the
hall-effect value would be 0x00070007. With the accelerometer bit set the six
bytes after the humidity group are not read at all. -/
theorem hall_effect_read_before_message_stats :
    (appC_processIncoming AppClient.init (snapshotPair ++ hallStatsFrame)).thrown = none
    ∧ (appC_processIncoming AppClient.init
        (snapshotPair ++ hallStatsFrame)).st.connectedDeviceList.map
        (fun d => (d.shortAddress, d.halleffectsensor)) = [(5, none), (6, some ⟨1⟩)]
    ∧ readSensorData ⟨hallStatsFrame, 9, none⟩ (dataStartAt hallStatsFrame)
      = .ok ({ dataStartAt hallStatsFrame with
                extAddr := some ⟨0x55667788, 0x11223344, true⟩
                frameControl := some 0x28
                hallEffectSensor := some ⟨1⟩
                msgStats := some [7, 7, 7, 7, 7, 7, 7, 7, 7, 7, 7, 7, 7, 7, 7, 7, 7, 7, 7, 7] },
            ⟨hallStatsFrame, 63, none⟩)
    ∧ u16At hallStatsFrame 19 = 1
    ∧ u32At hallStatsFrame (19 + 40) = 0x00070007
    ∧ readSensorData ⟨accelFrame, 9, none⟩ (dataStartAt accelFrame)
      = .ok ({ dataStartAt accelFrame with
                extAddr := some ⟨0x55667788, 0x11223344, true⟩
                frameControl := some 0x44
                humiditySensor := some ⟨16, 55⟩ },
            ⟨accelFrame, 23, none⟩)
    ∧ accelFrame.length = 29 :=
  ⟨by decide, by decide, rfl, by decide, by decide, rfl, by decide⟩

theorem sensorDataAt_humidity (f : List Byte) (o : Nat) (dd : DeviceData) :
    (sensorDataAt f o dd).humiditySensor
      = if u16At f (o + 8) &&& Smsgs_dataFields.humiditySensor ≠ 0 then
          some (HumiditySensor.mk
            (u16At f (o + 10 + groupSize (u16At f (o + 8)) Smsgs_dataFields.tempSensor 4
              + groupSize (u16At f (o + 8)) Smsgs_dataFields.lightSensor 2))
            (u16At f (o + 10 + groupSize (u16At f (o + 8)) Smsgs_dataFields.tempSensor 4
              + groupSize (u16At f (o + 8)) Smsgs_dataFields.lightSensor 2 + 2)))
        else dd.humiditySensor := rfl

theorem humidity_only_update (self : AppClient) (g : List Byte) (i : Nat) (d : Device)
    (hl : 23 ≤ g.length) (hm : frameByte g 4 = ADDTYPE_SHORT)
    (hc : frameByte g 8 = smgsCmdIds.SENSOR_DATA)
    (hfc : u16At g 17 = Smsgs_dataFields.humiditySensor)
    (hfind : findDeviceIndexFromAddr self (.num (u16At g 5)) = some i)
    (hget : self.connectedDeviceList.get? i = some d) :
    appC_processDeviceDataRxIndMsg self ⟨g, 0, none⟩
      = ⟨{ self with
            connectedDeviceList := self.connectedDeviceList.set i
              { d with
                active := "true"
                humiditysensor := some ⟨u16At g 19, u16At g 21⟩
                rssi := some (int8At g 7) }
            emitted := self.emitted ++ [.connDevInfoUpdate
              { d with
                active := "true"
                humiditysensor := some ⟨u16At g 19, u16At g 21⟩
                rssi := some (int8At g 7) }] }, none⟩ := by
  have hs : sensorGroupsSize (u16At g 17) = 4 := by rw [hfc]; decide
  rw [dataRx_sensor self g (by omega) hm hc, hfind,
    deliverSensorData_found self i d _ (sensorDataAt_consistent g 9 _) hget]
  have e1 : (sensorDataAt g 9 (dataStartAt g)).frameControl
      = some Smsgs_dataFields.humiditySensor := by
    show some (u16At g 17) = _
    rw [hfc]
  have e2 : (sensorDataAt g 9 (dataStartAt g)).humiditySensor
      = some ⟨u16At g 19, u16At g 21⟩ := by
    rw [sensorDataAt_humidity, hfc]
    rfl
  have e3 : (sensorDataAt g 9 (dataStartAt g)).rssi = int8At g 7 := rfl
  have b1 : hasField (some Smsgs_dataFields.humiditySensor) Smsgs_dataFields.tempSensor
      = false := by decide
  have b2 : hasField (some Smsgs_dataFields.humiditySensor) Smsgs_dataFields.lightSensor
      = false := by decide
  have b3 : hasField (some Smsgs_dataFields.humiditySensor) Smsgs_dataFields.humiditySensor
      = true := by decide
  have b4 : hasField (some Smsgs_dataFields.humiditySensor) Smsgs_dataFields.hallEffectSensor
      = false := by decide
  simp only [e1, e2, e3, b1, b2, b3, b4, if_true, Bool.false_eq_true, if_false]

/-- C23: for every SENSOR_DATA message that holds the groups its frame
control announces, the reads after the frame control advance the cursor by
the sum, over the set bits, of the sizes temperature 4, light 2, humidity 4,
hall effect 4, message statistics 40, configuration settings 8. With only the
humidity bit set that is 4 bytes, the temperature and humidity words, and a
known device gets only its humidity reading replaced among the sensor
readings (besides `active` and `rssi`). The frame loop moves on by the length
field of the header, so a second frame in the same buffer is handed over at
the offset where the first one ends. -/
theorem sensor_cursor_matches_bitmask (f : List Byte) (o : Nat) (dd : DeviceData)
    (h : o + 10 + sensorGroupsSize (u16At f (o + 8)) ≤ f.length) :
    (∃ dd', readSensorData ⟨f, o, none⟩ dd
        = .ok (dd', ⟨f, o + 10 + sensorGroupsSize (u16At f (o + 8)), none⟩))
    ∧ sensorGroupsSize (u16At f (o + 8))
      = (if u16At f (o + 8) &&& 0x0001 ≠ 0 then 4 else 0)
        + (if u16At f (o + 8) &&& 0x0002 ≠ 0 then 2 else 0)
        + (if u16At f (o + 8) &&& 0x0004 ≠ 0 then 4 else 0)
        + (if u16At f (o + 8) &&& 0x0020 ≠ 0 then 4 else 0)
        + (if u16At f (o + 8) &&& 0x0008 ≠ 0 then 40 else 0)
        + (if u16At f (o + 8) &&& 0x0010 ≠ 0 then 8 else 0)
    ∧ sensorGroupsSize Smsgs_dataFields.humiditySensor = 4
    ∧ (∀ (self : AppClient) (g : List Byte) (i : Nat) (d : Device),
        23 ≤ g.length → frameByte g 4 = ADDTYPE_SHORT → frameByte g 8 = smgsCmdIds.SENSOR_DATA →
        u16At g 17 = Smsgs_dataFields.humiditySensor →
        findDeviceIndexFromAddr self (.num (u16At g 5)) = some i →
        self.connectedDeviceList.get? i = some d →
        appC_processDeviceDataRxIndMsg self ⟨g, 0, none⟩
          = ⟨{ self with
                connectedDeviceList := self.connectedDeviceList.set i
                  { d with
                    active := "true"
                    humiditysensor := some ⟨u16At g 19, u16At g 21⟩
                    rssi := some (int8At g 7) }
                emitted := self.emitted ++ [.connDevInfoUpdate
                  { d with
                    active := "true"
                    humiditysensor := some ⟨u16At g 19, u16At g 21⟩
                    rssi := some (int8At g 7) }] }, none⟩)
    ∧ (∀ (self : AppClient) (g1 g2 : List Byte), WellFormedFrame g1 → WellFormedFrame g2 →
        (dispatch self (frameCmd g1) ⟨g1, 0, none⟩).thrown = none →
        rxPktLen (g1 ++ g2) 0 = g1.length
        ∧ appC_processIncoming self (g1 ++ g2)
          = ⟨(dispatch (dispatch self (frameCmd g1) ⟨g1, 0, none⟩).st (frameCmd g2)
                ⟨g2, 0, none⟩).st,
              (dispatch (dispatch self (frameCmd g1) ⟨g1, 0, none⟩).st (frameCmd g2)
                ⟨g2, 0, none⟩).thrown,
              [(frameCmd g1, g1), (frameCmd g2, g2)], true⟩) := by
  refine ⟨⟨_, readSensorData_val f o none dd h⟩, rfl, by decide, humidity_only_update, ?_⟩
  intro self g1 g2 h1 h2 hn
  exact ⟨rxPktLen_frame h1 g2, two_frames self g1 g2 h1 h2 hn⟩

theorem sensor_cursor_matches_bitmask_witness :
    9 + 10 + sensorGroupsSize (u16At humidityFrame (9 + 8)) ≤ humidityFrame.length
    ∧ u16At humidityFrame (9 + 8) = Smsgs_dataFields.humiditySensor
    ∧ (∃ dd', readSensorData ⟨humidityFrame, 9, none⟩ (dataStartAt humidityFrame)
        = .ok (dd', ⟨humidityFrame, 9 + 10 + sensorGroupsSize (u16At humidityFrame (9 + 8)),
            none⟩))
    ∧ (appC_processIncoming AppClient.init
        (snapshotPair ++ (humidityFrame ++ notActiveFrame 5))).dispatched
      = [(7, snapshotPair), (9, humidityFrame), (8, notActiveFrame 5)]
    ∧ (appC_processIncoming AppClient.init
        (snapshotPair ++ (humidityFrame ++ notActiveFrame 5))).st.connectedDeviceList.map
        (fun d => (d.shortAddress, d.active, d.humiditysensor, d.rssi))
      = [(5, "false", none, none), (6, "true", some ⟨16, 55⟩, some (-10))]
    ∧ (appC_processIncoming AppClient.init
        (snapshotPair ++ (humidityFrame ++ notActiveFrame 5))).st.connectedDeviceList.map
        (fun d => (d.temperaturesensor, d.lightsensor, d.halleffectsensor))
      = [(none, none, none), (none, none, none)] :=
  ⟨by decide, by decide,
    (sensor_cursor_matches_bitmask humidityFrame 9 (dataStartAt humidityFrame) (by decide)).1,
    by decide, by decide, by decide⟩

/-- C24, what the code does: in the extended address mode (addrMode = 3) every
frame that holds the 64-bit address makes the handler raise a TypeError right
after the address is read, because `deviceData.srcAddr.extAddr.extAddress` is
undefined; no device is looked up and the client state is left as it was. So
with the device of extended address 0x1122334455667788 (short address 6) in
the registry, a frame in that mode carrying this address, an rssi and a
SENSOR_DATA message changes nothing, while the same data in the short address
mode (addrMode = 2, short address 6) is applied to that device. -/
theorem ext_mode_always_raises :
    (∀ (self : AppClient) (f : List Byte), 13 ≤ f.length → frameByte f 4 = ADDTYPE_EXT →
      appC_processDeviceDataRxIndMsg self ⟨f, 0, none⟩ = ⟨self, some .TypeError⟩)
    ∧ (appC_processIncoming AppClient.init snapshotPair).st.connectedDeviceList.map
        (fun d => (d.shortAddress, d.extAddress, d.rssi))
      = [(5, ⟨3, 12, true⟩, none), (6, ⟨0x55667788, 0x11223344, true⟩, none)]
    ∧ WellFormedFrame extModeFrame
    ∧ frameByte extModeFrame 4 = ADDTYPE_EXT
    ∧ longAt extModeFrame 5 = ⟨0x55667788, 0x11223344, true⟩
    ∧ frameByte extModeFrame 14 = smgsCmdIds.SENSOR_DATA
    ∧ appC_processIncoming (appC_processIncoming AppClient.init snapshotPair).st extModeFrame
      = ⟨(appC_processIncoming AppClient.init snapshotPair).st, some .TypeError,
          [(cmdIds.DEVICE_DATA_RX_IND, extModeFrame)], true⟩
    ∧ (appC_processIncoming (appC_processIncoming AppClient.init snapshotPair).st
        humidityFrame).st.connectedDeviceList.map
        (fun d => (d.shortAddress, d.humiditysensor, d.rssi))
      = [(5, none, none), (6, some ⟨16, 55⟩, some (-10))] :=
  ⟨fun self f h hm => dataRx_ext self f h hm, by decide,
    ⟨21, 0, 10, 9, [3, 0x88, 0x77, 0x66, 0x55, 0x44, 0x33, 0x22, 0x11, 0xF6, 5,
      0x88, 0x77, 0x66, 0x55, 0x44, 0x33, 0x22, 0x11, 0, 0], rfl, by decide⟩,
    by decide, by decide, by decide, by decide, by decide⟩

/-- C25: for every registry and every DEVICE_DATA_RX_IND frame whose address
mode is not 2 (the mode 3 included), or whose short address is matched by no
registered device, the handler, also through the `switch`, leaves the whole
client state as it was: the registry is unchanged and no event is emitted.
When moreover the frame holds the bytes the handler reads and the mode is not
3, nothing is raised. -/
theorem data_from_unknown_device_dropped (self : AppClient) (f : List Byte)
    (h : frameByte f 4 ≠ ADDTYPE_SHORT
      ∨ findDeviceIndexFromAddr self (.num (u16At f 5)) = none) :
    (appC_processDeviceDataRxIndMsg self ⟨f, 0, none⟩).st = self
    ∧ (dispatch self cmdIds.DEVICE_DATA_RX_IND ⟨f, 0, none⟩).st = self
    ∧ (bytesRead cmdIds.DEVICE_DATA_RX_IND f ≤ f.length → frameByte f 4 ≠ ADDTYPE_EXT →
        appC_processDeviceDataRxIndMsg self ⟨f, 0, none⟩ = ⟨self, none⟩) := by
  have hs := dataRx_not_resolved self f h
  refine ⟨hs, by rw [dispatch_dataRx]; exact hs, fun hb hm => ?_⟩
  have ht := dataRx_no_throw self f hb hm
  rcases hd : appC_processDeviceDataRxIndMsg self ⟨f, 0, none⟩ with ⟨s, t⟩
  rw [hd] at hs ht
  simp only at hs ht
  rw [hs, ht]

theorem data_from_unknown_device_dropped_witness :
    (frameByte humidityFrame 4 ≠ ADDTYPE_SHORT
      ∨ findDeviceIndexFromAddr (appC_processIncoming AppClient.init snapshotLowFive).st
          (.num (u16At humidityFrame 5)) = none)
    ∧ (appC_processIncoming AppClient.init snapshotLowFive).st.connectedDeviceList.length = 1
    ∧ appC_processDeviceDataRxIndMsg (appC_processIncoming AppClient.init snapshotLowFive).st
        ⟨humidityFrame, 0, none⟩
      = ⟨(appC_processIncoming AppClient.init snapshotLowFive).st, none⟩ :=
  ⟨Or.inr (by decide), by decide,
    (data_from_unknown_device_dropped (appC_processIncoming AppClient.init snapshotLowFive).st
      humidityFrame (Or.inr (by decide))).2.2 (by decide) (by decide)⟩

theorem rxConfigRspInd_success (d : Device) (dd : DeviceData)
    (h : dd.status = some STATUS_SUCCESS) :
    d.rxConfigRspInd dd
      = { d with
          active := "true"
          temperaturesensor :=
            if hasField dd.frameControl Smsgs_dataFields.tempSensor then some ⟨0, 0⟩
            else d.temperaturesensor
          lightsensor :=
            if hasField dd.frameControl Smsgs_dataFields.lightSensor then some ⟨0⟩
            else d.lightsensor
          humiditysensor :=
            if hasField dd.frameControl Smsgs_dataFields.humiditySensor then some ⟨0, 0⟩
            else d.humiditysensor
          halleffectsensor :=
            if hasField dd.frameControl Smsgs_dataFields.hallEffectSensor then some ⟨0⟩
            else d.halleffectsensor
          reportingInterval := dd.reportingInterval
          pollingInterval :=
            match d.capabilityInfo with
            | .capInfo c =>
              if c.rxOnWhenIdle = 1 then dd.pollingInterval.map NumOrStr.num
              else some (.str "always on device")
            | .long _ => some (.str "always on device") } := by
  unfold Device.rxConfigRspInd
  rw [if_pos h]
  generalize hasField dd.frameControl Smsgs_dataFields.tempSensor = b1
  generalize hasField dd.frameControl Smsgs_dataFields.lightSensor = b2
  generalize hasField dd.frameControl Smsgs_dataFields.humiditySensor = b3
  generalize hasField dd.frameControl Smsgs_dataFields.hallEffectSensor = b4
  rcases hcap : d.capabilityInfo with c | x
  · by_cases hr : c.rxOnWhenIdle = 1 <;>
      cases b1 <;> cases b2 <;> cases b3 <;> cases b4 <;> simp [hcap, hr]
  · cases b1 <;> cases b2 <;> cases b3 <;> cases b4 <;> simp [hcap]

/-- C26: for every device `d` and every config response: when its status is
0, after `rxConfigRspInd` the device is active, each of the temperature,
light, humidity and hall-effect readings whose frame-control bit is set is
reset to zero values and the others are unchanged, `reportingInterval` is the
one of the message, and `pollingInterval` is the string "always on device"
when `rxOnWhenIdle` of the capability flags is 0 and the polling interval of
the message when it is 1; every other property is unchanged. When the status
is not 0 the device is unchanged. The handler hands the fields of a CONFIG_RSP
message (status, frame control, reporting interval, polling interval, read in
that order) of a known device to `rxConfigRspInd` and emits one device-update
event. -/
theorem config_rsp_handling (d : Device) (dd : DeviceData) :
    (dd.status = some STATUS_SUCCESS →
      d.rxConfigRspInd dd
        = { d with
            active := "true"
            temperaturesensor :=
              if hasField dd.frameControl Smsgs_dataFields.tempSensor then some ⟨0, 0⟩
              else d.temperaturesensor
            lightsensor :=
              if hasField dd.frameControl Smsgs_dataFields.lightSensor then some ⟨0⟩
              else d.lightsensor
            humiditysensor :=
              if hasField dd.frameControl Smsgs_dataFields.humiditySensor then some ⟨0, 0⟩
              else d.humiditysensor
            halleffectsensor :=
              if hasField dd.frameControl Smsgs_dataFields.hallEffectSensor then some ⟨0⟩
              else d.halleffectsensor
            reportingInterval := dd.reportingInterval
            pollingInterval :=
              match d.capabilityInfo with
              | .capInfo c =>
                if c.rxOnWhenIdle = 1 then dd.pollingInterval.map NumOrStr.num
                else some (.str "always on device")
              | .long _ => some (.str "always on device") })
    ∧ (∀ c : CapInfo, dd.status = some STATUS_SUCCESS → d.capabilityInfo = .capInfo c →
        c.rxOnWhenIdle = 0 →
        (d.rxConfigRspInd dd).pollingInterval = some (.str "always on device"))
    ∧ (∀ c : CapInfo, dd.status = some STATUS_SUCCESS → d.capabilityInfo = .capInfo c →
        c.rxOnWhenIdle = 1 →
        (d.rxConfigRspInd dd).pollingInterval = dd.pollingInterval.map NumOrStr.num)
    ∧ (dd.status ≠ some STATUS_SUCCESS → d.rxConfigRspInd dd = d)
    ∧ (∀ (self : AppClient) (f : List Byte) (i : Nat), 21 ≤ f.length →
        frameByte f 4 = ADDTYPE_SHORT → frameByte f 8 = smgsCmdIds.CONFIG_RSP →
        findDeviceIndexFromAddr self (.num (u16At f 5)) = some i →
        self.connectedDeviceList.get? i = some d →
        appC_processDeviceDataRxIndMsg self ⟨f, 0, none⟩
          = ⟨{ self with
                connectedDeviceList := self.connectedDeviceList.set i
                  (d.rxConfigRspInd (configRspAt f 9 (dataStartAt f)))
                emitted := self.emitted ++ [.connDevInfoUpdate
                  (d.rxConfigRspInd (configRspAt f 9 (dataStartAt f)))] }, none⟩
        ∧ (configRspAt f 9 (dataStartAt f)).status = some (u16At f 9)
        ∧ (configRspAt f 9 (dataStartAt f)).frameControl = some (u16At f 11)
        ∧ (configRspAt f 9 (dataStartAt f)).reportingInterval = some (u32At f 13)
        ∧ (configRspAt f 9 (dataStartAt f)).pollingInterval = some (u32At f 17))
    ∧ (appC_processIncoming AppClient.init
        (snapshotPair ++ (configRspFrame 5 0 ++ configRspFrame 6 0))).st.connectedDeviceList.map
        (fun d => (d.shortAddress, d.active, d.reportingInterval, d.pollingInterval))
      = [(5, "true", some 10000, some (.str "always on device")),
         (6, "true", some 10000, some (.num 2000))]
    ∧ (appC_processIncoming AppClient.init
        (snapshotPair ++ (configRspFrame 5 0 ++ configRspFrame 6 0))).st.connectedDeviceList.map
        (fun d => (d.temperaturesensor, d.lightsensor, d.humiditysensor, d.halleffectsensor))
      = [(some ⟨0, 0⟩, none, some ⟨0, 0⟩, none), (some ⟨0, 0⟩, none, some ⟨0, 0⟩, none)]
    ∧ (appC_processIncoming (appC_processIncoming AppClient.init snapshotPair).st
        (configRspFrame 6 1)).st.connectedDeviceList
      = (appC_processIncoming AppClient.init snapshotPair).st.connectedDeviceList := by
  refine ⟨rxConfigRspInd_success d dd, ?_, ?_, ?_, ?_, by decide, by decide, by decide⟩
  · intro c hs hc hr
    rw [rxConfigRspInd_success d dd hs]
    simp [hc, hr]
  · intro c hs hc hr
    rw [rxConfigRspInd_success d dd hs]
    simp [hc, hr]
  · intro hs
    simp only [Device.rxConfigRspInd, if_neg hs]
  · intro self f i hl hm hc hfind hget
    refine ⟨?_, rfl, rfl, rfl, rfl⟩
    rw [dataRx_config self f hl hm hc, hfind, deliverConfigRsp_found self i d _ hget]

/-! ## Network update indication and requests to the app server -/

theorem readNetworkUpdateInd_val (f : List Byte) (h : 21 ≤ f.length) :
    readNetworkUpdateInd ⟨f, 0, none⟩
      = .ok ⟨none, ⟨u16At f 4, u16At f 6, longAt f 8⟩, frameByte f 16, frameByte f 17,
          frameByte f 18, frameByte f 19, frameByte f 20⟩ := by
  simp only [readNetworkUpdateInd, bind, Except.bind, pure,
    Except.pure, skipHeader_ok f (by omega), readUint16_ok f 4 none (by omega),
    readUint16_ok f (4 + 2) none (by omega), readUint64_val f (4 + 2 + 2) none (by omega),
    readUint8_ok f (4 + 2 + 2 + 8) none (by omega),
    readUint8_ok f (4 + 2 + 2 + 8 + 1) none (by omega),
    readUint8_ok f (4 + 2 + 2 + 8 + 1 + 1) none (by omega),
    readUint8_ok f (4 + 2 + 2 + 8 + 1 + 1 + 1) none (by omega),
    readUint8_ok f (4 + 2 + 2 + 8 + 1 + 1 + 1 + 1) none (by omega), u16At, frameByte]

theorem dispatch_nwkInfoInd (self : AppClient) (data : ByteBuffer) :
    dispatch self cmdIds.NWK_INFO_IND data = appC_processNetworkUpdateIndMsg self data := by
  simp [dispatch, cmdIds.NWK_INFO_IND, cmdIds.DEVICE_JOINED_IND]

/-- C21: for every client state and every NWK_INFO_IND frame that holds its
17 payload bytes (PAN id, short address, extended address, channel, fh,
securityEnabled, networkMode, state; no status byte), the handler, also
through the `switch`, leaves network information whose channel, fh,
securityEnabled and panCoord are the payload fields and whose state is the
label of the state byte; it appends exactly one network-info event, leaves
the registry as it was, writes nothing and raises nothing. -/
theorem nwk_info_ind_unconditional (self : AppClient) (f : List Byte) (h : 21 ≤ f.length) :
    ∃ n, appC_processNetworkUpdateIndMsg self ⟨f, 0, none⟩
        = ⟨{ self with nwkInfo := some n, emitted := self.emitted ++ [.nwkInfo] }, none⟩
      ∧ dispatch self cmdIds.NWK_INFO_IND ⟨f, 0, none⟩
        = ⟨{ self with nwkInfo := some n, emitted := self.emitted ++ [.nwkInfo] }, none⟩
      ∧ n.channel = frameByte f 16 ∧ n.fh = frameByte f 17
      ∧ n.securityEnabled = frameByte f 18
      ∧ n.panCoord = ⟨u16At f 4, u16At f 6, longAt f 8⟩
      ∧ n.state = stateLabel (frameByte f 20) := by
  obtain ⟨n, hn, h1, h2, h3, h4, h5⟩ := storeNwkInfo_fields self
    ⟨none, ⟨u16At f 4, u16At f 6, longAt f 8⟩, frameByte f 16, frameByte f 17,
      frameByte f 18, frameByte f 19, frameByte f 20⟩
  have hh : appC_processNetworkUpdateIndMsg self ⟨f, 0, none⟩
      = ⟨{ self with nwkInfo := some n, emitted := self.emitted ++ [.nwkInfo] }, none⟩ := by
    simp only [appC_processNetworkUpdateIndMsg, readNetworkUpdateInd_val f h, hn]
  exact ⟨n, hh, by rw [dispatch_nwkInfoInd, hh], h1, h2, h3, h4, h5⟩

theorem nwk_info_ind_unconditional_witness :
    21 ≤ (nwkInfoIndFrame 2 5).length
    ∧ ∃ n, appC_processNetworkUpdateIndMsg (appC_processIncoming AppClient.init snapshotPair).st
          ⟨nwkInfoIndFrame 2 5, 0, none⟩
        = ⟨{ (appC_processIncoming AppClient.init snapshotPair).st with
              nwkInfo := some n
              emitted := (appC_processIncoming AppClient.init snapshotPair).st.emitted
                ++ [.nwkInfo] }, none⟩
      ∧ n.channel = 11 ∧ n.fh = 0 ∧ n.state = "open" := by
  refine ⟨by decide, ?_⟩
  obtain ⟨n, h1, _, h2, h3, _, _, h4⟩ := nwk_info_ind_unconditional
    (appC_processIncoming AppClient.init snapshotPair).st (nwkInfoIndFrame 2 5) (by decide)
  exact ⟨n, h1, h2, h3, h4⟩

/-- C27: for every client state and every request, `appC_setJoinPermitAtAppServer`
writes exactly one buffer, the 8 bytes [4, 0, 10, 11, d0, d1, d2, d3] with the
duration bytes FF FF FF FF when `data.action` is "open" and 00 00 00 00 for
every other action ("close" included); the registry, the network information
and the events are left as they were and nothing is raised. -/
theorem set_join_permit_encoding (self : AppClient) (action : Option String) :
    appC_setJoinPermitAtAppServer self action
      = ⟨{ self with
            written := self.written
              ++ [if action = some "open" then [4, 0, 10, 11, 0xFF, 0xFF, 0xFF, 0xFF]
                  else [4, 0, 10, 11, 0, 0, 0, 0]] }, none⟩
    ∧ appC_setJoinPermitAtAppServer self (some "open")
      = ⟨{ self with written := self.written ++ [[4, 0, 10, 11, 0xFF, 0xFF, 0xFF, 0xFF]] }, none⟩
    ∧ appC_setJoinPermitAtAppServer self (some "close")
      = ⟨{ self with written := self.written ++ [[4, 0, 10, 11, 0, 0, 0, 0]] }, none⟩
    ∧ (action ≠ some "open" →
        appC_setJoinPermitAtAppServer self action
          = ⟨{ self with written := self.written ++ [[4, 0, 10, 11, 0, 0, 0, 0]] }, none⟩) := by
  have e : ∀ a, appC_setJoinPermitAtAppServer self a
      = ⟨{ self with
            written := self.written
              ++ [if a = some "open" then [4, 0, 10, 11, 0xFF, 0xFF, 0xFF, 0xFF]
                  else [4, 0, 10, 11, 0, 0, 0, 0]] }, none⟩ := by
    intro a
    simp only [appC_setJoinPermitAtAppServer, setJoinPermitFrame_eq, sendBuilt, AppClient.write]
  refine ⟨e action, ?_, ?_, ?_⟩
  · rw [e]; rfl
  · rw [e]; rfl
  · intro h
    rw [e, if_neg h]

theorem config_resolved (self : AppClient) (data : TxRequest) (i : Nat)
    (hd : dstAddrMissing data.dstAddr = false)
    (hfind : data.dstAddr.bind (findDeviceIndexFromAddr self) = some i) :
    ∃ d, self.connectedDeviceList.get? i = some d
      ∧ appC_sendConfigReqToAppServer self data = sendBuilt self (configReqFrame d.shortAddress data)
      ∧ appC_sendToggleLedMsgToAppServer self data = sendBuilt self (toggleReqFrame d.shortAddress) := by
  rcases ha : data.dstAddr with _ | a
  · rw [ha] at hfind; cases hfind
  · rw [ha] at hfind hd
    have hb : (some a).bind (findDeviceIndexFromAddr self) = findDeviceIndexFromAddr self a := rfl
    rw [hb] at hfind
    obtain ⟨d, hget⟩ := findDeviceIndex_get self a i hfind
    have hne : ¬ (dstAddrMissing (some a) = true) := by rw [hd]; decide
    refine ⟨d, hget, ?_, ?_⟩
    · simp only [appC_sendConfigReqToAppServer, ha, hb, hfind, hget, if_neg hne]
    · simp only [appC_sendToggleLedMsgToAppServer, ha, hb, hfind, hget, if_neg hne]

/-- C28 (amended): for every registry and request whose dstAddr resolves to
device index i and whose pollingInterval, reportingInterval and framecontrol
all parse to integers, `appC_sendConfigReqToAppServer` writes exactly one
13-byte frame: the header [9, 0, 10, 13], the byte CONFIG_REQ (1), then two
bytes each, low byte first, for the low 16 bits of the short address of
device i, of the polling interval, of the reporting interval and of the frame
control, in that order; the header length field 9 is the number of payload
bytes; nothing else changes and nothing is raised. -/
theorem config_req_encoding (self : AppClient) (data : TxRequest) (i : Nat) (p r fc : Int)
    (hd : dstAddrMissing data.dstAddr = false)
    (hfind : data.dstAddr.bind (findDeviceIndexFromAddr self) = some i)
    (hp : data.pollingInterval = some p) (hr : data.reportingInterval = some r)
    (hf : data.framecontrol = some fc) :
    ∃ d, self.connectedDeviceList.get? i = some d
      ∧ appC_sendConfigReqToAppServer self data
        = ⟨{ self with
              written := self.written
                ++ [[9, 0, 10, 13, 1] ++ u16Bytes d.shortAddress ++ u16Bytes p ++ u16Bytes r
                    ++ u16Bytes fc] }, none⟩
      ∧ ([9, 0, 10, 13, 1] ++ u16Bytes d.shortAddress ++ u16Bytes p ++ u16Bytes r
          ++ u16Bytes fc).length = 13
      ∧ (d.shortAddress < 65536 → u16Bytes d.shortAddress = le16 d.shortAddress)
      ∧ (∀ v : Nat, v < 65536 → u16Bytes v = le16 v) := by
  obtain ⟨d, hget, hc, _⟩ := config_resolved self data i hd hfind
  have hle : ∀ v : Nat, v < 65536 → u16Bytes v = le16 v := by
    intro v hv
    have : ByteBuffer.toUint32 (v : Int) = v := by
      simp only [ByteBuffer.toUint32]
      omega
    simp only [u16Bytes, le16, this]
  refine ⟨d, hget, ?_, rfl, hle _, hle⟩
  rw [hc, configReqFrame_eq d.shortAddress data p r fc hp hr hf]
  rfl

theorem config_req_encoding_witness :
    dstAddrMissing configRequestSix.dstAddr = false
    ∧ configRequestSix.dstAddr.bind
        (findDeviceIndexFromAddr (appC_processIncoming AppClient.init snapshotPair).st) = some 1
    ∧ ∃ d, (appC_processIncoming AppClient.init snapshotPair).st.connectedDeviceList.get? 1 = some d
      ∧ appC_sendConfigReqToAppServer (appC_processIncoming AppClient.init snapshotPair).st
          configRequestSix
        = ⟨{ (appC_processIncoming AppClient.init snapshotPair).st with
              written := (appC_processIncoming AppClient.init snapshotPair).st.written
                ++ [[9, 0, 10, 13, 1] ++ u16Bytes d.shortAddress ++ u16Bytes 2000 ++ u16Bytes 1000
                    ++ u16Bytes 1] }, none⟩ := by
  refine ⟨by decide, by decide, ?_⟩
  obtain ⟨d, h1, h2, _⟩ := config_req_encoding
    (appC_processIncoming AppClient.init snapshotPair).st configRequestSix 1 2000 1000 1
    (by decide) (by decide) rfl rfl rfl
  exact ⟨d, h1, h2⟩

/-- C28 as stated fails: the request resolves to the device with short
address 6, but its pollingInterval does not parse to a number; `writeUint16`
raises a TypeError and nothing is written. -/
theorem config_req_with_nan_writes_nothing :
    dstAddrMissing configRequestNaN.dstAddr = false
    ∧ configRequestNaN.dstAddr.bind
        (findDeviceIndexFromAddr (appC_processIncoming AppClient.init snapshotPair).st) = some 1
    ∧ appC_sendConfigReqToAppServer (appC_processIncoming AppClient.init snapshotPair).st
        configRequestNaN
      = ⟨(appC_processIncoming AppClient.init snapshotPair).st, some .TypeError⟩
    ∧ (appC_sendConfigReqToAppServer (appC_processIncoming AppClient.init snapshotPair).st
        configRequestNaN).st.written = [] := by
  decide

theorem toggleReq_written (self : AppClient) (data : TxRequest) (i : Nat)
    (hd : dstAddrMissing data.dstAddr = false)
    (hfind : data.dstAddr.bind (findDeviceIndexFromAddr self) = some i) :
    ∃ d, self.connectedDeviceList.get? i = some d
      ∧ appC_sendToggleLedMsgToAppServer self data
        = ⟨{ self with
              written := self.written
                ++ [[5, 0, 10, 13, 6] ++ u16Bytes d.shortAddress ++ [0, 0]] }, none⟩ := by
  obtain ⟨d, hget, _, ht⟩ := config_resolved self data i hd hfind
  refine ⟨d, hget, ?_⟩
  rw [ht, toggleReqFrame_eq]
  rfl

/-- C29, what the code does: for every registry and request whose dstAddr
resolves to device index i, `appC_sendToggleLedMsgToAppServer` writes one
9-byte buffer: the header [5, 0, 10, 13], the byte TOGGLE_REQ (6), the low 16
bits of the short address of device i, low byte first, and two zero bytes
that no write of the function fills. The header length field is 5 (`var len
= 5`) although the function writes three payload bytes. For the device with
short address 6 the buffer is [5, 0, 10, 13, 6, 6, 0, 0, 0]. -/
theorem toggle_req_has_five_payload_bytes :
    (∀ (self : AppClient) (data : TxRequest) (i : Nat), dstAddrMissing data.dstAddr = false →
      data.dstAddr.bind (findDeviceIndexFromAddr self) = some i →
      ∃ d, self.connectedDeviceList.get? i = some d
        ∧ appC_sendToggleLedMsgToAppServer self data
          = ⟨{ self with
                written := self.written
                  ++ [[5, 0, 10, 13, 6] ++ u16Bytes d.shortAddress ++ [0, 0]] }, none⟩)
    ∧ (∀ v : Nat, v < 65536 → u16Bytes v = le16 v)
    ∧ dstAddrMissing configRequestSix.dstAddr = false
    ∧ configRequestSix.dstAddr.bind
        (findDeviceIndexFromAddr (appC_processIncoming AppClient.init snapshotPair).st) = some 1
    ∧ (appC_sendToggleLedMsgToAppServer (appC_processIncoming AppClient.init snapshotPair).st
        configRequestSix).st.written = [[5, 0, 10, 13, 6, 6, 0, 0, 0]]
    ∧ rxPktLen [5, 0, 10, 13, 6, 6, 0, 0, 0] 0 = 5 + PKT_HEADER_SIZE
    ∧ ([5, 0, 10, 13, 6, 6, 0, 0, 0] : List Byte).length - PKT_HEADER_SIZE = 5 := by
  refine ⟨toggleReq_written, ?_, by decide, by decide, by decide, by decide, by decide⟩
  intro v hv
  have : ByteBuffer.toUint32 (v : Int) = v := by
    simp only [ByteBuffer.toUint32]
    omega
  simp only [u16Bytes, le16, this]

/-- C30: for every registry and every request whose dstAddr is missing (or
falsy: 0 or the empty string) or matches no registered device
(`findDeviceIndexFromAddr` returns -1), `appC_sendConfigReqToAppServer` and
`appC_sendToggleLedMsgToAppServer` return with the whole client state as it
was: no bytes written, registry and network information unchanged, no event,
no exception. -/
theorem unresolved_target_dropped (self : AppClient) (data : TxRequest)
    (h : dstAddrMissing data.dstAddr = true
      ∨ data.dstAddr.bind (findDeviceIndexFromAddr self) = none) :
    appC_sendConfigReqToAppServer self data = ⟨self, none⟩
    ∧ appC_sendToggleLedMsgToAppServer self data = ⟨self, none⟩ := by
  rcases h with h | h
  · simp only [appC_sendConfigReqToAppServer, appC_sendToggleLedMsgToAppServer, h, if_true,
      and_self]
  · by_cases hm : dstAddrMissing data.dstAddr = true
    · simp only [appC_sendConfigReqToAppServer, appC_sendToggleLedMsgToAppServer, hm, if_true,
        and_self]
    · simp only [appC_sendConfigReqToAppServer, appC_sendToggleLedMsgToAppServer, hm, h,
        and_self]
      simp

theorem unresolved_target_dropped_witness :
    (dstAddrMissing (some (.num 7)) = true
      ∨ (some (JsAddr.num 7)).bind
          (findDeviceIndexFromAddr (appC_processIncoming AppClient.init snapshotPair).st) = none)
    ∧ appC_sendConfigReqToAppServer (appC_processIncoming AppClient.init snapshotPair).st
        ⟨some (.num 7), some 2000, some 1000, some 1⟩
      = ⟨(appC_processIncoming AppClient.init snapshotPair).st, none⟩
    ∧ appC_sendToggleLedMsgToAppServer (appC_processIncoming AppClient.init snapshotPair).st
        ⟨none, none, none, none⟩
      = ⟨(appC_processIncoming AppClient.init snapshotPair).st, none⟩ :=
  ⟨Or.inr (by decide),
    (unresolved_target_dropped (appC_processIncoming AppClient.init snapshotPair).st
      ⟨some (.num 7), some 2000, some 1000, some 1⟩ (Or.inr (by decide))).1,
    (unresolved_target_dropped (appC_processIncoming AppClient.init snapshotPair).st
      ⟨none, none, none, none⟩ (Or.inl rfl)).2⟩

/-! ## The connection and the join-permit confirmation -/

theorem getNwkInfo_written (self : AppClient) :
    appC_getNwkInfoFromAppServer self
      = ⟨{ self with written := self.written ++ [[0, 0, 10, 3]] }, none⟩ := rfl

theorem getDevArray_written (self : AppClient) :
    appC_getDevArrayFromAppServer self
      = ⟨{ self with written := self.written ++ [[0, 0, 10, 6]] }, none⟩ := rfl

/-- C31: `appC_getNwkInfoFromAppServer` writes exactly the 4-byte frame
[0, 0, 10, 3] and `appC_getDevArrayFromAppServer` exactly the 4-byte frame
[0, 0, 10, 6], each leaving the rest of the client state as it was; the
callback of the first `appClient.connect` and the callback of the
`appClient.connect` of every reconnect attempt each write exactly one
GET_NWK_INFO_REQ frame. -/
theorem empty_payload_requests (self : AppClient) :
    appC_getNwkInfoFromAppServer self
      = ⟨{ self with written := self.written ++ [[0, 0, 10, 3]] }, none⟩
    ∧ appC_getDevArrayFromAppServer self
      = ⟨{ self with written := self.written ++ [[0, 0, 10, 6]] }, none⟩
    ∧ connectCallback self
      = ⟨{ self with written := self.written ++ [[0, 0, 10, 3]] }, none⟩
    ∧ reconnectCallback self
      = ⟨{ self with written := self.written ++ [[0, 0, 10, 3]] }, none⟩
    ∧ ([0, 0, 10, 3] : List Byte)
      = encodeFrame (ByteBuffer.toByte APPSRV_SYS_ID_RPC)
          (ByteBuffer.toByte cmdIds.GET_NWK_INFO_REQ) []
    ∧ ([0, 0, 10, 6] : List Byte)
      = encodeFrame (ByteBuffer.toByte APPSRV_SYS_ID_RPC)
          (ByteBuffer.toByte cmdIds.GET_DEVICE_ARRAY_REQ) [] :=
  ⟨rfl, rfl, rfl, rfl, by decide, by decide⟩

theorem step_inv (c : Connection) (e : ConnEvent) (c' : Connection) (h : c.Inv)
    (hs : c.step e = some c') : c'.Inv := by
  cases e with
  | error =>
    simp only [Connection.step, Option.some.injEq] at hs
    subst hs
    rcases h with ⟨h1, h2⟩ | ⟨id, h1, h2⟩
    · right
      exact ⟨c.nextTimerId, by simp [appClientReconnect, h1], by simp [appClientReconnect, h1, h2]⟩
    · right
      exact ⟨id, by simp [appClientReconnect, h1], by simp [appClientReconnect, h1, h2]⟩
  | timerFires id =>
    simp only [Connection.step] at hs
    split at hs
    · cases hs
      left
      rcases h with ⟨h1, h2⟩ | ⟨id', h1, h2⟩
      · simp [reconnectTimerCallback, h2]
      · simp [reconnectTimerCallback, h1, h2]
    · cases hs

theorem run_inv : ∀ (es : List ConnEvent) (c c' : Connection), c.Inv → c.run es = some c' →
    c'.Inv := by
  intro es
  induction es with
  | nil =>
    intro c c' h hr
    simp only [Connection.run, Option.some.injEq] at hr
    exact hr ▸ h
  | cons e es ih =>
    intro c c' h hr
    rw [Connection.run] at hr
    split at hr
    · rename_i c1 h1
      exact ih c1 c' (step_inv c e c1 h h1) hr
    · cases hr

/-- C32: in every state the connection reaches from its start through
`error` events and timer firings, at most one reconnect timer waits, and one
waits exactly when `clientReconnectTimer` is defined; it was started with
5000 ms. An `error` while the timer waits changes nothing; an `error` with no
timer waiting starts exactly one timer of 5000 ms; when the timer fires,
exactly one reconnect attempt is made, no timer is left and
`clientReconnectTimer` is undefined again, so that the next `error` starts a
new timer. -/
theorem at_most_one_pending_reconnect (es : List ConnEvent) (c : Connection)
    (h : Connection.init.run es = some c) :
    c.timers.length ≤ 1
    ∧ (c.clientReconnectTimer.isSome = true ↔ c.timers.length = 1)
    ∧ (∀ t ∈ c.timers, t.2 = APP_CLIENT_RECONNECT_TIMEOUT ∧ some t.1 = c.clientReconnectTimer)
    ∧ (c.clientReconnectTimer.isSome = true → c.step .error = some c)
    ∧ (c.clientReconnectTimer = none →
        c.step .error
          = some { c with
              clientReconnectTimer := some c.nextTimerId
              timers := [(c.nextTimerId, 5000)]
              nextTimerId := c.nextTimerId + 1 })
    ∧ (∀ id c', c.step (.timerFires id) = some c' →
        c.clientReconnectTimer = some id
        ∧ c' = { c with
            reconnectAttempts := c.reconnectAttempts + 1
            timers := []
            clientReconnectTimer := none }
        ∧ c'.step .error
          = some { c' with
              clientReconnectTimer := some c'.nextTimerId
              timers := [(c'.nextTimerId, 5000)]
              nextTimerId := c'.nextTimerId + 1 }) := by
  have hinv : c.Inv := run_inv es _ c (Or.inl ⟨rfl, rfl⟩) h
  rcases hinv with ⟨h1, h2⟩ | ⟨id, h1, h2⟩
  · refine ⟨by simp [h2], by simp [h1, h2], by simp [h2], by simp [h1], ?_, ?_⟩
    · intro _
      simp [Connection.step, appClientReconnect, h1, h2, APP_CLIENT_RECONNECT_TIMEOUT]
    · intro id c' hs
      simp [Connection.step, h2] at hs
  · refine ⟨by simp [h2], by simp [h1, h2], by simp [h1, h2], ?_, by simp [h1], ?_⟩
    · intro _
      simp [Connection.step, appClientReconnect, h1]
    · intro id' c' hs
      simp only [Connection.step, h2, List.any_cons, List.any_nil, Bool.or_false] at hs
      split at hs
      · rename_i hid
        have hid' : id = id' := by simpa using hid
        subst hid'
        cases hs
        refine ⟨h1, by simp [reconnectTimerCallback], ?_⟩
        simp [Connection.step, appClientReconnect, reconnectTimerCallback,
          APP_CLIENT_RECONNECT_TIMEOUT]
      · cases hs

theorem at_most_one_pending_reconnect_witness :
    Connection.init.run [.error, .error, .timerFires 0, .error]
      = some ⟨some 1, [(1, 5000)], 2, 1⟩
    ∧ (⟨some 1, [(1, 5000)], 2, 1⟩ : Connection).timers.length ≤ 1
    ∧ Connection.init.run [.error, .error] = some ⟨some 0, [(0, 5000)], 1, 0⟩
    ∧ Connection.init.run [.error, .error, .timerFires 0] = some ⟨none, [], 1, 1⟩ :=
  ⟨by decide,
    (at_most_one_pending_reconnect [.error, .error, .timerFires 0, .error]
      ⟨some 1, [(1, 5000)], 2, 1⟩ (by decide)).1,
    by decide, by decide⟩

theorem dispatch_setJoinPermitCnf (self : AppClient) (data : ByteBuffer) :
    dispatch self cmdIds.SET_JOIN_PERMIT_CNF data = appC_processSetJoinPermitCnf self data := by
  simp [dispatch, cmdIds.SET_JOIN_PERMIT_CNF, cmdIds.COLLECTOR_STATE_CNG_IND,
    cmdIds.DEVICE_DATA_RX_IND, cmdIds.DEVICE_NOTACTIVE_UPDATE_IND,
    cmdIds.DEVICE_JOINED_IND, cmdIds.NWK_INFO_IND, cmdIds.GET_NWK_INFO_CNF,
    cmdIds.GET_DEVICE_ARRAY_CNF]

/-- C33: for every client state and every SET_JOIN_PERMIT_CNF frame with at
least 4 payload bytes, the handler, also through the `switch` at command id
12, appends exactly one permit-join-confirmation event whose status is the
little-endian 32-bit value of payload bytes 0..3 (frame offsets 4..7) and
leaves the registry, the network information and the bytes written as they
were; nothing is raised. -/
theorem permit_join_cnf_event (self : AppClient) (f : List Byte) (h : 8 ≤ f.length) :
    appC_processSetJoinPermitCnf self ⟨f, 0, none⟩
      = ⟨{ self with emitted := self.emitted ++ [.permitJoinCnf (u32At f 4)] }, none⟩
    ∧ dispatch self cmdIds.SET_JOIN_PERMIT_CNF ⟨f, 0, none⟩
      = ⟨{ self with emitted := self.emitted ++ [.permitJoinCnf (u32At f 4)] }, none⟩
    ∧ u32At f 4 = frameByte f 4 + 256 * frameByte f 5 + 65536 * frameByte f 6
        + 16777216 * frameByte f 7 := by
  have hh : appC_processSetJoinPermitCnf self ⟨f, 0, none⟩
      = ⟨{ self with emitted := self.emitted ++ [.permitJoinCnf (u32At f 4)] }, none⟩ := by
    have : ¬ 4 + 4 > f.length := by omega
    simp only [appC_processSetJoinPermitCnf, ByteBuffer.readUint32At, PKT_HEADER_SIZE, this,
      if_false, AppClient.emit, ByteBuffer.byteAt, u32At, frameByte]
  exact ⟨hh, by rw [dispatch_setJoinPermitCnf, hh], rfl⟩

theorem permit_join_cnf_event_witness :
    8 ≤ permitJoinCnfFrame.length
    ∧ appC_processSetJoinPermitCnf (appC_processIncoming AppClient.init snapshotPair).st
        ⟨permitJoinCnfFrame, 0, none⟩
      = ⟨{ (appC_processIncoming AppClient.init snapshotPair).st with
            emitted := (appC_processIncoming AppClient.init snapshotPair).st.emitted
              ++ [.permitJoinCnf (u32At permitJoinCnfFrame 4)] }, none⟩
    ∧ u32At permitJoinCnfFrame 4 = 0x04030201 :=
  ⟨by decide,
    (permit_join_cnf_event (appC_processIncoming AppClient.init snapshotPair).st
      permitJoinCnfFrame (by decide)).1,
    by decide⟩

/-! ## Termination, send condition, sensor data applied, address key -/

/-- One pass more than a quarter of the bytes left changes nothing. -/
theorem loop_fuel_quarter (fuel : Nat) : ∀ (data : List Byte) (i : Nat) (self : AppClient)
    (tr : List (Nat × List Byte)), data.length ≤ i + 4 * fuel →
    processIncomingLoop (fuel + 1) data i self tr = processIncomingLoop fuel data i self tr := by
  induction fuel with
  | zero =>
    intro data i self tr h
    have : ¬ i < data.length := by omega
    simp [processIncomingLoop, this]
  | succ n ih =>
    intro data i self tr h
    rw [processIncomingLoop, processIncomingLoop.eq_def (n + 1)]
    have e : ∀ s t, processIncomingLoop (n + 1) data (i + rxPktLen data i) s t
        = processIncomingLoop n data (i + rxPktLen data i) s t := by
      intro s t
      apply ih
      have := rxPktLen_pos data i
      omega
    simp only [e]

theorem loop_fuel_more (k : Nat) : ∀ (fuel : Nat) (data : List Byte) (i : Nat)
    (self : AppClient) (tr : List (Nat × List Byte)), data.length ≤ i + 4 * fuel →
    processIncomingLoop (fuel + k) data i self tr = processIncomingLoop fuel data i self tr := by
  induction k with
  | zero => intro fuel data i self tr _; rfl
  | succ k ih =>
    intro fuel data i self tr h
    rw [← Nat.add_assoc, loop_fuel_quarter (fuel + k) data i self tr (by omega)]
    exact ih fuel data i self tr h

theorem loop_dispatched_le (fuel : Nat) : ∀ (data : List Byte) (i : Nat) (self : AppClient)
    (tr : List (Nat × List Byte)),
    (processIncomingLoop fuel data i self tr).dispatched.length ≤ tr.length + fuel := by
  induction fuel with
  | zero => intro data i self tr; simp [processIncomingLoop]
  | succ n ih =>
    intro data i self tr
    rw [processIncomingLoop]
    split
    · split
      · simp only; omega
      · split
        · simp only; omega
        · split
          · simp only [List.length_append, List.length_singleton]; omega
          · refine Nat.le_trans (ih _ _ _ _) ?_
            simp only [List.length_append, List.length_singleton]
            omega
    · simp only; omega

/-- C34: for every client state and every byte buffer of length L, truncated
or not, `appC_processIncoming` reaches the exit test of its loop; ceil(L / 4)
passes are enough for it (with that many passes granted the loop gives the
same result as with L), so at most ceil(L / 4) frames reach the `switch`,
because every pass moves the cursor forward by the length field plus 4, which
is at least 4. A one-byte buffer and a frame whose declared length exceeds
the bytes left each take one pass. -/
theorem frame_loop_terminates (self : AppClient) (data : List Byte) :
    (appC_processIncoming self data).finished = true
    ∧ processIncomingLoop ((data.length + 3) / 4) data 0 self []
      = appC_processIncoming self data
    ∧ (processIncomingLoop ((data.length + 3) / 4) data 0 self []).finished = true
    ∧ (appC_processIncoming self data).dispatched.length ≤ (data.length + 3) / 4
    ∧ (∀ i, 4 ≤ rxPktLen data i)
    ∧ (∀ i, rxPktLen data i = frameByte data i + 256 * frameByte data (i + 1) + 4)
    ∧ appC_processIncoming AppClient.init [7]
      = ⟨AppClient.init, some .RangeError, [(0, [7, 0, 0, 0, 0, 0, 0, 0, 0, 0, 0])], true⟩
    ∧ (appC_processIncoming AppClient.init [20, 0, 10, 14, 1, 2]).finished = true
    ∧ (appC_processIncoming AppClient.init [20, 0, 10, 14, 1, 2]).dispatched.length = 1
    ∧ (appC_processIncoming AppClient.init [20, 0, 10, 14, 1, 2]).thrown = none := by
  have hq : processIncomingLoop ((data.length + 3) / 4) data 0 self []
      = appC_processIncoming self data := by
    have hk : data.length = (data.length + 3) / 4 + (data.length - (data.length + 3) / 4) := by
      omega
    rw [appC_processIncoming]
    conv => rhs; rw [hk]
    exact (loop_fuel_more _ _ data 0 self [] (by omega)).symm
  have hf : (appC_processIncoming self data).finished = true :=
    loop_finished _ _ _ _ _ (by simp)
  refine ⟨hf, hq, by rw [hq]; exact hf, ?_, rxPktLen_pos data, fun i => rfl,
    by decide, by decide, by decide, by decide⟩
  rw [← hq]
  simpa using loop_dispatched_le ((data.length + 3) / 4) data 0 self []

theorem configReqFrame_ok_iff (sa : Nat) (d : TxRequest) :
    (∃ b, configReqFrame sa d = .ok b)
      ↔ (d.pollingInterval.isSome = true ∧ d.reportingInterval.isSome = true
          ∧ d.framecontrol.isSome = true) := by
  constructor
  · rintro ⟨b, h⟩
    rcases hp : d.pollingInterval with _ | p
    · simp [configReqFrame, writeHeader_config, hp, ByteBuffer.setBytes, ByteBuffer.ensure, bind,
        Except.bind, ByteBuffer.mark, ByteBuffer.reset, ByteBuffer.writeUint8,
        ByteBuffer.writeUint16, ByteBuffer.writeUint8At, PKT_HEADER_SIZE,
        smgsCmdIds.CONFIG_REQ] at h
    rcases hr : d.reportingInterval with _ | r
    · simp [configReqFrame, writeHeader_config, hp, hr, ByteBuffer.setBytes, ByteBuffer.ensure,
        bind, Except.bind, ByteBuffer.mark, ByteBuffer.reset, ByteBuffer.writeUint8,
        ByteBuffer.writeUint16, ByteBuffer.writeUint8At, PKT_HEADER_SIZE,
        smgsCmdIds.CONFIG_REQ] at h
    rcases hf : d.framecontrol with _ | fc
    · simp [configReqFrame, writeHeader_config, hp, hr, hf, ByteBuffer.setBytes,
        ByteBuffer.ensure, bind, Except.bind, ByteBuffer.mark, ByteBuffer.reset,
        ByteBuffer.writeUint8, ByteBuffer.writeUint16, ByteBuffer.writeUint8At, PKT_HEADER_SIZE,
        smgsCmdIds.CONFIG_REQ] at h
    exact ⟨rfl, rfl, rfl⟩
  · rintro ⟨hp, hr, hf⟩
    obtain ⟨p, hp⟩ := Option.isSome_iff_exists.mp hp
    obtain ⟨r, hr⟩ := Option.isSome_iff_exists.mp hr
    obtain ⟨fc, hf⟩ := Option.isSome_iff_exists.mp hf
    exact ⟨_, configReqFrame_eq sa d p r fc hp hr hf⟩

theorem target_not_resolved (self : AppClient) (data : TxRequest)
    (h : ¬ (dstAddrMissing data.dstAddr = false
      ∧ (data.dstAddr.bind (findDeviceIndexFromAddr self)).isSome = true)) :
    appC_sendConfigReqToAppServer self data = ⟨self, none⟩
    ∧ appC_sendToggleLedMsgToAppServer self data = ⟨self, none⟩ := by
  by_cases hm : dstAddrMissing data.dstAddr = true
  · simp only [appC_sendConfigReqToAppServer, appC_sendToggleLedMsgToAppServer, hm, if_true,
      and_self]
  · have hm' : dstAddrMissing data.dstAddr = false := by simpa using hm
    have hn : data.dstAddr.bind (findDeviceIndexFromAddr self) = none := by
      rcases hb : data.dstAddr.bind (findDeviceIndexFromAddr self) with _ | i
      · rfl
      · exact absurd ⟨hm', by rw [hb]; rfl⟩ h
    simp only [appC_sendConfigReqToAppServer, appC_sendToggleLedMsgToAppServer, hm, hn,
      and_self]
    simp

theorem not_append_singleton {α : Type} (l : List α) (w : α) : l ≠ l ++ [w] := by
  intro h
  have := congrArg List.length h
  simp at this

/-- C37 (amended): `appC_sendToggleLedMsgToAppServer` writes a frame if and
only if `data.dstAddr` is truthy and `findDeviceIndexFromAddr(data.dstAddr)`
is not -1; `appC_sendConfigReqToAppServer` writes a frame if and only if, in
addition, pollingInterval, reportingInterval and framecontrol of the request
all parse to integers. Neither writes more than one frame. Consequently a
request whose dstAddr is the number 0 writes nothing, even when the registry
holds a device with short address 0. -/
theorem targeted_send_condition (self : AppClient) (data : TxRequest) :
    ((∃ w, (appC_sendToggleLedMsgToAppServer self data).st.written = self.written ++ [w])
      ↔ (dstAddrMissing data.dstAddr = false
          ∧ (data.dstAddr.bind (findDeviceIndexFromAddr self)).isSome = true))
    ∧ ((∃ w, (appC_sendConfigReqToAppServer self data).st.written = self.written ++ [w])
      ↔ (dstAddrMissing data.dstAddr = false
          ∧ (data.dstAddr.bind (findDeviceIndexFromAddr self)).isSome = true
          ∧ data.pollingInterval.isSome = true ∧ data.reportingInterval.isSome = true
          ∧ data.framecontrol.isSome = true))
    ∧ ((appC_sendToggleLedMsgToAppServer self data).st = self
        ∨ ∃ w, (appC_sendToggleLedMsgToAppServer self data).st = self.write w)
    ∧ ((appC_sendConfigReqToAppServer self data).st = self
        ∨ ∃ w, (appC_sendConfigReqToAppServer self data).st = self.write w)
    ∧ (data.dstAddr = some (.num 0) →
        appC_sendToggleLedMsgToAppServer self data = ⟨self, none⟩
        ∧ appC_sendConfigReqToAppServer self data = ⟨self, none⟩)
    ∧ (appC_processIncoming AppClient.init snapshotZero).st.connectedDeviceList.map
        (·.shortAddress) = [0]
    ∧ findDeviceIndexFromAddr (appC_processIncoming AppClient.init snapshotZero).st (.num 0)
      = some 0
    ∧ appC_sendToggleLedMsgToAppServer (appC_processIncoming AppClient.init snapshotZero).st
        ⟨some (.num 0), some 2000, some 1000, some 1⟩
      = ⟨(appC_processIncoming AppClient.init snapshotZero).st, none⟩
    ∧ appC_sendConfigReqToAppServer (appC_processIncoming AppClient.init snapshotZero).st
        ⟨some (.num 0), some 2000, some 1000, some 1⟩
      = ⟨(appC_processIncoming AppClient.init snapshotZero).st, none⟩ := by
  have key : (dstAddrMissing data.dstAddr = false
        ∧ (data.dstAddr.bind (findDeviceIndexFromAddr self)).isSome = true) →
      ∃ d : Device,
        appC_sendConfigReqToAppServer self data
          = sendBuilt self (configReqFrame d.shortAddress data)
        ∧ appC_sendToggleLedMsgToAppServer self data
          = sendBuilt self (toggleReqFrame d.shortAddress) := by
    rintro ⟨hm, hs⟩
    obtain ⟨i, hi⟩ := Option.isSome_iff_exists.mp hs
    obtain ⟨d, _, h1, h2⟩ := config_resolved self data i hm hi
    exact ⟨d, h1, h2⟩
  refine ⟨⟨?_, ?_⟩, ⟨?_, ?_⟩, ?_, ?_, ?_, by decide, by decide, by decide, by decide⟩
  · rintro ⟨w, hw⟩
    by_contra hc
    rw [(target_not_resolved self data hc).2] at hw
    exact not_append_singleton _ _ hw
  · intro hc
    obtain ⟨d, _, h2⟩ := key hc
    rw [h2, toggleReqFrame_eq]
    exact ⟨_, rfl⟩
  · rintro ⟨w, hw⟩
    by_cases hc : dstAddrMissing data.dstAddr = false
        ∧ (data.dstAddr.bind (findDeviceIndexFromAddr self)).isSome = true
    · obtain ⟨d, h1, _⟩ := key hc
      rw [h1] at hw
      rcases hb : configReqFrame d.shortAddress data with e | b
      · rw [hb] at hw
        exact absurd hw (not_append_singleton _ _)
      · have := (configReqFrame_ok_iff d.shortAddress data).mp ⟨b, hb⟩
        exact ⟨hc.1, hc.2, this⟩
    · rw [(target_not_resolved self data hc).1] at hw
      exact absurd hw (not_append_singleton _ _)
  · rintro ⟨hm, hs, hrest⟩
    obtain ⟨d, h1, _⟩ := key ⟨hm, hs⟩
    obtain ⟨b, hb⟩ := (configReqFrame_ok_iff d.shortAddress data).mpr hrest
    rw [h1, hb]
    exact ⟨_, rfl⟩
  · by_cases hc : dstAddrMissing data.dstAddr = false
        ∧ (data.dstAddr.bind (findDeviceIndexFromAddr self)).isSome = true
    · obtain ⟨d, _, h2⟩ := key hc
      rw [h2, toggleReqFrame_eq]
      exact Or.inr ⟨_, rfl⟩
    · rw [(target_not_resolved self data hc).2]
      exact Or.inl rfl
  · by_cases hc : dstAddrMissing data.dstAddr = false
        ∧ (data.dstAddr.bind (findDeviceIndexFromAddr self)).isSome = true
    · obtain ⟨d, h1, _⟩ := key hc
      rw [h1]
      rcases hb : configReqFrame d.shortAddress data with e | b
      · exact Or.inl rfl
      · exact Or.inr ⟨_, rfl⟩
    · rw [(target_not_resolved self data hc).1]
      exact Or.inl rfl
  · intro h0
    have hc : ¬ (dstAddrMissing data.dstAddr = false
        ∧ (data.dstAddr.bind (findDeviceIndexFromAddr self)).isSome = true) := by
      rw [h0]
      intro h
      exact absurd h.1 (by decide)
    exact ⟨(target_not_resolved self data hc).2, (target_not_resolved self data hc).1⟩

/-- C37 as stated fails for `appC_sendConfigReqToAppServer`: the dstAddr 6 of
the request is truthy and resolves to a device, but pollingInterval does not
parse; the call raises a TypeError and writes no frame. -/
theorem config_req_resolved_but_not_sent :
    dstAddrMissing configRequestNaN.dstAddr = false
    ∧ findDeviceIndexFromAddr (appC_processIncoming AppClient.init snapshotPair).st (.num 6)
      = some 1
    ∧ (appC_sendConfigReqToAppServer (appC_processIncoming AppClient.init snapshotPair).st
        configRequestNaN).st.written
      = (appC_processIncoming AppClient.init snapshotPair).st.written
    ∧ (appC_sendConfigReqToAppServer (appC_processIncoming AppClient.init snapshotPair).st
        configRequestNaN).thrown = some .TypeError := by
  decide

theorem int8At_range (f : List Byte) (o : Nat) : -128 ≤ int8At f o ∧ int8At f o ≤ 127 := by
  have := (f.getD o 0).isLt
  unfold int8At frameByte
  split <;> omega

/-- C38: for every device `d` and every decoded SENSOR_DATA message `m`
(`m` as the handler decodes it from a frame, or any message that carries the
groups its frame control announces), `d.rxSensorData(m)` returns with `d`
active, `rssi` the rssi of the message, which the handler read as a signed
8-bit integer (between -128 and 127), each of the temperature, light,
humidity and hall-effect readings whose frame-control bit is set equal to the
decoded value and the others unchanged, and every other property (short
address, extended address, capability information, reporting and polling
interval) unchanged; the message statistics and configuration settings of
the message are stored nowhere. The handler puts that device at the index
found and emits it once. -/
theorem sensor_data_applied (d : Device) (f : List Byte) :
    (∀ m : DeviceData, SensorConsistent m →
      d.rxSensorData m
        = .ok { d with
            active := "true"
            temperaturesensor :=
              if hasField m.frameControl Smsgs_dataFields.tempSensor then m.tempSensor
              else d.temperaturesensor
            lightsensor :=
              if hasField m.frameControl Smsgs_dataFields.lightSensor then m.lightSensor
              else d.lightsensor
            humiditysensor :=
              if hasField m.frameControl Smsgs_dataFields.humiditySensor then m.humiditySensor
              else d.humiditysensor
            halleffectsensor :=
              if hasField m.frameControl Smsgs_dataFields.hallEffectSensor then
                m.hallEffectSensor
              else d.halleffectsensor
            rssi := some m.rssi })
    ∧ SensorConsistent (sensorDataAt f 9 (dataStartAt f))
    ∧ (sensorDataAt f 9 (dataStartAt f)).rssi = int8At f 7
    ∧ -128 ≤ int8At f 7 ∧ int8At f 7 ≤ 127
    ∧ (sensorDataAt f 9 (dataStartAt f)).frameControl = some (u16At f 17)
    ∧ (∀ bit, hasField (some (u16At f 17)) bit = true ↔ u16At f 17 &&& bit ≠ 0)
    ∧ (∀ (self : AppClient) (i : Nat), 19 + sensorGroupsSize (u16At f 17) ≤ f.length →
        frameByte f 4 = ADDTYPE_SHORT → frameByte f 8 = smgsCmdIds.SENSOR_DATA →
        findDeviceIndexFromAddr self (.num (u16At f 5)) = some i →
        self.connectedDeviceList.get? i = some d →
        ∃ d', d.rxSensorData (sensorDataAt f 9 (dataStartAt f)) = .ok d'
          ∧ appC_processDeviceDataRxIndMsg self ⟨f, 0, none⟩
            = ⟨{ self with
                  connectedDeviceList := self.connectedDeviceList.set i d'
                  emitted := self.emitted ++ [.connDevInfoUpdate d'] }, none⟩) := by
  refine ⟨fun m hm => rxSensorData_val d m hm, sensorDataAt_consistent f 9 _, rfl,
    (int8At_range f 7).1, (int8At_range f 7).2, rfl, ?_, ?_⟩
  · intro bit
    simp [hasField]
  · intro self i hl hm hc hfind hget
    refine ⟨_, rxSensorData_val d _ (sensorDataAt_consistent f 9 _), ?_⟩
    rw [dataRx_sensor self f hl hm hc, hfind,
      deliverSensorData_found self i d _ (sensorDataAt_consistent f 9 _) hget]

/-- C39, what the code does: the key `high.toString() + low.toString()` is
the same string for equal addresses, but it is not injective: the 64-bit
addresses 0x0000000100000017 (high word 1, low word 23) and
0x0000000C00000003 (high word 12, low word 3), both read by `readUint64`,
have the key "123"; so `findDeviceIndexFromAddr` with the key of the first
finds a device registered with the second. -/
theorem ext_address_key_not_injective :
    (∀ a b : Long, a = b → a.key = b.key)
    ∧ (ByteBuffer.mk [0x17, 0, 0, 0, 1, 0, 0, 0] 0 none).readUint64
      = .ok (⟨23, 1, true⟩, ⟨[0x17, 0, 0, 0, 1, 0, 0, 0], 8, none⟩)
    ∧ (ByteBuffer.mk [3, 0, 0, 0, 12, 0, 0, 0] 0 none).readUint64
      = .ok (⟨3, 12, true⟩, ⟨[3, 0, 0, 0, 12, 0, 0, 0], 8, none⟩)
    ∧ (⟨23, 1, true⟩ : Long).key = "123"
    ∧ (⟨3, 12, true⟩ : Long).key = "123"
    ∧ (⟨23, 1, true⟩ : Long) ≠ ⟨3, 12, true⟩
    ∧ ¬ (∀ a b : Long, a.key = b.key → a = b)
    ∧ (appC_processIncoming AppClient.init snapshotPair).st.connectedDeviceList.map
        (·.extAddress) = [⟨3, 12, true⟩, ⟨0x55667788, 0x11223344, true⟩]
    ∧ findDeviceIndexFromAddr (appC_processIncoming AppClient.init snapshotPair).st
        (.str (⟨23, 1, true⟩ : Long).key) = some 0 := by
  refine ⟨fun a b h => h ▸ rfl, rfl, rfl, by decide, by decide, by decide, ?_, by decide,
    by decide⟩
  intro h
  exact absurd (h ⟨23, 1, true⟩ ⟨3, 12, true⟩ (by decide)) (by decide)

/-! ## Bytes the handlers never read -/

theorem ResSim.bind {α β : Type} {k : Nat} {r1 r2 : Except JsError (α × ByteBuffer)}
    {f1 f2 : α × ByteBuffer → Except JsError (β × ByteBuffer)} (h : ResSim k r1 r2)
    (hf : ∀ v a b, BufSim k a b → ResSim k (f1 (v, a)) (f2 (v, b))) :
    ResSim k (r1 >>= f1) (r2 >>= f2) := by
  rcases r1 with e1 | ⟨v, a⟩ <;> rcases r2 with e2 | ⟨w, b⟩
  · exact h
  · exact h.elim
  · exact h.elim
  · obtain ⟨hv, hs⟩ := h
    subst hv
    exact hf v a b hs

theorem ResSim.bind_eq {α β : Type} {k : Nat} {r1 r2 : Except JsError (α × ByteBuffer)}
    {f1 f2 : α × ByteBuffer → Except JsError β} (h : ResSim k r1 r2)
    (hf : ∀ v a b, BufSim k a b → f1 (v, a) = f2 (v, b)) :
    (r1 >>= f1) = (r2 >>= f2) := by
  rcases r1 with e1 | ⟨v, a⟩ <;> rcases r2 with e2 | ⟨w, b⟩
  · exact congrArg Except.error h
  · exact h.elim
  · exact h.elim
  · obtain ⟨hv, hs⟩ := h
    subst hv
    exact hf v a b hs

theorem ResSim.pure {α : Type} {k : Nat} (v : α) {a b : ByteBuffer} (h : BufSim k a b) :
    ResSim k (Pure.pure (v, a) : Except JsError (α × ByteBuffer)) (Pure.pure (v, b)) :=
  ⟨rfl, h⟩

theorem readUint8_sim {k : Nat} {a b : ByteBuffer} (h : BufSim k a b) :
    ResSim k a.readUint8 b.readUint8 := by
  obtain ⟨fa, o, m⟩ := a
  obtain ⟨fb, o', m'⟩ := b
  obtain ⟨ho, hm, ⟨hl, hb⟩, hk⟩ := h
  simp only at ho hm hl hb hk
  subst ho hm
  simp only [ByteBuffer.readUint8, ByteBuffer.readUint8At, ByteBuffer.byteAt, ← hl]
  by_cases c : o + 1 > fa.length
  · simp only [c, if_true, ResSim]
  · simp only [c, if_false, ResSim]
    exact ⟨by rw [hb o (by omega)], rfl, rfl, ⟨hl, hb⟩, by simp only; omega⟩

theorem readInt8_sim {k : Nat} {a b : ByteBuffer} (h : BufSim k a b) :
    ResSim k a.readInt8 b.readInt8 := by
  obtain ⟨fa, o, m⟩ := a
  obtain ⟨fb, o', m'⟩ := b
  obtain ⟨ho, hm, ⟨hl, hb⟩, hk⟩ := h
  simp only at ho hm hl hb hk
  subst ho hm
  simp only [ByteBuffer.readInt8, ByteBuffer.readUint8At, ByteBuffer.byteAt, ← hl]
  by_cases c : o + 1 > fa.length
  · simp only [c, if_true, ResSim]
  · simp only [c, if_false, ResSim]
    exact ⟨by rw [hb o (by omega)], rfl, rfl, ⟨hl, hb⟩, by simp only; omega⟩

theorem readUint16_sim {k : Nat} {a b : ByteBuffer} (h : BufSim k a b) :
    ResSim k a.readUint16 b.readUint16 := by
  obtain ⟨fa, o, m⟩ := a
  obtain ⟨fb, o', m'⟩ := b
  obtain ⟨ho, hm, ⟨hl, hb⟩, hk⟩ := h
  simp only at ho hm hl hb hk
  subst ho hm
  simp only [ByteBuffer.readUint16, ByteBuffer.readUint16At, ByteBuffer.byteAt, ← hl]
  by_cases c : o + 2 > fa.length
  · simp only [c, if_true, ResSim]
  · simp only [c, if_false, ResSim]
    exact ⟨by rw [hb o (by omega), hb (o + 1) (by omega)], rfl, rfl, ⟨hl, hb⟩,
      by simp only; omega⟩

theorem readUint32_sim {k : Nat} {a b : ByteBuffer} (h : BufSim k a b) :
    ResSim k a.readUint32 b.readUint32 := by
  obtain ⟨fa, o, m⟩ := a
  obtain ⟨fb, o', m'⟩ := b
  obtain ⟨ho, hm, ⟨hl, hb⟩, hk⟩ := h
  simp only at ho hm hl hb hk
  subst ho hm
  simp only [ByteBuffer.readUint32, ByteBuffer.readUint32At, ByteBuffer.byteAt, ← hl]
  by_cases c : o + 4 > fa.length
  · simp only [c, if_true, ResSim]
  · simp only [c, if_false, ResSim]
    exact ⟨by rw [hb o (by omega), hb (o + 1) (by omega), hb (o + 2) (by omega),
      hb (o + 3) (by omega)], rfl, rfl, ⟨hl, hb⟩, by simp only; omega⟩

theorem readFloat_sim {k : Nat} {a b : ByteBuffer} (h : BufSim k a b) :
    ResSim k a.readFloat b.readFloat := by
  obtain ⟨fa, o, m⟩ := a
  obtain ⟨fb, o', m'⟩ := b
  obtain ⟨ho, hm, ⟨hl, hb⟩, hk⟩ := h
  simp only at ho hm hl hb hk
  subst ho hm
  simp only [ByteBuffer.readFloat, ByteBuffer.readUint32At, ByteBuffer.byteAt, ← hl]
  by_cases c : o + 4 > fa.length
  · simp only [c, if_true, ResSim]
  · simp only [c, if_false, ResSim]
    exact ⟨by rw [hb o (by omega), hb (o + 1) (by omega), hb (o + 2) (by omega),
      hb (o + 3) (by omega)], rfl, rfl, ⟨hl, hb⟩, by simp only; omega⟩

theorem readUint64_sim {k : Nat} {a b : ByteBuffer} (h : BufSim k a b) :
    ResSim k a.readUint64 b.readUint64 := by
  obtain ⟨fa, o, m⟩ := a
  obtain ⟨fb, o', m'⟩ := b
  obtain ⟨ho, hm, ⟨hl, hb⟩, hk⟩ := h
  simp only at ho hm hl hb hk
  subst ho hm
  simp only [ByteBuffer.readUint64, ByteBuffer.byteAt, ← hl]
  by_cases c : o + 8 > fa.length
  · simp only [c, if_true, ResSim]
  · simp only [c, if_false, ResSim]
    exact ⟨by rw [hb o (by omega), hb (o + 1) (by omega), hb (o + 2) (by omega),
      hb (o + 3) (by omega), hb (o + 4) (by omega), hb (o + 5) (by omega),
      hb (o + 6) (by omega), hb (o + 7) (by omega)], rfl, rfl, ⟨hl, hb⟩, by simp only; omega⟩

theorem readCapInfo_sim {k : Nat} {a b : ByteBuffer} (h : BufSim k a b) :
    ResSim k (readCapInfo a) (readCapInfo b) := by
  unfold readCapInfo
  refine ResSim.bind (readUint8_sim h) (fun v1 a b h => ?_)
  refine ResSim.bind (readUint8_sim h) (fun v2 a b h => ?_)
  refine ResSim.bind (readUint8_sim h) (fun v3 a b h => ?_)
  refine ResSim.bind (readUint8_sim h) (fun v4 a b h => ?_)
  refine ResSim.bind (readUint8_sim h) (fun v5 a b h => ?_)
  refine ResSim.bind (readUint8_sim h) (fun v6 a b h => ?_)
  exact ResSim.pure _ h

theorem ResSim.cases {α : Type} {k : Nat} {r1 r2 : Except JsError (α × ByteBuffer)}
    (h : ResSim k r1 r2) :
    (∃ e, r1 = .error e ∧ r2 = .error e)
    ∨ ∃ v a b, r1 = .ok (v, a) ∧ r2 = .ok (v, b) ∧ BufSim k a b := by
  rcases r1 with e1 | ⟨v, a⟩ <;> rcases r2 with e2 | ⟨w, b⟩
  · exact Or.inl ⟨e1, rfl, by rw [show e1 = e2 from h]⟩
  · exact h.elim
  · exact h.elim
  · obtain ⟨hv, hs⟩ := h
    subst hv
    exact Or.inr ⟨v, a, b, rfl, rfl, hs⟩

/-- The header is skipped alike in two frames that are identical except at
an offset `k` inside the header. -/
theorem skipHeader_sim {k : Nat} {f g : List Byte} (h : SameExceptAt k f g) (hk : k < 4) :
    (skipHeader ⟨f, 0, none⟩ = .error .RangeError ∧ skipHeader ⟨g, 0, none⟩ = .error .RangeError)
    ∨ (skipHeader ⟨f, 0, none⟩ = .ok ⟨f, 4, none⟩ ∧ skipHeader ⟨g, 0, none⟩ = .ok ⟨g, 4, none⟩
        ∧ BufSim k ⟨f, 4, none⟩ ⟨g, 4, none⟩) := by
  by_cases c : 4 ≤ f.length
  · exact Or.inr ⟨skipHeader_ok f c, skipHeader_ok g (h.1 ▸ c), rfl, rfl, h, hk⟩
  · left
    have c' : 4 > f.length := by omega
    have c'' : 4 > g.length := h.1 ▸ c'
    constructor
    · simp only [skipHeader, ByteBuffer.mark, PKT_HEADER_SIZE, c', if_true, bind, Except.bind]
    · simp only [skipHeader, ByteBuffer.mark, PKT_HEADER_SIZE, c'', if_true, bind, Except.bind]

theorem skipHeader_bind_eq {β : Type} {k : Nat} {f g : List Byte} (h : SameExceptAt k f g)
    (hk : k < 4) {f1 f2 : ByteBuffer → Except JsError β}
    (hf : ∀ a b, BufSim k a b → f1 a = f2 b) :
    (skipHeader ⟨f, 0, none⟩ >>= f1) = (skipHeader ⟨g, 0, none⟩ >>= f2) := by
  rcases skipHeader_sim h hk with ⟨e1, e2⟩ | ⟨e1, e2, hs⟩
  · rw [e1, e2]; rfl
  · rw [e1, e2]; exact hf _ _ hs

theorem readGetNwkInfoCnf_sim {k : Nat} {f g : List Byte} (h : SameExceptAt k f g) (hk : k < 4) :
    readGetNwkInfoCnf ⟨f, 0, none⟩ = readGetNwkInfoCnf ⟨g, 0, none⟩ := by
  unfold readGetNwkInfoCnf
  refine skipHeader_bind_eq h hk (fun a b h => ?_)
  refine ResSim.bind_eq (readUint8_sim h) (fun v1 a b h => ?_)
  refine ResSim.bind_eq (readUint16_sim h) (fun v2 a b h => ?_)
  refine ResSim.bind_eq (readUint16_sim h) (fun v3 a b h => ?_)
  refine ResSim.bind_eq (readUint64_sim h) (fun v4 a b h => ?_)
  refine ResSim.bind_eq (readUint8_sim h) (fun v5 a b h => ?_)
  refine ResSim.bind_eq (readUint8_sim h) (fun v6 a b h => ?_)
  refine ResSim.bind_eq (readUint8_sim h) (fun v7 a b h => ?_)
  refine ResSim.bind_eq (readUint8_sim h) (fun v8 a b h => ?_)
  refine ResSim.bind_eq (readUint8_sim h) (fun v9 a b h => ?_)
  rfl

theorem readNetworkUpdateInd_sim {k : Nat} {f g : List Byte} (h : SameExceptAt k f g)
    (hk : k < 4) :
    readNetworkUpdateInd ⟨f, 0, none⟩ = readNetworkUpdateInd ⟨g, 0, none⟩ := by
  unfold readNetworkUpdateInd
  refine skipHeader_bind_eq h hk (fun a b h => ?_)
  refine ResSim.bind_eq (readUint16_sim h) (fun v2 a b h => ?_)
  refine ResSim.bind_eq (readUint16_sim h) (fun v3 a b h => ?_)
  refine ResSim.bind_eq (readUint64_sim h) (fun v4 a b h => ?_)
  refine ResSim.bind_eq (readUint8_sim h) (fun v5 a b h => ?_)
  refine ResSim.bind_eq (readUint8_sim h) (fun v6 a b h => ?_)
  refine ResSim.bind_eq (readUint8_sim h) (fun v7 a b h => ?_)
  refine ResSim.bind_eq (readUint8_sim h) (fun v8 a b h => ?_)
  refine ResSim.bind_eq (readUint8_sim h) (fun v9 a b h => ?_)
  rfl

theorem readDeviceJoinedInd_sim {k : Nat} {f g : List Byte} (h : SameExceptAt k f g)
    (hk : k < 4) :
    readDeviceJoinedInd ⟨f, 0, none⟩ = readDeviceJoinedInd ⟨g, 0, none⟩ := by
  unfold readDeviceJoinedInd
  refine skipHeader_bind_eq h hk (fun a b h => ?_)
  refine ResSim.bind_eq (readUint16_sim h) (fun v2 a b h => ?_)
  refine ResSim.bind_eq (readUint16_sim h) (fun v3 a b h => ?_)
  refine ResSim.bind_eq (readUint64_sim h) (fun v4 a b h => ?_)
  refine ResSim.bind_eq (readCapInfo_sim h) (fun v5 a b h => ?_)
  rfl

theorem readDeviceNotActiveInd_sim {k : Nat} {f g : List Byte} (h : SameExceptAt k f g)
    (hk : k < 4) :
    readDeviceNotActiveInd ⟨f, 0, none⟩ = readDeviceNotActiveInd ⟨g, 0, none⟩ := by
  unfold readDeviceNotActiveInd
  refine skipHeader_bind_eq h hk (fun a b h => ?_)
  refine ResSim.bind_eq (readUint16_sim h) (fun v2 a b h => ?_)
  refine ResSim.bind_eq (readUint16_sim h) (fun v3 a b h => ?_)
  refine ResSim.bind_eq (readUint64_sim h) (fun v4 a b h => ?_)
  refine ResSim.bind_eq (readUint8_sim h) (fun v5 a b h => ?_)
  rfl

theorem readDevArrayEntry_sim {k : Nat} {a b : ByteBuffer} (h : BufSim k a b) :
    ResSim k (readDevArrayEntry a) (readDevArrayEntry b) := by
  unfold readDevArrayEntry
  refine ResSim.bind (readUint16_sim h) (fun v1 a b h => ?_)
  refine ResSim.bind (readUint16_sim h) (fun v2 a b h => ?_)
  refine ResSim.bind (readUint64_sim h) (fun v3 a b h => ?_)
  refine ResSim.bind (readCapInfo_sim h) (fun v4 a b h => ?_)
  exact ResSim.pure _ h

theorem devArrayLoop_sim {k : Nat} (n : Nat) : ∀ (a b : ByteBuffer) (self : AppClient),
    BufSim k a b → devArrayLoop n a self = devArrayLoop n b self := by
  induction n with
  | zero => intro a b self _; rfl
  | succ n ih =>
    intro a b self h
    rw [devArrayLoop, devArrayLoop]
    rcases (readDevArrayEntry_sim h).cases with ⟨e, e1, e2⟩ | ⟨v, a', b', e1, e2, hs⟩
    · rw [e1, e2]
    · rw [e1, e2]
      exact ih a' b' _ hs

theorem readUint16s_sim {k : Nat} (n : Nat) : ∀ (a b : ByteBuffer), BufSim k a b →
    ResSim k (readUint16s n a) (readUint16s n b) := by
  induction n with
  | zero => intro a b h; exact ResSim.pure _ h
  | succ n ih =>
    intro a b h
    unfold readUint16s
    refine ResSim.bind (readUint16_sim h) (fun v1 a b h => ?_)
    refine ResSim.bind (ih a b h) (fun v2 a b h => ?_)
    exact ResSim.pure _ h

theorem readTempSensor_sim {k : Nat} (fc : Nat) (dd : DeviceData) {a b : ByteBuffer}
    (h : BufSim k a b) : ResSim k (readTempSensor fc dd a) (readTempSensor fc dd b) := by
  unfold readTempSensor
  split
  · refine ResSim.bind (readUint16_sim h) (fun v1 a b h => ?_)
    refine ResSim.bind (readUint16_sim h) (fun v2 a b h => ?_)
    exact ResSim.pure _ h
  · exact ResSim.pure _ h

theorem readLightSensor_sim {k : Nat} (fc : Nat) (dd : DeviceData) {a b : ByteBuffer}
    (h : BufSim k a b) : ResSim k (readLightSensor fc dd a) (readLightSensor fc dd b) := by
  unfold readLightSensor
  split
  · refine ResSim.bind (readUint16_sim h) (fun v1 a b h => ?_)
    exact ResSim.pure _ h
  · exact ResSim.pure _ h

theorem readHumiditySensor_sim {k : Nat} (fc : Nat) (dd : DeviceData) {a b : ByteBuffer}
    (h : BufSim k a b) :
    ResSim k (readHumiditySensor fc dd a) (readHumiditySensor fc dd b) := by
  unfold readHumiditySensor
  split
  · refine ResSim.bind (readUint16_sim h) (fun v1 a b h => ?_)
    refine ResSim.bind (readUint16_sim h) (fun v2 a b h => ?_)
    exact ResSim.pure _ h
  · exact ResSim.pure _ h

theorem readHallEffectSensor_sim {k : Nat} (fc : Nat) (dd : DeviceData) {a b : ByteBuffer}
    (h : BufSim k a b) :
    ResSim k (readHallEffectSensor fc dd a) (readHallEffectSensor fc dd b) := by
  unfold readHallEffectSensor
  split
  · refine ResSim.bind (readFloat_sim h) (fun v1 a b h => ?_)
    exact ResSim.pure _ h
  · exact ResSim.pure _ h

theorem readMsgStats_sim {k : Nat} (fc : Nat) (dd : DeviceData) {a b : ByteBuffer}
    (h : BufSim k a b) : ResSim k (readMsgStats fc dd a) (readMsgStats fc dd b) := by
  unfold readMsgStats
  split
  · refine ResSim.bind (readUint16s_sim 20 _ _ h) (fun v1 a b h => ?_)
    exact ResSim.pure _ h
  · exact ResSim.pure _ h

theorem readConfigSettings_sim {k : Nat} (fc : Nat) (dd : DeviceData) {a b : ByteBuffer}
    (h : BufSim k a b) :
    ResSim k (readConfigSettings fc dd a) (readConfigSettings fc dd b) := by
  unfold readConfigSettings
  split
  · refine ResSim.bind (readUint32_sim h) (fun v1 a b h => ?_)
    refine ResSim.bind (readUint32_sim h) (fun v2 a b h => ?_)
    exact ResSim.pure _ h
  · exact ResSim.pure _ h

theorem readSensorData_sim {k : Nat} (dd : DeviceData) {a b : ByteBuffer} (h : BufSim k a b) :
    ResSim k (readSensorData a dd) (readSensorData b dd) := by
  unfold readSensorData
  refine ResSim.bind (readUint64_sim h) (fun v1 a b h => ?_)
  refine ResSim.bind (readUint16_sim h) (fun v2 a b h => ?_)
  refine ResSim.bind (readTempSensor_sim _ _ h) (fun v3 a b h => ?_)
  refine ResSim.bind (readLightSensor_sim _ _ h) (fun v4 a b h => ?_)
  refine ResSim.bind (readHumiditySensor_sim _ _ h) (fun v5 a b h => ?_)
  refine ResSim.bind (readHallEffectSensor_sim _ _ h) (fun v6 a b h => ?_)
  refine ResSim.bind (readMsgStats_sim _ _ h) (fun v7 a b h => ?_)
  exact readConfigSettings_sim _ _ h

theorem readConfigRsp_sim {k : Nat} (dd : DeviceData) {a b : ByteBuffer} (h : BufSim k a b) :
    ResSim k (readConfigRsp a dd) (readConfigRsp b dd) := by
  unfold readConfigRsp
  refine ResSim.bind (readUint16_sim h) (fun v1 a b h => ?_)
  refine ResSim.bind (readUint16_sim h) (fun v2 a b h => ?_)
  refine ResSim.bind (readUint32_sim h) (fun v3 a b h => ?_)
  refine ResSim.bind (readUint32_sim h) (fun v4 a b h => ?_)
  exact ResSim.pure _ h

theorem dataRxAfterAddr_sim {k : Nat} (self : AppClient) (addrMode : Nat) (shortAddr : Option Nat)
    (deviceIdx : Option Nat) {a b : ByteBuffer} (h : BufSim k a b) :
    dataRxAfterAddr self a addrMode shortAddr deviceIdx
      = dataRxAfterAddr self b addrMode shortAddr deviceIdx := by
  unfold dataRxAfterAddr
  rcases (readInt8_sim h).cases with ⟨e, e1, e2⟩ | ⟨rssi, a1, b1, e1, e2, h1⟩
  · rw [e1, e2]
  · rw [e1, e2]
    simp only []
    rcases (readUint8_sim h1).cases with ⟨e, e3, e4⟩ | ⟨cmdId, a2, b2, e3, e4, h2⟩
    · rw [e3, e4]
    · rw [e3, e4]
      simp only []
      split
      · rcases (readSensorData_sim (DeviceData.start addrMode shortAddr rssi cmdId) h2).cases
          with ⟨e, e5, e6⟩ | ⟨dd, a3, b3, e5, e6, _⟩
        · rw [e5, e6]
        · rw [e5, e6]
      · split
        · rcases (readConfigRsp_sim (DeviceData.start addrMode shortAddr rssi cmdId) h2).cases
            with ⟨e, e5, e6⟩ | ⟨dd, a3, b3, e5, e6, _⟩
          · rw [e5, e6]
          · rw [e5, e6]
        · rfl

theorem dataRx_sim {k : Nat} (self : AppClient) {f g : List Byte} (h : SameExceptAt k f g)
    (hk : k < 4) :
    appC_processDeviceDataRxIndMsg self ⟨f, 0, none⟩
      = appC_processDeviceDataRxIndMsg self ⟨g, 0, none⟩ := by
  unfold appC_processDeviceDataRxIndMsg
  rcases skipHeader_sim h hk with ⟨e1, e2⟩ | ⟨e1, e2, hs⟩
  · rw [e1, e2]
  · rw [e1, e2]
    simp only []
    rcases (readUint8_sim hs).cases with ⟨e, e3, e4⟩ | ⟨addrMode, a2, b2, e3, e4, h2⟩
    · rw [e3, e4]
    · rw [e3, e4]
      simp only []
      split
      · rcases (readUint64_sim h2).cases with ⟨e, e5, e6⟩ | ⟨x, a3, b3, e5, e6, _⟩
        · rw [e5, e6]
        · rw [e5, e6]
      · split
        · rcases (readUint16_sim h2).cases with ⟨e, e5, e6⟩ | ⟨x, a3, b3, e5, e6, h3⟩
          · rw [e5, e6]
          · rw [e5, e6]
            exact dataRxAfterAddr_sim self _ _ _ h3
        · rfl

theorem readDevArrayHead_sim {k : Nat} {f g : List Byte} (h : SameExceptAt k f g) (hk : k < 5) :
    (∃ e, readDevArrayHead ⟨f, 0, none⟩ = .error e ∧ readDevArrayHead ⟨g, 0, none⟩ = .error e)
    ∨ ∃ s1 s2 n a b, readDevArrayHead ⟨f, 0, none⟩ = .ok (s1, n, a)
        ∧ readDevArrayHead ⟨g, 0, none⟩ = .ok (s2, n, b) ∧ BufSim k a b := by
  unfold readDevArrayHead
  by_cases c : 5 ≤ f.length
  · have c' : 5 ≤ g.length := h.1 ▸ c
    have hs : BufSim k ⟨f, 4 + 1, none⟩ ⟨g, 4 + 1, none⟩ := ⟨rfl, rfl, h, by simp only; omega⟩
    simp only [bind, Except.bind, skipHeader_ok f (by omega), skipHeader_ok g (by omega),
      readUint8_ok f 4 none (by omega), readUint8_ok g 4 none (by omega)]
    rcases (readUint16_sim hs).cases with ⟨e, e1, e2⟩ | ⟨n, a, b, e1, e2, h2⟩
    · rw [e1, e2]
      exact Or.inl ⟨e, rfl, rfl⟩
    · rw [e1, e2]
      exact Or.inr ⟨_, _, n, a, b, rfl, rfl, h2⟩
  · left
    refine ⟨.RangeError, ?_, ?_⟩
    · by_cases c4 : 4 ≤ f.length
      · have : 4 + 1 > f.length := by omega
        simp only [bind, Except.bind, skipHeader_ok f c4, ByteBuffer.readUint8,
          ByteBuffer.readUint8At, this, if_true]
      · have : 4 > f.length := by omega
        simp only [skipHeader, ByteBuffer.mark, PKT_HEADER_SIZE, this, if_true, bind,
          Except.bind]
    · have hl := h.1
      by_cases c4 : 4 ≤ g.length
      · have : 4 + 1 > g.length := by omega
        simp only [bind, Except.bind, skipHeader_ok g c4, ByteBuffer.readUint8,
          ByteBuffer.readUint8At, this, if_true]
      · have : 4 > g.length := by omega
        simp only [skipHeader, ByteBuffer.mark, PKT_HEADER_SIZE, this, if_true, bind,
          Except.bind]

/-- The roster handler looks neither at the header bytes nor at the status
byte: two frames that are identical except at one offset below 5 give the
same outcome. -/
theorem snapshot_sim {k : Nat} (self : AppClient) {f g : List Byte} (h : SameExceptAt k f g)
    (hk : k < 5) :
    appC_processGetDevArrayCnf self ⟨f, 0, none⟩ = appC_processGetDevArrayCnf self ⟨g, 0, none⟩ := by
  unfold appC_processGetDevArrayCnf
  rcases readDevArrayHead_sim h hk with ⟨e, e1, e2⟩ | ⟨s1, s2, n, a, b, e1, e2, hs⟩
  · rw [e1, e2]
  · rw [e1, e2]
    simp only []
    rw [devArrayLoop_sim n a b _ hs]

theorem readUint8At_sim {k : Nat} {f g : List Byte} (h : SameExceptAt k f g) (o : Nat)
    (hk : k ≠ o) :
    (ByteBuffer.mk f 0 none).readUint8At o = (ByteBuffer.mk g 0 none).readUint8At o := by
  simp only [ByteBuffer.readUint8At, ByteBuffer.byteAt, h.1, h.2 o (Ne.symm hk)]

theorem readUint32At_sim {k : Nat} {f g : List Byte} (h : SameExceptAt k f g) (o : Nat)
    (hk : k < o) :
    (ByteBuffer.mk f 0 none).readUint32At o = (ByteBuffer.mk g 0 none).readUint32At o := by
  simp only [ByteBuffer.readUint32At, ByteBuffer.byteAt, h.1, h.2 o (by omega),
    h.2 (o + 1) (by omega), h.2 (o + 2) (by omega), h.2 (o + 3) (by omega)]

/-- No handler looks at the first three bytes of its frame: the `switch`
gives the same outcome for two frames that are identical except at one
offset below 3. -/
theorem dispatch_sim {k : Nat} (self : AppClient) (c : Nat) {f g : List Byte}
    (h : SameExceptAt k f g) (hk : k < 3) :
    dispatch self c ⟨f, 0, none⟩ = dispatch self c ⟨g, 0, none⟩ := by
  unfold dispatch
  repeat' split
  · simp only [appC_processDeviceJoinedIndMsg, readDeviceJoinedInd_sim h (by omega)]
  · simp only [appC_processNetworkUpdateIndMsg, readNetworkUpdateInd_sim h (by omega)]
  · simp only [appC_processGetNwkInfoCnf, readGetNwkInfoCnf_sim h (by omega)]
  · exact snapshot_sim self h (by omega)
  · simp only [appC_processDeviceNotActiveIndMsg, readDeviceNotActiveInd_sim h (by omega)]
  · exact dataRx_sim self h (by omega)
  · simp only [appC_processStateChangeUpdate, readUint8At_sim h 4 (by omega)]
  · simp only [appC_processSetJoinPermitCnf, PKT_HEADER_SIZE, readUint32At_sim h 4 (by omega)]
  · rfl
  · rfl

theorem getD_take (l : List Byte) (n i : Nat) (h : i < n) :
    (l.take n).getD i 0 = l.getD i 0 := by
  simp [List.getD_eq_getElem?_getD, List.getElem?_take, h]

theorem rxPktLen_of_head {d1 d2 : List Byte}
    (h : SameExceptAt PKT_HEADER_SUBSYS_FIELD (d1.take (rxPktLen d1 0))
      (d2.take (rxPktLen d1 0))) : rxPktLen d2 0 = rxPktLen d1 0 := by
  have h4 := rxPktLen_pos d1 0
  have e0 := h.2 0 (by decide)
  have e1 := h.2 1 (by decide)
  rw [getD_take _ _ _ (by omega), getD_take _ _ _ (by omega)] at e0 e1
  simp only [rxPktLen, PKT_HEADER_LEN_FIELD, Nat.add_zero, Nat.zero_add, e0, e1]

theorem rxPktBuf_eq (d : List Byte) (hne : d ≠ []) :
    rxPktBuf d 0
      = .ok ⟨d.take (rxPktLen d 0)
          ++ List.replicate (rxPktLen d 0 - (d.take (rxPktLen d 0)).length) 0, 0, none⟩ := by
  have h4 := rxPktLen_pos d 0
  have hl : 0 < d.length := List.length_pos.mpr hne
  have hs : ¬ ((d.take (rxPktLen d 0)).length = 0) := by
    simp only [List.length_take]
    omega
  have hle : (d.take (rxPktLen d 0)).length ≤ rxPktLen d 0 := by
    simp only [List.length_take]
    omega
  have hg : ¬ (rxPktLen d 0 < (d.take (rxPktLen d 0)).length) := by omega
  simp only [rxPktBuf, ByteBuffer.alloc, ByteBuffer.append, List.drop_zero, List.length_replicate,
    Nat.not_lt_zero, gt_iff_lt, if_false, hs, ByteBuffer.setBytes, ByteBuffer.ensure, hg,
    List.take_zero, List.nil_append, Nat.zero_add, List.drop_replicate]

theorem sameExceptAt_pad {k : Nat} {u v : List Byte} (h : SameExceptAt k u v) (n : Nat) :
    SameExceptAt k (u ++ List.replicate (n - u.length) 0) (v ++ List.replicate (n - v.length) 0) := by
  obtain ⟨hl, hb⟩ := h
  refine ⟨by simp [hl], fun i hi => ?_⟩
  by_cases c : i < u.length
  · have c' : i < v.length := hl ▸ c
    have := hb i hi
    simp only [List.getD_eq_getElem?_getD] at this ⊢
    rw [List.getElem?_append_left c, List.getElem?_append_left c']
    exact this
  · have c' : ¬ i < v.length := hl ▸ c
    simp only [List.getD_eq_getElem?_getD]
    rw [List.getElem?_append_right (by omega), List.getElem?_append_right (by omega), hl]

theorem sameExceptSubsys_length {d1 d2 : List Byte} (h : SameExceptSubsys d1 d2) :
    d1.length = d2.length := by
  induction h with
  | nil => rfl
  | frame d1 d2 hne hhead hrest ih =>
    have h1 := hhead.1
    simp only [List.length_take, List.length_drop] at h1 ih
    omega

/-- The frame loop gives the same state, the same exception and the same
command ids for two buffers that are identical except for the subsystem-id
bytes of their frames. -/
theorem loop_sim {d1 d2 : List Byte} (h : SameExceptSubsys d1 d2) :
    ∀ (fuel : Nat) (self : AppClient), d1.length ≤ fuel →
      (processIncomingLoop fuel d1 0 self []).st = (processIncomingLoop fuel d2 0 self []).st
      ∧ (processIncomingLoop fuel d1 0 self []).thrown
        = (processIncomingLoop fuel d2 0 self []).thrown
      ∧ (processIncomingLoop fuel d1 0 self []).finished
        = (processIncomingLoop fuel d2 0 self []).finished
      ∧ (processIncomingLoop fuel d1 0 self []).dispatched.map (·.1)
        = (processIncomingLoop fuel d2 0 self []).dispatched.map (·.1) := by
  induction h with
  | nil => intro fuel self _; exact ⟨rfl, rfl, rfl, rfl⟩
  | frame d1 d2 hne hhead hrest ih =>
    intro fuel self hf
    have hlen := sameExceptSubsys_length (SameExceptSubsys.frame d1 d2 hne hhead hrest)
    have hl1 : 0 < d1.length := List.length_pos.mpr hne
    have hl2 : 0 < d2.length := hlen ▸ hl1
    have hne2 : d2 ≠ [] := List.length_pos.mp hl2
    have h4 := rxPktLen_pos d1 0
    obtain ⟨n, rfl⟩ : ∃ n, fuel = n + 1 := ⟨fuel - 1, by omega⟩
    have hlen2 := rxPktLen_of_head hhead
    have hB := sameExceptAt_pad hhead (rxPktLen d1 0)
    rw [processIncomingLoop, processIncomingLoop.eq_def (n + 1) d2]
    simp only [hl1, hl2, if_true, rxPktBuf_eq d1 hne, rxPktBuf_eq d2 hne2, hlen2, Nat.zero_add,
      List.nil_append]
    rw [← readUint8At_sim hB PKT_HEADER_CMDID_FIELD (by decide)]
    rcases (ByteBuffer.mk (d1.take (rxPktLen d1 0)
        ++ List.replicate (rxPktLen d1 0 - (d1.take (rxPktLen d1 0)).length) 0) 0
        none).readUint8At PKT_HEADER_CMDID_FIELD with e | c
    · exact ⟨rfl, rfl, rfl, rfl⟩
    · simp only []
      rw [← dispatch_sim self c hB (by decide)]
      rcases dispatch self c ⟨d1.take (rxPktLen d1 0)
        ++ List.replicate (rxPktLen d1 0 - (d1.take (rxPktLen d1 0)).length) 0, 0, none⟩
        with ⟨s, _ | e⟩
      · simp only []
        rw [loop_drop n d1, loop_drop n d2, loop_trace n (d1.drop _), loop_trace n (d2.drop _)]
        obtain ⟨i1, i2, i3, i4⟩ := ih n s (by simp only [List.length_drop]; omega)
        simp only [List.map_append, List.map_cons, List.map_nil]
        exact ⟨i1, i2, i3, by rw [i4]⟩
      · exact ⟨rfl, rfl, rfl, rfl⟩

theorem sameExceptAt_set (k : Nat) (f : List Byte) (x : Byte) : SameExceptAt k f (f.set k x) := by
  refine ⟨by simp, fun i hi => ?_⟩
  simp [List.getD_eq_getElem?_getD, List.getElem?_set, Ne.symm hi]

theorem sameExceptSubsys_cons_frame {f g r1 r2 : List Byte} (hw : WellFormedFrame f)
    (hfg : SameExceptAt PKT_HEADER_SUBSYS_FIELD f g) (hr : SameExceptSubsys r1 r2) :
    SameExceptSubsys (f ++ r1) (g ++ r2) := by
  have h4 := wf_length hw
  have hl := rxPktLen_frame hw r1
  have hne : f ++ r1 ≠ [] := by
    intro h
    have := congrArg List.length h
    rw [List.length_append, List.length_nil] at this
    omega
  refine SameExceptSubsys.frame _ _ hne ?_ ?_
  · rw [hl, List.take_left', List.take_left' hfg.1.symm]
    · exact hfg
    · rfl
  · rw [hl, List.drop_left', List.drop_left' hfg.1.symm]
    · exact hr
    · rfl

/-- C35: for every starting state and every two buffers that are identical
except for the subsystem-id byte (offset 2) of their frames, the frames being
the pieces the frame loop cuts, `appC_processIncoming` leaves the same client
state (registry, network information, emitted events, written buffers),
raises the same exception if any, and hands the same command ids to the
`switch` in the same order; frame by frame, the `switch` gives the same
outcome for two frames that differ only in the subsystem id, so a frame whose
subsystem id is not 10 is handled like one whose subsystem id is 10. -/
theorem dispatch_ignores_subsystem_id (d1 d2 : List Byte) (self : AppClient)
    (h : SameExceptSubsys d1 d2) :
    (appC_processIncoming self d1).st = (appC_processIncoming self d2).st
    ∧ (appC_processIncoming self d1).thrown = (appC_processIncoming self d2).thrown
    ∧ (appC_processIncoming self d1).finished = (appC_processIncoming self d2).finished
    ∧ (appC_processIncoming self d1).dispatched.map (·.1)
      = (appC_processIncoming self d2).dispatched.map (·.1)
    ∧ (∀ (s : AppClient) (c : Nat) (f g : List Byte),
        SameExceptAt PKT_HEADER_SUBSYS_FIELD f g →
        dispatch s c ⟨f, 0, none⟩ = dispatch s c ⟨g, 0, none⟩)
    ∧ (∀ (s : AppClient) (c : Nat) (f : List Byte) (subsys : Byte),
        dispatch s c ⟨f.set PKT_HEADER_SUBSYS_FIELD subsys, 0, none⟩
          = dispatch s c ⟨f.set PKT_HEADER_SUBSYS_FIELD (ByteBuffer.toByte APPSRV_SYS_ID_RPC), 0,
              none⟩) := by
  have hl := sameExceptSubsys_length h
  have := loop_sim h d1.length self (Nat.le_refl _)
  simp only [appC_processIncoming, ← hl]
  refine ⟨this.1, this.2.1, this.2.2.1, this.2.2.2, ?_, ?_⟩
  · intro s c f g hfg
    exact dispatch_sim s c hfg (by decide)
  · intro s c f subsys
    have h1 := dispatch_sim s c (sameExceptAt_set PKT_HEADER_SUBSYS_FIELD f subsys) (by decide)
    have h2 := dispatch_sim s c
      (sameExceptAt_set PKT_HEADER_SUBSYS_FIELD f (ByteBuffer.toByte APPSRV_SYS_ID_RPC))
      (by decide)
    rw [← h1, ← h2]

theorem dispatch_ignores_subsystem_id_witness :
    SameExceptSubsys (snapshotPair ++ (humidityFrame ++ []))
      (snapshotPair.set 2 0 ++ (humidityFrame.set 2 99 ++ []))
    ∧ (snapshotPair.set 2 0).getD 2 0 = 0 ∧ (humidityFrame.set 2 99).getD 2 0 = 99
    ∧ (appC_processIncoming AppClient.init (snapshotPair ++ (humidityFrame ++ []))).st
      = (appC_processIncoming AppClient.init
          (snapshotPair.set 2 0 ++ (humidityFrame.set 2 99 ++ []))).st
    ∧ (appC_processIncoming AppClient.init
        (snapshotPair ++ (humidityFrame ++ []))).st.connectedDeviceList.map
        (fun d => (d.shortAddress, d.humiditysensor)) = [(5, none), (6, some ⟨16, 55⟩)] :=
  have hw1 : WellFormedFrame snapshotPair :=
    ⟨39, 0, 10, 7, [0, 2, 0,
      0xCD, 0xAB, 5, 0, 3, 0, 0, 0, 12, 0, 0, 0, 0, 0, 0, 0, 0, 0,
      0xCD, 0xAB, 6, 0, 0x88, 0x77, 0x66, 0x55, 0x44, 0x33, 0x22, 0x11, 1, 1, 1, 1, 1, 1],
      rfl, by decide⟩
  have hw2 : WellFormedFrame humidityFrame :=
    ⟨19, 0, 10, 9, [2, 6, 0, 0xF6, 5, 0x88, 0x77, 0x66, 0x55, 0x44, 0x33, 0x22, 0x11, 4, 0,
      0x10, 0x00, 0x37, 0x00], rfl, by decide⟩
  have hs : SameExceptSubsys (snapshotPair ++ (humidityFrame ++ []))
      (snapshotPair.set 2 0 ++ (humidityFrame.set 2 99 ++ [])) :=
    sameExceptSubsys_cons_frame hw1 (sameExceptAt_set _ _ _)
      (sameExceptSubsys_cons_frame hw2 (sameExceptAt_set _ _ _) SameExceptSubsys.nil)
  ⟨hs, by decide, by decide,
    (dispatch_ignores_subsystem_id _ _ AppClient.init hs).1, by decide⟩

/-- C36: for every prior registry and every two GET_DEVICE_ARRAY_CNF frames
that differ only in the status byte (frame offset 4), the handler, also
through the `switch`, gives the same outcome: the same registry, the same
device-array event, the same exception if the frames are too short. In
particular a frame with any status and count 0 empties the registry and
emits the empty list. -/
theorem snapshot_ignores_status (self : AppClient) (f g : List Byte)
    (h : SameExceptAt 4 f g) :
    appC_processGetDevArrayCnf self ⟨f, 0, none⟩ = appC_processGetDevArrayCnf self ⟨g, 0, none⟩
    ∧ dispatch self cmdIds.GET_DEVICE_ARRAY_CNF ⟨f, 0, none⟩
      = dispatch self cmdIds.GET_DEVICE_ARRAY_CNF ⟨g, 0, none⟩
    ∧ (∀ status : Byte, appC_processGetDevArrayCnf self ⟨f.set 4 status, 0, none⟩
        = appC_processGetDevArrayCnf self ⟨f, 0, none⟩)
    ∧ (∀ status : Byte, 7 ≤ f.length → u16At f 5 = 0 →
        appC_processGetDevArrayCnf self ⟨f.set 4 status, 0, none⟩
          = ⟨{ self with
                connectedDeviceList := []
                emitted := self.emitted ++ [.getdevArrayRsp []] }, none⟩) := by
  have hh := snapshot_sim self h (by decide)
  have hd : ∀ b, dispatch self cmdIds.GET_DEVICE_ARRAY_CNF b = appC_processGetDevArrayCnf self b := by
    intro b
    simp [dispatch, cmdIds.GET_DEVICE_ARRAY_CNF, cmdIds.DEVICE_JOINED_IND, cmdIds.NWK_INFO_IND,
      cmdIds.GET_NWK_INFO_CNF]
  refine ⟨hh, by rw [hd, hd, hh], ?_, ?_⟩
  · intro status
    exact (snapshot_sim self (sameExceptAt_set 4 f status) (by decide)).symm
  · intro status hl h0
    rw [← snapshot_sim self (sameExceptAt_set 4 f status) (by decide),
      snapshot_val self f (by rw [h0]; omega), h0]
    rfl

theorem snapshot_ignores_status_witness :
    SameExceptAt 4 snapshotPair (snapshotPair.set 4 7)
    ∧ (snapshotPair.set 4 7).getD 4 0 = 7 ∧ snapshotPair.getD 4 0 = 0
    ∧ appC_processGetDevArrayCnf (appC_processIncoming AppClient.init snapshotLowFive).st
        ⟨snapshotPair, 0, none⟩
      = appC_processGetDevArrayCnf (appC_processIncoming AppClient.init snapshotLowFive).st
        ⟨snapshotPair.set 4 7, 0, none⟩
    ∧ (appC_processGetDevArrayCnf (appC_processIncoming AppClient.init snapshotLowFive).st
        ⟨snapshotPair.set 4 7, 0, none⟩).st.connectedDeviceList.map (·.shortAddress) = [5, 6]
    ∧ (appC_processGetDevArrayCnf (appC_processIncoming AppClient.init snapshotLowFive).st
        ⟨snapshotEmpty.set 4 7, 0, none⟩).st.connectedDeviceList = [] :=
  ⟨sameExceptAt_set 4 snapshotPair 7, by decide, by decide,
    (snapshot_ignores_status (appC_processIncoming AppClient.init snapshotLowFive).st
      snapshotPair (snapshotPair.set 4 7) (sameExceptAt_set 4 snapshotPair 7)).1,
    by decide, by decide⟩

end Gateway
